import Mathlib

/-!
# Annotation resolution of the ingress controller

A shallow embedding of `internal/configs/annotations.go`: the key classification
tables, the role filters, the master-to-minion merge, the rate-limit sub-resolver
and `parseAnnotations`, and a model of the validators of `pkg/apis/dos/validation`,
followed by the properties proved about them.

Conventions of the embedding.

* A Go `map[string]string` is a list of `(key, value)` entries with distinct keys;
  the order of the list is the order in which a `range` loop visits the entries, so
  a statement proved for every list covers every iteration order.
* A Go `[]string` is a list; the nil slice and the empty slice are both `[]`.
* A Go function returning `(value, error)` returns a `Parsed` record: the value it
  hands back together with an optional error.
* Logging is explicit: the functions that log return the list of entries they emit,
  in order.
-/

namespace configs

/-! ## Annotation maps -/

/-- A Go `map[string]string`: entries in iteration order. -/
abbrev Annotations := List (String × String)

namespace Annotations

/-- The keys of the map, in iteration order. -/
def keys (m : Annotations) : List String := m.map Prod.fst

/-- Well-formed maps have distinct keys. -/
def WF (m : Annotations) : Prop := (keys m).Nodup

instance (m : Annotations) : Decidable (WF m) := by
  unfold WF; infer_instance

/-- The Go expression `v, exists := m[key]`: `some v` when the key exists. -/
def lookup (m : Annotations) (key : String) : Option String :=
  match m with
  | [] => none
  | (k, v) :: rest => if k = key then some v else lookup rest key

/-- The Go statement `delete(m, key)`. -/
def delete (m : Annotations) (key : String) : Annotations :=
  m.filter (fun e => decide (e.1 ≠ key))

/-- The Go statement `m[key] = val`: overwrite an existing entry, or add one. -/
def set (m : Annotations) (key val : String) : Annotations :=
  match lookup m key with
  | some _ => m.map (fun e => if e.1 = key then (key, val) else e)
  | none => m ++ [(key, val)]

end Annotations

/-! ## Key classification tables -/

/-- The annotation where the use-cluster-ip boolean is specified. -/
def UseClusterIPAnnotation : String := "nginx.org/use-cluster-ip"

/-- The annotation where the Secret with a JWK is specified. -/
def JWTKeyAnnotation : String := "nginx.com/jwt-key"

/-- The annotation where the Secret with the HTTP basic user list is specified. -/
def BasicAuthSecretAnnotation : String := "nginx.org/basic-auth-secret"

/-- The annotation where the regex location (path) modifier is specified. -/
def PathRegexAnnotation : String := "nginx.org/path-regex"

/-- The annotation that marks an ingress as an internal route. -/
def nginxMeshInternalRouteAnnotation : String := "nsm.nginx.com/internal-route"

/-- The keys of the Go map `masterDenylist` (every value of that map is `true`). -/
def masterDenylist : List String :=
  [ "nginx.org/rewrites",
    "nginx.org/ssl-services",
    "nginx.org/grpc-services",
    "nginx.org/websocket-services",
    "nginx.com/sticky-cookie-services",
    "nginx.com/health-checks",
    "nginx.com/health-checks-mandatory",
    "nginx.com/health-checks-mandatory-queue",
    UseClusterIPAnnotation ]

/-- The keys of the Go map `minionDenylist`. -/
def minionDenylist : List String :=
  [ "nginx.org/proxy-hide-headers",
    "nginx.org/proxy-pass-headers",
    "nginx.org/redirect-to-https",
    "ingress.kubernetes.io/ssl-redirect",
    "nginx.org/hsts",
    "nginx.org/hsts-max-age",
    "nginx.org/hsts-include-subdomains",
    "nginx.org/server-tokens",
    "nginx.org/listen-ports",
    "nginx.org/listen-ports-ssl",
    "nginx.org/server-snippets",
    "appprotect.f5.com/app_protect_enable",
    "appprotect.f5.com/app_protect_policy",
    "appprotect.f5.com/app_protect_security_log_enable",
    "appprotect.f5.com/app_protect_security_log",
    "appprotectdos.f5.com/app-protect-dos-resource" ]

/-- The keys of the Go map `minionInheritanceList`. -/
def minionInheritanceList : List String :=
  [ "nginx.org/proxy-connect-timeout",
    "nginx.org/proxy-read-timeout",
    "nginx.org/proxy-send-timeout",
    "nginx.org/client-max-body-size",
    "nginx.org/proxy-buffering",
    "nginx.org/proxy-buffers",
    "nginx.org/proxy-buffer-size",
    "nginx.org/proxy-max-temp-file-size",
    "nginx.org/upstream-zone-size",
    "nginx.org/location-snippets",
    "nginx.org/lb-method",
    "nginx.org/keepalive",
    "nginx.org/max-fails",
    "nginx.org/max-conns",
    "nginx.org/fail-timeout",
    "nginx.org/limit-req-rate",
    "nginx.org/limit-req-key",
    "nginx.org/limit-req-zone-size",
    "nginx.org/limit-req-delay",
    "nginx.org/limit-req-no-delay",
    "nginx.org/limit-req-burst",
    "nginx.org/limit-req-dry-run",
    "nginx.org/limit-req-log-level",
    "nginx.org/limit-req-reject-code",
    "nginx.org/limit-req-scale" ]

/-- The keys of the Go map `validPathRegex`. -/
def validPathRegex : List String :=
  [ "case_sensitive", "case_insensitive", "exact" ]

/-! ## Role filter and merge -/

/-- The loop shared by the two role filters: visit the keys in iteration order, and
for a key of the denylist append it to the removed keys and delete it from the map.
The state is the map and the removed keys so far. -/
def filterLoop (denylist : List String) (keys : List String)
    (st : Annotations × List String) : Annotations × List String :=
  keys.foldl
    (fun st key =>
      if key ∈ denylist then (Annotations.delete st.1 key, st.2 ++ [key]) else st)
    st

/-- The Go function `filterMasterAnnotations`: the map after the call, and the
returned list of removed keys. -/
def filterMasterAnnotations (annotations : Annotations) : Annotations × List String :=
  filterLoop masterDenylist (Annotations.keys annotations) (annotations, [])

/-- The Go function `filterMinionAnnotations`: the map after the call, and the
returned list of removed keys. -/
def filterMinionAnnotations (annotations : Annotations) : Annotations × List String :=
  filterLoop minionDenylist (Annotations.keys annotations) (annotations, [])

/-- The Go function `mergeMasterAnnotationsIntoMinion`: the minion map after the
call. The master map is visited in iteration order. -/
def mergeMasterAnnotationsIntoMinion (minionAnnotations masterAnnotations : Annotations) :
    Annotations :=
  masterAnnotations.foldl
    (fun minion e =>
      match Annotations.lookup minion e.1 with
      | some _ => minion
      | none =>
        if e.1 ∈ minionInheritanceList then Annotations.set minion e.1 e.2 else minion)
    minionAnnotations

/-! ## Data model of the resolver -/

/-- What a Go function with results `(value, error)` hands back: the value, and the
error when there is one (`err = none` is Go's `err == nil`). -/
structure Parsed (α : Type) where
  val : α
  err : Option String
deriving DecidableEq, Repr

/-- The Go type `version2.Header`. -/
structure Header where
  Name : String
  Value : String
deriving DecidableEq, Repr

/-- A Go `error` of the resolver, kept as the triple the messages are built from: the
annotation key the message text names, the offending raw value, and the cause. -/
structure ResolutionError where
  key : String
  raw : String
  cause : String
deriving DecidableEq, Repr

/-- One call of the logger. `error` is `nl.Error` or `nl.Errorf` with a message about
one annotation key, `groupError` is the `nl.Errorf` about a whole group of
annotations, and `warn` is `nl.Warn` with its literal text. -/
inductive LogEntry where
  | error (e : ResolutionError)
  | groupError (text : String)
  | warn (text : String)
deriving DecidableEq, Repr

/-- The fields of the Go struct `ConfigParams` that the annotations of an ingress can
set. -/
structure ConfigParams where
  LBMethod : String
  HealthCheckEnabled : Bool
  HealthCheckMandatory : Bool
  HealthCheckMandatoryQueue : Int
  SlowStart : String
  ServerTokens : String
  ServerSnippets : List String
  LocationSnippets : List String
  ProxyConnectTimeout : String
  ProxyReadTimeout : String
  ProxySendTimeout : String
  ProxyHideHeaders : List String
  ProxyPassHeaders : List String
  ProxySetHeaders : List Header
  ClientMaxBodySize : String
  RedirectToHTTPS : Bool
  SSLRedirect : Bool
  ProxyBuffering : Bool
  HSTS : Bool
  HSTSMaxAge : Int
  HSTSIncludeSubdomains : Bool
  HSTSBehindProxy : Bool
  ProxyBuffers : String
  ProxyBufferSize : String
  UpstreamZoneSize : String
  ProxyMaxTempFileSize : String
  JWTRealm : String
  JWTKey : String
  JWTToken : String
  JWTLoginURL : String
  BasicAuthSecret : String
  BasicAuthRealm : String
  Ports : List Int
  SSLPorts : List Int
  Keepalive : Int
  MaxFails : Int
  MaxConns : Int
  FailTimeout : String
  AppProtectEnable : String
  AppProtectLogEnable : String
  AppProtectDosResource : String
  SpiffeServerCerts : Bool
  UseClusterIP : Bool
  LimitReqRate : String
  LimitReqKey : String
  LimitReqZoneSize : String
  LimitReqDelay : Int
  LimitReqNoDelay : Bool
  LimitReqBurst : Int
  LimitReqDryRun : Bool
  LimitReqLogLevel : String
  LimitReqRejectCode : Int
  LimitReqScale : Bool
deriving DecidableEq, Repr

/-- The primitive parsers of `parsing_helpers.go`, which the resolver calls and whose
code is a collaborator of it: each is a pure function of the raw string. -/
structure Parsers where
  ParseBool : String → Parsed Bool
  ParseInt : String → Parsed Int
  ParseInt64 : String → Parsed Int
  ParseLBMethod : String → Parsed String
  ParseLBMethodForPlus : String → Parsed String
  ParseTime : String → Parsed String
  ParsePortList : String → Parsed (List Int)
  ParseRequestRate : String → Parsed String
  ParseSize : String → Parsed String
  Split : String → String → List String
  parseProxySetHeaders : List String → List Header

/-- The three results `(value, exists, err)` of the `GetMapKeyAs...` helpers. -/
structure KeyResult (α : Type) where
  val : α
  present : Bool
  err : Option ResolutionError

/-- Modelled from the spec: the helper `GetMapKeyAsBool` of `parsing_helpers.go`,
which `annotations.go` calls and does not define. A key is consulted only when
present; the raw value goes through the boolean primitive parser, whose outcome is
handed back with a failure (key, offending raw value, cause) when the parser reports
one. -/
def GetMapKeyAsBool (P : Parsers) (m : Annotations) (key : String) : KeyResult Bool :=
  match Annotations.lookup m key with
  | some str =>
    { val := (P.ParseBool str).val, present := true,
      err := (P.ParseBool str).err.map (fun cause => ⟨key, str, cause⟩) }
  | none => { val := false, present := false, err := none }

/-- Modelled from the spec: the helper `GetMapKeyAsInt` of `parsing_helpers.go`, as
`GetMapKeyAsBool` with the integer primitive parser. -/
def GetMapKeyAsInt (P : Parsers) (m : Annotations) (key : String) : KeyResult Int :=
  match Annotations.lookup m key with
  | some str =>
    { val := (P.ParseInt str).val, present := true,
      err := (P.ParseInt str).err.map (fun cause => ⟨key, str, cause⟩) }
  | none => { val := 0, present := false, err := none }

/-- Modelled from the spec: the helper `GetMapKeyAsInt64` of `parsing_helpers.go`, as
`GetMapKeyAsBool` with the 64-bit integer primitive parser. -/
def GetMapKeyAsInt64 (P : Parsers) (m : Annotations) (key : String) : KeyResult Int :=
  match Annotations.lookup m key with
  | some str =>
    { val := (P.ParseInt64 str).val, present := true,
      err := (P.ParseInt64 str).err.map (fun cause => ⟨key, str, cause⟩) }
  | none => { val := 0, present := false, err := none }

/-- Modelled from the spec: the helper `GetMapKeyAsStringSlice` of
`parsing_helpers.go`: the raw value of a present key split at the delimiter; the two
results are `some slice` when the key exists and `none` otherwise. -/
def GetMapKeyAsStringSlice (P : Parsers) (m : Annotations) (key delimiter : String) :
    Option (List String) :=
  (Annotations.lookup m key).map (fun str => P.Split str delimiter)

/-! ## The rate-limit sub-resolver -/

/-- The state of `parseRateLimitAnnotations`: the `ConfigParams` it writes to and the
slice `errors` it appends to. -/
abbrev RateLimitState := ConfigParams × List ResolutionError

/-- Lines 457-463: `nginx.org/limit-req-rate`. -/
def limitReqRate (P : Parsers) (annotations : Annotations) (st : RateLimitState) :
    RateLimitState :=
  match Annotations.lookup annotations "nginx.org/limit-req-rate" with
  | some requestRateLimit =>
    match (P.ParseRequestRate requestRateLimit).err with
    | some err => (st.1, st.2 ++ [⟨"nginx.org/limit-req-rate", requestRateLimit, err⟩])
    | none => ({ st.1 with LimitReqRate := (P.ParseRequestRate requestRateLimit).val }, st.2)
  | none => st

/-- Lines 464-466: `nginx.org/limit-req-key`. -/
def limitReqKey (annotations : Annotations) (st : RateLimitState) : RateLimitState :=
  match Annotations.lookup annotations "nginx.org/limit-req-key" with
  | some requestRateKey => ({ st.1 with LimitReqKey := requestRateKey }, st.2)
  | none => st

/-- Lines 467-473: `nginx.org/limit-req-zone-size`. -/
def limitReqZoneSize (P : Parsers) (annotations : Annotations) (st : RateLimitState) :
    RateLimitState :=
  match Annotations.lookup annotations "nginx.org/limit-req-zone-size" with
  | some requestRateZoneSize =>
    match (P.ParseSize requestRateZoneSize).err with
    | some err =>
      (st.1, st.2 ++ [⟨"nginx.org/limit-req-zone-size", requestRateZoneSize, err⟩])
    | none => ({ st.1 with LimitReqZoneSize := (P.ParseSize requestRateZoneSize).val }, st.2)
  | none => st

/-- Lines 474-480: `nginx.org/limit-req-delay`. -/
def limitReqDelay (P : Parsers) (annotations : Annotations) (st : RateLimitState) :
    RateLimitState :=
  if (GetMapKeyAsInt P annotations "nginx.org/limit-req-delay").present then
    match (GetMapKeyAsInt P annotations "nginx.org/limit-req-delay").err with
    | some err => (st.1, st.2 ++ [err])
    | none =>
      ({ st.1 with
          LimitReqDelay := (GetMapKeyAsInt P annotations "nginx.org/limit-req-delay").val },
        st.2)
  else st

/-- Lines 481-487: `nginx.org/limit-req-no-delay`. -/
def limitReqNoDelay (P : Parsers) (annotations : Annotations) (st : RateLimitState) :
    RateLimitState :=
  if (GetMapKeyAsBool P annotations "nginx.org/limit-req-no-delay").present then
    match (GetMapKeyAsBool P annotations "nginx.org/limit-req-no-delay").err with
    | some err => (st.1, st.2 ++ [err])
    | none =>
      ({ st.1 with
          LimitReqNoDelay :=
            (GetMapKeyAsBool P annotations "nginx.org/limit-req-no-delay").val },
        st.2)
  else st

/-- Lines 488-494: `nginx.org/limit-req-burst`. -/
def limitReqBurst (P : Parsers) (annotations : Annotations) (st : RateLimitState) :
    RateLimitState :=
  if (GetMapKeyAsInt P annotations "nginx.org/limit-req-burst").present then
    match (GetMapKeyAsInt P annotations "nginx.org/limit-req-burst").err with
    | some err => (st.1, st.2 ++ [err])
    | none =>
      ({ st.1 with
          LimitReqBurst := (GetMapKeyAsInt P annotations "nginx.org/limit-req-burst").val },
        st.2)
  else st

/-- Lines 495-501: `nginx.org/limit-req-dry-run`. -/
def limitReqDryRun (P : Parsers) (annotations : Annotations) (st : RateLimitState) :
    RateLimitState :=
  if (GetMapKeyAsBool P annotations "nginx.org/limit-req-dry-run").present then
    match (GetMapKeyAsBool P annotations "nginx.org/limit-req-dry-run").err with
    | some err => (st.1, st.2 ++ [err])
    | none =>
      ({ st.1 with
          LimitReqDryRun :=
            (GetMapKeyAsBool P annotations "nginx.org/limit-req-dry-run").val },
        st.2)
  else st

/-- Lines 502-508: `nginx.org/limit-req-log-level`, accepted when it is one of the
four listed levels. The message of the error has no cause. -/
def limitReqLogLevel (annotations : Annotations) (st : RateLimitState) : RateLimitState :=
  match Annotations.lookup annotations "nginx.org/limit-req-log-level" with
  | some requestRateLogLevel =>
    if requestRateLogLevel ∈ ["info", "notice", "warn", "error"] then
      ({ st.1 with LimitReqLogLevel := requestRateLogLevel }, st.2)
    else
      (st.1, st.2 ++ [⟨"nginx.org/limit-req-log-level", requestRateLogLevel, ""⟩])
  | none => st

/-- Lines 509-515: `nginx.org/limit-req-reject-code`. -/
def limitReqRejectCode (P : Parsers) (annotations : Annotations) (st : RateLimitState) :
    RateLimitState :=
  if (GetMapKeyAsInt P annotations "nginx.org/limit-req-reject-code").present then
    match (GetMapKeyAsInt P annotations "nginx.org/limit-req-reject-code").err with
    | some err => (st.1, st.2 ++ [err])
    | none =>
      ({ st.1 with
          LimitReqRejectCode :=
            (GetMapKeyAsInt P annotations "nginx.org/limit-req-reject-code").val },
        st.2)
  else st

/-- Lines 516-522: `nginx.org/limit-req-scale`. -/
def limitReqScale (P : Parsers) (annotations : Annotations) (st : RateLimitState) :
    RateLimitState :=
  if (GetMapKeyAsBool P annotations "nginx.org/limit-req-scale").present then
    match (GetMapKeyAsBool P annotations "nginx.org/limit-req-scale").err with
    | some err => (st.1, st.2 ++ [err])
    | none =>
      ({ st.1 with
          LimitReqScale := (GetMapKeyAsBool P annotations "nginx.org/limit-req-scale").val },
        st.2)
  else st

/-- The Go function `parseRateLimitAnnotations`: the `ConfigParams` after the call (the
function writes through its pointer argument) and the returned errors. -/
def parseRateLimitAnnotations (P : Parsers) (annotations : Annotations)
    (cfgParams : ConfigParams) : RateLimitState :=
  limitReqScale P annotations
    (limitReqRejectCode P annotations
      (limitReqLogLevel annotations
        (limitReqDryRun P annotations
          (limitReqBurst P annotations
            (limitReqNoDelay P annotations
              (limitReqDelay P annotations
                (limitReqZoneSize P annotations
                  (limitReqKey annotations
                    (limitReqRate P annotations (cfgParams, []))))))))))

/-! ## The annotation resolver -/

/-- The state of `parseAnnotations`: the working copy `cfgParams` and the entries
logged so far. -/
abbrev ParseState := ConfigParams × List LogEntry

/-- The calls `nl.Error(l, err)` and `nl.Errorf(l, ...)` about one annotation. -/
def logError (st : ParseState) (err : ResolutionError) : ParseState :=
  (st.1, st.2 ++ [LogEntry.error err])

/-- The call `nl.Warn(l, text)`. -/
def logWarn (st : ParseState) (text : String) : ParseState :=
  (st.1, st.2 ++ [LogEntry.warn text])

/-- The statement `if err != nil { nl.Error(l, err) }`. -/
def logIfError (st : ParseState) (err : Option ResolutionError) : ParseState :=
  match err with
  | some e => logError st e
  | none => st

/-- Lines 115-129: `nginx.org/lb-method`, parsed by `ParseLBMethodForPlus` or
`ParseLBMethod` according to `isPlus`. -/
def lbMethod (P : Parsers) (annotations : Annotations) (isPlus : Bool) (st : ParseState) :
    ParseState :=
  match Annotations.lookup annotations "nginx.org/lb-method" with
  | some lbMethod =>
    if isPlus then
      match (P.ParseLBMethodForPlus lbMethod).err with
      | some err => logError st ⟨"nginx.org/lb-method", lbMethod, err⟩
      | none => ({ st.1 with LBMethod := (P.ParseLBMethodForPlus lbMethod).val }, st.2)
    else
      match (P.ParseLBMethod lbMethod).err with
      | some err => logError st ⟨"nginx.org/lb-method", lbMethod, err⟩
      | none => ({ st.1 with LBMethod := (P.ParseLBMethod lbMethod).val }, st.2)
  | none => st

/-- Lines 131-140: `nginx.com/health-checks`. The error is logged, and then the
field is assigned under `isPlus` whether or not there was an error. -/
def healthChecks (P : Parsers) (annotations : Annotations) (isPlus : Bool)
    (st : ParseState) : ParseState :=
  if (GetMapKeyAsBool P annotations "nginx.com/health-checks").present then
    if isPlus then
      ({ (logIfError st (GetMapKeyAsBool P annotations "nginx.com/health-checks").err).1 with
          HealthCheckEnabled := (GetMapKeyAsBool P annotations "nginx.com/health-checks").val },
        (logIfError st (GetMapKeyAsBool P annotations "nginx.com/health-checks").err).2)
    else
      logWarn (logIfError st (GetMapKeyAsBool P annotations "nginx.com/health-checks").err)
        "Annotation 'nginx.com/health-checks' requires NGINX Plus"
  else st

/-- Lines 142-149: `nginx.com/health-checks-mandatory`, consulted when
`cfgParams.HealthCheckEnabled` holds at this point. -/
def healthChecksMandatory (P : Parsers) (annotations : Annotations) (st : ParseState) :
    ParseState :=
  if st.1.HealthCheckEnabled then
    if (GetMapKeyAsBool P annotations "nginx.com/health-checks-mandatory").present then
      ({ (logIfError st
            (GetMapKeyAsBool P annotations "nginx.com/health-checks-mandatory").err).1 with
          HealthCheckMandatory :=
            (GetMapKeyAsBool P annotations "nginx.com/health-checks-mandatory").val },
        (logIfError st
          (GetMapKeyAsBool P annotations "nginx.com/health-checks-mandatory").err).2)
    else st
  else st

/-- Lines 151-158: `nginx.com/health-checks-mandatory-queue`, consulted when
`cfgParams.HealthCheckMandatory` holds at this point. -/
def healthChecksMandatoryQueue (P : Parsers) (annotations : Annotations) (st : ParseState) :
    ParseState :=
  if st.1.HealthCheckMandatory then
    if (GetMapKeyAsInt64 P annotations "nginx.com/health-checks-mandatory-queue").present then
      ({ (logIfError st
            (GetMapKeyAsInt64 P annotations
              "nginx.com/health-checks-mandatory-queue").err).1 with
          HealthCheckMandatoryQueue :=
            (GetMapKeyAsInt64 P annotations "nginx.com/health-checks-mandatory-queue").val },
        (logIfError st
          (GetMapKeyAsInt64 P annotations "nginx.com/health-checks-mandatory-queue").err).2)
    else st
  else st

/-- Lines 160-170: `nginx.com/slow-start`. The message of the error names
`nginx.org/slow-start`, as the format string of the source does. -/
def slowStart (P : Parsers) (annotations : Annotations) (isPlus : Bool) (st : ParseState) :
    ParseState :=
  match Annotations.lookup annotations "nginx.com/slow-start" with
  | some slowStart =>
    match (P.ParseTime slowStart).err with
    | some err => logError st ⟨"nginx.org/slow-start", slowStart, err⟩
    | none =>
      if isPlus then
        ({ st.1 with SlowStart := (P.ParseTime slowStart).val }, st.2)
      else
        logWarn st "Annotation 'nginx.com/slow-start' requires NGINX Plus"
  | none => st

/-- Lines 172-185: `nginx.org/server-tokens`. When the boolean parser fails, the raw
annotation is stored under `isPlus` and the error is logged otherwise. -/
def serverTokens (P : Parsers) (annotations : Annotations) (isPlus : Bool)
    (st : ParseState) : ParseState :=
  if (GetMapKeyAsBool P annotations "nginx.org/server-tokens").present then
    match (GetMapKeyAsBool P annotations "nginx.org/server-tokens").err with
    | some err =>
      if isPlus then
        ({ st.1 with
            ServerTokens :=
              (Annotations.lookup annotations "nginx.org/server-tokens").getD "" },
          st.2)
      else logError st err
    | none =>
      if (GetMapKeyAsBool P annotations "nginx.org/server-tokens").val then
        ({ st.1 with ServerTokens := "on" }, st.2)
      else
        ({ st.1 with ServerTokens := "off" }, st.2)
  else st

/-- Lines 187-189: `nginx.org/server-snippets`. -/
def serverSnippets (P : Parsers) (annotations : Annotations) (st : ParseState) : ParseState :=
  match GetMapKeyAsStringSlice P annotations "nginx.org/server-snippets" "\n" with
  | some serverSnippets => ({ st.1 with ServerSnippets := serverSnippets }, st.2)
  | none => st

/-- Lines 191-193: `nginx.org/location-snippets`. -/
def locationSnippets (P : Parsers) (annotations : Annotations) (st : ParseState) : ParseState :=
  match GetMapKeyAsStringSlice P annotations "nginx.org/location-snippets" "\n" with
  | some locationSnippets => ({ st.1 with LocationSnippets := locationSnippets }, st.2)
  | none => st

/-- Lines 195-201: `nginx.org/proxy-connect-timeout`. -/
def proxyConnectTimeout (P : Parsers) (annotations : Annotations) (st : ParseState) : ParseState :=
  match Annotations.lookup annotations "nginx.org/proxy-connect-timeout" with
  | some proxyConnectTimeout =>
    match (P.ParseTime proxyConnectTimeout).err with
    | some err => logError st ⟨"nginx.org/proxy-connect-timeout", proxyConnectTimeout, err⟩
    | none => ({ st.1 with ProxyConnectTimeout := (P.ParseTime proxyConnectTimeout).val }, st.2)
  | none => st

/-- Lines 203-209: `nginx.org/proxy-read-timeout`. -/
def proxyReadTimeout (P : Parsers) (annotations : Annotations) (st : ParseState) : ParseState :=
  match Annotations.lookup annotations "nginx.org/proxy-read-timeout" with
  | some proxyReadTimeout =>
    match (P.ParseTime proxyReadTimeout).err with
    | some err => logError st ⟨"nginx.org/proxy-read-timeout", proxyReadTimeout, err⟩
    | none => ({ st.1 with ProxyReadTimeout := (P.ParseTime proxyReadTimeout).val }, st.2)
  | none => st

/-- Lines 211-217: `nginx.org/proxy-send-timeout`. -/
def proxySendTimeout (P : Parsers) (annotations : Annotations) (st : ParseState) : ParseState :=
  match Annotations.lookup annotations "nginx.org/proxy-send-timeout" with
  | some proxySendTimeout =>
    match (P.ParseTime proxySendTimeout).err with
    | some err => logError st ⟨"nginx.org/proxy-send-timeout", proxySendTimeout, err⟩
    | none => ({ st.1 with ProxySendTimeout := (P.ParseTime proxySendTimeout).val }, st.2)
  | none => st

/-- Lines 219-221: `nginx.org/proxy-hide-headers`. -/
def proxyHideHeaders (P : Parsers) (annotations : Annotations) (st : ParseState) : ParseState :=
  match GetMapKeyAsStringSlice P annotations "nginx.org/proxy-hide-headers" "," with
  | some proxyHideHeaders => ({ st.1 with ProxyHideHeaders := proxyHideHeaders }, st.2)
  | none => st

/-- Lines 223-225: `nginx.org/proxy-pass-headers`. -/
def proxyPassHeaders (P : Parsers) (annotations : Annotations) (st : ParseState) : ParseState :=
  match GetMapKeyAsStringSlice P annotations "nginx.org/proxy-pass-headers" "," with
  | some proxyPassHeaders => ({ st.1 with ProxyPassHeaders := proxyPassHeaders }, st.2)
  | none => st

/-- Lines 227-230: `nginx.org/proxy-set-headers`. -/
def proxySetHeaders (P : Parsers) (annotations : Annotations) (st : ParseState) : ParseState :=
  match GetMapKeyAsStringSlice P annotations "nginx.org/proxy-set-headers" "," with
  | some proxySetHeaders =>
    ({ st.1 with ProxySetHeaders := P.parseProxySetHeaders proxySetHeaders }, st.2)
  | none => st

/-- Lines 232-234: `nginx.org/client-max-body-size`. -/
def clientMaxBodySize (annotations : Annotations) (st : ParseState) : ParseState :=
  match Annotations.lookup annotations "nginx.org/client-max-body-size" with
  | some clientMaxBodySize => ({ st.1 with ClientMaxBodySize := clientMaxBodySize }, st.2)
  | none => st

/-- Lines 236-242: `nginx.org/redirect-to-https`. -/
def redirectToHTTPS (P : Parsers) (annotations : Annotations) (st : ParseState) : ParseState :=
  if (GetMapKeyAsBool P annotations "nginx.org/redirect-to-https").present then
    match (GetMapKeyAsBool P annotations "nginx.org/redirect-to-https").err with
    | some err => logError st err
    | none =>
      ({ st.1 with
          RedirectToHTTPS :=
            (GetMapKeyAsBool P annotations "nginx.org/redirect-to-https").val },
        st.2)
  else st

/-- Lines 244-250: `ingress.kubernetes.io/ssl-redirect`. -/
def sslRedirect (P : Parsers) (annotations : Annotations) (st : ParseState) : ParseState :=
  if (GetMapKeyAsBool P annotations "ingress.kubernetes.io/ssl-redirect").present then
    match (GetMapKeyAsBool P annotations "ingress.kubernetes.io/ssl-redirect").err with
    | some err => logError st err
    | none =>
      ({ st.1 with
          SSLRedirect :=
            (GetMapKeyAsBool P annotations "ingress.kubernetes.io/ssl-redirect").val },
        st.2)
  else st

/-- Lines 252-258: `nginx.org/proxy-buffering`. -/
def proxyBuffering (P : Parsers) (annotations : Annotations) (st : ParseState) : ParseState :=
  if (GetMapKeyAsBool P annotations "nginx.org/proxy-buffering").present then
    match (GetMapKeyAsBool P annotations "nginx.org/proxy-buffering").err with
    | some err => logError st err
    | none =>
      ({ st.1 with
          ProxyBuffering :=
            (GetMapKeyAsBool P annotations "nginx.org/proxy-buffering").val },
        st.2)
  else st

/-- Lines 267-270, 272-275 and 277-280: a sibling key of the HSTS group that exists
with an error has the error logged and sets `parsingErrors`. The state is the log
and `parsingErrors`. -/
def hstsSibling {α : Type} (r : KeyResult α) (acc : List LogEntry × Bool) :
    List LogEntry × Bool :=
  if r.present then
    match r.err with
    | some err => (acc.1 ++ [LogEntry.error err], true)
    | none => acc
  else acc

/-- Lines 266-280: the log and `parsingErrors` after the three sibling keys of
`nginx.org/hsts` have been read, in the order max-age, include-subdomains,
behind-proxy. -/
def hstsSiblings (P : Parsers) (annotations : Annotations) (log : List LogEntry) :
    List LogEntry × Bool :=
  hstsSibling (GetMapKeyAsBool P annotations "nginx.org/hsts-behind-proxy")
    (hstsSibling (GetMapKeyAsBool P annotations "nginx.org/hsts-include-subdomains")
      (hstsSibling (GetMapKeyAsInt64 P annotations "nginx.org/hsts-max-age") (log, false)))

/-- Lines 260-297: the HSTS group. With a valid `nginx.org/hsts` the three sibling
keys are read; when one of them exists with an error the group is skipped with a
further error message, and otherwise `HSTS` and the fields of the existing siblings
are written. -/
def hsts (P : Parsers) (annotations : Annotations) (st : ParseState) : ParseState :=
  if (GetMapKeyAsBool P annotations "nginx.org/hsts").present then
    match (GetMapKeyAsBool P annotations "nginx.org/hsts").err with
    | some err => logError st err
    | none =>
      if (hstsSiblings P annotations st.2).2 then
        (st.1, (hstsSiblings P annotations st.2).1 ++
          [LogEntry.groupError
            "There are configuration issues with hsts annotations, skipping annotations for all hsts settings"])
      else
        ({ st.1 with
            HSTS := (GetMapKeyAsBool P annotations "nginx.org/hsts").val
            HSTSMaxAge :=
              if (GetMapKeyAsInt64 P annotations "nginx.org/hsts-max-age").present then
                (GetMapKeyAsInt64 P annotations "nginx.org/hsts-max-age").val
              else st.1.HSTSMaxAge
            HSTSIncludeSubdomains :=
              if (GetMapKeyAsBool P annotations "nginx.org/hsts-include-subdomains").present
              then (GetMapKeyAsBool P annotations "nginx.org/hsts-include-subdomains").val
              else st.1.HSTSIncludeSubdomains
            HSTSBehindProxy :=
              if (GetMapKeyAsBool P annotations "nginx.org/hsts-behind-proxy").present then
                (GetMapKeyAsBool P annotations "nginx.org/hsts-behind-proxy").val
              else st.1.HSTSBehindProxy },
          (hstsSiblings P annotations st.2).1)
  else st

/-- Lines 299-301: `nginx.org/proxy-buffers`. -/
def proxyBuffers (annotations : Annotations) (st : ParseState) : ParseState :=
  match Annotations.lookup annotations "nginx.org/proxy-buffers" with
  | some proxyBuffers => ({ st.1 with ProxyBuffers := proxyBuffers }, st.2)
  | none => st

/-- Lines 303-305: `nginx.org/proxy-buffer-size`. -/
def proxyBufferSize (annotations : Annotations) (st : ParseState) : ParseState :=
  match Annotations.lookup annotations "nginx.org/proxy-buffer-size" with
  | some proxyBufferSize => ({ st.1 with ProxyBufferSize := proxyBufferSize }, st.2)
  | none => st

/-- Lines 307-309: `nginx.org/upstream-zone-size`. -/
def upstreamZoneSize (annotations : Annotations) (st : ParseState) : ParseState :=
  match Annotations.lookup annotations "nginx.org/upstream-zone-size" with
  | some upstreamZoneSize => ({ st.1 with UpstreamZoneSize := upstreamZoneSize }, st.2)
  | none => st

/-- Lines 311-313: `nginx.org/proxy-max-temp-file-size`. -/
def proxyMaxTempFileSize (annotations : Annotations) (st : ParseState) : ParseState :=
  match Annotations.lookup annotations "nginx.org/proxy-max-temp-file-size" with
  | some proxyMaxTempFileSize => ({ st.1 with ProxyMaxTempFileSize := proxyMaxTempFileSize }, st.2)
  | none => st

/-- Lines 316-318: `nginx.com/jwt-realm`. -/
def jwtRealm (annotations : Annotations) (st : ParseState) : ParseState :=
  match Annotations.lookup annotations "nginx.com/jwt-realm" with
  | some jwtRealm => ({ st.1 with JWTRealm := jwtRealm }, st.2)
  | none => st

/-- Lines 319-321: `nginx.com/jwt-key`. -/
def jwtKey (annotations : Annotations) (st : ParseState) : ParseState :=
  match Annotations.lookup annotations JWTKeyAnnotation with
  | some jwtKey => ({ st.1 with JWTKey := jwtKey }, st.2)
  | none => st

/-- Lines 322-324: `nginx.com/jwt-token`. -/
def jwtToken (annotations : Annotations) (st : ParseState) : ParseState :=
  match Annotations.lookup annotations "nginx.com/jwt-token" with
  | some jwtToken => ({ st.1 with JWTToken := jwtToken }, st.2)
  | none => st

/-- Lines 325-327: `nginx.com/jwt-login-url`. -/
def jwtLoginURL (annotations : Annotations) (st : ParseState) : ParseState :=
  match Annotations.lookup annotations "nginx.com/jwt-login-url" with
  | some jwtLoginURL => ({ st.1 with JWTLoginURL := jwtLoginURL }, st.2)
  | none => st

/-- Lines 315-328: the four JWT keys, read under `isPlus` only. -/
def jwt (annotations : Annotations) (isPlus : Bool) (st : ParseState) : ParseState :=
  if isPlus then
    jwtLoginURL annotations (jwtToken annotations (jwtKey annotations (jwtRealm annotations st)))
  else st

/-- Lines 330-332: `nginx.org/basic-auth-secret`. -/
def basicAuthSecret (annotations : Annotations) (st : ParseState) : ParseState :=
  match Annotations.lookup annotations BasicAuthSecretAnnotation with
  | some basicSecret => ({ st.1 with BasicAuthSecret := basicSecret }, st.2)
  | none => st

/-- Lines 333-335: `nginx.org/basic-auth-realm`. -/
def basicAuthRealm (annotations : Annotations) (st : ParseState) : ParseState :=
  match Annotations.lookup annotations "nginx.org/basic-auth-realm" with
  | some basicRealm => ({ st.1 with BasicAuthRealm := basicRealm }, st.2)
  | none => st

/-- Lines 342-344: `if len(ports) > 0 { cfgParams.Ports = ports }`. -/
def setPortsPorts (ports : List Int) (st : ParseState) : ParseState :=
  if ports.length > 0 then ({ st.1 with Ports := ports }, st.2) else st

/-- Lines 352-354: `if len(sslPorts) > 0 { cfgParams.SSLPorts = sslPorts }`. -/
def setPortsSSLPorts (sslPorts : List Int) (st : ParseState) : ParseState :=
  if sslPorts.length > 0 then ({ st.1 with SSLPorts := sslPorts }, st.2) else st

/-- Lines 337-345: `nginx.org/listen-ports`. -/
def listenPorts (P : Parsers) (annotations : Annotations) (st : ParseState) : ParseState :=
  match Annotations.lookup annotations "nginx.org/listen-ports" with
  | some values =>
    setPortsPorts (P.ParsePortList values).val
      (match (P.ParsePortList values).err with
        | some err => logError st ⟨"nginx.org/listen-ports", values, err⟩
        | none => st)
  | none => st

/-- Lines 347-355: `nginx.org/listen-ports-ssl`. -/
def listenPortsSSL (P : Parsers) (annotations : Annotations) (st : ParseState) : ParseState :=
  match Annotations.lookup annotations "nginx.org/listen-ports-ssl" with
  | some values =>
    setPortsSSLPorts (P.ParsePortList values).val
      (match (P.ParsePortList values).err with
        | some err => logError st ⟨"nginx.org/listen-ports-ssl", values, err⟩
        | none => st)
  | none => st

/-- Lines 357-363: `nginx.org/keepalive`. -/
def keepalive (P : Parsers) (annotations : Annotations) (st : ParseState) : ParseState :=
  if (GetMapKeyAsInt P annotations "nginx.org/keepalive").present then
    match (GetMapKeyAsInt P annotations "nginx.org/keepalive").err with
    | some err => logError st err
    | none =>
      ({ st.1 with
          Keepalive :=
            (GetMapKeyAsInt P annotations "nginx.org/keepalive").val },
        st.2)
  else st

/-- Lines 365-371: `nginx.org/max-fails`. -/
def maxFails (P : Parsers) (annotations : Annotations) (st : ParseState) : ParseState :=
  if (GetMapKeyAsInt P annotations "nginx.org/max-fails").present then
    match (GetMapKeyAsInt P annotations "nginx.org/max-fails").err with
    | some err => logError st err
    | none =>
      ({ st.1 with
          MaxFails :=
            (GetMapKeyAsInt P annotations "nginx.org/max-fails").val },
        st.2)
  else st

/-- Lines 373-379: `nginx.org/max-conns`. -/
def maxConns (P : Parsers) (annotations : Annotations) (st : ParseState) : ParseState :=
  if (GetMapKeyAsInt P annotations "nginx.org/max-conns").present then
    match (GetMapKeyAsInt P annotations "nginx.org/max-conns").err with
    | some err => logError st err
    | none =>
      ({ st.1 with
          MaxConns :=
            (GetMapKeyAsInt P annotations "nginx.org/max-conns").val },
        st.2)
  else st

/-- Lines 381-387: `nginx.org/fail-timeout`. -/
def failTimeout (P : Parsers) (annotations : Annotations) (st : ParseState) : ParseState :=
  match Annotations.lookup annotations "nginx.org/fail-timeout" with
  | some failTimeout =>
    match (P.ParseTime failTimeout).err with
    | some err => logError st ⟨"nginx.org/fail-timeout", failTimeout, err⟩
    | none => ({ st.1 with FailTimeout := (P.ParseTime failTimeout).val }, st.2)
  | none => st

/-- Lines 390-400: `appprotect.f5.com/app-protect-enable`. -/
def appProtectEnable (P : Parsers) (annotations : Annotations) (st : ParseState) : ParseState :=
  if (GetMapKeyAsBool P annotations "appprotect.f5.com/app-protect-enable").present then
    match (GetMapKeyAsBool P annotations "appprotect.f5.com/app-protect-enable").err with
    | some err => logError st err
    | none =>
      if (GetMapKeyAsBool P annotations "appprotect.f5.com/app-protect-enable").val then
        ({ st.1 with AppProtectEnable := "on" }, st.2)
      else
        ({ st.1 with AppProtectEnable := "off" }, st.2)
  else st

/-- Lines 402-412: `appprotect.f5.com/app-protect-security-log-enable`. -/
def appProtectLogEnable (P : Parsers) (annotations : Annotations) (st : ParseState) : ParseState :=
  if (GetMapKeyAsBool P annotations
      "appprotect.f5.com/app-protect-security-log-enable").present then
    match (GetMapKeyAsBool P annotations
        "appprotect.f5.com/app-protect-security-log-enable").err with
    | some err => logError st err
    | none =>
      if (GetMapKeyAsBool P annotations
          "appprotect.f5.com/app-protect-security-log-enable").val then
        ({ st.1 with AppProtectLogEnable := "on" }, st.2)
      else
        ({ st.1 with AppProtectLogEnable := "off" }, st.2)
  else st

/-- Lines 389-414: the two App Protect keys, read under `hasAppProtect` only. -/
def appProtect (P : Parsers) (annotations : Annotations) (hasAppProtect : Bool)
    (st : ParseState) : ParseState :=
  if hasAppProtect then
    appProtectLogEnable P annotations (appProtectEnable P annotations st)
  else st

/-- Lines 415-419: `appprotectdos.f5.com/app-protect-dos-resource`, read under
`hasAppProtectDos` only. -/
def appProtectDos (annotations : Annotations) (hasAppProtectDos : Bool) (st : ParseState) :
    ParseState :=
  if hasAppProtectDos then
    match Annotations.lookup annotations "appprotectdos.f5.com/app-protect-dos-resource" with
    | some appProtectDosResource =>
      ({ st.1 with AppProtectDosResource := appProtectDosResource }, st.2)
    | none => st
  else st

/-- Lines 420-428: `nsm.nginx.com/internal-route`, read under `enableInternalRoutes`
only. -/
def internalRoute (P : Parsers) (annotations : Annotations) (enableInternalRoutes : Bool)
    (st : ParseState) : ParseState :=
  if enableInternalRoutes then
    if (GetMapKeyAsBool P annotations nginxMeshInternalRouteAnnotation).present then
      match (GetMapKeyAsBool P annotations nginxMeshInternalRouteAnnotation).err with
      | some err => logError st err
      | none =>
        ({ st.1 with
            SpiffeServerCerts :=
              (GetMapKeyAsBool P annotations nginxMeshInternalRouteAnnotation).val },
          st.2)
    else st
  else st

/-- Lines 430-435: `nginx.org/path-regex` is only checked against `validPathRegex`. -/
def pathRegex (annotations : Annotations) (st : ParseState) : ParseState :=
  match Annotations.lookup annotations PathRegexAnnotation with
  | some pathRegex =>
    if pathRegex ∈ validPathRegex then st
    else
      logError st
        ⟨"nginx.org/path-regex", pathRegex,
          "Allowed values: 'case_sensitive', 'case_insensitive', 'exact'"⟩
  | none => st

/-- Lines 437-443: `nginx.org/use-cluster-ip`. -/
def useClusterIP (P : Parsers) (annotations : Annotations) (st : ParseState) : ParseState :=
  if (GetMapKeyAsBool P annotations UseClusterIPAnnotation).present then
    match (GetMapKeyAsBool P annotations UseClusterIPAnnotation).err with
    | some err => logError st err
    | none =>
      ({ st.1 with
          UseClusterIP :=
            (GetMapKeyAsBool P annotations UseClusterIPAnnotation).val },
        st.2)
  else st

/-- Lines 445-447: the rate-limit keys are resolved on the working copy and every
returned error is logged. -/
def rateLimit (P : Parsers) (annotations : Annotations) (st : ParseState) : ParseState :=
  ((parseRateLimitAnnotations P annotations st.1).1,
    st.2 ++ (parseRateLimitAnnotations P annotations st.1).2.map LogEntry.error)

/-- The Go function `parseAnnotations`: the returned `ConfigParams` and the entries
logged during the call, from the copy of the baseline and an empty log. The blocks
run in the order of the source. -/
def parseAnnotations (P : Parsers) (annotations : Annotations) (baseCfgParams : ConfigParams)
    (isPlus hasAppProtect hasAppProtectDos enableInternalRoutes : Bool) : ParseState :=
  (baseCfgParams, [])
    |> lbMethod P annotations isPlus
    |> healthChecks P annotations isPlus
    |> healthChecksMandatory P annotations
    |> healthChecksMandatoryQueue P annotations
    |> slowStart P annotations isPlus
    |> serverTokens P annotations isPlus
    |> serverSnippets P annotations
    |> locationSnippets P annotations
    |> proxyConnectTimeout P annotations
    |> proxyReadTimeout P annotations
    |> proxySendTimeout P annotations
    |> proxyHideHeaders P annotations
    |> proxyPassHeaders P annotations
    |> proxySetHeaders P annotations
    |> clientMaxBodySize annotations
    |> redirectToHTTPS P annotations
    |> sslRedirect P annotations
    |> proxyBuffering P annotations
    |> hsts P annotations
    |> proxyBuffers annotations
    |> proxyBufferSize annotations
    |> upstreamZoneSize annotations
    |> proxyMaxTempFileSize annotations
    |> jwt annotations isPlus
    |> basicAuthSecret annotations
    |> basicAuthRealm annotations
    |> listenPorts P annotations
    |> listenPortsSSL P annotations
    |> keepalive P annotations
    |> maxFails P annotations
    |> maxConns P annotations
    |> failTimeout P annotations
    |> appProtect P annotations hasAppProtect
    |> appProtectDos annotations hasAppProtectDos
    |> internalRoute P annotations enableInternalRoutes
    |> pathRegex annotations
    |> useClusterIP P annotations
    |> rateLimit P annotations

/-! ## Outcome of one key

The notions in which the behaviour of the blocks is stated: what a key that goes
through a parser contributes to its field and to the log. -/

/-- The parsed value of a key that is present and whose parser reports no error. -/
def accepted {α : Type} (raw : Option String) (parse : String → Parsed α) : Option α :=
  match raw with
  | some s =>
    match (parse s).err with
    | some _ => none
    | none => some (parse s).val
  | none => none

/-- The value of a field written only on success: the parsed value when the key is
present and the parser reports no error, the old value otherwise. -/
def acceptedOr {α : Type} (old : α) (raw : Option String) (parse : String → Parsed α) : α :=
  match raw with
  | some s =>
    match (parse s).err with
    | some _ => old
    | none => (parse s).val
  | none => old

/-- The value of a field written whenever its key is present: what the parser hands
back, with or without an error, and the old value when the key is absent. -/
def assignedOr {α : Type} (old : α) (raw : Option String) (parse : String → Parsed α) : α :=
  match raw with
  | some s => (parse s).val
  | none => old

/-- The errors of a key: one error, made of the key, the raw value and the cause, when
the key is present and the parser reports an error, and none otherwise. -/
def rejection {α : Type} (key : String) (raw : Option String) (parse : String → Parsed α) :
    List ResolutionError :=
  match raw with
  | some s =>
    match (parse s).err with
    | some cause => [⟨key, s, cause⟩]
    | none => []
  | none => []

/-- The warning of a flag-gated key: the text is logged when the key was consulted
with an outcome and the flag is off. -/
def capabilityWarning {α : Type} (consulted : Option α) (flag : Bool) (text : String) :
    List LogEntry :=
  match consulted with
  | some _ => if flag then [] else [LogEntry.warn text]
  | none => []

/-- The parser of `nginx.org/lb-method` under the flag `isPlus`. -/
def lbMethodParser (P : Parsers) (isPlus : Bool) : String → Parsed String :=
  if isPlus then P.ParseLBMethodForPlus else P.ParseLBMethod

/-- The boolean parser followed by the conversion to `"on"` or `"off"`. -/
def parseOnOff (P : Parsers) (s : String) : Parsed String :=
  ⟨if (P.ParseBool s).val then "on" else "off", (P.ParseBool s).err⟩

/-- The value of a port-list field: the parsed ports when the key is present and the
parser hands back at least one port, the old value otherwise. -/
def portsOr (old : List Int) (raw : Option String) (parse : String → Parsed (List Int)) :
    List Int :=
  match raw with
  | some s => if (parse s).val.length > 0 then (parse s).val else old
  | none => old

/-- The value of `ServerTokens`: `"on"` or `"off"` for a boolean, and for a raw value
that is no boolean the raw value under `isPlus` and the old value otherwise. -/
def serverTokensValue (P : Parsers) (isPlus : Bool) (old : String) (raw : Option String) :
    String :=
  match raw with
  | some s =>
    match (P.ParseBool s).err with
    | some _ => if isPlus then s else old
    | none => if (P.ParseBool s).val then "on" else "off"
  | none => old

/-- The check of `nginx.org/path-regex` seen as a parser: a value of `validPathRegex`
is handed back without error, any other value is an error. -/
def parsePathRegex (s : String) : Parsed String :=
  if s ∈ validPathRegex then ⟨s, none⟩
  else ⟨s, some "Allowed values: 'case_sensitive', 'case_insensitive', 'exact'"⟩

/-- The check of `nginx.org/limit-req-log-level` seen as a parser: a listed level is
handed back without error, any other value is an error with no cause. -/
def parseLogLevel (s : String) : Parsed String :=
  if s ∈ ["info", "notice", "warn", "error"] then ⟨s, none⟩ else ⟨s, some ""⟩

/-- The errors of the three sibling keys of `nginx.org/hsts`, in the order max-age,
include-subdomains, behind-proxy. -/
def hstsSiblingErrors (P : Parsers) (a : Annotations) : List ResolutionError :=
  rejection "nginx.org/hsts-max-age" (Annotations.lookup a "nginx.org/hsts-max-age")
      P.ParseInt64 ++
    (rejection "nginx.org/hsts-include-subdomains"
        (Annotations.lookup a "nginx.org/hsts-include-subdomains") P.ParseBool ++
      rejection "nginx.org/hsts-behind-proxy"
        (Annotations.lookup a "nginx.org/hsts-behind-proxy") P.ParseBool)

/-- The HSTS group is written: `nginx.org/hsts` is present with a valid boolean and no
sibling key has an error. -/
def hstsCommits (P : Parsers) (a : Annotations) : Bool :=
  (accepted (Annotations.lookup a "nginx.org/hsts") P.ParseBool).isSome &&
    (hstsSiblingErrors P a).isEmpty

/-- The entries logged by the HSTS group: the error of `nginx.org/hsts`, or with a
valid `nginx.org/hsts` the errors of the siblings followed, when there are any, by the
message about the whole group. -/
def hstsLog (P : Parsers) (a : Annotations) : List LogEntry :=
  (rejection "nginx.org/hsts" (Annotations.lookup a "nginx.org/hsts") P.ParseBool).map
      LogEntry.error ++
    (if (accepted (Annotations.lookup a "nginx.org/hsts") P.ParseBool).isSome
        && !(hstsSiblingErrors P a).isEmpty then
      (hstsSiblingErrors P a).map LogEntry.error ++
        [LogEntry.groupError
          "There are configuration issues with hsts annotations, skipping annotations for all hsts settings"]
    else [])

/-- The errors of the rate-limit keys, in the order in which
`parseRateLimitAnnotations` reads them (`nginx.org/limit-req-key` has none). -/
def rateLimitErrors (P : Parsers) (a : Annotations) : List ResolutionError :=
  rejection "nginx.org/limit-req-rate"
    (Annotations.lookup a "nginx.org/limit-req-rate") P.ParseRequestRate ++
    (rejection "nginx.org/limit-req-zone-size"
      (Annotations.lookup a "nginx.org/limit-req-zone-size") P.ParseSize ++
      (rejection "nginx.org/limit-req-delay"
        (Annotations.lookup a "nginx.org/limit-req-delay") P.ParseInt ++
        (rejection "nginx.org/limit-req-no-delay"
          (Annotations.lookup a "nginx.org/limit-req-no-delay") P.ParseBool ++
          (rejection "nginx.org/limit-req-burst"
            (Annotations.lookup a "nginx.org/limit-req-burst") P.ParseInt ++
            (rejection "nginx.org/limit-req-dry-run"
              (Annotations.lookup a "nginx.org/limit-req-dry-run") P.ParseBool ++
              (rejection "nginx.org/limit-req-log-level"
                (Annotations.lookup a "nginx.org/limit-req-log-level") parseLogLevel ++
                (rejection "nginx.org/limit-req-reject-code"
                  (Annotations.lookup a "nginx.org/limit-req-reject-code") P.ParseInt ++
                  rejection "nginx.org/limit-req-scale"
                    (Annotations.lookup a "nginx.org/limit-req-scale") P.ParseBool)))))))

/-! ## The resolved configuration

The result of `parseAnnotations` written field by field. -/

/-- The value of `HealthCheckEnabled` after the block of `nginx.com/health-checks`. -/
def resolvedHealthCheckEnabled (P : Parsers) (a : Annotations) (base : ConfigParams)
    (isPlus : Bool) : Bool :=
  if isPlus then assignedOr base.HealthCheckEnabled
      (Annotations.lookup a "nginx.com/health-checks") P.ParseBool else base.HealthCheckEnabled

/-- The value of `HealthCheckMandatory` after the block of
`nginx.com/health-checks-mandatory`. -/
def resolvedHealthCheckMandatory (P : Parsers) (a : Annotations) (base : ConfigParams)
    (isPlus : Bool) : Bool :=
  if resolvedHealthCheckEnabled P a base isPlus then
    assignedOr base.HealthCheckMandatory
        (Annotations.lookup a "nginx.com/health-checks-mandatory") P.ParseBool
    else base.HealthCheckMandatory

/-- The configuration `parseAnnotations` returns, field by field. -/
def resolvedConfig (P : Parsers) (a : Annotations) (base : ConfigParams)
    (isPlus hasAppProtect hasAppProtectDos enableInternalRoutes : Bool) : ConfigParams :=
  { LBMethod :=
      acceptedOr base.LBMethod (Annotations.lookup a "nginx.org/lb-method")
          (lbMethodParser P isPlus)
    HealthCheckEnabled :=
      resolvedHealthCheckEnabled P a base isPlus
    HealthCheckMandatory :=
      resolvedHealthCheckMandatory P a base isPlus
    HealthCheckMandatoryQueue :=
      if (resolvedHealthCheckMandatory P a base isPlus) then
        assignedOr base.HealthCheckMandatoryQueue
            (Annotations.lookup a "nginx.com/health-checks-mandatory-queue") P.ParseInt64
        else base.HealthCheckMandatoryQueue
    SlowStart :=
      if isPlus then acceptedOr base.SlowStart (Annotations.lookup a "nginx.com/slow-start")
          P.ParseTime else base.SlowStart
    ServerTokens :=
      serverTokensValue P isPlus base.ServerTokens
          (Annotations.lookup a "nginx.org/server-tokens")
    ServerSnippets :=
      (GetMapKeyAsStringSlice P a "nginx.org/server-snippets" "\n").getD base.ServerSnippets
    LocationSnippets :=
      (GetMapKeyAsStringSlice P a "nginx.org/location-snippets" "\n").getD base.LocationSnippets
    ProxyConnectTimeout :=
      acceptedOr base.ProxyConnectTimeout (Annotations.lookup a "nginx.org/proxy-connect-timeout")
          P.ParseTime
    ProxyReadTimeout :=
      acceptedOr base.ProxyReadTimeout (Annotations.lookup a "nginx.org/proxy-read-timeout")
          P.ParseTime
    ProxySendTimeout :=
      acceptedOr base.ProxySendTimeout (Annotations.lookup a "nginx.org/proxy-send-timeout")
          P.ParseTime
    ProxyHideHeaders :=
      (GetMapKeyAsStringSlice P a "nginx.org/proxy-hide-headers" ",").getD base.ProxyHideHeaders
    ProxyPassHeaders :=
      (GetMapKeyAsStringSlice P a "nginx.org/proxy-pass-headers" ",").getD base.ProxyPassHeaders
    ProxySetHeaders :=
      ((GetMapKeyAsStringSlice P a "nginx.org/proxy-set-headers" ",").map
        P.parseProxySetHeaders).getD base.ProxySetHeaders
    ClientMaxBodySize :=
      (Annotations.lookup a "nginx.org/client-max-body-size").getD base.ClientMaxBodySize
    RedirectToHTTPS :=
      acceptedOr base.RedirectToHTTPS (Annotations.lookup a "nginx.org/redirect-to-https")
          P.ParseBool
    SSLRedirect :=
      acceptedOr base.SSLRedirect (Annotations.lookup a "ingress.kubernetes.io/ssl-redirect")
          P.ParseBool
    ProxyBuffering :=
      acceptedOr base.ProxyBuffering (Annotations.lookup a "nginx.org/proxy-buffering")
          P.ParseBool
    HSTS :=
      if hstsCommits P a then assignedOr base.HSTS (Annotations.lookup a "nginx.org/hsts")
          P.ParseBool else base.HSTS
    HSTSMaxAge :=
      if hstsCommits P a then
        assignedOr base.HSTSMaxAge (Annotations.lookup a "nginx.org/hsts-max-age") P.ParseInt64
        else base.HSTSMaxAge
    HSTSIncludeSubdomains :=
      if hstsCommits P a then
        assignedOr base.HSTSIncludeSubdomains
            (Annotations.lookup a "nginx.org/hsts-include-subdomains") P.ParseBool
        else base.HSTSIncludeSubdomains
    HSTSBehindProxy :=
      if hstsCommits P a then
        assignedOr base.HSTSBehindProxy (Annotations.lookup a "nginx.org/hsts-behind-proxy")
            P.ParseBool
        else base.HSTSBehindProxy
    ProxyBuffers :=
      (Annotations.lookup a "nginx.org/proxy-buffers").getD base.ProxyBuffers
    ProxyBufferSize :=
      (Annotations.lookup a "nginx.org/proxy-buffer-size").getD base.ProxyBufferSize
    UpstreamZoneSize :=
      (Annotations.lookup a "nginx.org/upstream-zone-size").getD base.UpstreamZoneSize
    ProxyMaxTempFileSize :=
      (Annotations.lookup a "nginx.org/proxy-max-temp-file-size").getD base.ProxyMaxTempFileSize
    JWTRealm :=
      if isPlus then (Annotations.lookup a "nginx.com/jwt-realm").getD base.JWTRealm
          else base.JWTRealm
    JWTKey :=
      if isPlus then (Annotations.lookup a JWTKeyAnnotation).getD base.JWTKey else base.JWTKey
    JWTToken :=
      if isPlus then (Annotations.lookup a "nginx.com/jwt-token").getD base.JWTToken
          else base.JWTToken
    JWTLoginURL :=
      if isPlus then (Annotations.lookup a "nginx.com/jwt-login-url").getD base.JWTLoginURL
          else base.JWTLoginURL
    BasicAuthSecret :=
      (Annotations.lookup a BasicAuthSecretAnnotation).getD base.BasicAuthSecret
    BasicAuthRealm :=
      (Annotations.lookup a "nginx.org/basic-auth-realm").getD base.BasicAuthRealm
    Ports :=
      portsOr base.Ports (Annotations.lookup a "nginx.org/listen-ports") P.ParsePortList
    SSLPorts :=
      portsOr base.SSLPorts (Annotations.lookup a "nginx.org/listen-ports-ssl") P.ParsePortList
    Keepalive :=
      acceptedOr base.Keepalive (Annotations.lookup a "nginx.org/keepalive") P.ParseInt
    MaxFails :=
      acceptedOr base.MaxFails (Annotations.lookup a "nginx.org/max-fails") P.ParseInt
    MaxConns :=
      acceptedOr base.MaxConns (Annotations.lookup a "nginx.org/max-conns") P.ParseInt
    FailTimeout :=
      acceptedOr base.FailTimeout (Annotations.lookup a "nginx.org/fail-timeout") P.ParseTime
    AppProtectEnable :=
      if hasAppProtect then
        acceptedOr base.AppProtectEnable
            (Annotations.lookup a "appprotect.f5.com/app-protect-enable") (parseOnOff P)
        else base.AppProtectEnable
    AppProtectLogEnable :=
      if hasAppProtect then
        acceptedOr base.AppProtectLogEnable
        (Annotations.lookup a "appprotect.f5.com/app-protect-security-log-enable")
        (parseOnOff P)
        else base.AppProtectLogEnable
    AppProtectDosResource :=
      if hasAppProtectDos then
        (Annotations.lookup a "appprotectdos.f5.com/app-protect-dos-resource").getD base.AppProtectDosResource
        else base.AppProtectDosResource
    SpiffeServerCerts :=
      if enableInternalRoutes then
        acceptedOr base.SpiffeServerCerts (Annotations.lookup a nginxMeshInternalRouteAnnotation)
            P.ParseBool
        else base.SpiffeServerCerts
    UseClusterIP :=
      acceptedOr base.UseClusterIP (Annotations.lookup a UseClusterIPAnnotation) P.ParseBool
    LimitReqRate :=
      acceptedOr base.LimitReqRate (Annotations.lookup a "nginx.org/limit-req-rate")
          P.ParseRequestRate
    LimitReqKey :=
      (Annotations.lookup a "nginx.org/limit-req-key").getD base.LimitReqKey
    LimitReqZoneSize :=
      acceptedOr base.LimitReqZoneSize (Annotations.lookup a "nginx.org/limit-req-zone-size")
          P.ParseSize
    LimitReqDelay :=
      acceptedOr base.LimitReqDelay (Annotations.lookup a "nginx.org/limit-req-delay") P.ParseInt
    LimitReqNoDelay :=
      acceptedOr base.LimitReqNoDelay (Annotations.lookup a "nginx.org/limit-req-no-delay")
          P.ParseBool
    LimitReqBurst :=
      acceptedOr base.LimitReqBurst (Annotations.lookup a "nginx.org/limit-req-burst") P.ParseInt
    LimitReqDryRun :=
      acceptedOr base.LimitReqDryRun (Annotations.lookup a "nginx.org/limit-req-dry-run")
          P.ParseBool
    LimitReqLogLevel :=
      acceptedOr base.LimitReqLogLevel (Annotations.lookup a "nginx.org/limit-req-log-level")
          parseLogLevel
    LimitReqRejectCode :=
      acceptedOr base.LimitReqRejectCode (Annotations.lookup a "nginx.org/limit-req-reject-code")
          P.ParseInt
    LimitReqScale :=
      acceptedOr base.LimitReqScale (Annotations.lookup a "nginx.org/limit-req-scale")
          P.ParseBool }

/-- The entries `parseAnnotations` logs, block by block in the order of the source. -/
def resolvedLog (P : Parsers) (a : Annotations) (base : ConfigParams)
    (isPlus hasAppProtect hasAppProtectDos enableInternalRoutes : Bool) : List LogEntry :=
  ((rejection "nginx.org/lb-method" (Annotations.lookup a "nginx.org/lb-method")
      (lbMethodParser P isPlus)).map LogEntry.error) ++
    ((rejection "nginx.com/health-checks" (Annotations.lookup a "nginx.com/health-checks")
        P.ParseBool).map LogEntry.error ++
      capabilityWarning (Annotations.lookup a "nginx.com/health-checks") isPlus
      "Annotation 'nginx.com/health-checks' requires NGINX Plus") ++
    (if (resolvedHealthCheckEnabled P a base isPlus) then
      (rejection "nginx.com/health-checks-mandatory"
          (Annotations.lookup a "nginx.com/health-checks-mandatory")
              P.ParseBool).map LogEntry.error
      else []) ++
    (if (resolvedHealthCheckMandatory P a base isPlus) then
      (rejection "nginx.com/health-checks-mandatory-queue"
          (Annotations.lookup a "nginx.com/health-checks-mandatory-queue")
              P.ParseInt64).map LogEntry.error
      else []) ++
    ((rejection "nginx.org/slow-start" (Annotations.lookup a "nginx.com/slow-start")
        P.ParseTime).map LogEntry.error ++
      capabilityWarning (accepted (Annotations.lookup a "nginx.com/slow-start")
          P.ParseTime) isPlus
      "Annotation 'nginx.com/slow-start' requires NGINX Plus") ++
    (if isPlus then [] else (rejection "nginx.org/server-tokens"
        (Annotations.lookup a "nginx.org/server-tokens") P.ParseBool).map LogEntry.error) ++
    ((rejection "nginx.org/proxy-connect-timeout"
        (Annotations.lookup a "nginx.org/proxy-connect-timeout")
            P.ParseTime).map LogEntry.error) ++
    ((rejection "nginx.org/proxy-read-timeout"
        (Annotations.lookup a "nginx.org/proxy-read-timeout") P.ParseTime).map LogEntry.error) ++
    ((rejection "nginx.org/proxy-send-timeout"
        (Annotations.lookup a "nginx.org/proxy-send-timeout") P.ParseTime).map LogEntry.error) ++
    ((rejection "nginx.org/redirect-to-https" (Annotations.lookup a "nginx.org/redirect-to-https")
        P.ParseBool).map LogEntry.error) ++
    ((rejection "ingress.kubernetes.io/ssl-redirect"
        (Annotations.lookup a "ingress.kubernetes.io/ssl-redirect")
            P.ParseBool).map LogEntry.error) ++
    ((rejection "nginx.org/proxy-buffering" (Annotations.lookup a "nginx.org/proxy-buffering")
        P.ParseBool).map LogEntry.error) ++
    (hstsLog P a) ++
    ((rejection "nginx.org/listen-ports" (Annotations.lookup a "nginx.org/listen-ports")
        P.ParsePortList).map LogEntry.error) ++
    ((rejection "nginx.org/listen-ports-ssl" (Annotations.lookup a "nginx.org/listen-ports-ssl")
        P.ParsePortList).map LogEntry.error) ++
    ((rejection "nginx.org/keepalive" (Annotations.lookup a "nginx.org/keepalive")
        P.ParseInt).map LogEntry.error) ++
    ((rejection "nginx.org/max-fails" (Annotations.lookup a "nginx.org/max-fails")
        P.ParseInt).map LogEntry.error) ++
    ((rejection "nginx.org/max-conns" (Annotations.lookup a "nginx.org/max-conns")
        P.ParseInt).map LogEntry.error) ++
    ((rejection "nginx.org/fail-timeout" (Annotations.lookup a "nginx.org/fail-timeout")
        P.ParseTime).map LogEntry.error) ++
    (if hasAppProtect then
      (rejection "appprotect.f5.com/app-protect-enable"
          (Annotations.lookup a "appprotect.f5.com/app-protect-enable")
              P.ParseBool).map LogEntry.error ++
      (rejection "appprotect.f5.com/app-protect-security-log-enable"
      (Annotations.lookup a "appprotect.f5.com/app-protect-security-log-enable")
      P.ParseBool).map LogEntry.error
      else []) ++
    (if enableInternalRoutes then
      (rejection nginxMeshInternalRouteAnnotation
      (Annotations.lookup a nginxMeshInternalRouteAnnotation) P.ParseBool).map
      LogEntry.error
      else []) ++
    ((rejection "nginx.org/path-regex" (Annotations.lookup a PathRegexAnnotation)
      parsePathRegex).map LogEntry.error) ++
    ((rejection UseClusterIPAnnotation (Annotations.lookup a UseClusterIPAnnotation)
      P.ParseBool).map LogEntry.error) ++
    (rateLimitErrors P a).map LogEntry.error

/-! ## Fields of the configuration -/

/-- The names of the fields of `ConfigParams`. -/
inductive Field where
  | LBMethod
  | HealthCheckEnabled
  | HealthCheckMandatory
  | HealthCheckMandatoryQueue
  | SlowStart
  | ServerTokens
  | ServerSnippets
  | LocationSnippets
  | ProxyConnectTimeout
  | ProxyReadTimeout
  | ProxySendTimeout
  | ProxyHideHeaders
  | ProxyPassHeaders
  | ProxySetHeaders
  | ClientMaxBodySize
  | RedirectToHTTPS
  | SSLRedirect
  | ProxyBuffering
  | HSTS
  | HSTSMaxAge
  | HSTSIncludeSubdomains
  | HSTSBehindProxy
  | ProxyBuffers
  | ProxyBufferSize
  | UpstreamZoneSize
  | ProxyMaxTempFileSize
  | JWTRealm
  | JWTKey
  | JWTToken
  | JWTLoginURL
  | BasicAuthSecret
  | BasicAuthRealm
  | Ports
  | SSLPorts
  | Keepalive
  | MaxFails
  | MaxConns
  | FailTimeout
  | AppProtectEnable
  | AppProtectLogEnable
  | AppProtectDosResource
  | SpiffeServerCerts
  | UseClusterIP
  | LimitReqRate
  | LimitReqKey
  | LimitReqZoneSize
  | LimitReqDelay
  | LimitReqNoDelay
  | LimitReqBurst
  | LimitReqDryRun
  | LimitReqLogLevel
  | LimitReqRejectCode
  | LimitReqScale
deriving DecidableEq, Repr

/-! ## Recognized keys and the fields they govern -/

/-- The two configurations have the same value in the field. -/
def Field.agree : Field → ConfigParams → ConfigParams → Prop
  | .LBMethod, c, d => c.LBMethod = d.LBMethod
  | .HealthCheckEnabled, c, d => c.HealthCheckEnabled = d.HealthCheckEnabled
  | .HealthCheckMandatory, c, d => c.HealthCheckMandatory = d.HealthCheckMandatory
  | .HealthCheckMandatoryQueue, c, d => c.HealthCheckMandatoryQueue = d.HealthCheckMandatoryQueue
  | .SlowStart, c, d => c.SlowStart = d.SlowStart
  | .ServerTokens, c, d => c.ServerTokens = d.ServerTokens
  | .ServerSnippets, c, d => c.ServerSnippets = d.ServerSnippets
  | .LocationSnippets, c, d => c.LocationSnippets = d.LocationSnippets
  | .ProxyConnectTimeout, c, d => c.ProxyConnectTimeout = d.ProxyConnectTimeout
  | .ProxyReadTimeout, c, d => c.ProxyReadTimeout = d.ProxyReadTimeout
  | .ProxySendTimeout, c, d => c.ProxySendTimeout = d.ProxySendTimeout
  | .ProxyHideHeaders, c, d => c.ProxyHideHeaders = d.ProxyHideHeaders
  | .ProxyPassHeaders, c, d => c.ProxyPassHeaders = d.ProxyPassHeaders
  | .ProxySetHeaders, c, d => c.ProxySetHeaders = d.ProxySetHeaders
  | .ClientMaxBodySize, c, d => c.ClientMaxBodySize = d.ClientMaxBodySize
  | .RedirectToHTTPS, c, d => c.RedirectToHTTPS = d.RedirectToHTTPS
  | .SSLRedirect, c, d => c.SSLRedirect = d.SSLRedirect
  | .ProxyBuffering, c, d => c.ProxyBuffering = d.ProxyBuffering
  | .HSTS, c, d => c.HSTS = d.HSTS
  | .HSTSMaxAge, c, d => c.HSTSMaxAge = d.HSTSMaxAge
  | .HSTSIncludeSubdomains, c, d => c.HSTSIncludeSubdomains = d.HSTSIncludeSubdomains
  | .HSTSBehindProxy, c, d => c.HSTSBehindProxy = d.HSTSBehindProxy
  | .ProxyBuffers, c, d => c.ProxyBuffers = d.ProxyBuffers
  | .ProxyBufferSize, c, d => c.ProxyBufferSize = d.ProxyBufferSize
  | .UpstreamZoneSize, c, d => c.UpstreamZoneSize = d.UpstreamZoneSize
  | .ProxyMaxTempFileSize, c, d => c.ProxyMaxTempFileSize = d.ProxyMaxTempFileSize
  | .JWTRealm, c, d => c.JWTRealm = d.JWTRealm
  | .JWTKey, c, d => c.JWTKey = d.JWTKey
  | .JWTToken, c, d => c.JWTToken = d.JWTToken
  | .JWTLoginURL, c, d => c.JWTLoginURL = d.JWTLoginURL
  | .BasicAuthSecret, c, d => c.BasicAuthSecret = d.BasicAuthSecret
  | .BasicAuthRealm, c, d => c.BasicAuthRealm = d.BasicAuthRealm
  | .Ports, c, d => c.Ports = d.Ports
  | .SSLPorts, c, d => c.SSLPorts = d.SSLPorts
  | .Keepalive, c, d => c.Keepalive = d.Keepalive
  | .MaxFails, c, d => c.MaxFails = d.MaxFails
  | .MaxConns, c, d => c.MaxConns = d.MaxConns
  | .FailTimeout, c, d => c.FailTimeout = d.FailTimeout
  | .AppProtectEnable, c, d => c.AppProtectEnable = d.AppProtectEnable
  | .AppProtectLogEnable, c, d => c.AppProtectLogEnable = d.AppProtectLogEnable
  | .AppProtectDosResource, c, d => c.AppProtectDosResource = d.AppProtectDosResource
  | .SpiffeServerCerts, c, d => c.SpiffeServerCerts = d.SpiffeServerCerts
  | .UseClusterIP, c, d => c.UseClusterIP = d.UseClusterIP
  | .LimitReqRate, c, d => c.LimitReqRate = d.LimitReqRate
  | .LimitReqKey, c, d => c.LimitReqKey = d.LimitReqKey
  | .LimitReqZoneSize, c, d => c.LimitReqZoneSize = d.LimitReqZoneSize
  | .LimitReqDelay, c, d => c.LimitReqDelay = d.LimitReqDelay
  | .LimitReqNoDelay, c, d => c.LimitReqNoDelay = d.LimitReqNoDelay
  | .LimitReqBurst, c, d => c.LimitReqBurst = d.LimitReqBurst
  | .LimitReqDryRun, c, d => c.LimitReqDryRun = d.LimitReqDryRun
  | .LimitReqLogLevel, c, d => c.LimitReqLogLevel = d.LimitReqLogLevel
  | .LimitReqRejectCode, c, d => c.LimitReqRejectCode = d.LimitReqRejectCode
  | .LimitReqScale, c, d => c.LimitReqScale = d.LimitReqScale

/-- The parser the value of a recognized key goes through. -/
inductive KeyParser where
  | bool
  | int
  | int64
  | time
  | lbMethod
  | portList
  | requestRate
  | size
  | logLevel
deriving DecidableEq, Repr

/-- The parser rejects the raw value: it reports an error. For a port list the
rejection is an error together with no port, since the ports handed back are what
decides the assignment. -/
def KeyParser.rejects (P : Parsers) (isPlus : Bool) : KeyParser → String → Prop
  | .bool, s => (P.ParseBool s).err ≠ none
  | .int, s => (P.ParseInt s).err ≠ none
  | .int64, s => (P.ParseInt64 s).err ≠ none
  | .time, s => (P.ParseTime s).err ≠ none
  | .lbMethod, s => (lbMethodParser P isPlus s).err ≠ none
  | .portList, s => (P.ParsePortList s).err ≠ none ∧ (P.ParsePortList s).val = []
  | .requestRate, s => (P.ParseRequestRate s).err ≠ none
  | .size, s => (P.ParseSize s).err ≠ none
  | .logLevel, s => (parseLogLevel s).err ≠ none

instance (P : Parsers) (isPlus : Bool) (kp : KeyParser) (s : String) :
    Decidable (kp.rejects P isPlus s) := by
  cases kp <;> unfold KeyParser.rejects <;> infer_instance

/-- The rate-limit keys whose value can be rejected, each with its parser and the field
it governs, in the order in which `parseRateLimitAnnotations` reads them. -/
def rateLimitFields : List (String × KeyParser × Field) :=
  [ ("nginx.org/limit-req-rate", .requestRate, .LimitReqRate),
    ("nginx.org/limit-req-zone-size", .size, .LimitReqZoneSize),
    ("nginx.org/limit-req-delay", .int, .LimitReqDelay),
    ("nginx.org/limit-req-no-delay", .bool, .LimitReqNoDelay),
    ("nginx.org/limit-req-burst", .int, .LimitReqBurst),
    ("nginx.org/limit-req-dry-run", .bool, .LimitReqDryRun),
    ("nginx.org/limit-req-log-level", .logLevel, .LimitReqLogLevel),
    ("nginx.org/limit-req-reject-code", .int, .LimitReqRejectCode),
    ("nginx.org/limit-req-scale", .bool, .LimitReqScale) ]

/-- The keys of `parseAnnotations` whose value can be rejected and whose field is
written on success only, each with its parser and the field it governs. The three
health-check keys are not listed: their field is assigned whether or not the parser
reports an error. -/
def governedFields : List (String × KeyParser × Field) :=
  [ ("nginx.org/lb-method", .lbMethod, .LBMethod),
    ("nginx.com/slow-start", .time, .SlowStart),
    ("nginx.org/server-tokens", .bool, .ServerTokens),
    ("nginx.org/proxy-connect-timeout", .time, .ProxyConnectTimeout),
    ("nginx.org/proxy-read-timeout", .time, .ProxyReadTimeout),
    ("nginx.org/proxy-send-timeout", .time, .ProxySendTimeout),
    ("nginx.org/redirect-to-https", .bool, .RedirectToHTTPS),
    ("ingress.kubernetes.io/ssl-redirect", .bool, .SSLRedirect),
    ("nginx.org/proxy-buffering", .bool, .ProxyBuffering),
    ("nginx.org/hsts", .bool, .HSTS),
    ("nginx.org/hsts-max-age", .int64, .HSTSMaxAge),
    ("nginx.org/hsts-include-subdomains", .bool, .HSTSIncludeSubdomains),
    ("nginx.org/hsts-behind-proxy", .bool, .HSTSBehindProxy),
    ("nginx.org/listen-ports", .portList, .Ports),
    ("nginx.org/listen-ports-ssl", .portList, .SSLPorts),
    ("nginx.org/keepalive", .int, .Keepalive),
    ("nginx.org/max-fails", .int, .MaxFails),
    ("nginx.org/max-conns", .int, .MaxConns),
    ("nginx.org/fail-timeout", .time, .FailTimeout),
    ("appprotect.f5.com/app-protect-enable", .bool, .AppProtectEnable),
    ("appprotect.f5.com/app-protect-security-log-enable", .bool, .AppProtectLogEnable),
    ("nsm.nginx.com/internal-route", .bool, .SpiffeServerCerts),
    ("nginx.org/use-cluster-ip", .bool, .UseClusterIP) ] ++ rateLimitFields

/-- The log entry is an error whose message names the key. -/
def LogEntry.isErrorFor (key : String) : LogEntry → Bool
  | .error e => decide (e.key = key)
  | .groupError _ => false
  | .warn _ => false

/-! ## A concrete instance of the primitive parsers

Used to evaluate the resolver on concrete annotations. The parsers follow the Go
helpers on the forms listed with each of them; a failure hands back the zero value
of the result type together with the error, as a Go function does. -/

/-- The decimal value of a non-empty list of digits. -/
def digitsValue (cs : List Char) : Option Nat :=
  if cs ≠ [] ∧ cs.all Char.isDigit then
    some (cs.foldl (fun n c => 10 * n + (c.toNat - '0'.toNat)) 0)
  else none

/-- Go's `strconv.ParseBool`. -/
def goParseBool (s : String) : Parsed Bool :=
  if s ∈ ["1", "t", "T", "TRUE", "true", "True"] then ⟨true, none⟩
  else if s ∈ ["0", "f", "F", "FALSE", "false", "False"] then ⟨false, none⟩
  else ⟨false, some "invalid syntax"⟩

/-- Go's `strconv.ParseInt(s, 10, 64)`: an optional sign and decimal digits, within
the range of a 64-bit integer. -/
def goParseInt64 (s : String) : Parsed Int :=
  match s.data with
  | '-' :: cs =>
    match digitsValue cs with
    | some n => if n ≤ 2 ^ 63 then ⟨-(n : Int), none⟩ else ⟨0, some "value out of range"⟩
    | none => ⟨0, some "invalid syntax"⟩
  | '+' :: cs =>
    match digitsValue cs with
    | some n => if n < 2 ^ 63 then ⟨(n : Int), none⟩ else ⟨0, some "value out of range"⟩
    | none => ⟨0, some "invalid syntax"⟩
  | cs =>
    match digitsValue cs with
    | some n => if n < 2 ^ 63 then ⟨(n : Int), none⟩ else ⟨0, some "value out of range"⟩
    | none => ⟨0, some "invalid syntax"⟩

/-- A time of nginx in its simplest form: decimal digits followed by at most one of
the units `ms`, `s`, `m`, `h`, `d`, `w`, `M`, `y`. The value is handed back as it is
written. This is an instance for evaluating `parseAnnotations` on concrete maps, narrower
than the `ParseTime` of the repository, which also reads several units in a row
(`1h30m`) and writes a number without a unit with the unit `s`. -/
def sampleParseTime (s : String) : Parsed String :=
  if (s.data.dropWhile Char.isDigit).asString ∈ ["", "ms", "s", "m", "h", "d", "w", "M", "y"]
      ∧ (s.data.takeWhile Char.isDigit) ≠ [] then
    ⟨s, none⟩
  else ⟨"", some "invalid time string"⟩

/-- A request rate of nginx: decimal digits followed by `r/s` or `r/m`. -/
def sampleParseRequestRate (s : String) : Parsed String :=
  if (s.data.dropWhile Char.isDigit).asString ∈ ["r/s", "r/m"]
      ∧ (s.data.takeWhile Char.isDigit) ≠ [] then
    ⟨s, none⟩
  else ⟨"", some "string does not match rate-pattern: ^(\\d+)(r/s|r/m)$"⟩

/-- A size of nginx: decimal digits followed by at most one of `k`, `K`, `m`, `M`. -/
def sampleParseSize (s : String) : Parsed String :=
  if (s.data.dropWhile Char.isDigit).asString ∈ ["", "k", "K", "m", "M"]
      ∧ (s.data.takeWhile Char.isDigit) ≠ [] then
    ⟨s, none⟩
  else ⟨"", some "invalid size string"⟩

/-- The load-balancing methods without parameters; `round_robin` is the empty
method. This is an instance for evaluating `parseAnnotations` on concrete maps, narrower
than the `ParseLBMethod` of the repository, which also reads the methods with
parameters (`hash $request_uri consistent`). -/
def sampleParseLBMethod (s : String) : Parsed String :=
  if s = "round_robin" then ⟨"", none⟩
  else if s ∈ ["least_conn", "ip_hash", "random", "random two",
      "random two least_conn"] then ⟨s, none⟩
  else ⟨"", some "invalid load balancing method"⟩

/-- The load-balancing methods without parameters of NGINX Plus. -/
def sampleParseLBMethodForPlus (s : String) : Parsed String :=
  if s = "round_robin" then ⟨"", none⟩
  else if s ∈ ["least_conn", "ip_hash", "random", "random two",
      "random two least_conn", "random two least_time=header",
      "random two least_time=last_byte", "least_time header",
      "least_time last_byte", "least_time header inflight",
      "least_time last_byte inflight"] then ⟨s, none⟩
  else ⟨"", some "invalid load balancing method"⟩

/-- The pieces of a list of characters between the occurrences of a delimiter. -/
def splitChars (d : Char) : List Char → List (List Char)
  | [] => [[]]
  | c :: cs =>
    if c = d then [] :: splitChars d cs
    else
      match splitChars d cs with
      | [] => [[c]]
      | piece :: pieces => (c :: piece) :: pieces

/-- Go's `strings.Split` for a delimiter of one character. -/
def sampleSplit (s delimiter : String) : List String :=
  match delimiter.data with
  | [d] => (splitChars d s.data).map List.asString
  | _ => [s]

/-- A comma-separated list of ports between 1 and 65535; the first piece that is no
such port fails the whole list, which then has no port. This is an instance for
evaluating `parseAnnotations` on concrete maps; the `ParsePortList` of the repository
reads each port as a 16-bit signed number and so rejects the ports above 32767 too. -/
def sampleParsePortList (s : String) : Parsed (List Int) :=
  match (splitChars ',' s.data).mapM digitsValue with
  | some ports =>
    if ports.all (fun p => decide (1 ≤ p ∧ p ≤ 65535)) then
      ⟨ports.map Int.ofNat, none⟩
    else ⟨[], some "port outside of valid port range"⟩
  | none => ⟨[], some "invalid port"⟩

/-- Headers of the form `Name: Value`, or a name alone. -/
def sampleParseProxySetHeaders (headers : List String) : List Header :=
  headers.map (fun h =>
    match splitChars ':' h.data with
    | name :: value :: _ => ⟨name.asString.trim, value.asString.trim⟩
    | _ => ⟨h.trim, ""⟩)

/-- The concrete instance of the primitive parsers. -/
def sampleParsers : Parsers where
  ParseBool := goParseBool
  ParseInt := goParseInt64
  ParseInt64 := goParseInt64
  ParseLBMethod := sampleParseLBMethod
  ParseLBMethodForPlus := sampleParseLBMethodForPlus
  ParseTime := sampleParseTime
  ParsePortList := sampleParsePortList
  ParseRequestRate := sampleParseRequestRate
  ParseSize := sampleParseSize
  Split := sampleSplit
  parseProxySetHeaders := sampleParseProxySetHeaders

/-- The Go zero value of `ConfigParams`. -/
def zeroConfigParams : ConfigParams where
  LBMethod := ""
  HealthCheckEnabled := false
  HealthCheckMandatory := false
  HealthCheckMandatoryQueue := 0
  SlowStart := ""
  ServerTokens := ""
  ServerSnippets := []
  LocationSnippets := []
  ProxyConnectTimeout := ""
  ProxyReadTimeout := ""
  ProxySendTimeout := ""
  ProxyHideHeaders := []
  ProxyPassHeaders := []
  ProxySetHeaders := []
  ClientMaxBodySize := ""
  RedirectToHTTPS := false
  SSLRedirect := false
  ProxyBuffering := false
  HSTS := false
  HSTSMaxAge := 0
  HSTSIncludeSubdomains := false
  HSTSBehindProxy := false
  ProxyBuffers := ""
  ProxyBufferSize := ""
  UpstreamZoneSize := ""
  ProxyMaxTempFileSize := ""
  JWTRealm := ""
  JWTKey := ""
  JWTToken := ""
  JWTLoginURL := ""
  BasicAuthSecret := ""
  BasicAuthRealm := ""
  Ports := []
  SSLPorts := []
  Keepalive := 0
  MaxFails := 0
  MaxConns := 0
  FailTimeout := ""
  AppProtectEnable := ""
  AppProtectLogEnable := ""
  AppProtectDosResource := ""
  SpiffeServerCerts := false
  UseClusterIP := false
  LimitReqRate := ""
  LimitReqKey := ""
  LimitReqZoneSize := ""
  LimitReqDelay := 0
  LimitReqNoDelay := false
  LimitReqBurst := 0
  LimitReqDryRun := false
  LimitReqLogLevel := ""
  LimitReqRejectCode := 0
  LimitReqScale := false

/-! ## Tables for the statements about the resolver -/

/-- The keys that are resolved on their own (every recognized key with a field, but for
the HSTS group and the two dependent health-check keys), each with the condition under which its raw
value is accepted with its gate open, and with the statement that a configuration holds
the value parsed from the raw value. The gate of a flag-gated key is its flag; the gate
of a port list is that the parser hands back at least one port. -/
def independentKeys (P : Parsers)
    (isPlus hasAppProtect hasAppProtectDos enableInternalRoutes : Bool) :
    List (String × (String → Prop) × (String → ConfigParams → Prop)) :=
  [ ("nginx.org/lb-method",
      fun s => (lbMethodParser P isPlus s).err = none,
      fun s c => c.LBMethod = (lbMethodParser P isPlus s).val),
    ("nginx.com/health-checks",
      fun s => isPlus = true ∧ (P.ParseBool s).err = none,
      fun s c => c.HealthCheckEnabled = (P.ParseBool s).val),
    ("nginx.com/slow-start",
      fun s => isPlus = true ∧ (P.ParseTime s).err = none,
      fun s c => c.SlowStart = (P.ParseTime s).val),
    ("nginx.org/server-tokens",
      fun s => (P.ParseBool s).err = none,
      fun s c => c.ServerTokens = if (P.ParseBool s).val then "on" else "off"),
    ("nginx.org/server-snippets",
      fun _ => True,
      fun s c => c.ServerSnippets = P.Split s "\n"),
    ("nginx.org/location-snippets",
      fun _ => True,
      fun s c => c.LocationSnippets = P.Split s "\n"),
    ("nginx.org/proxy-connect-timeout",
      fun s => (P.ParseTime s).err = none,
      fun s c => c.ProxyConnectTimeout = (P.ParseTime s).val),
    ("nginx.org/proxy-read-timeout",
      fun s => (P.ParseTime s).err = none,
      fun s c => c.ProxyReadTimeout = (P.ParseTime s).val),
    ("nginx.org/proxy-send-timeout",
      fun s => (P.ParseTime s).err = none,
      fun s c => c.ProxySendTimeout = (P.ParseTime s).val),
    ("nginx.org/proxy-hide-headers",
      fun _ => True,
      fun s c => c.ProxyHideHeaders = P.Split s ","),
    ("nginx.org/proxy-pass-headers",
      fun _ => True,
      fun s c => c.ProxyPassHeaders = P.Split s ","),
    ("nginx.org/proxy-set-headers",
      fun _ => True,
      fun s c => c.ProxySetHeaders = P.parseProxySetHeaders (P.Split s ",")),
    ("nginx.org/client-max-body-size",
      fun _ => True,
      fun s c => c.ClientMaxBodySize = s),
    ("nginx.org/redirect-to-https",
      fun s => (P.ParseBool s).err = none,
      fun s c => c.RedirectToHTTPS = (P.ParseBool s).val),
    ("ingress.kubernetes.io/ssl-redirect",
      fun s => (P.ParseBool s).err = none,
      fun s c => c.SSLRedirect = (P.ParseBool s).val),
    ("nginx.org/proxy-buffering",
      fun s => (P.ParseBool s).err = none,
      fun s c => c.ProxyBuffering = (P.ParseBool s).val),
    ("nginx.org/proxy-buffers",
      fun _ => True,
      fun s c => c.ProxyBuffers = s),
    ("nginx.org/proxy-buffer-size",
      fun _ => True,
      fun s c => c.ProxyBufferSize = s),
    ("nginx.org/upstream-zone-size",
      fun _ => True,
      fun s c => c.UpstreamZoneSize = s),
    ("nginx.org/proxy-max-temp-file-size",
      fun _ => True,
      fun s c => c.ProxyMaxTempFileSize = s),
    ("nginx.com/jwt-realm",
      fun _ => isPlus = true,
      fun s c => c.JWTRealm = s),
    ("nginx.com/jwt-key",
      fun _ => isPlus = true,
      fun s c => c.JWTKey = s),
    ("nginx.com/jwt-token",
      fun _ => isPlus = true,
      fun s c => c.JWTToken = s),
    ("nginx.com/jwt-login-url",
      fun _ => isPlus = true,
      fun s c => c.JWTLoginURL = s),
    ("nginx.org/basic-auth-secret",
      fun _ => True,
      fun s c => c.BasicAuthSecret = s),
    ("nginx.org/basic-auth-realm",
      fun _ => True,
      fun s c => c.BasicAuthRealm = s),
    ("nginx.org/listen-ports",
      fun s => (P.ParsePortList s).err = none ∧ (P.ParsePortList s).val ≠ [],
      fun s c => c.Ports = (P.ParsePortList s).val),
    ("nginx.org/listen-ports-ssl",
      fun s => (P.ParsePortList s).err = none ∧ (P.ParsePortList s).val ≠ [],
      fun s c => c.SSLPorts = (P.ParsePortList s).val),
    ("nginx.org/keepalive",
      fun s => (P.ParseInt s).err = none,
      fun s c => c.Keepalive = (P.ParseInt s).val),
    ("nginx.org/max-fails",
      fun s => (P.ParseInt s).err = none,
      fun s c => c.MaxFails = (P.ParseInt s).val),
    ("nginx.org/max-conns",
      fun s => (P.ParseInt s).err = none,
      fun s c => c.MaxConns = (P.ParseInt s).val),
    ("nginx.org/fail-timeout",
      fun s => (P.ParseTime s).err = none,
      fun s c => c.FailTimeout = (P.ParseTime s).val),
    ("appprotect.f5.com/app-protect-enable",
      fun s => hasAppProtect = true ∧ (P.ParseBool s).err = none,
      fun s c => c.AppProtectEnable = if (P.ParseBool s).val then "on" else "off"),
    ("appprotect.f5.com/app-protect-security-log-enable",
      fun s => hasAppProtect = true ∧ (P.ParseBool s).err = none,
      fun s c => c.AppProtectLogEnable = if (P.ParseBool s).val then "on" else "off"),
    ("appprotectdos.f5.com/app-protect-dos-resource",
      fun _ => hasAppProtectDos = true,
      fun s c => c.AppProtectDosResource = s),
    ("nsm.nginx.com/internal-route",
      fun s => enableInternalRoutes = true ∧ (P.ParseBool s).err = none,
      fun s c => c.SpiffeServerCerts = (P.ParseBool s).val),
    ("nginx.org/use-cluster-ip",
      fun s => (P.ParseBool s).err = none,
      fun s c => c.UseClusterIP = (P.ParseBool s).val),
    ("nginx.org/limit-req-rate",
      fun s => (P.ParseRequestRate s).err = none,
      fun s c => c.LimitReqRate = (P.ParseRequestRate s).val),
    ("nginx.org/limit-req-key",
      fun _ => True,
      fun s c => c.LimitReqKey = s),
    ("nginx.org/limit-req-zone-size",
      fun s => (P.ParseSize s).err = none,
      fun s c => c.LimitReqZoneSize = (P.ParseSize s).val),
    ("nginx.org/limit-req-delay",
      fun s => (P.ParseInt s).err = none,
      fun s c => c.LimitReqDelay = (P.ParseInt s).val),
    ("nginx.org/limit-req-no-delay",
      fun s => (P.ParseBool s).err = none,
      fun s c => c.LimitReqNoDelay = (P.ParseBool s).val),
    ("nginx.org/limit-req-burst",
      fun s => (P.ParseInt s).err = none,
      fun s c => c.LimitReqBurst = (P.ParseInt s).val),
    ("nginx.org/limit-req-dry-run",
      fun s => (P.ParseBool s).err = none,
      fun s c => c.LimitReqDryRun = (P.ParseBool s).val),
    ("nginx.org/limit-req-log-level",
      fun s => s ∈ ["info", "notice", "warn", "error"],
      fun s c => c.LimitReqLogLevel = s),
    ("nginx.org/limit-req-reject-code",
      fun s => (P.ParseInt s).err = none,
      fun s c => c.LimitReqRejectCode = (P.ParseInt s).val),
    ("nginx.org/limit-req-scale",
      fun s => (P.ParseBool s).err = none,
      fun s c => c.LimitReqScale = (P.ParseBool s).val) ]

/-- The keys whose rejected value is reported with an error that names the key, each
with the condition under which its parser rejects a raw value and the condition under
which the key is read at all: `nginx.org/server-tokens` reports without `isPlus` only,
a flag-gated key with its flag on, a sibling key of the HSTS group under a valid
`nginx.org/hsts`, and a dependent health-check key when its prerequisite field is on.
`nginx.com/slow-start` is not listed: the message of its error names
`nginx.org/slow-start`. -/
def reportingKeys (P : Parsers) (a : Annotations) (base : ConfigParams)
    (isPlus hasAppProtect enableInternalRoutes : Bool) :
    List (String × (String → Prop) × Prop) :=
  [ ("nginx.org/lb-method",
      fun s => (lbMethodParser P isPlus s).err ≠ none,
      True),
    ("nginx.com/health-checks",
      fun s => (P.ParseBool s).err ≠ none,
      True),
    ("nginx.com/health-checks-mandatory",
      fun s => (P.ParseBool s).err ≠ none,
      resolvedHealthCheckEnabled P a base isPlus = true),
    ("nginx.com/health-checks-mandatory-queue",
      fun s => (P.ParseInt64 s).err ≠ none,
      resolvedHealthCheckMandatory P a base isPlus = true),
    ("nginx.org/server-tokens",
      fun s => (P.ParseBool s).err ≠ none,
      isPlus = false),
    ("nginx.org/proxy-connect-timeout",
      fun s => (P.ParseTime s).err ≠ none,
      True),
    ("nginx.org/proxy-read-timeout",
      fun s => (P.ParseTime s).err ≠ none,
      True),
    ("nginx.org/proxy-send-timeout",
      fun s => (P.ParseTime s).err ≠ none,
      True),
    ("nginx.org/redirect-to-https",
      fun s => (P.ParseBool s).err ≠ none,
      True),
    ("ingress.kubernetes.io/ssl-redirect",
      fun s => (P.ParseBool s).err ≠ none,
      True),
    ("nginx.org/proxy-buffering",
      fun s => (P.ParseBool s).err ≠ none,
      True),
    ("nginx.org/hsts",
      fun s => (P.ParseBool s).err ≠ none,
      True),
    ("nginx.org/hsts-max-age",
      fun s => (P.ParseInt64 s).err ≠ none,
      (accepted (Annotations.lookup a "nginx.org/hsts") P.ParseBool).isSome = true),
    ("nginx.org/hsts-include-subdomains",
      fun s => (P.ParseBool s).err ≠ none,
      (accepted (Annotations.lookup a "nginx.org/hsts") P.ParseBool).isSome = true),
    ("nginx.org/hsts-behind-proxy",
      fun s => (P.ParseBool s).err ≠ none,
      (accepted (Annotations.lookup a "nginx.org/hsts") P.ParseBool).isSome = true),
    ("nginx.org/listen-ports",
      fun s => (P.ParsePortList s).err ≠ none,
      True),
    ("nginx.org/listen-ports-ssl",
      fun s => (P.ParsePortList s).err ≠ none,
      True),
    ("nginx.org/keepalive",
      fun s => (P.ParseInt s).err ≠ none,
      True),
    ("nginx.org/max-fails",
      fun s => (P.ParseInt s).err ≠ none,
      True),
    ("nginx.org/max-conns",
      fun s => (P.ParseInt s).err ≠ none,
      True),
    ("nginx.org/fail-timeout",
      fun s => (P.ParseTime s).err ≠ none,
      True),
    ("appprotect.f5.com/app-protect-enable",
      fun s => (P.ParseBool s).err ≠ none,
      hasAppProtect = true),
    ("appprotect.f5.com/app-protect-security-log-enable",
      fun s => (P.ParseBool s).err ≠ none,
      hasAppProtect = true),
    ("nsm.nginx.com/internal-route",
      fun s => (P.ParseBool s).err ≠ none,
      enableInternalRoutes = true),
    ("nginx.org/path-regex",
      fun s => (parsePathRegex s).err ≠ none,
      True),
    ("nginx.org/use-cluster-ip",
      fun s => (P.ParseBool s).err ≠ none,
      True),
    ("nginx.org/limit-req-rate",
      fun s => (P.ParseRequestRate s).err ≠ none,
      True),
    ("nginx.org/limit-req-zone-size",
      fun s => (P.ParseSize s).err ≠ none,
      True),
    ("nginx.org/limit-req-delay",
      fun s => (P.ParseInt s).err ≠ none,
      True),
    ("nginx.org/limit-req-no-delay",
      fun s => (P.ParseBool s).err ≠ none,
      True),
    ("nginx.org/limit-req-burst",
      fun s => (P.ParseInt s).err ≠ none,
      True),
    ("nginx.org/limit-req-dry-run",
      fun s => (P.ParseBool s).err ≠ none,
      True),
    ("nginx.org/limit-req-log-level",
      fun s => (parseLogLevel s).err ≠ none,
      True),
    ("nginx.org/limit-req-reject-code",
      fun s => (P.ParseInt s).err ≠ none,
      True),
    ("nginx.org/limit-req-scale",
      fun s => (P.ParseBool s).err ≠ none,
      True) ]

/-- Every key `parseAnnotations` reads into a field, with that field, in the order of
the source. -/
def keyFields : List (String × Field) :=
  [ ("nginx.org/lb-method", .LBMethod),
    ("nginx.com/health-checks", .HealthCheckEnabled),
    ("nginx.com/health-checks-mandatory", .HealthCheckMandatory),
    ("nginx.com/health-checks-mandatory-queue", .HealthCheckMandatoryQueue),
    ("nginx.com/slow-start", .SlowStart),
    ("nginx.org/server-tokens", .ServerTokens),
    ("nginx.org/server-snippets", .ServerSnippets),
    ("nginx.org/location-snippets", .LocationSnippets),
    ("nginx.org/proxy-connect-timeout", .ProxyConnectTimeout),
    ("nginx.org/proxy-read-timeout", .ProxyReadTimeout),
    ("nginx.org/proxy-send-timeout", .ProxySendTimeout),
    ("nginx.org/proxy-hide-headers", .ProxyHideHeaders),
    ("nginx.org/proxy-pass-headers", .ProxyPassHeaders),
    ("nginx.org/proxy-set-headers", .ProxySetHeaders),
    ("nginx.org/client-max-body-size", .ClientMaxBodySize),
    ("nginx.org/redirect-to-https", .RedirectToHTTPS),
    ("ingress.kubernetes.io/ssl-redirect", .SSLRedirect),
    ("nginx.org/proxy-buffering", .ProxyBuffering),
    ("nginx.org/hsts", .HSTS),
    ("nginx.org/hsts-max-age", .HSTSMaxAge),
    ("nginx.org/hsts-include-subdomains", .HSTSIncludeSubdomains),
    ("nginx.org/hsts-behind-proxy", .HSTSBehindProxy),
    ("nginx.org/proxy-buffers", .ProxyBuffers),
    ("nginx.org/proxy-buffer-size", .ProxyBufferSize),
    ("nginx.org/upstream-zone-size", .UpstreamZoneSize),
    ("nginx.org/proxy-max-temp-file-size", .ProxyMaxTempFileSize),
    ("nginx.com/jwt-realm", .JWTRealm),
    ("nginx.com/jwt-key", .JWTKey),
    ("nginx.com/jwt-token", .JWTToken),
    ("nginx.com/jwt-login-url", .JWTLoginURL),
    ("nginx.org/basic-auth-secret", .BasicAuthSecret),
    ("nginx.org/basic-auth-realm", .BasicAuthRealm),
    ("nginx.org/listen-ports", .Ports),
    ("nginx.org/listen-ports-ssl", .SSLPorts),
    ("nginx.org/keepalive", .Keepalive),
    ("nginx.org/max-fails", .MaxFails),
    ("nginx.org/max-conns", .MaxConns),
    ("nginx.org/fail-timeout", .FailTimeout),
    ("appprotect.f5.com/app-protect-enable", .AppProtectEnable),
    ("appprotect.f5.com/app-protect-security-log-enable", .AppProtectLogEnable),
    ("appprotectdos.f5.com/app-protect-dos-resource", .AppProtectDosResource),
    ("nsm.nginx.com/internal-route", .SpiffeServerCerts),
    ("nginx.org/use-cluster-ip", .UseClusterIP),
    ("nginx.org/limit-req-rate", .LimitReqRate),
    ("nginx.org/limit-req-key", .LimitReqKey),
    ("nginx.org/limit-req-zone-size", .LimitReqZoneSize),
    ("nginx.org/limit-req-delay", .LimitReqDelay),
    ("nginx.org/limit-req-no-delay", .LimitReqNoDelay),
    ("nginx.org/limit-req-burst", .LimitReqBurst),
    ("nginx.org/limit-req-dry-run", .LimitReqDryRun),
    ("nginx.org/limit-req-log-level", .LimitReqLogLevel),
    ("nginx.org/limit-req-reject-code", .LimitReqRejectCode),
    ("nginx.org/limit-req-scale", .LimitReqScale) ]

/-- The keys `parseAnnotations` recognizes: the keys of `keyFields` and
`nginx.org/path-regex`, which is checked and governs no field. -/
def recognizedKeys : List String :=
  keyFields.map Prod.fst ++ ["nginx.org/path-regex"]

/-- The text of the warning for `nginx.com/health-checks` without NGINX Plus. -/
def healthChecksWarning : String :=
  "Annotation 'nginx.com/health-checks' requires NGINX Plus"

/-- The text of the warning for `nginx.com/slow-start` without NGINX Plus. -/
def slowStartWarning : String :=
  "Annotation 'nginx.com/slow-start' requires NGINX Plus"

/-- The keys `parseAnnotations` does not read under the given flags: the keys of a block
guarded by a flag that is off. -/
def closedKeys (isPlus hasAppProtect hasAppProtectDos enableInternalRoutes : Bool) :
    List String :=
  (if isPlus then []
    else ["nginx.com/jwt-realm", "nginx.com/jwt-key", "nginx.com/jwt-token",
      "nginx.com/jwt-login-url"]) ++
    (if hasAppProtect then []
      else ["appprotect.f5.com/app-protect-enable",
        "appprotect.f5.com/app-protect-security-log-enable"]) ++
    (if hasAppProtectDos then [] else ["appprotectdos.f5.com/app-protect-dos-resource"]) ++
    (if enableInternalRoutes then [] else ["nsm.nginx.com/internal-route"])

/-- The flag-gated keys, each with its flag, the condition under which its raw value is
valid, and the text of the warning the source has for it, if it has one. -/
def gatedKeys (P : Parsers) (isPlus hasAppProtect hasAppProtectDos enableInternalRoutes : Bool) :
    List (String × Bool × (String → Prop) × Option String) :=
  [ ("nginx.com/health-checks", isPlus, fun s => (P.ParseBool s).err = none,
      some healthChecksWarning),
    ("nginx.com/slow-start", isPlus, fun s => (P.ParseTime s).err = none,
      some slowStartWarning),
    ("nginx.com/jwt-realm", isPlus, fun _ => True, none),
    ("nginx.com/jwt-key", isPlus, fun _ => True, none),
    ("nginx.com/jwt-token", isPlus, fun _ => True, none),
    ("nginx.com/jwt-login-url", isPlus, fun _ => True, none),
    ("appprotect.f5.com/app-protect-enable", hasAppProtect,
      fun s => (P.ParseBool s).err = none, none),
    ("appprotect.f5.com/app-protect-security-log-enable", hasAppProtect,
      fun s => (P.ParseBool s).err = none, none),
    ("appprotectdos.f5.com/app-protect-dos-resource", hasAppProtectDos, fun _ => True, none),
    ("nsm.nginx.com/internal-route", enableInternalRoutes,
      fun s => (P.ParseBool s).err = none, none) ]

/-- The keys of the HSTS group, each with the error its parser reports for a raw value
and whether it is a sibling key, read inside the block of a valid `nginx.org/hsts`. -/
def hstsGroupKeys (P : Parsers) : List (String × (String → Option String) × Bool) :=
  [ ("nginx.org/hsts", fun s => (P.ParseBool s).err, false),
    ("nginx.org/hsts-max-age", fun s => (P.ParseInt64 s).err, true),
    ("nginx.org/hsts-include-subdomains", fun s => (P.ParseBool s).err, true),
    ("nginx.org/hsts-behind-proxy", fun s => (P.ParseBool s).err, true) ]

/-- The keys the field of a key depends on besides the key itself: the other keys of
the HSTS group for a key of the group, and the prerequisite keys for a dependent
health-check key. -/
def linkedKeys (key : String) : List String :=
  if key ∈ ["nginx.org/hsts", "nginx.org/hsts-max-age", "nginx.org/hsts-include-subdomains",
      "nginx.org/hsts-behind-proxy"] then
    ["nginx.org/hsts", "nginx.org/hsts-max-age", "nginx.org/hsts-include-subdomains",
      "nginx.org/hsts-behind-proxy"]
  else if key = "nginx.com/health-checks-mandatory" then ["nginx.com/health-checks"]
  else if key = "nginx.com/health-checks-mandatory-queue" then
    ["nginx.com/health-checks", "nginx.com/health-checks-mandatory"]
  else []

/-- The keys whose raw value is stored as it is, each with the field it is stored in. -/
def verbatimKeys : List (String × (ConfigParams → String)) :=
  [ ("nginx.org/client-max-body-size", fun c => c.ClientMaxBodySize),
    ("nginx.org/proxy-buffers", fun c => c.ProxyBuffers),
    ("nginx.org/proxy-buffer-size", fun c => c.ProxyBufferSize),
    ("nginx.org/upstream-zone-size", fun c => c.UpstreamZoneSize),
    ("nginx.org/proxy-max-temp-file-size", fun c => c.ProxyMaxTempFileSize),
    ("nginx.org/basic-auth-secret", fun c => c.BasicAuthSecret),
    ("nginx.org/basic-auth-realm", fun c => c.BasicAuthRealm),
    ("nginx.org/limit-req-key", fun c => c.LimitReqKey) ]

/-- The two port-list keys, each with the field it governs. -/
def portKeys : List (String × (ConfigParams → List Int)) :=
  [ ("nginx.org/listen-ports", fun c => c.Ports),
    ("nginx.org/listen-ports-ssl", fun c => c.SSLPorts) ]

/-- A port-list parser that hands back the ports it read before the first piece that is
no port, together with the error for that piece. -/
def lenientParsePortList (s : String) : Parsed (List Int) :=
  match (splitChars ',' s.data).mapM digitsValue with
  | some ports => ⟨ports.map Int.ofNat, none⟩
  | none =>
    ⟨(((splitChars ',' s.data).takeWhile (fun p => (digitsValue p).isSome)).filterMap
        digitsValue).map Int.ofNat, some "invalid port"⟩

end configs

namespace validation

/-! ## Validation of a `DosProtectedResource`

The package `pkg/apis/dos/validation` is known through its tests (`dos_test.go`): the
functions they call are modelled here from what the tests and the statements about them
say. The Go `error` of a validator is an optional message, `none` for `nil`. Strings
are examined as lists of characters. -/

/-- An entry of the allow list of a `DosProtectedResource`. -/
structure AllowListEntry where
  IPWithMask : String
deriving DecidableEq, Repr

/-- The monitor of a `DosProtectedResource`. -/
structure ApDosMonitor where
  URI : String
  Protocol : String
  Timeout : Nat
deriving DecidableEq, Repr

/-- The security log of a `DosProtectedResource`. -/
structure DosSecurityLog where
  ApDosLogConf : String
  DosLogDest : String
deriving DecidableEq, Repr

/-- The specification of a `DosProtectedResource`, with the fields the tests set: a
nil pointer is `none`, an unset string is the empty string. -/
structure DosProtectedResourceSpec where
  Name : String
  ApDosMonitor : Option ApDosMonitor
  DosAccessLogDest : String
  ApDosPolicy : String
  DosSecurityLog : Option DosSecurityLog
deriving DecidableEq, Repr

/-- A `DosProtectedResource`: the name of the object and its specification. -/
structure DosProtectedResource where
  Name : String
  Spec : DosProtectedResourceSpec
deriving DecidableEq, Repr

/-- The Go value `v1beta1.DosProtectedResource{}`. -/
def emptyDosProtectedResource : DosProtectedResource :=
  ⟨"", ⟨"", none, "", "", none⟩⟩

/-- A hexadecimal digit. -/
def isHexDigit (c : Char) : Bool :=
  c.isDigit || ('a' ≤ c && c ≤ 'f') || ('A' ≤ c && c ≤ 'F')

/-- A decimal field of a dotted IPv4 address: one to three digits without a leading
zero, at most 255. -/
def isIPv4Field (cs : List Char) : Bool :=
  match configs.digitsValue cs with
  | some n => decide (cs.length ≤ 3) && decide (n ≤ 255)
      && (decide (cs.length = 1) || cs.head? != some '0')
  | none => false

/-- A dotted IPv4 address: four decimal fields. -/
def isIPv4 (cs : List Char) : Bool :=
  match configs.splitChars '.' cs with
  | [a, b, c, d] => isIPv4Field a && isIPv4Field b && isIPv4Field c && isIPv4Field d
  | _ => false

/-- A group of an IPv6 address: one to four hexadecimal digits. -/
def isIPv6Group (cs : List Char) : Bool :=
  decide (1 ≤ cs.length) && decide (cs.length ≤ 4) && cs.all isHexDigit

/-- The characters before and after the first `::` of a list of characters. -/
def splitAtEllipsis : List Char → Option (List Char × List Char)
  | [] => none
  | c :: cs =>
    if c = ':' ∧ cs.head? = some ':' then some ([], cs.tail)
    else
      match splitAtEllipsis cs with
      | some (before, after) => some (c :: before, after)
      | none => none

/-- The groups of a side of an IPv6 address with `::`: none for an empty side. -/
def ipv6Groups (cs : List Char) : List (List Char) :=
  if cs = [] then [] else configs.splitChars ':' cs

/-- The number of 16-bit fields that the groups of an IPv6 address, or of one side of
its `::`, stand for: one for each group of hexadecimal digits, and two for a dotted
IPv4 address, which may only be the last group. There is no number when a group is
neither. -/
def ipv6Fields : List (List Char) → Option Nat
  | [] => some 0
  | [g] => if isIPv6Group g then some 1 else if isIPv4 g then some 2 else none
  | g :: rest => if isIPv6Group g then (ipv6Fields rest).map (· + 1) else none

/-- An IPv6 address as Go's `netip.ParseAddr` reads it, without a zone: groups of one to
four hexadecimal digits separated by colons, the last of which may be a dotted IPv4
address in the place of two groups (`::ffff:192.168.1.1`, `64:ff9b::192.0.2.33`).
Without `::` the groups stand for exactly eight fields; with one `::`, which stands
for at least one field of zeros, for at most seven, and the groups before the `::` are
all hexadecimal. -/
def isIPv6 (cs : List Char) : Bool :=
  match splitAtEllipsis cs with
  | some (before, after) =>
    (ipv6Groups before).all isIPv6Group
      && (match ipv6Fields (ipv6Groups after) with
          | some fields => decide ((ipv6Groups before).length + fields ≤ 7)
          | none => false)
  | none => ipv6Fields (configs.splitChars ':' cs) == some 8

/-- Go's `net.ParseCIDR`: the text before the first slash is an address that
`netip.ParseAddr` reads and that has no zone, a dotted IPv4 address or an IPv6 address
(also one that ends in a dotted IPv4 address), and the text after it is a decimal
prefix length of at most 32 for the dotted IPv4 form and of at most 128 for an IPv6
address. The result is the number of bits of the address and the prefix length. -/
def goParseCIDR (s : String) : Option (Nat × Nat) :=
  match configs.splitChars '/' s.data with
  | [addr, mask] =>
    match configs.digitsValue mask with
    | some n =>
      if isIPv4 addr then (if n ≤ 32 then some (32, n) else none)
      else if isIPv6 addr then (if n ≤ 128 then some (128, n) else none)
      else none
    | none => none
  | _ => none

/-- Modelled from the spec: the function `isValidIPWithMask` of
`pkg/apis/dos/validation`, which accepts an address in CIDR form with a mask, that is
what `net.ParseCIDR` parses, and nothing else. -/
def isValidIPWithMask (ipWithMask : String) : Bool :=
  (goParseCIDR ipWithMask).isSome

/-- Modelled from the spec: the function `ValidateAppProtectDosAllowList` of
`pkg/apis/dos/validation`: the entries are checked in order with `isValidIPWithMask`,
and the first entry that fails is the error. -/
def ValidateAppProtectDosAllowList : List AllowListEntry → Option String
  | [] => none
  | entry :: rest =>
    if isValidIPWithMask entry.IPWithMask then ValidateAppProtectDosAllowList rest
    else some ("invalid IP with subnet mask: " ++ entry.IPWithMask)

/-- One to five digits: the port of a log destination as it is written. -/
def isPortText (cs : List Char) : Bool :=
  decide (1 ≤ cs.length) && decide (cs.length ≤ 5) && cs.all Char.isDigit

/-- One to three digits: a field of an address as a log destination writes it. -/
def isAddressField (cs : List Char) : Bool :=
  decide (1 ≤ cs.length) && decide (cs.length ≤ 3) && cs.all Char.isDigit

/-- A character of a label of a DNS name. -/
def isLabelChar (c : Char) : Bool :=
  c.isAlphanum || c = '-'

/-- The first label of a DNS name: a letter or digit, then one to 62 label
characters. -/
def isFirstLabel (cs : List Char) : Bool :=
  match cs with
  | [] => false
  | c :: rest =>
    c.isAlphanum && decide (1 ≤ rest.length) && decide (rest.length ≤ 62)
      && rest.all isLabelChar

/-- An inner label of a DNS name: one to 63 label characters. -/
def isInnerLabel (cs : List Char) : Bool :=
  decide (1 ≤ cs.length) && decide (cs.length ≤ 63) && cs.all isLabelChar

/-- The last label of a DNS name: two to six letters. -/
def isLastLabel (cs : List Char) : Bool :=
  decide (2 ≤ cs.length) && decide (cs.length ≤ 6) && cs.all Char.isAlpha

/-- The host of a log destination is an address: four fields separated by dots. -/
def isAddressHost (host : List Char) : Bool :=
  match configs.splitChars '.' host with
  | [a, b, c, d] => isAddressField a && isAddressField b && isAddressField c
      && isAddressField d
  | _ => false

/-- The host of a log destination is a DNS name: a first label, inner labels and a
last label, separated by dots. -/
def isDNSHost (host : List Char) : Bool :=
  match configs.splitChars '.' host with
  | first :: second :: rest =>
    isFirstLabel first && ((second :: rest).dropLast).all isInnerLabel
      && isLastLabel ((second :: rest).getLast (List.cons_ne_nil second rest))
  | _ => false

/-- The form `<ip-address | localhost | dns name>:<port>` of a log destination. -/
def hasDestinationForm (cs : List Char) : Bool :=
  match configs.splitChars ':' cs with
  | [host, port] =>
    (isAddressHost host || isDNSHost host || decide (host = "localhost".data))
      && isPortText port
  | _ => false

/-- The text after the colon of a destination. -/
def portOf (cs : List Char) : List Char :=
  match configs.splitChars ':' cs with
  | _ :: port :: _ => port
  | _ => []

/-- Modelled from the spec: the function `validatePort` of `pkg/apis/dos/validation`: a
port is a number between 1 and 65535. The tests fix the words `not a valid port
number` of the message. -/
def validatePort (value : List Char) : Option String :=
  match configs.digitsValue value with
  | some port =>
    if port > 65535 ∨ port < 1 then
      some ("error parsing port: " ++ toString port ++ " not a valid port number")
    else none
  | none => some ("error parsing port: 0 not a valid port number")

/-- The message for a log destination that has not the form of one. -/
def invalidDestination (dstAntn : String) : String :=
  "invalid log destination: " ++ dstAntn
    ++ ", must follow format: <ip-address | localhost | dns name>:<port> or stderr"

/-- Modelled from the spec: the function `validateAppProtectDosLogDest` of
`pkg/apis/dos/validation`: `stderr` is accepted, a destination of the form
`<ip-address | localhost | dns name>:<port>` is accepted when its port is valid, and
every other destination is rejected with the message that names the form. -/
def validateAppProtectDosLogDest (dstAntn : String) : Option String :=
  if dstAntn = "stderr" then none
  else if hasDestinationForm dstAntn.data then
    match validatePort (portOf dstAntn.data) with
    | some err => some ("invalid log destination: " ++ err)
    | none => none
  else some (invalidDestination dstAntn)

/-- The name part of a qualified name of Kubernetes: at most 63 letters, digits, `-`,
`_` or `.`, beginning and ending with a letter or digit. -/
def isQualifiedNamePart (cs : List Char) : Bool :=
  match cs with
  | [] => false
  | c :: rest =>
    decide (cs.length ≤ 63) && c.isAlphanum
      && ((c :: rest).getLast (List.cons_ne_nil c rest)).isAlphanum
      && cs.all (fun x => x.isAlphanum || x = '-' || x = '_' || x = '.')

/-- A label of a DNS subdomain: lower-case letters, digits or `-`, beginning and
ending with a letter or digit. -/
def isSubdomainLabel (cs : List Char) : Bool :=
  match cs with
  | [] => false
  | c :: rest =>
    (c.isLower || c.isDigit)
      && (((c :: rest).getLast (List.cons_ne_nil c rest)).isLower
        || ((c :: rest).getLast (List.cons_ne_nil c rest)).isDigit)
      && cs.all (fun x => x.isLower || x.isDigit || x = '-')

/-- Kubernetes's `validation.IsQualifiedName`: a name part, or a DNS subdomain of at
most 253 characters, a slash and a name part. -/
def IsQualifiedName (value : String) : Bool :=
  match configs.splitChars '/' value.data with
  | [name] => isQualifiedNamePart name
  | [domain, name] =>
    decide (domain.length ≤ 253) && (configs.splitChars '.' domain).all isSubdomainLabel
      && isQualifiedNamePart name
  | _ => false

/-- Modelled from the spec: the function `validateResourceReference` of
`pkg/apis/dos/validation`: a reference is a qualified name, such as `ns/name`. -/
def validateResourceReference (ref : String) : Option String :=
  if IsQualifiedName ref then none else some ("reference name is invalid: " ++ ref)

/-- The longest name of a protected object. -/
def maxNameLength : Nat := 63

/-- Every double quote is escaped and no backslash is left alone at the end: the
expression `([^"\\]|\\.)*`. -/
def isEscapedString : List Char → Bool
  | [] => true
  | c :: rest =>
    if c = '\\' then
      match rest with
      | [] => false
      | _ :: rest' => isEscapedString rest'
    else if c = '"' then false
    else isEscapedString rest

/-- The message for a string with a bare double quote or a backslash at its end. -/
def notEscaped (sample : String) : String :=
  "must have all '\"' (double quotes) escaped and must not end with an unescaped '\\' "
    ++ "(backslash) (e.g. '" ++ sample
    ++ "', regex used for validation is '([^\"\\\\]|\\\\.)*')"

/-- Modelled from the spec: the function `validateAppProtectDosName` of
`pkg/apis/dos/validation`: a name is at most `maxNameLength` long and is an escaped
string. -/
def validateAppProtectDosName (name : String) : Option String :=
  if name.length > maxNameLength then
    some ("app Protect Dos Name max length is " ++ toString maxNameLength)
  else if isEscapedString name.data then none
  else some (notEscaped "protected-object-one")

/-- Go's `url.Parse` as far as the tests go: a `%` is followed by two hexadecimal
digits. -/
def hasValidEscapes : List Char → Bool
  | [] => true
  | c :: rest =>
    if c = '%' then
      match rest with
      | h1 :: h2 :: rest' => isHexDigit h1 && isHexDigit h2 && hasValidEscapes rest'
      | _ => false
    else hasValidEscapes rest

/-- The message for a protocol of a monitor that is not known. -/
def unknownProtocol (value : String) : String :=
  "app Protect Dos Monitor Protocol must be: dosMonitorProtocol: Invalid value: \""
    ++ value ++ "\": '" ++ value
    ++ "' contains an invalid NGINX parameter. Accepted parameters are:"

/-- Modelled from the spec: the function `validateAppProtectDosMonitor` of
`pkg/apis/dos/validation`: the URI parses as a URL and is an escaped string, and the
protocol, when there is one, is `http1`, `http2`, `grpc` or `websocket`. -/
def validateAppProtectDosMonitor (apDosMonitor : ApDosMonitor) : Option String :=
  if !hasValidEscapes apDosMonitor.URI.data then
    some "app Protect Dos Monitor must have valid URL"
  else if !isEscapedString apDosMonitor.URI.data then
    some (notEscaped "http://www.example.com")
  else if apDosMonitor.Protocol ∈ ["", "http1", "http2", "grpc", "websocket"] then none
  else some (unknownProtocol apDosMonitor.Protocol)

/-- The error of `ValidateDosProtectedResource` for a field that is not valid. -/
def invalidField (resourceName field err : String) : String :=
  "error validating DosProtectedResource: " ++ resourceName ++ " invalid field: " ++ field
    ++ " err: " ++ err

/-- Modelled from the spec: the function `ValidateDosProtectedResource` of
`pkg/apis/dos/validation`. The name of the specification is required and checked
first; then, in this order, each optional field that is set: `ApDosMonitor`,
`DosAccessLogDest`, `ApDosPolicy`, and `DosSecurityLog`, whose `DosLogDest` is checked
before its `ApDosLogConf`. The first error is the result. -/
def ValidateDosProtectedResource (dosResource : DosProtectedResource) : Option String :=
  if dosResource.Spec.Name = "" then
    some ("error validating DosProtectedResource: " ++ dosResource.Name
      ++ " missing value for field: name")
  else
    match validateAppProtectDosName dosResource.Spec.Name with
    | some err => some (invalidField dosResource.Name "name" err)
    | none =>
    match dosResource.Spec.ApDosMonitor.bind validateAppProtectDosMonitor with
    | some err => some (invalidField dosResource.Name "apDosMonitor" err)
    | none =>
    match (if dosResource.Spec.DosAccessLogDest = "" then none
        else validateAppProtectDosLogDest dosResource.Spec.DosAccessLogDest) with
    | some err => some (invalidField dosResource.Name "dosAccessLogDest" err)
    | none =>
    match (if dosResource.Spec.ApDosPolicy = "" then none
        else validateResourceReference dosResource.Spec.ApDosPolicy) with
    | some err => some (invalidField dosResource.Name "apDosPolicy" err)
    | none =>
    match dosResource.Spec.DosSecurityLog with
    | none => none
    | some log =>
      match validateAppProtectDosLogDest log.DosLogDest with
      | some err => some (invalidField dosResource.Name "dosSecurityLog/dosLogDest" err)
      | none =>
      match validateResourceReference log.ApDosLogConf with
      | some err => some (invalidField dosResource.Name "dosSecurityLog/apDosLogConf" err)
      | none => none

/-- The message contains the text. -/
def containsText (msg part : String) : Prop :=
  ∃ before after : String, msg = before ++ part ++ after

/-- The fields `ValidateDosProtectedResource` checks before `DosSecurityLog` are valid:
the name is there and valid, and each of `ApDosMonitor`, `DosAccessLogDest` and
`ApDosPolicy` that is set is valid. -/
def earlierFieldsValid (dosResource : DosProtectedResource) : Prop :=
  dosResource.Spec.Name ≠ ""
    ∧ validateAppProtectDosName dosResource.Spec.Name = none
    ∧ (∀ m, dosResource.Spec.ApDosMonitor = some m → validateAppProtectDosMonitor m = none)
    ∧ (dosResource.Spec.DosAccessLogDest ≠ ""
      → validateAppProtectDosLogDest dosResource.Spec.DosAccessLogDest = none)
    ∧ (dosResource.Spec.ApDosPolicy ≠ ""
      → validateResourceReference dosResource.Spec.ApDosPolicy = none)

end validation

namespace configs

/-! ## Facts about annotation maps -/

theorem Annotations.lookup_filter (p : String → Bool) (m : Annotations) (k : String) :
    Annotations.lookup (m.filter (fun e => p e.1)) k
      = if p k then Annotations.lookup m k else none := by
  induction m with
  | nil => simp [Annotations.lookup]
  | cons e rest ih =>
    obtain ⟨k1, v1⟩ := e
    by_cases hp : p k1 = true
    · by_cases hk : k1 = k
      · subst hk; simp [List.filter, hp, Annotations.lookup]
      · simp [List.filter, hp, Annotations.lookup, hk, ih]
    · by_cases hk : k1 = k
      · subst hk; simp [List.filter, hp, Annotations.lookup, ih]
      · simp [List.filter, hp, Annotations.lookup, hk, ih]

theorem Annotations.lookup_isSome_iff (m : Annotations) (k : String) :
    (Annotations.lookup m k).isSome ↔ k ∈ Annotations.keys m := by
  induction m with
  | nil => simp [Annotations.lookup, Annotations.keys]
  | cons e rest ih =>
    obtain ⟨k1, v1⟩ := e
    by_cases hk : k1 = k
    · subst hk; simp [Annotations.lookup, Annotations.keys]
    · have hk2 : ¬ k = k1 := fun h => hk h.symm
      simp only [Annotations.keys] at ih
      simp [Annotations.lookup, Annotations.keys, hk, hk2, ih]

theorem filterLoop_eq (denylist : List String) (ks : List String)
    (st : Annotations × List String) :
    filterLoop denylist ks st
      = (st.1.filter (fun e => decide (¬ (e.1 ∈ ks ∧ e.1 ∈ denylist))),
         st.2 ++ ks.filter (fun k => decide (k ∈ denylist))) := by
  induction ks generalizing st with
  | nil => simp [filterLoop]
  | cons k ks ih =>
    have hstep : filterLoop denylist (k :: ks) st
        = filterLoop denylist ks
            (if k ∈ denylist then (Annotations.delete st.1 k, st.2 ++ [k]) else st) := by
      simp [filterLoop]
    rw [hstep, ih]
    by_cases hk : k ∈ denylist
    · simp only [hk, if_true, Annotations.delete, List.filter_filter]
      refine Prod.ext ?_ ?_
      · refine List.filter_congr ?_
        intro e _
        by_cases he : e.1 = k
        · simp [he, hk]
        · simp [he]
      · simp [List.filter, hk]
    · simp only [hk, if_false]
      refine Prod.ext ?_ ?_
      · refine List.filter_congr ?_
        intro e _
        by_cases he : e.1 = k
        · simp [he, hk]
        · simp [he]
      · simp [List.filter, hk]

theorem filterLoop_keys (denylist : List String) (a : Annotations) :
    filterLoop denylist (Annotations.keys a) (a, [])
      = (a.filter (fun e => decide (e.1 ∉ denylist)),
         (Annotations.keys a).filter (fun k => decide (k ∈ denylist))) := by
  rw [filterLoop_eq]
  refine Prod.ext ?_ ?_
  · refine List.filter_congr ?_
    intro e he
    have : e.1 ∈ Annotations.keys a := List.mem_map_of_mem Prod.fst he
    simp [this]
  · simp


theorem Annotations.lookup_append (m n : Annotations) (k : String) :
    Annotations.lookup (m ++ n) k
      = match Annotations.lookup m k with
        | some v => some v
        | none => Annotations.lookup n k := by
  induction m with
  | nil => simp [Annotations.lookup]
  | cons e rest ih =>
    obtain ⟨k1, v1⟩ := e
    by_cases hk : k1 = k
    · simp [Annotations.lookup, hk]
    · simp [Annotations.lookup, hk, ih]

theorem Annotations.lookup_cons (k v : String) (rest : Annotations) (key : String) :
    Annotations.lookup ((k, v) :: rest) key
      = if k = key then some v else Annotations.lookup rest key := rfl

theorem Annotations.lookup_map_set (m : Annotations) (key val k : String) :
    Annotations.lookup (m.map (fun e => if e.1 = key then (key, val) else e)) k
      = if k = key then (Annotations.lookup m key).map (fun _ => val)
        else Annotations.lookup m k := by
  induction m with
  | nil => simp [Annotations.lookup]
  | cons e rest ih =>
    obtain ⟨k1, v1⟩ := e
    rw [List.map_cons]
    by_cases h1 : k1 = key
    · subst h1
      simp only [if_true, Annotations.lookup_cons, ih]
      by_cases h2 : k = k1
      · subst h2; simp
      · have h3 : ¬ k1 = k := fun h => h2 h.symm
        simp [h2, h3]
    · simp only [h1, if_false, Annotations.lookup_cons, ih]
      by_cases h2 : k = key
      · subst h2
        simp [h1]
      · by_cases h3 : k1 = k
        · subst h3; simp [h1]
        · simp [h1, h2, h3]

theorem Annotations.lookup_set (m : Annotations) (key val k : String) :
    Annotations.lookup (Annotations.set m key val) k
      = if k = key then some val else Annotations.lookup m k := by
  unfold Annotations.set
  cases h : Annotations.lookup m key with
  | none =>
    simp only [Annotations.lookup_append]
    by_cases hk : k = key
    · subst hk; simp [h, Annotations.lookup]
    · have hk2 : ¬ key = k := fun h => hk h.symm
      simp [hk, hk2, Annotations.lookup]
      cases Annotations.lookup m k <;> rfl
  | some v =>
    simp only [Annotations.lookup_map_set, h]
    by_cases hk : k = key <;> simp [hk]

theorem merge_lookup (minion master : Annotations) (k : String) :
    Annotations.lookup (mergeMasterAnnotationsIntoMinion minion master) k
      = match Annotations.lookup minion k with
        | some v => some v
        | none => if k ∈ minionInheritanceList then Annotations.lookup master k else none := by
  induction master generalizing minion with
  | nil =>
    simp only [mergeMasterAnnotationsIntoMinion, List.foldl_nil, Annotations.lookup]
    cases Annotations.lookup minion k <;> simp
  | cons e rest ih =>
    obtain ⟨k1, v1⟩ := e
    have hstep : mergeMasterAnnotationsIntoMinion minion ((k1, v1) :: rest)
        = mergeMasterAnnotationsIntoMinion
            (match Annotations.lookup minion k1 with
              | some _ => minion
              | none =>
                if k1 ∈ minionInheritanceList then Annotations.set minion k1 v1 else minion)
            rest := by
      simp [mergeMasterAnnotationsIntoMinion]
    rw [hstep, ih]
    cases h1 : Annotations.lookup minion k1 with
    | some w =>
      by_cases hk : k1 = k
      · subst hk; simp [h1]
      · simp [Annotations.lookup, hk]
    | none =>
      by_cases hin : k1 ∈ minionInheritanceList
      · simp only [hin, if_true, Annotations.lookup_set]
        by_cases hk : k = k1
        · subst hk; simp [h1, hin, Annotations.lookup]
        · have hk2 : ¬ k1 = k := fun h => hk h.symm
          simp [hk, hk2, Annotations.lookup]
      · simp only [hin, if_false]
        by_cases hk : k1 = k
        · subst hk; simp [h1, hin]
        · simp [Annotations.lookup, hk]

/-! ## Closed forms of the blocks -/

/-- A `GetMapKeyAsBool` result assigned when the key exists is `assignedOr`. -/
theorem GetMapKeyAsBool_assigned (P : Parsers) (a : Annotations) (key : String) (old : Bool) :
    (if (GetMapKeyAsBool P a key).present then (GetMapKeyAsBool P a key).val else old)
      = assignedOr old (Annotations.lookup a key) P.ParseBool := by
  unfold GetMapKeyAsBool assignedOr
  cases Annotations.lookup a key <;> simp

/-- A `GetMapKeyAsInt64` result assigned when the key exists is `assignedOr`. -/
theorem GetMapKeyAsInt64_assigned (P : Parsers) (a : Annotations) (key : String) (old : Int) :
    (if (GetMapKeyAsInt64 P a key).present then (GetMapKeyAsInt64 P a key).val else old)
      = assignedOr old (Annotations.lookup a key) P.ParseInt64 := by
  unfold GetMapKeyAsInt64 assignedOr
  cases Annotations.lookup a key <;> simp

/-- One sibling key of the HSTS group: its error is appended and raises the flag. -/
theorem hstsSibling_eq {α : Type} (r : KeyResult α) (acc : List LogEntry × Bool) :
    hstsSibling r acc
      = (acc.1 ++ ((if r.present then r.err.toList else []).map LogEntry.error),
          acc.2 || !(if r.present then r.err.toList else []).isEmpty) := by
  unfold hstsSibling
  cases r.present <;> cases r.err <;> simp

/-- The errors of a `GetMapKeyAsBool` result are the `rejection` of the key. -/
theorem GetMapKeyAsBool_rejection (P : Parsers) (a : Annotations) (key : String) :
    (if (GetMapKeyAsBool P a key).present then (GetMapKeyAsBool P a key).err.toList else [])
      = rejection key (Annotations.lookup a key) P.ParseBool := by
  unfold GetMapKeyAsBool rejection
  cases Annotations.lookup a key with
  | none => simp
  | some s => cases h : (P.ParseBool s).err <;> simp [h]

/-- The errors of a `GetMapKeyAsInt64` result are the `rejection` of the key. -/
theorem GetMapKeyAsInt64_rejection (P : Parsers) (a : Annotations) (key : String) :
    (if (GetMapKeyAsInt64 P a key).present then (GetMapKeyAsInt64 P a key).err.toList else [])
      = rejection key (Annotations.lookup a key) P.ParseInt64 := by
  unfold GetMapKeyAsInt64 rejection
  cases Annotations.lookup a key with
  | none => simp
  | some s => cases h : (P.ParseInt64 s).err <;> simp [h]

/-- The three sibling keys of the HSTS group: their errors are appended to the log in
order, and `parsingErrors` is set when there is one. -/
theorem hstsSiblings_eq (P : Parsers) (a : Annotations) (log : List LogEntry) :
    hstsSiblings P a log
      = (log ++ (hstsSiblingErrors P a).map LogEntry.error,
          !(hstsSiblingErrors P a).isEmpty) := by
  unfold hstsSiblings hstsSiblingErrors
  simp only [hstsSibling_eq, GetMapKeyAsBool_rejection, GetMapKeyAsInt64_rejection]
  refine Prod.ext ?_ ?_
  · simp
  · generalize rejection "nginx.org/hsts-max-age"
      (Annotations.lookup a "nginx.org/hsts-max-age") P.ParseInt64 = e1
    generalize rejection "nginx.org/hsts-include-subdomains"
      (Annotations.lookup a "nginx.org/hsts-include-subdomains") P.ParseBool = e2
    generalize rejection "nginx.org/hsts-behind-proxy"
      (Annotations.lookup a "nginx.org/hsts-behind-proxy") P.ParseBool = e3
    cases e1 <;> cases e2 <;> cases e3 <;> rfl

/-- Closed form of the block `lbMethod`: the fields it writes and the entries it logs. -/
theorem lbMethod_eq (P : Parsers) (a : Annotations) (isPlus : Bool) (st : ParseState) :
    lbMethod P a isPlus st
      = ({ st.1 with
            LBMethod :=
              acceptedOr st.1.LBMethod (Annotations.lookup a "nginx.org/lb-method")
                  (lbMethodParser P isPlus) },
          st.2 ++
            ((rejection "nginx.org/lb-method" (Annotations.lookup a "nginx.org/lb-method")
                (lbMethodParser P isPlus)).map LogEntry.error)) := by
  unfold lbMethod logError lbMethodParser
  simp only [acceptedOr, rejection]
  (repeat' split) <;> first | rfl | simp_all

/-- Closed form of the block `healthChecks`: the fields it writes and the entries it logs. -/
theorem healthChecks_eq (P : Parsers) (a : Annotations) (isPlus : Bool) (st : ParseState) :
    healthChecks P a isPlus st
      = ({ st.1 with
            HealthCheckEnabled :=
              if isPlus then assignedOr st.1.HealthCheckEnabled
                  (Annotations.lookup a "nginx.com/health-checks") P.ParseBool
                      else st.1.HealthCheckEnabled },
          st.2 ++
            ((rejection "nginx.com/health-checks" (Annotations.lookup a "nginx.com/health-checks")
                P.ParseBool).map LogEntry.error ++
            capabilityWarning (Annotations.lookup a "nginx.com/health-checks") isPlus
              "Annotation 'nginx.com/health-checks' requires NGINX Plus")) := by
  unfold healthChecks logWarn logIfError logError GetMapKeyAsBool assignedOr capabilityWarning
  simp only [acceptedOr, rejection]
  (repeat' split) <;> first | rfl | simp_all

/-- Closed form of the block `healthChecksMandatory`: the fields it writes and the entries
it logs. -/
theorem healthChecksMandatory_eq (P : Parsers) (a : Annotations) (st : ParseState) :
    healthChecksMandatory P a st
      = ({ st.1 with
            HealthCheckMandatory :=
              if st.1.HealthCheckEnabled then
                assignedOr st.1.HealthCheckMandatory
                    (Annotations.lookup a "nginx.com/health-checks-mandatory") P.ParseBool
              else st.1.HealthCheckMandatory },
          st.2 ++
            (if st.1.HealthCheckEnabled then
              (rejection "nginx.com/health-checks-mandatory"
                  (Annotations.lookup a "nginx.com/health-checks-mandatory")
                      P.ParseBool).map LogEntry.error
            else [])) := by
  unfold healthChecksMandatory logIfError logError GetMapKeyAsBool assignedOr rejection
  by_cases hE : st.1.HealthCheckEnabled = true
  · rw [if_pos hE, if_pos hE, if_pos hE]
    cases Annotations.lookup a "nginx.com/health-checks-mandatory" with
    | none => simp
    | some s => cases h : (P.ParseBool s).err <;> simp [h]
  · rw [if_neg hE, if_neg hE, if_neg hE]
    simp

/-- Closed form of the block `healthChecksMandatoryQueue`: the fields it writes and the entries
it logs. -/
theorem healthChecksMandatoryQueue_eq (P : Parsers) (a : Annotations) (st : ParseState) :
    healthChecksMandatoryQueue P a st
      = ({ st.1 with
            HealthCheckMandatoryQueue :=
              if st.1.HealthCheckMandatory then
                assignedOr st.1.HealthCheckMandatoryQueue
                    (Annotations.lookup a "nginx.com/health-checks-mandatory-queue") P.ParseInt64
              else st.1.HealthCheckMandatoryQueue },
          st.2 ++
            (if st.1.HealthCheckMandatory then
              (rejection "nginx.com/health-checks-mandatory-queue"
                  (Annotations.lookup a "nginx.com/health-checks-mandatory-queue")
                      P.ParseInt64).map LogEntry.error
            else [])) := by
  unfold healthChecksMandatoryQueue logIfError logError GetMapKeyAsInt64 assignedOr rejection
  by_cases hE : st.1.HealthCheckMandatory = true
  · rw [if_pos hE, if_pos hE, if_pos hE]
    cases Annotations.lookup a "nginx.com/health-checks-mandatory-queue" with
    | none => simp
    | some s => cases h : (P.ParseInt64 s).err <;> simp [h]
  · rw [if_neg hE, if_neg hE, if_neg hE]
    simp

/-- Closed form of the block `slowStart`: the fields it writes and the entries it logs. -/
theorem slowStart_eq (P : Parsers) (a : Annotations) (isPlus : Bool) (st : ParseState) :
    slowStart P a isPlus st
      = ({ st.1 with
            SlowStart :=
              if isPlus then acceptedOr st.1.SlowStart
                  (Annotations.lookup a "nginx.com/slow-start") P.ParseTime else st.1.SlowStart },
          st.2 ++
            ((rejection "nginx.org/slow-start" (Annotations.lookup a "nginx.com/slow-start")
                P.ParseTime).map LogEntry.error ++
            capabilityWarning (accepted (Annotations.lookup a "nginx.com/slow-start")
                P.ParseTime) isPlus
              "Annotation 'nginx.com/slow-start' requires NGINX Plus")) := by
  unfold slowStart logWarn logError capabilityWarning accepted
  simp only [acceptedOr, rejection]
  (repeat' split) <;> first | rfl | simp_all

/-- Closed form of the block `serverTokens`: the fields it writes and the entries it logs. -/
theorem serverTokens_eq (P : Parsers) (a : Annotations) (isPlus : Bool) (st : ParseState) :
    serverTokens P a isPlus st
      = ({ st.1 with
            ServerTokens :=
              serverTokensValue P isPlus st.1.ServerTokens
                  (Annotations.lookup a "nginx.org/server-tokens") },
          st.2 ++
            (if isPlus then [] else (rejection "nginx.org/server-tokens"
                (Annotations.lookup a "nginx.org/server-tokens")
                    P.ParseBool).map LogEntry.error)) := by
  unfold serverTokens logError GetMapKeyAsBool serverTokensValue
  simp only [acceptedOr, rejection]
  (repeat' split) <;> first | rfl | simp_all

/-- Closed form of the block `serverSnippets`: the fields it writes and the entries it logs. -/
theorem serverSnippets_eq (P : Parsers) (a : Annotations) (st : ParseState) :
    serverSnippets P a st
      = ({ st.1 with
            ServerSnippets :=
              (GetMapKeyAsStringSlice P a "nginx.org/server-snippets" "\n").getD st.1.ServerSnippets },
          st.2) := by
  unfold serverSnippets
  simp only [acceptedOr, rejection]
  (repeat' split) <;> first | rfl | simp_all

/-- Closed form of the block `locationSnippets`: the fields it writes and the entries it logs. -/
theorem locationSnippets_eq (P : Parsers) (a : Annotations) (st : ParseState) :
    locationSnippets P a st
      = ({ st.1 with
            LocationSnippets :=
              (GetMapKeyAsStringSlice P a "nginx.org/location-snippets" "\n").getD st.1.LocationSnippets },
          st.2) := by
  unfold locationSnippets
  simp only [acceptedOr, rejection]
  (repeat' split) <;> first | rfl | simp_all

/-- Closed form of the block `proxyConnectTimeout`: the fields it writes and the entries
it logs. -/
theorem proxyConnectTimeout_eq (P : Parsers) (a : Annotations) (st : ParseState) :
    proxyConnectTimeout P a st
      = ({ st.1 with
            ProxyConnectTimeout :=
              acceptedOr st.1.ProxyConnectTimeout
                  (Annotations.lookup a "nginx.org/proxy-connect-timeout") P.ParseTime },
          st.2 ++
            ((rejection "nginx.org/proxy-connect-timeout"
                (Annotations.lookup a "nginx.org/proxy-connect-timeout")
                    P.ParseTime).map LogEntry.error)) := by
  unfold proxyConnectTimeout logError
  simp only [acceptedOr, rejection]
  (repeat' split) <;> first | rfl | simp_all

/-- Closed form of the block `proxyReadTimeout`: the fields it writes and the entries it logs. -/
theorem proxyReadTimeout_eq (P : Parsers) (a : Annotations) (st : ParseState) :
    proxyReadTimeout P a st
      = ({ st.1 with
            ProxyReadTimeout :=
              acceptedOr st.1.ProxyReadTimeout
                  (Annotations.lookup a "nginx.org/proxy-read-timeout") P.ParseTime },
          st.2 ++
            ((rejection "nginx.org/proxy-read-timeout"
                (Annotations.lookup a "nginx.org/proxy-read-timeout")
                    P.ParseTime).map LogEntry.error)) := by
  unfold proxyReadTimeout logError
  simp only [acceptedOr, rejection]
  (repeat' split) <;> first | rfl | simp_all

/-- Closed form of the block `proxySendTimeout`: the fields it writes and the entries it logs. -/
theorem proxySendTimeout_eq (P : Parsers) (a : Annotations) (st : ParseState) :
    proxySendTimeout P a st
      = ({ st.1 with
            ProxySendTimeout :=
              acceptedOr st.1.ProxySendTimeout
                  (Annotations.lookup a "nginx.org/proxy-send-timeout") P.ParseTime },
          st.2 ++
            ((rejection "nginx.org/proxy-send-timeout"
                (Annotations.lookup a "nginx.org/proxy-send-timeout")
                    P.ParseTime).map LogEntry.error)) := by
  unfold proxySendTimeout logError
  simp only [acceptedOr, rejection]
  (repeat' split) <;> first | rfl | simp_all

/-- Closed form of the block `proxyHideHeaders`: the fields it writes and the entries it logs. -/
theorem proxyHideHeaders_eq (P : Parsers) (a : Annotations) (st : ParseState) :
    proxyHideHeaders P a st
      = ({ st.1 with
            ProxyHideHeaders :=
              (GetMapKeyAsStringSlice P a "nginx.org/proxy-hide-headers" ",").getD st.1.ProxyHideHeaders },
          st.2) := by
  unfold proxyHideHeaders
  simp only [acceptedOr, rejection]
  (repeat' split) <;> first | rfl | simp_all

/-- Closed form of the block `proxyPassHeaders`: the fields it writes and the entries it logs. -/
theorem proxyPassHeaders_eq (P : Parsers) (a : Annotations) (st : ParseState) :
    proxyPassHeaders P a st
      = ({ st.1 with
            ProxyPassHeaders :=
              (GetMapKeyAsStringSlice P a "nginx.org/proxy-pass-headers" ",").getD st.1.ProxyPassHeaders },
          st.2) := by
  unfold proxyPassHeaders
  simp only [acceptedOr, rejection]
  (repeat' split) <;> first | rfl | simp_all

/-- Closed form of the block `proxySetHeaders`: the fields it writes and the entries it logs. -/
theorem proxySetHeaders_eq (P : Parsers) (a : Annotations) (st : ParseState) :
    proxySetHeaders P a st
      = ({ st.1 with
            ProxySetHeaders :=
              ((GetMapKeyAsStringSlice P a "nginx.org/proxy-set-headers" ",").map
                P.parseProxySetHeaders).getD st.1.ProxySetHeaders },
          st.2) := by
  unfold proxySetHeaders
  simp only [acceptedOr, rejection]
  (repeat' split) <;> first | rfl | simp_all

/-- Closed form of the block `clientMaxBodySize`: the fields it writes and the entries it logs. -/
theorem clientMaxBodySize_eq (a : Annotations) (st : ParseState) :
    clientMaxBodySize a st
      = ({ st.1 with
            ClientMaxBodySize :=
              (Annotations.lookup a "nginx.org/client-max-body-size").getD st.1.ClientMaxBodySize },
          st.2) := by
  unfold clientMaxBodySize
  simp only [acceptedOr, rejection]
  (repeat' split) <;> first | rfl | simp_all

/-- Closed form of the block `redirectToHTTPS`: the fields it writes and the entries it logs. -/
theorem redirectToHTTPS_eq (P : Parsers) (a : Annotations) (st : ParseState) :
    redirectToHTTPS P a st
      = ({ st.1 with
            RedirectToHTTPS :=
              acceptedOr st.1.RedirectToHTTPS (Annotations.lookup a "nginx.org/redirect-to-https")
                  P.ParseBool },
          st.2 ++
            ((rejection "nginx.org/redirect-to-https"
                (Annotations.lookup a "nginx.org/redirect-to-https")
                    P.ParseBool).map LogEntry.error)) := by
  unfold redirectToHTTPS logError GetMapKeyAsBool
  simp only [acceptedOr, rejection]
  (repeat' split) <;> first | rfl | simp_all

/-- Closed form of the block `sslRedirect`: the fields it writes and the entries it logs. -/
theorem sslRedirect_eq (P : Parsers) (a : Annotations) (st : ParseState) :
    sslRedirect P a st
      = ({ st.1 with
            SSLRedirect :=
              acceptedOr st.1.SSLRedirect
                  (Annotations.lookup a "ingress.kubernetes.io/ssl-redirect") P.ParseBool },
          st.2 ++
            ((rejection "ingress.kubernetes.io/ssl-redirect"
                (Annotations.lookup a "ingress.kubernetes.io/ssl-redirect")
                    P.ParseBool).map LogEntry.error)) := by
  unfold sslRedirect logError GetMapKeyAsBool
  simp only [acceptedOr, rejection]
  (repeat' split) <;> first | rfl | simp_all

/-- Closed form of the block `proxyBuffering`: the fields it writes and the entries it logs. -/
theorem proxyBuffering_eq (P : Parsers) (a : Annotations) (st : ParseState) :
    proxyBuffering P a st
      = ({ st.1 with
            ProxyBuffering :=
              acceptedOr st.1.ProxyBuffering (Annotations.lookup a "nginx.org/proxy-buffering")
                  P.ParseBool },
          st.2 ++
            ((rejection "nginx.org/proxy-buffering"
                (Annotations.lookup a "nginx.org/proxy-buffering")
                    P.ParseBool).map LogEntry.error)) := by
  unfold proxyBuffering logError GetMapKeyAsBool
  simp only [acceptedOr, rejection]
  (repeat' split) <;> first | rfl | simp_all

/-- Closed form of the block `hsts`: the fields it writes and the entries it logs. -/
theorem hsts_eq (P : Parsers) (a : Annotations) (st : ParseState) :
    hsts P a st
      = ({ st.1 with
            HSTS :=
              if hstsCommits P a then assignedOr st.1.HSTS (Annotations.lookup a "nginx.org/hsts")
                  P.ParseBool else st.1.HSTS
            HSTSMaxAge :=
              if hstsCommits P a then
                assignedOr st.1.HSTSMaxAge (Annotations.lookup a "nginx.org/hsts-max-age")
                    P.ParseInt64
              else st.1.HSTSMaxAge
            HSTSIncludeSubdomains :=
              if hstsCommits P a then
                assignedOr st.1.HSTSIncludeSubdomains
                    (Annotations.lookup a "nginx.org/hsts-include-subdomains") P.ParseBool
              else st.1.HSTSIncludeSubdomains
            HSTSBehindProxy :=
              if hstsCommits P a then
                assignedOr st.1.HSTSBehindProxy
                    (Annotations.lookup a "nginx.org/hsts-behind-proxy") P.ParseBool
              else st.1.HSTSBehindProxy },
          st.2 ++
            (hstsLog P a)) := by
  unfold hsts
  simp only [hstsSiblings_eq, GetMapKeyAsBool_assigned, GetMapKeyAsInt64_assigned]
  unfold hstsCommits hstsLog logError GetMapKeyAsBool accepted assignedOr rejection
  cases Annotations.lookup a "nginx.org/hsts" with
  | none => simp
  | some s =>
    cases h : (P.ParseBool s).err with
    | some cause => simp [h]
    | none => cases h2 : hstsSiblingErrors P a <;> simp [h, h2]

/-- Closed form of the block `proxyBuffers`: the fields it writes and the entries it logs. -/
theorem proxyBuffers_eq (a : Annotations) (st : ParseState) :
    proxyBuffers a st
      = ({ st.1 with
            ProxyBuffers :=
              (Annotations.lookup a "nginx.org/proxy-buffers").getD st.1.ProxyBuffers },
          st.2) := by
  unfold proxyBuffers
  simp only [acceptedOr, rejection]
  (repeat' split) <;> first | rfl | simp_all

/-- Closed form of the block `proxyBufferSize`: the fields it writes and the entries it logs. -/
theorem proxyBufferSize_eq (a : Annotations) (st : ParseState) :
    proxyBufferSize a st
      = ({ st.1 with
            ProxyBufferSize :=
              (Annotations.lookup a "nginx.org/proxy-buffer-size").getD st.1.ProxyBufferSize },
          st.2) := by
  unfold proxyBufferSize
  simp only [acceptedOr, rejection]
  (repeat' split) <;> first | rfl | simp_all

/-- Closed form of the block `upstreamZoneSize`: the fields it writes and the entries it logs. -/
theorem upstreamZoneSize_eq (a : Annotations) (st : ParseState) :
    upstreamZoneSize a st
      = ({ st.1 with
            UpstreamZoneSize :=
              (Annotations.lookup a "nginx.org/upstream-zone-size").getD st.1.UpstreamZoneSize },
          st.2) := by
  unfold upstreamZoneSize
  simp only [acceptedOr, rejection]
  (repeat' split) <;> first | rfl | simp_all

/-- Closed form of the block `proxyMaxTempFileSize`: the fields it writes and the entries
it logs. -/
theorem proxyMaxTempFileSize_eq (a : Annotations) (st : ParseState) :
    proxyMaxTempFileSize a st
      = ({ st.1 with
            ProxyMaxTempFileSize :=
              (Annotations.lookup a "nginx.org/proxy-max-temp-file-size").getD st.1.ProxyMaxTempFileSize },
          st.2) := by
  unfold proxyMaxTempFileSize
  simp only [acceptedOr, rejection]
  (repeat' split) <;> first | rfl | simp_all

/-- Closed form of the block `jwt`: the fields it writes and the entries it logs. -/
theorem jwt_eq (a : Annotations) (isPlus : Bool) (st : ParseState) :
    jwt a isPlus st
      = ({ st.1 with
            JWTRealm :=
              if isPlus then (Annotations.lookup a "nginx.com/jwt-realm").getD st.1.JWTRealm
                  else st.1.JWTRealm
            JWTKey :=
              if isPlus then (Annotations.lookup a JWTKeyAnnotation).getD st.1.JWTKey
                  else st.1.JWTKey
            JWTToken :=
              if isPlus then (Annotations.lookup a "nginx.com/jwt-token").getD st.1.JWTToken
                  else st.1.JWTToken
            JWTLoginURL :=
              if isPlus then
                  (Annotations.lookup a "nginx.com/jwt-login-url").getD st.1.JWTLoginURL
                      else st.1.JWTLoginURL },
          st.2) := by
  unfold jwt jwtLoginURL jwtToken jwtKey jwtRealm
  simp only [acceptedOr, rejection]
  (repeat' split) <;> first | rfl | simp_all

/-- Closed form of the block `basicAuthSecret`: the fields it writes and the entries it logs. -/
theorem basicAuthSecret_eq (a : Annotations) (st : ParseState) :
    basicAuthSecret a st
      = ({ st.1 with
            BasicAuthSecret :=
              (Annotations.lookup a BasicAuthSecretAnnotation).getD st.1.BasicAuthSecret },
          st.2) := by
  unfold basicAuthSecret
  simp only [acceptedOr, rejection]
  (repeat' split) <;> first | rfl | simp_all

/-- Closed form of the block `basicAuthRealm`: the fields it writes and the entries it logs. -/
theorem basicAuthRealm_eq (a : Annotations) (st : ParseState) :
    basicAuthRealm a st
      = ({ st.1 with
            BasicAuthRealm :=
              (Annotations.lookup a "nginx.org/basic-auth-realm").getD st.1.BasicAuthRealm },
          st.2) := by
  unfold basicAuthRealm
  simp only [acceptedOr, rejection]
  (repeat' split) <;> first | rfl | simp_all

/-- Closed form of the block `listenPorts`: the fields it writes and the entries it logs. -/
theorem listenPorts_eq (P : Parsers) (a : Annotations) (st : ParseState) :
    listenPorts P a st
      = ({ st.1 with
            Ports :=
              portsOr st.1.Ports (Annotations.lookup a "nginx.org/listen-ports")
                  P.ParsePortList },
          st.2 ++
            ((rejection "nginx.org/listen-ports" (Annotations.lookup a "nginx.org/listen-ports")
                P.ParsePortList).map LogEntry.error)) := by
  unfold listenPorts setPortsPorts logError portsOr
  simp only [acceptedOr, rejection]
  (repeat' split) <;> first | rfl | simp_all

/-- Closed form of the block `listenPortsSSL`: the fields it writes and the entries it logs. -/
theorem listenPortsSSL_eq (P : Parsers) (a : Annotations) (st : ParseState) :
    listenPortsSSL P a st
      = ({ st.1 with
            SSLPorts :=
              portsOr st.1.SSLPorts (Annotations.lookup a "nginx.org/listen-ports-ssl")
                  P.ParsePortList },
          st.2 ++
            ((rejection "nginx.org/listen-ports-ssl"
                (Annotations.lookup a "nginx.org/listen-ports-ssl")
                    P.ParsePortList).map LogEntry.error)) := by
  unfold listenPortsSSL setPortsSSLPorts logError portsOr
  simp only [acceptedOr, rejection]
  (repeat' split) <;> first | rfl | simp_all

/-- Closed form of the block `keepalive`: the fields it writes and the entries it logs. -/
theorem keepalive_eq (P : Parsers) (a : Annotations) (st : ParseState) :
    keepalive P a st
      = ({ st.1 with
            Keepalive :=
              acceptedOr st.1.Keepalive (Annotations.lookup a "nginx.org/keepalive") P.ParseInt },
          st.2 ++
            ((rejection "nginx.org/keepalive" (Annotations.lookup a "nginx.org/keepalive")
                P.ParseInt).map LogEntry.error)) := by
  unfold keepalive logError GetMapKeyAsInt
  simp only [acceptedOr, rejection]
  (repeat' split) <;> first | rfl | simp_all

/-- Closed form of the block `maxFails`: the fields it writes and the entries it logs. -/
theorem maxFails_eq (P : Parsers) (a : Annotations) (st : ParseState) :
    maxFails P a st
      = ({ st.1 with
            MaxFails :=
              acceptedOr st.1.MaxFails (Annotations.lookup a "nginx.org/max-fails") P.ParseInt },
          st.2 ++
            ((rejection "nginx.org/max-fails" (Annotations.lookup a "nginx.org/max-fails")
                P.ParseInt).map LogEntry.error)) := by
  unfold maxFails logError GetMapKeyAsInt
  simp only [acceptedOr, rejection]
  (repeat' split) <;> first | rfl | simp_all

/-- Closed form of the block `maxConns`: the fields it writes and the entries it logs. -/
theorem maxConns_eq (P : Parsers) (a : Annotations) (st : ParseState) :
    maxConns P a st
      = ({ st.1 with
            MaxConns :=
              acceptedOr st.1.MaxConns (Annotations.lookup a "nginx.org/max-conns") P.ParseInt },
          st.2 ++
            ((rejection "nginx.org/max-conns" (Annotations.lookup a "nginx.org/max-conns")
                P.ParseInt).map LogEntry.error)) := by
  unfold maxConns logError GetMapKeyAsInt
  simp only [acceptedOr, rejection]
  (repeat' split) <;> first | rfl | simp_all

/-- Closed form of the block `failTimeout`: the fields it writes and the entries it logs. -/
theorem failTimeout_eq (P : Parsers) (a : Annotations) (st : ParseState) :
    failTimeout P a st
      = ({ st.1 with
            FailTimeout :=
              acceptedOr st.1.FailTimeout (Annotations.lookup a "nginx.org/fail-timeout")
                  P.ParseTime },
          st.2 ++
            ((rejection "nginx.org/fail-timeout" (Annotations.lookup a "nginx.org/fail-timeout")
                P.ParseTime).map LogEntry.error)) := by
  unfold failTimeout logError
  simp only [acceptedOr, rejection]
  (repeat' split) <;> first | rfl | simp_all

/-- Closed form of the block `appProtect`: the fields it writes and the entries it logs. -/
theorem appProtect_eq (P : Parsers) (a : Annotations) (hasAppProtect : Bool) (st : ParseState) :
    appProtect P a hasAppProtect st
      = ({ st.1 with
            AppProtectEnable :=
              if hasAppProtect then
                acceptedOr st.1.AppProtectEnable
                    (Annotations.lookup a "appprotect.f5.com/app-protect-enable") (parseOnOff P)
              else st.1.AppProtectEnable
            AppProtectLogEnable :=
              if hasAppProtect then
                acceptedOr st.1.AppProtectLogEnable
                  (Annotations.lookup a "appprotect.f5.com/app-protect-security-log-enable")
                  (parseOnOff P)
              else st.1.AppProtectLogEnable },
          st.2 ++
            (if hasAppProtect then
              (rejection "appprotect.f5.com/app-protect-enable"
                  (Annotations.lookup a "appprotect.f5.com/app-protect-enable")
                      P.ParseBool).map LogEntry.error ++
              (rejection "appprotect.f5.com/app-protect-security-log-enable"
                (Annotations.lookup a "appprotect.f5.com/app-protect-security-log-enable")
                P.ParseBool).map LogEntry.error
            else [])) := by
  unfold appProtect appProtectLogEnable appProtectEnable logError GetMapKeyAsBool parseOnOff
  simp only [acceptedOr, rejection]
  (repeat' split) <;> first | rfl | simp_all

/-- Closed form of the block `appProtectDos`: the fields it writes and the entries it logs. -/
theorem appProtectDos_eq (a : Annotations) (hasAppProtectDos : Bool) (st : ParseState) :
    appProtectDos a hasAppProtectDos st
      = ({ st.1 with
            AppProtectDosResource :=
              if hasAppProtectDos then
                (Annotations.lookup a "appprotectdos.f5.com/app-protect-dos-resource").getD st.1.AppProtectDosResource
              else st.1.AppProtectDosResource },
          st.2) := by
  unfold appProtectDos
  simp only [acceptedOr, rejection]
  (repeat' split) <;> first | rfl | simp_all

/-- Closed form of the block `internalRoute`: the fields it writes and the entries it logs. -/
theorem internalRoute_eq (P : Parsers) (a : Annotations) (enableInternalRoutes : Bool)
    (st : ParseState) :
    internalRoute P a enableInternalRoutes st
      = ({ st.1 with
            SpiffeServerCerts :=
              if enableInternalRoutes then
                acceptedOr st.1.SpiffeServerCerts
                    (Annotations.lookup a nginxMeshInternalRouteAnnotation) P.ParseBool
              else st.1.SpiffeServerCerts },
          st.2 ++
            (if enableInternalRoutes then
              (rejection nginxMeshInternalRouteAnnotation
                (Annotations.lookup a nginxMeshInternalRouteAnnotation) P.ParseBool).map
                LogEntry.error
            else [])) := by
  unfold internalRoute logError GetMapKeyAsBool
  simp only [acceptedOr, rejection]
  (repeat' split) <;> first | rfl | simp_all

/-- Closed form of the block `pathRegex`: the fields it writes and the entries it logs. -/
theorem pathRegex_eq (a : Annotations) (st : ParseState) :
    pathRegex a st
      = (st.1,
          st.2 ++
            ((rejection "nginx.org/path-regex" (Annotations.lookup a PathRegexAnnotation)
            parsePathRegex).map LogEntry.error)) := by
  unfold pathRegex logError parsePathRegex
  simp only [acceptedOr, rejection]
  (repeat' split) <;> first | rfl | simp_all

/-- Closed form of the block `useClusterIP`: the fields it writes and the entries it logs. -/
theorem useClusterIP_eq (P : Parsers) (a : Annotations) (st : ParseState) :
    useClusterIP P a st
      = ({ st.1 with
            UseClusterIP :=
              acceptedOr st.1.UseClusterIP (Annotations.lookup a UseClusterIPAnnotation)
                  P.ParseBool },
          st.2 ++
            ((rejection UseClusterIPAnnotation (Annotations.lookup a UseClusterIPAnnotation)
            P.ParseBool).map LogEntry.error)) := by
  unfold useClusterIP logError GetMapKeyAsBool
  simp only [acceptedOr, rejection]
  (repeat' split) <;> first | rfl | simp_all

/-! ## Closed form of the rate-limit sub-resolver -/

/-- Closed form of the block `limitReqRate`: the field it writes and the error it returns. -/
theorem limitReqRate_eq (P : Parsers) (a : Annotations) (st : RateLimitState) :
    limitReqRate P a st
      = ({ st.1 with
            LimitReqRate :=
              acceptedOr st.1.LimitReqRate (Annotations.lookup a "nginx.org/limit-req-rate")
                  P.ParseRequestRate },
          st.2 ++
            rejection "nginx.org/limit-req-rate"
              (Annotations.lookup a "nginx.org/limit-req-rate") P.ParseRequestRate) := by
  unfold limitReqRate
  simp only [acceptedOr, rejection]
  (repeat' split) <;> first | rfl | simp_all

/-- Closed form of the block `limitReqKey`: the field it writes and the error it returns. -/
theorem limitReqKey_eq (a : Annotations) (st : RateLimitState) :
    limitReqKey a st
      = ({ st.1 with
            LimitReqKey :=
              (Annotations.lookup a "nginx.org/limit-req-key").getD st.1.LimitReqKey },
          st.2) := by
  unfold limitReqKey
  simp only [acceptedOr, rejection]
  (repeat' split) <;> first | rfl | simp_all

/-- Closed form of the block `limitReqZoneSize`: the field it writes and the error it returns. -/
theorem limitReqZoneSize_eq (P : Parsers) (a : Annotations) (st : RateLimitState) :
    limitReqZoneSize P a st
      = ({ st.1 with
            LimitReqZoneSize :=
              acceptedOr st.1.LimitReqZoneSize
                  (Annotations.lookup a "nginx.org/limit-req-zone-size") P.ParseSize },
          st.2 ++
            rejection "nginx.org/limit-req-zone-size"
              (Annotations.lookup a "nginx.org/limit-req-zone-size") P.ParseSize) := by
  unfold limitReqZoneSize
  simp only [acceptedOr, rejection]
  (repeat' split) <;> first | rfl | simp_all

/-- Closed form of the block `limitReqDelay`: the field it writes and the error it returns. -/
theorem limitReqDelay_eq (P : Parsers) (a : Annotations) (st : RateLimitState) :
    limitReqDelay P a st
      = ({ st.1 with
            LimitReqDelay :=
              acceptedOr st.1.LimitReqDelay (Annotations.lookup a "nginx.org/limit-req-delay")
                  P.ParseInt },
          st.2 ++
            rejection "nginx.org/limit-req-delay"
              (Annotations.lookup a "nginx.org/limit-req-delay") P.ParseInt) := by
  unfold limitReqDelay GetMapKeyAsInt
  simp only [acceptedOr, rejection]
  (repeat' split) <;> first | rfl | simp_all

/-- Closed form of the block `limitReqNoDelay`: the field it writes and the error it returns. -/
theorem limitReqNoDelay_eq (P : Parsers) (a : Annotations) (st : RateLimitState) :
    limitReqNoDelay P a st
      = ({ st.1 with
            LimitReqNoDelay :=
              acceptedOr st.1.LimitReqNoDelay
                  (Annotations.lookup a "nginx.org/limit-req-no-delay") P.ParseBool },
          st.2 ++
            rejection "nginx.org/limit-req-no-delay"
              (Annotations.lookup a "nginx.org/limit-req-no-delay") P.ParseBool) := by
  unfold limitReqNoDelay GetMapKeyAsBool
  simp only [acceptedOr, rejection]
  (repeat' split) <;> first | rfl | simp_all

/-- Closed form of the block `limitReqBurst`: the field it writes and the error it returns. -/
theorem limitReqBurst_eq (P : Parsers) (a : Annotations) (st : RateLimitState) :
    limitReqBurst P a st
      = ({ st.1 with
            LimitReqBurst :=
              acceptedOr st.1.LimitReqBurst (Annotations.lookup a "nginx.org/limit-req-burst")
                  P.ParseInt },
          st.2 ++
            rejection "nginx.org/limit-req-burst"
              (Annotations.lookup a "nginx.org/limit-req-burst") P.ParseInt) := by
  unfold limitReqBurst GetMapKeyAsInt
  simp only [acceptedOr, rejection]
  (repeat' split) <;> first | rfl | simp_all

/-- Closed form of the block `limitReqDryRun`: the field it writes and the error it returns. -/
theorem limitReqDryRun_eq (P : Parsers) (a : Annotations) (st : RateLimitState) :
    limitReqDryRun P a st
      = ({ st.1 with
            LimitReqDryRun :=
              acceptedOr st.1.LimitReqDryRun (Annotations.lookup a "nginx.org/limit-req-dry-run")
                  P.ParseBool },
          st.2 ++
            rejection "nginx.org/limit-req-dry-run"
              (Annotations.lookup a "nginx.org/limit-req-dry-run") P.ParseBool) := by
  unfold limitReqDryRun GetMapKeyAsBool
  simp only [acceptedOr, rejection]
  (repeat' split) <;> first | rfl | simp_all

/-- Closed form of the block `limitReqLogLevel`: the field it writes and the error it returns. -/
theorem limitReqLogLevel_eq (a : Annotations) (st : RateLimitState) :
    limitReqLogLevel a st
      = ({ st.1 with
            LimitReqLogLevel :=
              acceptedOr st.1.LimitReqLogLevel
                  (Annotations.lookup a "nginx.org/limit-req-log-level") parseLogLevel },
          st.2 ++
            rejection "nginx.org/limit-req-log-level"
              (Annotations.lookup a "nginx.org/limit-req-log-level") parseLogLevel) := by
  unfold limitReqLogLevel parseLogLevel
  simp only [acceptedOr, rejection]
  (repeat' split) <;> first | rfl | simp_all

/-- Closed form of the block `limitReqRejectCode`: the field it writes and the error it returns. -/
theorem limitReqRejectCode_eq (P : Parsers) (a : Annotations) (st : RateLimitState) :
    limitReqRejectCode P a st
      = ({ st.1 with
            LimitReqRejectCode :=
              acceptedOr st.1.LimitReqRejectCode
                  (Annotations.lookup a "nginx.org/limit-req-reject-code") P.ParseInt },
          st.2 ++
            rejection "nginx.org/limit-req-reject-code"
              (Annotations.lookup a "nginx.org/limit-req-reject-code") P.ParseInt) := by
  unfold limitReqRejectCode GetMapKeyAsInt
  simp only [acceptedOr, rejection]
  (repeat' split) <;> first | rfl | simp_all

/-- Closed form of the block `limitReqScale`: the field it writes and the error it returns. -/
theorem limitReqScale_eq (P : Parsers) (a : Annotations) (st : RateLimitState) :
    limitReqScale P a st
      = ({ st.1 with
            LimitReqScale :=
              acceptedOr st.1.LimitReqScale (Annotations.lookup a "nginx.org/limit-req-scale")
                  P.ParseBool },
          st.2 ++
            rejection "nginx.org/limit-req-scale"
              (Annotations.lookup a "nginx.org/limit-req-scale") P.ParseBool) := by
  unfold limitReqScale GetMapKeyAsBool
  simp only [acceptedOr, rejection]
  (repeat' split) <;> first | rfl | simp_all

/-- Closed form of `parseRateLimitAnnotations`: every rate-limit field is resolved on
its own, and the errors of the keys are returned in the order of the source. -/
theorem parseRateLimitAnnotations_eq (P : Parsers) (a : Annotations) (cfgParams : ConfigParams) :
    parseRateLimitAnnotations P a cfgParams
      = ({ cfgParams with
          LimitReqRate :=
            acceptedOr cfgParams.LimitReqRate (Annotations.lookup a "nginx.org/limit-req-rate")
                P.ParseRequestRate
          LimitReqKey :=
            (Annotations.lookup a "nginx.org/limit-req-key").getD cfgParams.LimitReqKey
          LimitReqZoneSize :=
            acceptedOr cfgParams.LimitReqZoneSize
                (Annotations.lookup a "nginx.org/limit-req-zone-size") P.ParseSize
          LimitReqDelay :=
            acceptedOr cfgParams.LimitReqDelay (Annotations.lookup a "nginx.org/limit-req-delay")
                P.ParseInt
          LimitReqNoDelay :=
            acceptedOr cfgParams.LimitReqNoDelay
                (Annotations.lookup a "nginx.org/limit-req-no-delay") P.ParseBool
          LimitReqBurst :=
            acceptedOr cfgParams.LimitReqBurst (Annotations.lookup a "nginx.org/limit-req-burst")
                P.ParseInt
          LimitReqDryRun :=
            acceptedOr cfgParams.LimitReqDryRun
                (Annotations.lookup a "nginx.org/limit-req-dry-run") P.ParseBool
          LimitReqLogLevel :=
            acceptedOr cfgParams.LimitReqLogLevel
                (Annotations.lookup a "nginx.org/limit-req-log-level") parseLogLevel
          LimitReqRejectCode :=
            acceptedOr cfgParams.LimitReqRejectCode
                (Annotations.lookup a "nginx.org/limit-req-reject-code") P.ParseInt
          LimitReqScale :=
            acceptedOr cfgParams.LimitReqScale (Annotations.lookup a "nginx.org/limit-req-scale")
                P.ParseBool },
          rateLimitErrors P a) := by
  unfold parseRateLimitAnnotations rateLimitErrors
  simp only [
    limitReqRate_eq, limitReqKey_eq, limitReqZoneSize_eq, limitReqDelay_eq, limitReqNoDelay_eq,
    limitReqBurst_eq, limitReqDryRun_eq, limitReqLogLevel_eq, limitReqRejectCode_eq,
    limitReqScale_eq,
    List.nil_append, List.append_assoc]

/-- Closed form of the block `rateLimit`: the fields it writes and the entries it logs. -/
theorem rateLimit_eq (P : Parsers) (a : Annotations) (st : ParseState) :
    rateLimit P a st
      = ({ st.1 with
            LimitReqRate :=
              acceptedOr st.1.LimitReqRate (Annotations.lookup a "nginx.org/limit-req-rate")
                  P.ParseRequestRate
            LimitReqKey :=
              (Annotations.lookup a "nginx.org/limit-req-key").getD st.1.LimitReqKey
            LimitReqZoneSize :=
              acceptedOr st.1.LimitReqZoneSize
                  (Annotations.lookup a "nginx.org/limit-req-zone-size") P.ParseSize
            LimitReqDelay :=
              acceptedOr st.1.LimitReqDelay (Annotations.lookup a "nginx.org/limit-req-delay")
                  P.ParseInt
            LimitReqNoDelay :=
              acceptedOr st.1.LimitReqNoDelay
                  (Annotations.lookup a "nginx.org/limit-req-no-delay") P.ParseBool
            LimitReqBurst :=
              acceptedOr st.1.LimitReqBurst (Annotations.lookup a "nginx.org/limit-req-burst")
                  P.ParseInt
            LimitReqDryRun :=
              acceptedOr st.1.LimitReqDryRun (Annotations.lookup a "nginx.org/limit-req-dry-run")
                  P.ParseBool
            LimitReqLogLevel :=
              acceptedOr st.1.LimitReqLogLevel
                  (Annotations.lookup a "nginx.org/limit-req-log-level") parseLogLevel
            LimitReqRejectCode :=
              acceptedOr st.1.LimitReqRejectCode
                  (Annotations.lookup a "nginx.org/limit-req-reject-code") P.ParseInt
            LimitReqScale :=
              acceptedOr st.1.LimitReqScale (Annotations.lookup a "nginx.org/limit-req-scale")
                  P.ParseBool },
          st.2 ++ (rateLimitErrors P a).map LogEntry.error) := by
  unfold rateLimit
  rw [parseRateLimitAnnotations_eq]

/-! ## Closed form of the resolver -/

/-- Closed form of `parseAnnotations`: the returned configuration is `resolvedConfig`
and the log is `resolvedLog`. -/
theorem parseAnnotations_eq (P : Parsers) (a : Annotations) (base : ConfigParams)
    (isPlus hasAppProtect hasAppProtectDos enableInternalRoutes : Bool) :
    parseAnnotations P a base isPlus hasAppProtect hasAppProtectDos enableInternalRoutes
      = (resolvedConfig P a base isPlus hasAppProtect hasAppProtectDos enableInternalRoutes,
          resolvedLog P a base isPlus hasAppProtect hasAppProtectDos enableInternalRoutes) := by
  unfold parseAnnotations resolvedConfig resolvedLog resolvedHealthCheckMandatory
    resolvedHealthCheckEnabled
  simp only [
    lbMethod_eq, healthChecks_eq, healthChecksMandatory_eq, healthChecksMandatoryQueue_eq,
    slowStart_eq, serverTokens_eq, serverSnippets_eq, locationSnippets_eq,
    proxyConnectTimeout_eq, proxyReadTimeout_eq, proxySendTimeout_eq, proxyHideHeaders_eq,
    proxyPassHeaders_eq, proxySetHeaders_eq, clientMaxBodySize_eq, redirectToHTTPS_eq,
    sslRedirect_eq, proxyBuffering_eq, hsts_eq, proxyBuffers_eq, proxyBufferSize_eq,
    upstreamZoneSize_eq, proxyMaxTempFileSize_eq, jwt_eq, basicAuthSecret_eq,
    basicAuthRealm_eq, listenPorts_eq, listenPortsSSL_eq, keepalive_eq, maxFails_eq,
    maxConns_eq, failTimeout_eq, appProtect_eq, appProtectDos_eq, internalRoute_eq,
    pathRegex_eq, useClusterIP_eq, rateLimit_eq,
    List.nil_append, List.append_assoc, List.append_nil]

/-! ## The fields of the resolved configuration -/

/-- The field `LBMethod` of the resolved configuration. -/
theorem resolvedConfig_LBMethod (P : Parsers) (a : Annotations) (base : ConfigParams)
    (isPlus hasAppProtect hasAppProtectDos enableInternalRoutes : Bool) :
    (resolvedConfig P a base isPlus hasAppProtect hasAppProtectDos
        enableInternalRoutes).LBMethod
      = acceptedOr base.LBMethod (Annotations.lookup a "nginx.org/lb-method")
            (lbMethodParser P isPlus) :=
  rfl

/-- The field `HealthCheckEnabled` of the resolved configuration. -/
theorem resolvedConfig_HealthCheckEnabled (P : Parsers) (a : Annotations) (base : ConfigParams)
    (isPlus hasAppProtect hasAppProtectDos enableInternalRoutes : Bool) :
    (resolvedConfig P a base isPlus hasAppProtect hasAppProtectDos
        enableInternalRoutes).HealthCheckEnabled
      = resolvedHealthCheckEnabled P a base isPlus :=
  rfl

/-- The field `HealthCheckMandatory` of the resolved configuration. -/
theorem resolvedConfig_HealthCheckMandatory (P : Parsers) (a : Annotations) (base : ConfigParams)
    (isPlus hasAppProtect hasAppProtectDos enableInternalRoutes : Bool) :
    (resolvedConfig P a base isPlus hasAppProtect hasAppProtectDos
        enableInternalRoutes).HealthCheckMandatory
      = resolvedHealthCheckMandatory P a base isPlus :=
  rfl

/-- The field `HealthCheckMandatoryQueue` of the resolved configuration. -/
theorem resolvedConfig_HealthCheckMandatoryQueue (P : Parsers) (a : Annotations)
    (base : ConfigParams)
    (isPlus hasAppProtect hasAppProtectDos enableInternalRoutes : Bool) :
    (resolvedConfig P a base isPlus hasAppProtect hasAppProtectDos
        enableInternalRoutes).HealthCheckMandatoryQueue
      = if (resolvedHealthCheckMandatory P a base isPlus) then
          assignedOr base.HealthCheckMandatoryQueue
              (Annotations.lookup a "nginx.com/health-checks-mandatory-queue") P.ParseInt64
          else base.HealthCheckMandatoryQueue :=
  rfl

/-- The field `SlowStart` of the resolved configuration. -/
theorem resolvedConfig_SlowStart (P : Parsers) (a : Annotations) (base : ConfigParams)
    (isPlus hasAppProtect hasAppProtectDos enableInternalRoutes : Bool) :
    (resolvedConfig P a base isPlus hasAppProtect hasAppProtectDos
        enableInternalRoutes).SlowStart
      = if isPlus then acceptedOr base.SlowStart (Annotations.lookup a "nginx.com/slow-start")
            P.ParseTime else base.SlowStart :=
  rfl

/-- The field `ServerTokens` of the resolved configuration. -/
theorem resolvedConfig_ServerTokens (P : Parsers) (a : Annotations) (base : ConfigParams)
    (isPlus hasAppProtect hasAppProtectDos enableInternalRoutes : Bool) :
    (resolvedConfig P a base isPlus hasAppProtect hasAppProtectDos
        enableInternalRoutes).ServerTokens
      = serverTokensValue P isPlus base.ServerTokens
            (Annotations.lookup a "nginx.org/server-tokens") :=
  rfl

/-- The field `ServerSnippets` of the resolved configuration. -/
theorem resolvedConfig_ServerSnippets (P : Parsers) (a : Annotations) (base : ConfigParams)
    (isPlus hasAppProtect hasAppProtectDos enableInternalRoutes : Bool) :
    (resolvedConfig P a base isPlus hasAppProtect hasAppProtectDos
        enableInternalRoutes).ServerSnippets
      = (GetMapKeyAsStringSlice P a "nginx.org/server-snippets" "\n").getD base.ServerSnippets :=
  rfl

/-- The field `LocationSnippets` of the resolved configuration. -/
theorem resolvedConfig_LocationSnippets (P : Parsers) (a : Annotations) (base : ConfigParams)
    (isPlus hasAppProtect hasAppProtectDos enableInternalRoutes : Bool) :
    (resolvedConfig P a base isPlus hasAppProtect hasAppProtectDos
        enableInternalRoutes).LocationSnippets
      = (GetMapKeyAsStringSlice P a "nginx.org/location-snippets" "\n").getD base.LocationSnippets :=
  rfl

/-- The field `ProxyConnectTimeout` of the resolved configuration. -/
theorem resolvedConfig_ProxyConnectTimeout (P : Parsers) (a : Annotations) (base : ConfigParams)
    (isPlus hasAppProtect hasAppProtectDos enableInternalRoutes : Bool) :
    (resolvedConfig P a base isPlus hasAppProtect hasAppProtectDos
        enableInternalRoutes).ProxyConnectTimeout
      = acceptedOr base.ProxyConnectTimeout (Annotations.lookup a "nginx.org/proxy-connect-timeout")
            P.ParseTime :=
  rfl

/-- The field `ProxyReadTimeout` of the resolved configuration. -/
theorem resolvedConfig_ProxyReadTimeout (P : Parsers) (a : Annotations) (base : ConfigParams)
    (isPlus hasAppProtect hasAppProtectDos enableInternalRoutes : Bool) :
    (resolvedConfig P a base isPlus hasAppProtect hasAppProtectDos
        enableInternalRoutes).ProxyReadTimeout
      = acceptedOr base.ProxyReadTimeout (Annotations.lookup a "nginx.org/proxy-read-timeout")
            P.ParseTime :=
  rfl

/-- The field `ProxySendTimeout` of the resolved configuration. -/
theorem resolvedConfig_ProxySendTimeout (P : Parsers) (a : Annotations) (base : ConfigParams)
    (isPlus hasAppProtect hasAppProtectDos enableInternalRoutes : Bool) :
    (resolvedConfig P a base isPlus hasAppProtect hasAppProtectDos
        enableInternalRoutes).ProxySendTimeout
      = acceptedOr base.ProxySendTimeout (Annotations.lookup a "nginx.org/proxy-send-timeout")
            P.ParseTime :=
  rfl

/-- The field `ProxyHideHeaders` of the resolved configuration. -/
theorem resolvedConfig_ProxyHideHeaders (P : Parsers) (a : Annotations) (base : ConfigParams)
    (isPlus hasAppProtect hasAppProtectDos enableInternalRoutes : Bool) :
    (resolvedConfig P a base isPlus hasAppProtect hasAppProtectDos
        enableInternalRoutes).ProxyHideHeaders
      = (GetMapKeyAsStringSlice P a "nginx.org/proxy-hide-headers" ",").getD base.ProxyHideHeaders :=
  rfl

/-- The field `ProxyPassHeaders` of the resolved configuration. -/
theorem resolvedConfig_ProxyPassHeaders (P : Parsers) (a : Annotations) (base : ConfigParams)
    (isPlus hasAppProtect hasAppProtectDos enableInternalRoutes : Bool) :
    (resolvedConfig P a base isPlus hasAppProtect hasAppProtectDos
        enableInternalRoutes).ProxyPassHeaders
      = (GetMapKeyAsStringSlice P a "nginx.org/proxy-pass-headers" ",").getD base.ProxyPassHeaders :=
  rfl

/-- The field `ProxySetHeaders` of the resolved configuration. -/
theorem resolvedConfig_ProxySetHeaders (P : Parsers) (a : Annotations) (base : ConfigParams)
    (isPlus hasAppProtect hasAppProtectDos enableInternalRoutes : Bool) :
    (resolvedConfig P a base isPlus hasAppProtect hasAppProtectDos
        enableInternalRoutes).ProxySetHeaders
      = ((GetMapKeyAsStringSlice P a "nginx.org/proxy-set-headers" ",").map
          P.parseProxySetHeaders).getD base.ProxySetHeaders :=
  rfl

/-- The field `ClientMaxBodySize` of the resolved configuration. -/
theorem resolvedConfig_ClientMaxBodySize (P : Parsers) (a : Annotations) (base : ConfigParams)
    (isPlus hasAppProtect hasAppProtectDos enableInternalRoutes : Bool) :
    (resolvedConfig P a base isPlus hasAppProtect hasAppProtectDos
        enableInternalRoutes).ClientMaxBodySize
      = (Annotations.lookup a "nginx.org/client-max-body-size").getD base.ClientMaxBodySize :=
  rfl

/-- The field `RedirectToHTTPS` of the resolved configuration. -/
theorem resolvedConfig_RedirectToHTTPS (P : Parsers) (a : Annotations) (base : ConfigParams)
    (isPlus hasAppProtect hasAppProtectDos enableInternalRoutes : Bool) :
    (resolvedConfig P a base isPlus hasAppProtect hasAppProtectDos
        enableInternalRoutes).RedirectToHTTPS
      = acceptedOr base.RedirectToHTTPS (Annotations.lookup a "nginx.org/redirect-to-https")
            P.ParseBool :=
  rfl

/-- The field `SSLRedirect` of the resolved configuration. -/
theorem resolvedConfig_SSLRedirect (P : Parsers) (a : Annotations) (base : ConfigParams)
    (isPlus hasAppProtect hasAppProtectDos enableInternalRoutes : Bool) :
    (resolvedConfig P a base isPlus hasAppProtect hasAppProtectDos
        enableInternalRoutes).SSLRedirect
      = acceptedOr base.SSLRedirect (Annotations.lookup a "ingress.kubernetes.io/ssl-redirect")
            P.ParseBool :=
  rfl

/-- The field `ProxyBuffering` of the resolved configuration. -/
theorem resolvedConfig_ProxyBuffering (P : Parsers) (a : Annotations) (base : ConfigParams)
    (isPlus hasAppProtect hasAppProtectDos enableInternalRoutes : Bool) :
    (resolvedConfig P a base isPlus hasAppProtect hasAppProtectDos
        enableInternalRoutes).ProxyBuffering
      = acceptedOr base.ProxyBuffering (Annotations.lookup a "nginx.org/proxy-buffering")
            P.ParseBool :=
  rfl

/-- The field `HSTS` of the resolved configuration. -/
theorem resolvedConfig_HSTS (P : Parsers) (a : Annotations) (base : ConfigParams)
    (isPlus hasAppProtect hasAppProtectDos enableInternalRoutes : Bool) :
    (resolvedConfig P a base isPlus hasAppProtect hasAppProtectDos
        enableInternalRoutes).HSTS
      = if hstsCommits P a then assignedOr base.HSTS (Annotations.lookup a "nginx.org/hsts")
            P.ParseBool else base.HSTS :=
  rfl

/-- The field `HSTSMaxAge` of the resolved configuration. -/
theorem resolvedConfig_HSTSMaxAge (P : Parsers) (a : Annotations) (base : ConfigParams)
    (isPlus hasAppProtect hasAppProtectDos enableInternalRoutes : Bool) :
    (resolvedConfig P a base isPlus hasAppProtect hasAppProtectDos
        enableInternalRoutes).HSTSMaxAge
      = if hstsCommits P a then
          assignedOr base.HSTSMaxAge (Annotations.lookup a "nginx.org/hsts-max-age") P.ParseInt64
          else base.HSTSMaxAge :=
  rfl

/-- The field `HSTSIncludeSubdomains` of the resolved configuration. -/
theorem resolvedConfig_HSTSIncludeSubdomains (P : Parsers) (a : Annotations) (base : ConfigParams)
    (isPlus hasAppProtect hasAppProtectDos enableInternalRoutes : Bool) :
    (resolvedConfig P a base isPlus hasAppProtect hasAppProtectDos
        enableInternalRoutes).HSTSIncludeSubdomains
      = if hstsCommits P a then
          assignedOr base.HSTSIncludeSubdomains
              (Annotations.lookup a "nginx.org/hsts-include-subdomains") P.ParseBool
          else base.HSTSIncludeSubdomains :=
  rfl

/-- The field `HSTSBehindProxy` of the resolved configuration. -/
theorem resolvedConfig_HSTSBehindProxy (P : Parsers) (a : Annotations) (base : ConfigParams)
    (isPlus hasAppProtect hasAppProtectDos enableInternalRoutes : Bool) :
    (resolvedConfig P a base isPlus hasAppProtect hasAppProtectDos
        enableInternalRoutes).HSTSBehindProxy
      = if hstsCommits P a then
          assignedOr base.HSTSBehindProxy (Annotations.lookup a "nginx.org/hsts-behind-proxy")
              P.ParseBool
          else base.HSTSBehindProxy :=
  rfl

/-- The field `ProxyBuffers` of the resolved configuration. -/
theorem resolvedConfig_ProxyBuffers (P : Parsers) (a : Annotations) (base : ConfigParams)
    (isPlus hasAppProtect hasAppProtectDos enableInternalRoutes : Bool) :
    (resolvedConfig P a base isPlus hasAppProtect hasAppProtectDos
        enableInternalRoutes).ProxyBuffers
      = (Annotations.lookup a "nginx.org/proxy-buffers").getD base.ProxyBuffers :=
  rfl

/-- The field `ProxyBufferSize` of the resolved configuration. -/
theorem resolvedConfig_ProxyBufferSize (P : Parsers) (a : Annotations) (base : ConfigParams)
    (isPlus hasAppProtect hasAppProtectDos enableInternalRoutes : Bool) :
    (resolvedConfig P a base isPlus hasAppProtect hasAppProtectDos
        enableInternalRoutes).ProxyBufferSize
      = (Annotations.lookup a "nginx.org/proxy-buffer-size").getD base.ProxyBufferSize :=
  rfl

/-- The field `UpstreamZoneSize` of the resolved configuration. -/
theorem resolvedConfig_UpstreamZoneSize (P : Parsers) (a : Annotations) (base : ConfigParams)
    (isPlus hasAppProtect hasAppProtectDos enableInternalRoutes : Bool) :
    (resolvedConfig P a base isPlus hasAppProtect hasAppProtectDos
        enableInternalRoutes).UpstreamZoneSize
      = (Annotations.lookup a "nginx.org/upstream-zone-size").getD base.UpstreamZoneSize :=
  rfl

/-- The field `ProxyMaxTempFileSize` of the resolved configuration. -/
theorem resolvedConfig_ProxyMaxTempFileSize (P : Parsers) (a : Annotations) (base : ConfigParams)
    (isPlus hasAppProtect hasAppProtectDos enableInternalRoutes : Bool) :
    (resolvedConfig P a base isPlus hasAppProtect hasAppProtectDos
        enableInternalRoutes).ProxyMaxTempFileSize
      = (Annotations.lookup a "nginx.org/proxy-max-temp-file-size").getD base.ProxyMaxTempFileSize :=
  rfl

/-- The field `JWTRealm` of the resolved configuration. -/
theorem resolvedConfig_JWTRealm (P : Parsers) (a : Annotations) (base : ConfigParams)
    (isPlus hasAppProtect hasAppProtectDos enableInternalRoutes : Bool) :
    (resolvedConfig P a base isPlus hasAppProtect hasAppProtectDos
        enableInternalRoutes).JWTRealm
      = if isPlus then (Annotations.lookup a "nginx.com/jwt-realm").getD base.JWTRealm
            else base.JWTRealm :=
  rfl

/-- The field `JWTKey` of the resolved configuration. -/
theorem resolvedConfig_JWTKey (P : Parsers) (a : Annotations) (base : ConfigParams)
    (isPlus hasAppProtect hasAppProtectDos enableInternalRoutes : Bool) :
    (resolvedConfig P a base isPlus hasAppProtect hasAppProtectDos
        enableInternalRoutes).JWTKey
      = if isPlus then (Annotations.lookup a JWTKeyAnnotation).getD base.JWTKey else base.JWTKey :=
  rfl

/-- The field `JWTToken` of the resolved configuration. -/
theorem resolvedConfig_JWTToken (P : Parsers) (a : Annotations) (base : ConfigParams)
    (isPlus hasAppProtect hasAppProtectDos enableInternalRoutes : Bool) :
    (resolvedConfig P a base isPlus hasAppProtect hasAppProtectDos
        enableInternalRoutes).JWTToken
      = if isPlus then (Annotations.lookup a "nginx.com/jwt-token").getD base.JWTToken
            else base.JWTToken :=
  rfl

/-- The field `JWTLoginURL` of the resolved configuration. -/
theorem resolvedConfig_JWTLoginURL (P : Parsers) (a : Annotations) (base : ConfigParams)
    (isPlus hasAppProtect hasAppProtectDos enableInternalRoutes : Bool) :
    (resolvedConfig P a base isPlus hasAppProtect hasAppProtectDos
        enableInternalRoutes).JWTLoginURL
      = if isPlus then (Annotations.lookup a "nginx.com/jwt-login-url").getD base.JWTLoginURL
            else base.JWTLoginURL :=
  rfl

/-- The field `BasicAuthSecret` of the resolved configuration. -/
theorem resolvedConfig_BasicAuthSecret (P : Parsers) (a : Annotations) (base : ConfigParams)
    (isPlus hasAppProtect hasAppProtectDos enableInternalRoutes : Bool) :
    (resolvedConfig P a base isPlus hasAppProtect hasAppProtectDos
        enableInternalRoutes).BasicAuthSecret
      = (Annotations.lookup a BasicAuthSecretAnnotation).getD base.BasicAuthSecret :=
  rfl

/-- The field `BasicAuthRealm` of the resolved configuration. -/
theorem resolvedConfig_BasicAuthRealm (P : Parsers) (a : Annotations) (base : ConfigParams)
    (isPlus hasAppProtect hasAppProtectDos enableInternalRoutes : Bool) :
    (resolvedConfig P a base isPlus hasAppProtect hasAppProtectDos
        enableInternalRoutes).BasicAuthRealm
      = (Annotations.lookup a "nginx.org/basic-auth-realm").getD base.BasicAuthRealm :=
  rfl

/-- The field `Ports` of the resolved configuration. -/
theorem resolvedConfig_Ports (P : Parsers) (a : Annotations) (base : ConfigParams)
    (isPlus hasAppProtect hasAppProtectDos enableInternalRoutes : Bool) :
    (resolvedConfig P a base isPlus hasAppProtect hasAppProtectDos
        enableInternalRoutes).Ports
      = portsOr base.Ports (Annotations.lookup a "nginx.org/listen-ports") P.ParsePortList :=
  rfl

/-- The field `SSLPorts` of the resolved configuration. -/
theorem resolvedConfig_SSLPorts (P : Parsers) (a : Annotations) (base : ConfigParams)
    (isPlus hasAppProtect hasAppProtectDos enableInternalRoutes : Bool) :
    (resolvedConfig P a base isPlus hasAppProtect hasAppProtectDos
        enableInternalRoutes).SSLPorts
      = portsOr base.SSLPorts (Annotations.lookup a "nginx.org/listen-ports-ssl") P.ParsePortList :=
  rfl

/-- The field `Keepalive` of the resolved configuration. -/
theorem resolvedConfig_Keepalive (P : Parsers) (a : Annotations) (base : ConfigParams)
    (isPlus hasAppProtect hasAppProtectDos enableInternalRoutes : Bool) :
    (resolvedConfig P a base isPlus hasAppProtect hasAppProtectDos
        enableInternalRoutes).Keepalive
      = acceptedOr base.Keepalive (Annotations.lookup a "nginx.org/keepalive") P.ParseInt :=
  rfl

/-- The field `MaxFails` of the resolved configuration. -/
theorem resolvedConfig_MaxFails (P : Parsers) (a : Annotations) (base : ConfigParams)
    (isPlus hasAppProtect hasAppProtectDos enableInternalRoutes : Bool) :
    (resolvedConfig P a base isPlus hasAppProtect hasAppProtectDos
        enableInternalRoutes).MaxFails
      = acceptedOr base.MaxFails (Annotations.lookup a "nginx.org/max-fails") P.ParseInt :=
  rfl

/-- The field `MaxConns` of the resolved configuration. -/
theorem resolvedConfig_MaxConns (P : Parsers) (a : Annotations) (base : ConfigParams)
    (isPlus hasAppProtect hasAppProtectDos enableInternalRoutes : Bool) :
    (resolvedConfig P a base isPlus hasAppProtect hasAppProtectDos
        enableInternalRoutes).MaxConns
      = acceptedOr base.MaxConns (Annotations.lookup a "nginx.org/max-conns") P.ParseInt :=
  rfl

/-- The field `FailTimeout` of the resolved configuration. -/
theorem resolvedConfig_FailTimeout (P : Parsers) (a : Annotations) (base : ConfigParams)
    (isPlus hasAppProtect hasAppProtectDos enableInternalRoutes : Bool) :
    (resolvedConfig P a base isPlus hasAppProtect hasAppProtectDos
        enableInternalRoutes).FailTimeout
      = acceptedOr base.FailTimeout (Annotations.lookup a "nginx.org/fail-timeout") P.ParseTime :=
  rfl

/-- The field `AppProtectEnable` of the resolved configuration. -/
theorem resolvedConfig_AppProtectEnable (P : Parsers) (a : Annotations) (base : ConfigParams)
    (isPlus hasAppProtect hasAppProtectDos enableInternalRoutes : Bool) :
    (resolvedConfig P a base isPlus hasAppProtect hasAppProtectDos
        enableInternalRoutes).AppProtectEnable
      = if hasAppProtect then
          acceptedOr base.AppProtectEnable
              (Annotations.lookup a "appprotect.f5.com/app-protect-enable") (parseOnOff P)
          else base.AppProtectEnable :=
  rfl

/-- The field `AppProtectLogEnable` of the resolved configuration. -/
theorem resolvedConfig_AppProtectLogEnable (P : Parsers) (a : Annotations) (base : ConfigParams)
    (isPlus hasAppProtect hasAppProtectDos enableInternalRoutes : Bool) :
    (resolvedConfig P a base isPlus hasAppProtect hasAppProtectDos
        enableInternalRoutes).AppProtectLogEnable
      = if hasAppProtect then
          acceptedOr base.AppProtectLogEnable
          (Annotations.lookup a "appprotect.f5.com/app-protect-security-log-enable")
          (parseOnOff P)
          else base.AppProtectLogEnable :=
  rfl

/-- The field `AppProtectDosResource` of the resolved configuration. -/
theorem resolvedConfig_AppProtectDosResource (P : Parsers) (a : Annotations) (base : ConfigParams)
    (isPlus hasAppProtect hasAppProtectDos enableInternalRoutes : Bool) :
    (resolvedConfig P a base isPlus hasAppProtect hasAppProtectDos
        enableInternalRoutes).AppProtectDosResource
      = if hasAppProtectDos then
          (Annotations.lookup a "appprotectdos.f5.com/app-protect-dos-resource").getD base.AppProtectDosResource
          else base.AppProtectDosResource :=
  rfl

/-- The field `SpiffeServerCerts` of the resolved configuration. -/
theorem resolvedConfig_SpiffeServerCerts (P : Parsers) (a : Annotations) (base : ConfigParams)
    (isPlus hasAppProtect hasAppProtectDos enableInternalRoutes : Bool) :
    (resolvedConfig P a base isPlus hasAppProtect hasAppProtectDos
        enableInternalRoutes).SpiffeServerCerts
      = if enableInternalRoutes then
          acceptedOr base.SpiffeServerCerts (Annotations.lookup a nginxMeshInternalRouteAnnotation)
              P.ParseBool
          else base.SpiffeServerCerts :=
  rfl

/-- The field `UseClusterIP` of the resolved configuration. -/
theorem resolvedConfig_UseClusterIP (P : Parsers) (a : Annotations) (base : ConfigParams)
    (isPlus hasAppProtect hasAppProtectDos enableInternalRoutes : Bool) :
    (resolvedConfig P a base isPlus hasAppProtect hasAppProtectDos
        enableInternalRoutes).UseClusterIP
      = acceptedOr base.UseClusterIP (Annotations.lookup a UseClusterIPAnnotation) P.ParseBool :=
  rfl

/-- The field `LimitReqRate` of the resolved configuration. -/
theorem resolvedConfig_LimitReqRate (P : Parsers) (a : Annotations) (base : ConfigParams)
    (isPlus hasAppProtect hasAppProtectDos enableInternalRoutes : Bool) :
    (resolvedConfig P a base isPlus hasAppProtect hasAppProtectDos
        enableInternalRoutes).LimitReqRate
      = acceptedOr base.LimitReqRate (Annotations.lookup a "nginx.org/limit-req-rate")
            P.ParseRequestRate :=
  rfl

/-- The field `LimitReqKey` of the resolved configuration. -/
theorem resolvedConfig_LimitReqKey (P : Parsers) (a : Annotations) (base : ConfigParams)
    (isPlus hasAppProtect hasAppProtectDos enableInternalRoutes : Bool) :
    (resolvedConfig P a base isPlus hasAppProtect hasAppProtectDos
        enableInternalRoutes).LimitReqKey
      = (Annotations.lookup a "nginx.org/limit-req-key").getD base.LimitReqKey :=
  rfl

/-- The field `LimitReqZoneSize` of the resolved configuration. -/
theorem resolvedConfig_LimitReqZoneSize (P : Parsers) (a : Annotations) (base : ConfigParams)
    (isPlus hasAppProtect hasAppProtectDos enableInternalRoutes : Bool) :
    (resolvedConfig P a base isPlus hasAppProtect hasAppProtectDos
        enableInternalRoutes).LimitReqZoneSize
      = acceptedOr base.LimitReqZoneSize (Annotations.lookup a "nginx.org/limit-req-zone-size")
            P.ParseSize :=
  rfl

/-- The field `LimitReqDelay` of the resolved configuration. -/
theorem resolvedConfig_LimitReqDelay (P : Parsers) (a : Annotations) (base : ConfigParams)
    (isPlus hasAppProtect hasAppProtectDos enableInternalRoutes : Bool) :
    (resolvedConfig P a base isPlus hasAppProtect hasAppProtectDos
        enableInternalRoutes).LimitReqDelay
      = acceptedOr base.LimitReqDelay (Annotations.lookup a "nginx.org/limit-req-delay") P.ParseInt :=
  rfl

/-- The field `LimitReqNoDelay` of the resolved configuration. -/
theorem resolvedConfig_LimitReqNoDelay (P : Parsers) (a : Annotations) (base : ConfigParams)
    (isPlus hasAppProtect hasAppProtectDos enableInternalRoutes : Bool) :
    (resolvedConfig P a base isPlus hasAppProtect hasAppProtectDos
        enableInternalRoutes).LimitReqNoDelay
      = acceptedOr base.LimitReqNoDelay (Annotations.lookup a "nginx.org/limit-req-no-delay")
            P.ParseBool :=
  rfl

/-- The field `LimitReqBurst` of the resolved configuration. -/
theorem resolvedConfig_LimitReqBurst (P : Parsers) (a : Annotations) (base : ConfigParams)
    (isPlus hasAppProtect hasAppProtectDos enableInternalRoutes : Bool) :
    (resolvedConfig P a base isPlus hasAppProtect hasAppProtectDos
        enableInternalRoutes).LimitReqBurst
      = acceptedOr base.LimitReqBurst (Annotations.lookup a "nginx.org/limit-req-burst") P.ParseInt :=
  rfl

/-- The field `LimitReqDryRun` of the resolved configuration. -/
theorem resolvedConfig_LimitReqDryRun (P : Parsers) (a : Annotations) (base : ConfigParams)
    (isPlus hasAppProtect hasAppProtectDos enableInternalRoutes : Bool) :
    (resolvedConfig P a base isPlus hasAppProtect hasAppProtectDos
        enableInternalRoutes).LimitReqDryRun
      = acceptedOr base.LimitReqDryRun (Annotations.lookup a "nginx.org/limit-req-dry-run")
            P.ParseBool :=
  rfl

/-- The field `LimitReqLogLevel` of the resolved configuration. -/
theorem resolvedConfig_LimitReqLogLevel (P : Parsers) (a : Annotations) (base : ConfigParams)
    (isPlus hasAppProtect hasAppProtectDos enableInternalRoutes : Bool) :
    (resolvedConfig P a base isPlus hasAppProtect hasAppProtectDos
        enableInternalRoutes).LimitReqLogLevel
      = acceptedOr base.LimitReqLogLevel (Annotations.lookup a "nginx.org/limit-req-log-level")
            parseLogLevel :=
  rfl

/-- The field `LimitReqRejectCode` of the resolved configuration. -/
theorem resolvedConfig_LimitReqRejectCode (P : Parsers) (a : Annotations) (base : ConfigParams)
    (isPlus hasAppProtect hasAppProtectDos enableInternalRoutes : Bool) :
    (resolvedConfig P a base isPlus hasAppProtect hasAppProtectDos
        enableInternalRoutes).LimitReqRejectCode
      = acceptedOr base.LimitReqRejectCode (Annotations.lookup a "nginx.org/limit-req-reject-code")
            P.ParseInt :=
  rfl

/-- The field `LimitReqScale` of the resolved configuration. -/
theorem resolvedConfig_LimitReqScale (P : Parsers) (a : Annotations) (base : ConfigParams)
    (isPlus hasAppProtect hasAppProtectDos enableInternalRoutes : Bool) :
    (resolvedConfig P a base isPlus hasAppProtect hasAppProtectDos
        enableInternalRoutes).LimitReqScale
      = acceptedOr base.LimitReqScale (Annotations.lookup a "nginx.org/limit-req-scale")
            P.ParseBool :=
  rfl

/-! ## The key classification tables -/

/-- C10: the three key sets `masterDenylist`, `minionDenylist` and
`minionInheritanceList` are pairwise disjoint: no annotation key belongs to two of
them. -/
theorem key_tables_pairwise_disjoint :
    (∀ k ∈ masterDenylist, k ∉ minionDenylist)
      ∧ (∀ k ∈ masterDenylist, k ∉ minionInheritanceList)
      ∧ (∀ k ∈ minionDenylist, k ∉ minionInheritanceList) := by
  decide

/-- No key of a denylist is inherited: the denylists do not meet
`minionInheritanceList`. -/
theorem key_tables_disjoint_aux :
    (∀ k ∈ masterDenylist, k ∉ minionInheritanceList)
      ∧ (∀ k ∈ minionDenylist, k ∉ minionInheritanceList) := by
  decide

/-! ## The role filters -/

/-- What the filter loop leaves and returns, seen from the map: the entries whose key
is not denylisted, and the denylisted keys in iteration order. -/
theorem filterLoop_lookup (denylist : List String) (a : Annotations) (k : String) :
    Annotations.lookup (filterLoop denylist (Annotations.keys a) (a, [])).1 k
      = if k ∈ denylist then none else Annotations.lookup a k := by
  rw [filterLoop_keys]
  rw [Annotations.lookup_filter (fun k => decide (k ∉ denylist)) a k]
  by_cases h : k ∈ denylist <;> simp [h]

/-- C7: after `filterMasterAnnotations` (respectively `filterMinionAnnotations`) the
map is the original map restricted to the keys outside `masterDenylist` (respectively
`minionDenylist`): the entries that remain are the entries with a key outside the
denylist, a denylisted key is absent, and every other key has its original value. -/
theorem filter_restricts_to_allowed_keys (a : Annotations) :
    ((filterMasterAnnotations a).1 = a.filter (fun e => decide (e.1 ∉ masterDenylist))
        ∧ ∀ k, Annotations.lookup (filterMasterAnnotations a).1 k
            = if k ∈ masterDenylist then none else Annotations.lookup a k)
      ∧ ((filterMinionAnnotations a).1 = a.filter (fun e => decide (e.1 ∉ minionDenylist))
        ∧ ∀ k, Annotations.lookup (filterMinionAnnotations a).1 k
            = if k ∈ minionDenylist then none else Annotations.lookup a k) := by
  refine ⟨⟨?_, ?_⟩, ⟨?_, ?_⟩⟩
  · simp [filterMasterAnnotations, filterLoop_keys]
  · intro k
    exact filterLoop_lookup masterDenylist a k
  · simp [filterMinionAnnotations, filterLoop_keys]
  · intro k
    exact filterLoop_lookup minionDenylist a k

/-- The removed keys of the filter loop on a well-formed map: no duplicates, exactly
the denylisted keys of the map, none when the map has no denylisted key, and as many
as the entries that left the map, which stays well formed. -/
theorem filterLoop_removed (denylist : List String) (a : Annotations) (h : Annotations.WF a) :
    (filterLoop denylist (Annotations.keys a) (a, [])).2.Nodup
      ∧ (∀ k, k ∈ (filterLoop denylist (Annotations.keys a) (a, [])).2
          ↔ k ∈ Annotations.keys a ∧ k ∈ denylist)
      ∧ ((∀ k ∈ Annotations.keys a, k ∉ denylist)
          → (filterLoop denylist (Annotations.keys a) (a, [])).2 = [])
      ∧ (filterLoop denylist (Annotations.keys a) (a, [])).2.length
          + (filterLoop denylist (Annotations.keys a) (a, [])).1.length = a.length
      ∧ Annotations.WF (filterLoop denylist (Annotations.keys a) (a, [])).1 := by
  rw [filterLoop_keys]
  refine ⟨?_, ?_, ?_, ?_, ?_⟩
  · exact List.Nodup.filter _ h
  · intro k
    simp [List.mem_filter]
  · intro hnone
    simp only [List.filter_eq_nil_iff]
    intro k hk
    simpa using hnone k hk
  · have hlen := @List.length_eq_length_filter_add _ a
      (fun e : String × String => decide (e.1 ∈ denylist))
    have h1 : (List.filter (fun k => decide (k ∈ denylist)) (Annotations.keys a)).length
        = (a.filter (fun e : String × String => decide (e.1 ∈ denylist))).length := by
      simp only [Annotations.keys, List.filter_map, List.length_map]
      rfl
    have h2 : a.filter (fun e => decide (e.1 ∉ denylist))
        = a.filter (fun e : String × String => !decide (e.1 ∈ denylist)) :=
      List.filter_congr (by intro e _; simp)
    rw [h1, h2]
    exact hlen.symm
  · exact List.Nodup.sublist (List.Sublist.map Prod.fst (List.filter_sublist a)) h

/-- C8: on a well-formed map the list returned by `filterMasterAnnotations`
(respectively `filterMinionAnnotations`) has no duplicates and contains exactly the
keys of the map that belong to `masterDenylist` (respectively `minionDenylist`); it is
empty when the map has no denylisted key, and its length plus the size of the filtered
map is the size of the original map. -/
theorem filter_returns_removed_keys (a : Annotations) (h : Annotations.WF a) :
    ((filterMasterAnnotations a).2.Nodup
        ∧ (∀ k, k ∈ (filterMasterAnnotations a).2
            ↔ k ∈ Annotations.keys a ∧ k ∈ masterDenylist)
        ∧ ((∀ k ∈ Annotations.keys a, k ∉ masterDenylist) → (filterMasterAnnotations a).2 = [])
        ∧ (filterMasterAnnotations a).2.length + (filterMasterAnnotations a).1.length = a.length
        ∧ Annotations.WF (filterMasterAnnotations a).1)
      ∧ ((filterMinionAnnotations a).2.Nodup
        ∧ (∀ k, k ∈ (filterMinionAnnotations a).2
            ↔ k ∈ Annotations.keys a ∧ k ∈ minionDenylist)
        ∧ ((∀ k ∈ Annotations.keys a, k ∉ minionDenylist) → (filterMinionAnnotations a).2 = [])
        ∧ (filterMinionAnnotations a).2.length + (filterMinionAnnotations a).1.length = a.length
        ∧ Annotations.WF (filterMinionAnnotations a).1) :=
  ⟨filterLoop_removed masterDenylist a h, filterLoop_removed minionDenylist a h⟩

/-- C8 at a concrete map: a master with two denylisted keys out of three. -/
theorem filter_returns_removed_keys_witness :
    Annotations.WF
        [("nginx.org/rewrites", "r"), ("nginx.org/lb-method", "random"),
          ("nginx.com/health-checks", "true")]
      ∧ (filterMasterAnnotations
          [("nginx.org/rewrites", "r"), ("nginx.org/lb-method", "random"),
            ("nginx.com/health-checks", "true")]).2.length
        + (filterMasterAnnotations
          [("nginx.org/rewrites", "r"), ("nginx.org/lb-method", "random"),
            ("nginx.com/health-checks", "true")]).1.length = 3 :=
  ⟨by decide,
    (filter_returns_removed_keys
      [("nginx.org/rewrites", "r"), ("nginx.org/lb-method", "random"),
        ("nginx.com/health-checks", "true")] (by decide)).1.2.2.2.1⟩

/-! ## Inheritance from the master -/

/-- C3: after `mergeMasterAnnotationsIntoMinion` every key of the minion keeps the
value the minion gave it; a key the minion does not have takes the value of the master
when the master has it and it is in `minionInheritanceList`; every other key is
absent. With the minion `{proxy-read-timeout: "5"}` and the master
`{proxy-read-timeout: "9", lb-method: "x"}` the merged minion is
`{proxy-read-timeout: "5", lb-method: "x"}`. -/
theorem merge_fills_missing_keys (m M : Annotations) :
    (∀ k, Annotations.lookup (mergeMasterAnnotationsIntoMinion m M) k
        = match Annotations.lookup m k with
          | some v => some v
          | none => if k ∈ minionInheritanceList then Annotations.lookup M k else none)
      ∧ mergeMasterAnnotationsIntoMinion [("nginx.org/proxy-read-timeout", "5")]
          [("nginx.org/proxy-read-timeout", "9"), ("nginx.org/lb-method", "x")]
        = [("nginx.org/proxy-read-timeout", "5"), ("nginx.org/lb-method", "x")] :=
  ⟨fun k => merge_lookup m M k, by decide⟩

/-- C9: after the master is filtered, the minion is filtered and the master is merged
into the minion, a key of `masterDenylist` that the minion has was in the filtered
minion with the same value, and the minion has no key of `minionDenylist`. -/
theorem denylisted_keys_do_not_leak (M m : Annotations) :
    (∀ k ∈ masterDenylist, ∀ v,
        Annotations.lookup
            (mergeMasterAnnotationsIntoMinion (filterMinionAnnotations m).1
              (filterMasterAnnotations M).1) k = some v
          → Annotations.lookup (filterMinionAnnotations m).1 k = some v)
      ∧ (∀ k ∈ minionDenylist,
          Annotations.lookup
            (mergeMasterAnnotationsIntoMinion (filterMinionAnnotations m).1
              (filterMasterAnnotations M).1) k = none) := by
  have hdis := key_tables_disjoint_aux
  refine ⟨?_, ?_⟩
  · intro k hk v hv
    rw [merge_lookup] at hv
    have hnot : k ∉ minionInheritanceList := hdis.1 k hk
    cases hl : Annotations.lookup (filterMinionAnnotations m).1 k with
    | some w => simpa [hl] using hv
    | none => simp [hl, hnot] at hv
  · intro k hk
    rw [merge_lookup]
    have hnot : k ∉ minionInheritanceList := hdis.2 k hk
    have hl : Annotations.lookup (filterMinionAnnotations m).1 k = none := by
      unfold filterMinionAnnotations
      rw [filterLoop_lookup]
      simp [hk]
    simp [hl, hnot]

/-- C9 at a concrete pair: the minion keeps its own `nginx.org/rewrites`, and the
master's value of that denylisted key does not reach it. -/
theorem denylisted_keys_do_not_leak_witness :
    Annotations.lookup
        (mergeMasterAnnotationsIntoMinion
          (filterMinionAnnotations [("nginx.org/hsts", "true"), ("nginx.org/rewrites", "r")]).1
          (filterMasterAnnotations
            [("nginx.org/rewrites", "s"), ("nginx.org/lb-method", "random")]).1)
        "nginx.org/rewrites" = some "r"
      ∧ Annotations.lookup
          (filterMinionAnnotations [("nginx.org/hsts", "true"), ("nginx.org/rewrites", "r")]).1
          "nginx.org/rewrites" = some "r" :=
  ⟨by decide,
    (denylisted_keys_do_not_leak [("nginx.org/rewrites", "s"), ("nginx.org/lb-method", "random")]
      [("nginx.org/hsts", "true"), ("nginx.org/rewrites", "r")]).1 "nginx.org/rewrites"
      (by decide) "r" (by decide)⟩

/-! ## The rate-limit sub-resolver -/

/-- The errors of one key that name a given key: all of them when the two keys are the
same, none otherwise. -/
theorem filter_key_rejection {α : Type} (K key : String) (raw : Option String)
    (parse : String → Parsed α) :
    (rejection key raw parse).filter (fun e => decide (e.key = K))
      = if key = K then rejection key raw parse else [] := by
  unfold rejection
  cases raw with
  | none => simp
  | some s =>
    cases h : (parse s).err with
    | none => simp [h]
    | some cause => by_cases hk : key = K <;> simp [h, hk]

/-- A rejected value of a rate-limit key: the field of the key keeps its value, and
the returned errors hold exactly one error for the key, made of the key, the raw value
and the cause. -/
theorem rateLimit_rejected (P : Parsers) (a : Annotations) (cfgParams : ConfigParams)
    (isPlus : Bool) (key : String) (kp : KeyParser) (f : Field) (raw : String)
    (hmem : (key, kp, f) ∈ rateLimitFields) (hraw : Annotations.lookup a key = some raw)
    (hrej : kp.rejects P isPlus raw) :
    f.agree (parseRateLimitAnnotations P a cfgParams).1 cfgParams
      ∧ ∃ cause, (parseRateLimitAnnotations P a cfgParams).2.filter
          (fun e => decide (e.key = key)) = [⟨key, raw, cause⟩] := by
  rw [parseRateLimitAnnotations_eq]
  simp only [rateLimitFields, List.mem_cons, Prod.mk.injEq, List.mem_singleton,
    List.not_mem_nil, or_false] at hmem
  rcases hmem with ⟨rfl, rfl, rfl⟩ | ⟨rfl, rfl, rfl⟩ | ⟨rfl, rfl, rfl⟩ | ⟨rfl, rfl, rfl⟩
    | ⟨rfl, rfl, rfl⟩ | ⟨rfl, rfl, rfl⟩ | ⟨rfl, rfl, rfl⟩ | ⟨rfl, rfl, rfl⟩ | ⟨rfl, rfl, rfl⟩
  all_goals
    simp only [KeyParser.rejects, ne_eq, Option.ne_none_iff_exists'] at hrej
    obtain ⟨cause, hcause⟩ := hrej
    refine ⟨?_, cause, ?_⟩
    · simp [Field.agree, acceptedOr, hraw, hcause]
    · simp only [rateLimitErrors, List.filter_append, filter_key_rejection]
      simp [rejection, hraw, hcause]

/-- C5, as the code has it: a rate-limit key that is present with a rejected value
leaves its own field at the prior value and contributes exactly one error, made of the
key, the raw value and the cause; it does not keep the fields of the other rate-limit
keys from being written. -/
theorem rate_limit_rejected_key_keeps_own_field (P : Parsers) (a : Annotations)
    (cfgParams : ConfigParams) (isPlus : Bool) (key : String) (kp : KeyParser) (f : Field)
    (raw : String) (hmem : (key, kp, f) ∈ rateLimitFields)
    (hraw : Annotations.lookup a key = some raw) (hrej : kp.rejects P isPlus raw) :
    f.agree (parseRateLimitAnnotations P a cfgParams).1 cfgParams
      ∧ ∃ cause, (parseRateLimitAnnotations P a cfgParams).2.filter
          (fun e => decide (e.key = key)) = [⟨key, raw, cause⟩] :=
  rateLimit_rejected P a cfgParams isPlus key kp f raw hmem hraw hrej

/-- C5 at a concrete input: a rejected rate with a request key. -/
theorem rate_limit_rejected_key_keeps_own_field_witness :
    Field.agree .LimitReqRate
        (parseRateLimitAnnotations sampleParsers
          [("nginx.org/limit-req-rate", "bad"), ("nginx.org/limit-req-key", "k")]
          zeroConfigParams).1 zeroConfigParams
      ∧ ∃ cause, (parseRateLimitAnnotations sampleParsers
          [("nginx.org/limit-req-rate", "bad"), ("nginx.org/limit-req-key", "k")]
          zeroConfigParams).2.filter (fun e => decide (e.key = "nginx.org/limit-req-rate"))
            = [⟨"nginx.org/limit-req-rate", "bad", cause⟩] :=
  rate_limit_rejected_key_keeps_own_field sampleParsers
    [("nginx.org/limit-req-rate", "bad"), ("nginx.org/limit-req-key", "k")] zeroConfigParams
    false "nginx.org/limit-req-rate" .requestRate .LimitReqRate "bad" (by decide) (by decide)
    (by decide)

/-- C5 fails as stated: with `nginx.org/limit-req-rate` rejected,
`parseRateLimitAnnotations` still writes `LimitReqKey` from `nginx.org/limit-req-key`. -/
theorem rate_limit_not_atomic :
    (sampleParsers.ParseRequestRate "bad").err ≠ none
      ∧ (parseRateLimitAnnotations sampleParsers
          [("nginx.org/limit-req-rate", "bad"), ("nginx.org/limit-req-key", "k")]
          zeroConfigParams).1.LimitReqKey = "k"
      ∧ zeroConfigParams.LimitReqKey = "" := by
  decide

/-- C6: `parseRateLimitAnnotations` returns the errors of the nine keys that have a
parser, one for each key present with a rejected value and in the order of the source
(`nginx.org/limit-req-key` has none), and every present key whose value is accepted is
written to its field, whatever the other keys are. -/
theorem rate_limit_collects_errors (P : Parsers) (a : Annotations) (cfgParams : ConfigParams) :
    (parseRateLimitAnnotations P a cfgParams).2
        = rejection "nginx.org/limit-req-rate"
            (Annotations.lookup a "nginx.org/limit-req-rate") P.ParseRequestRate
          ++ rejection "nginx.org/limit-req-zone-size"
            (Annotations.lookup a "nginx.org/limit-req-zone-size") P.ParseSize
          ++ rejection "nginx.org/limit-req-delay"
            (Annotations.lookup a "nginx.org/limit-req-delay") P.ParseInt
          ++ rejection "nginx.org/limit-req-no-delay"
            (Annotations.lookup a "nginx.org/limit-req-no-delay") P.ParseBool
          ++ rejection "nginx.org/limit-req-burst"
            (Annotations.lookup a "nginx.org/limit-req-burst") P.ParseInt
          ++ rejection "nginx.org/limit-req-dry-run"
            (Annotations.lookup a "nginx.org/limit-req-dry-run") P.ParseBool
          ++ rejection "nginx.org/limit-req-log-level"
            (Annotations.lookup a "nginx.org/limit-req-log-level") parseLogLevel
          ++ rejection "nginx.org/limit-req-reject-code"
            (Annotations.lookup a "nginx.org/limit-req-reject-code") P.ParseInt
          ++ rejection "nginx.org/limit-req-scale"
            (Annotations.lookup a "nginx.org/limit-req-scale") P.ParseBool
      ∧ (parseRateLimitAnnotations P a cfgParams).2.filter
          (fun e => decide (e.key = "nginx.org/limit-req-key")) = []
      ∧ (∀ s, Annotations.lookup a "nginx.org/limit-req-rate" = some s
          → (P.ParseRequestRate s).err = none
          → (parseRateLimitAnnotations P a cfgParams).1.LimitReqRate
              = (P.ParseRequestRate s).val)
      ∧ (∀ s, Annotations.lookup a "nginx.org/limit-req-key" = some s
          → (parseRateLimitAnnotations P a cfgParams).1.LimitReqKey = s)
      ∧ (∀ s, Annotations.lookup a "nginx.org/limit-req-zone-size" = some s
          → (P.ParseSize s).err = none
          → (parseRateLimitAnnotations P a cfgParams).1.LimitReqZoneSize = (P.ParseSize s).val)
      ∧ (∀ s, Annotations.lookup a "nginx.org/limit-req-delay" = some s
          → (P.ParseInt s).err = none
          → (parseRateLimitAnnotations P a cfgParams).1.LimitReqDelay = (P.ParseInt s).val)
      ∧ (∀ s, Annotations.lookup a "nginx.org/limit-req-no-delay" = some s
          → (P.ParseBool s).err = none
          → (parseRateLimitAnnotations P a cfgParams).1.LimitReqNoDelay = (P.ParseBool s).val)
      ∧ (∀ s, Annotations.lookup a "nginx.org/limit-req-burst" = some s
          → (P.ParseInt s).err = none
          → (parseRateLimitAnnotations P a cfgParams).1.LimitReqBurst = (P.ParseInt s).val)
      ∧ (∀ s, Annotations.lookup a "nginx.org/limit-req-dry-run" = some s
          → (P.ParseBool s).err = none
          → (parseRateLimitAnnotations P a cfgParams).1.LimitReqDryRun = (P.ParseBool s).val)
      ∧ (∀ s, Annotations.lookup a "nginx.org/limit-req-log-level" = some s
          → s ∈ ["info", "notice", "warn", "error"]
          → (parseRateLimitAnnotations P a cfgParams).1.LimitReqLogLevel = s)
      ∧ (∀ s, Annotations.lookup a "nginx.org/limit-req-reject-code" = some s
          → (P.ParseInt s).err = none
          → (parseRateLimitAnnotations P a cfgParams).1.LimitReqRejectCode
              = (P.ParseInt s).val)
      ∧ (∀ s, Annotations.lookup a "nginx.org/limit-req-scale" = some s
          → (P.ParseBool s).err = none
          → (parseRateLimitAnnotations P a cfgParams).1.LimitReqScale = (P.ParseBool s).val) := by
  rw [parseRateLimitAnnotations_eq]
  refine ⟨?_, ?_, ?_, ?_, ?_, ?_, ?_, ?_, ?_, ?_, ?_, ?_⟩
  · simp only [rateLimitErrors, List.append_assoc]
  · simp only [rateLimitErrors, List.filter_append, filter_key_rejection]
    simp
  all_goals
    intro s hs
    first
      | (intro hv; simp [acceptedOr, parseLogLevel, hs, hv])
      | (simp [hs])

/-- C6 at a concrete input: a rejected rate, an accepted burst and a request key. -/
theorem rate_limit_collects_errors_witness :
    (parseRateLimitAnnotations sampleParsers
        [("nginx.org/limit-req-rate", "bad"), ("nginx.org/limit-req-burst", "5"),
          ("nginx.org/limit-req-key", "k")] zeroConfigParams).1.LimitReqBurst = 5
      ∧ (parseRateLimitAnnotations sampleParsers
        [("nginx.org/limit-req-rate", "bad"), ("nginx.org/limit-req-burst", "5"),
          ("nginx.org/limit-req-key", "k")] zeroConfigParams).2.length = 1 :=
  ⟨(rate_limit_collects_errors sampleParsers
      [("nginx.org/limit-req-rate", "bad"), ("nginx.org/limit-req-burst", "5"),
        ("nginx.org/limit-req-key", "k")] zeroConfigParams).2.2.2.2.2.2.2.1 "5"
      (by decide) (by decide),
    by decide⟩

/-! ## The resolver: rejected values -/

/-- A rejected value of a key of `governedFields`: the governed field keeps the value
of the baseline, except that `ServerTokens` takes the raw value under `isPlus`. -/
theorem governed_rejected (P : Parsers) (a : Annotations) (base : ConfigParams)
    (isPlus hasAppProtect hasAppProtectDos enableInternalRoutes : Bool)
    (key : String) (kp : KeyParser) (f : Field) (raw : String)
    (hmem : (key, kp, f) ∈ governedFields) (hraw : Annotations.lookup a key = some raw)
    (hrej : kp.rejects P isPlus raw) :
    if key = "nginx.org/server-tokens" ∧ isPlus = true then
      (parseAnnotations P a base isPlus hasAppProtect hasAppProtectDos
        enableInternalRoutes).1.ServerTokens = raw
    else
      f.agree
        (parseAnnotations P a base isPlus hasAppProtect hasAppProtectDos
          enableInternalRoutes).1 base := by
  rw [parseAnnotations_eq]
  simp only [governedFields, rateLimitFields, List.cons_append, List.nil_append,
    List.mem_cons, Prod.mk.injEq, List.not_mem_nil, or_false] at hmem
  rcases hmem with ⟨rfl, rfl, rfl⟩ | ⟨rfl, rfl, rfl⟩ | ⟨rfl, rfl, rfl⟩ | ⟨rfl, rfl, rfl⟩
    | ⟨rfl, rfl, rfl⟩ | ⟨rfl, rfl, rfl⟩ | ⟨rfl, rfl, rfl⟩ | ⟨rfl, rfl, rfl⟩ | ⟨rfl, rfl, rfl⟩
    | ⟨rfl, rfl, rfl⟩ | ⟨rfl, rfl, rfl⟩ | ⟨rfl, rfl, rfl⟩ | ⟨rfl, rfl, rfl⟩ | ⟨rfl, rfl, rfl⟩
    | ⟨rfl, rfl, rfl⟩ | ⟨rfl, rfl, rfl⟩ | ⟨rfl, rfl, rfl⟩ | ⟨rfl, rfl, rfl⟩ | ⟨rfl, rfl, rfl⟩
    | ⟨rfl, rfl, rfl⟩ | ⟨rfl, rfl, rfl⟩ | ⟨rfl, rfl, rfl⟩ | ⟨rfl, rfl, rfl⟩ | ⟨rfl, rfl, rfl⟩
    | ⟨rfl, rfl, rfl⟩ | ⟨rfl, rfl, rfl⟩ | ⟨rfl, rfl, rfl⟩ | ⟨rfl, rfl, rfl⟩ | ⟨rfl, rfl, rfl⟩
    | ⟨rfl, rfl, rfl⟩ | ⟨rfl, rfl, rfl⟩ | ⟨rfl, rfl, rfl⟩
  all_goals
    simp only [KeyParser.rejects] at hrej
    simp only [Field.agree,
      resolvedConfig_LBMethod, resolvedConfig_HealthCheckEnabled,
      resolvedConfig_HealthCheckMandatory, resolvedConfig_HealthCheckMandatoryQueue,
      resolvedConfig_SlowStart, resolvedConfig_ServerTokens, resolvedConfig_ServerSnippets,
      resolvedConfig_LocationSnippets, resolvedConfig_ProxyConnectTimeout,
      resolvedConfig_ProxyReadTimeout, resolvedConfig_ProxySendTimeout,
      resolvedConfig_ProxyHideHeaders, resolvedConfig_ProxyPassHeaders,
      resolvedConfig_ProxySetHeaders, resolvedConfig_ClientMaxBodySize,
      resolvedConfig_RedirectToHTTPS, resolvedConfig_SSLRedirect,
      resolvedConfig_ProxyBuffering, resolvedConfig_HSTS, resolvedConfig_HSTSMaxAge,
      resolvedConfig_HSTSIncludeSubdomains, resolvedConfig_HSTSBehindProxy,
      resolvedConfig_ProxyBuffers, resolvedConfig_ProxyBufferSize,
      resolvedConfig_UpstreamZoneSize, resolvedConfig_ProxyMaxTempFileSize,
      resolvedConfig_JWTRealm, resolvedConfig_JWTKey, resolvedConfig_JWTToken,
      resolvedConfig_JWTLoginURL, resolvedConfig_BasicAuthSecret,
      resolvedConfig_BasicAuthRealm, resolvedConfig_Ports, resolvedConfig_SSLPorts,
      resolvedConfig_Keepalive, resolvedConfig_MaxFails, resolvedConfig_MaxConns,
      resolvedConfig_FailTimeout, resolvedConfig_AppProtectEnable,
      resolvedConfig_AppProtectLogEnable, resolvedConfig_AppProtectDosResource,
      resolvedConfig_SpiffeServerCerts, resolvedConfig_UseClusterIP,
      resolvedConfig_LimitReqRate, resolvedConfig_LimitReqKey, resolvedConfig_LimitReqZoneSize,
      resolvedConfig_LimitReqDelay, resolvedConfig_LimitReqNoDelay,
      resolvedConfig_LimitReqBurst, resolvedConfig_LimitReqDryRun,
      resolvedConfig_LimitReqLogLevel, resolvedConfig_LimitReqRejectCode,
      resolvedConfig_LimitReqScale]
    first
      | (have hval : (P.ParsePortList raw).val = [] := hrej.2
         simp [portsOr, hraw, hval])
      | (obtain ⟨cause, hcause⟩ := Option.ne_none_iff_exists'.mp hrej
         cases isPlus <;>
           simp [acceptedOr, serverTokensValue, parseOnOff, hstsCommits, hstsSiblingErrors,
             accepted, rejection, UseClusterIPAnnotation, nginxMeshInternalRouteAnnotation,
             hraw, hcause])

/-- C1, as the code has it: for every key of `governedFields` (the recognized keys
with a parser, but for the three health-check keys), a present raw value that the
parser of the key rejects leaves the governed field of the result at the baseline's
value; the exception is `nginx.org/server-tokens` under `isPlus`, where `ServerTokens`
becomes the raw value. For a port list the rejection is an error with no port. -/
theorem rejected_value_keeps_baseline (P : Parsers) (a : Annotations) (base : ConfigParams)
    (isPlus hasAppProtect hasAppProtectDos enableInternalRoutes : Bool)
    (key : String) (kp : KeyParser) (f : Field) (raw : String)
    (hmem : (key, kp, f) ∈ governedFields) (hraw : Annotations.lookup a key = some raw)
    (hrej : kp.rejects P isPlus raw) :
    if key = "nginx.org/server-tokens" ∧ isPlus = true then
      (parseAnnotations P a base isPlus hasAppProtect hasAppProtectDos
        enableInternalRoutes).1.ServerTokens = raw
    else
      f.agree
        (parseAnnotations P a base isPlus hasAppProtect hasAppProtectDos
          enableInternalRoutes).1 base :=
  governed_rejected P a base isPlus hasAppProtect hasAppProtectDos enableInternalRoutes
    key kp f raw hmem hraw hrej

/-- C1 at a concrete input: a rejected `nginx.org/proxy-connect-timeout` leaves
`ProxyConnectTimeout` at the baseline's `"60s"`. -/
theorem rejected_value_keeps_baseline_witness :
    (parseAnnotations sampleParsers [("nginx.org/proxy-connect-timeout", "notanumber")]
        { zeroConfigParams with ProxyConnectTimeout := "60s" }
        false false false false).1.ProxyConnectTimeout = "60s" :=
  rejected_value_keeps_baseline sampleParsers
    [("nginx.org/proxy-connect-timeout", "notanumber")]
    { zeroConfigParams with ProxyConnectTimeout := "60s" } false false false false
    "nginx.org/proxy-connect-timeout" .time .ProxyConnectTimeout "notanumber"
    (by decide) (by decide) (by decide)

/-- C1 fails as stated, at two keys. Under `isPlus` a `nginx.org/server-tokens` that is
no boolean is stored in `ServerTokens`; and under `isPlus` a `nginx.com/health-checks`
that is no boolean resets `HealthCheckEnabled` from the baseline's `true` to `false`. -/
theorem rejected_value_changes_field :
    ((sampleParsers.ParseBool "bad").err ≠ none
        ∧ (parseAnnotations sampleParsers [("nginx.org/server-tokens", "bad")]
            { zeroConfigParams with ServerTokens := "off" }
            true false false false).1.ServerTokens = "bad")
      ∧ (parseAnnotations sampleParsers [("nginx.com/health-checks", "bad")]
          { zeroConfigParams with HealthCheckEnabled := true }
          true false false false).1.HealthCheckEnabled = false := by
  decide

/-! ## The resolver: denylisted keys of a master -/

/-- The resolver reads its annotations through `Annotations.lookup` only: two maps with
the same value at every key give the same configuration and the same log. -/
theorem parseAnnotations_congr (P : Parsers) (a a' : Annotations) (base : ConfigParams)
    (isPlus hasAppProtect hasAppProtectDos enableInternalRoutes : Bool)
    (h : ∀ k, Annotations.lookup a k = Annotations.lookup a' k) :
    parseAnnotations P a base isPlus hasAppProtect hasAppProtectDos enableInternalRoutes
      = parseAnnotations P a' base isPlus hasAppProtect hasAppProtectDos
          enableInternalRoutes := by
  simp only [parseAnnotations_eq]
  have hc : resolvedConfig P a base isPlus hasAppProtect hasAppProtectDos enableInternalRoutes
      = resolvedConfig P a' base isPlus hasAppProtect hasAppProtectDos
          enableInternalRoutes := by
    simp only [resolvedConfig, resolvedHealthCheckMandatory, resolvedHealthCheckEnabled,
      hstsCommits, hstsSiblingErrors, GetMapKeyAsStringSlice, h]
  have hl : resolvedLog P a base isPlus hasAppProtect hasAppProtectDos enableInternalRoutes
      = resolvedLog P a' base isPlus hasAppProtect hasAppProtectDos enableInternalRoutes := by
    simp only [resolvedLog, resolvedHealthCheckMandatory, resolvedHealthCheckEnabled,
      hstsLog, hstsSiblingErrors, rateLimitErrors, h]
  rw [hc, hl]

/-- C2: when two annotation sets agree on every key outside `masterDenylist`,
`filterMasterAnnotations` leaves them as the same map (the same value at every key),
`parseAnnotations` returns the same configuration and the same log on the two filtered
sets for every baseline and flags, and every denylisted key that was present is in the
returned list of removed keys. -/
theorem master_denylisted_values_do_not_influence (P : Parsers) (a a' : Annotations)
    (base : ConfigParams) (isPlus hasAppProtect hasAppProtectDos enableInternalRoutes : Bool)
    (h : ∀ k, k ∉ masterDenylist → Annotations.lookup a k = Annotations.lookup a' k) :
    (∀ k, Annotations.lookup (filterMasterAnnotations a).1 k
        = Annotations.lookup (filterMasterAnnotations a').1 k)
      ∧ parseAnnotations P (filterMasterAnnotations a).1 base isPlus hasAppProtect
            hasAppProtectDos enableInternalRoutes
          = parseAnnotations P (filterMasterAnnotations a').1 base isPlus hasAppProtect
            hasAppProtectDos enableInternalRoutes
      ∧ (∀ k ∈ masterDenylist, k ∈ Annotations.keys a → k ∈ (filterMasterAnnotations a).2)
      ∧ (∀ k ∈ masterDenylist, k ∈ Annotations.keys a'
          → k ∈ (filterMasterAnnotations a').2) := by
  have hsame : ∀ k, Annotations.lookup (filterMasterAnnotations a).1 k
      = Annotations.lookup (filterMasterAnnotations a').1 k := by
    intro k
    unfold filterMasterAnnotations
    rw [filterLoop_lookup, filterLoop_lookup]
    by_cases hk : k ∈ masterDenylist
    · simp [hk]
    · simp [hk, h k hk]
  refine ⟨hsame, parseAnnotations_congr P _ _ base _ _ _ _ hsame, ?_, ?_⟩
  · intro k hk hin
    unfold filterMasterAnnotations
    rw [filterLoop_keys]
    simp [List.mem_filter, hk, hin]
  · intro k hk hin
    unfold filterMasterAnnotations
    rw [filterLoop_keys]
    simp [List.mem_filter, hk, hin]

/-- C2 at a concrete pair: two masters that differ in the value of
`nginx.org/use-cluster-ip` only resolve to the same configuration. -/
theorem master_denylisted_values_do_not_influence_witness :
    parseAnnotations sampleParsers
        (filterMasterAnnotations
          [("nginx.org/use-cluster-ip", "true"), ("nginx.org/lb-method", "random")]).1
        zeroConfigParams false false false false
      = parseAnnotations sampleParsers
        (filterMasterAnnotations
          [("nginx.org/lb-method", "random"), ("nginx.org/use-cluster-ip", "false")]).1
        zeroConfigParams false false false false :=
  (master_denylisted_values_do_not_influence sampleParsers
    [("nginx.org/use-cluster-ip", "true"), ("nginx.org/lb-method", "random")]
    [("nginx.org/lb-method", "random"), ("nginx.org/use-cluster-ip", "false")]
    zeroConfigParams false false false false
    (by
      intro k hk
      have h1 : ¬ "nginx.org/use-cluster-ip" = k := by
        intro h
        subst h
        exact hk (by decide)
      by_cases h2 : "nginx.org/lb-method" = k <;> simp [Annotations.lookup, h1, h2])).2.1

/-! ## The resolver: the HSTS group -/

/-- The errors of one key, as log entries, that name a given key: all of them when the
two keys are the same, none otherwise. -/
theorem filter_isErrorFor_rejection {α : Type} (K key : String) (raw : Option String)
    (parse : String → Parsed α) :
    ((rejection key raw parse).map LogEntry.error).filter (LogEntry.isErrorFor K)
      = if key = K then (rejection key raw parse).map LogEntry.error else [] := by
  unfold rejection
  cases raw with
  | none => simp
  | some s =>
    cases h : (parse s).err with
    | none => simp [h]
    | some cause => by_cases hk : key = K <;> simp [h, hk, LogEntry.isErrorFor]

/-- A capability warning is no error. -/
theorem filter_isErrorFor_capabilityWarning {α : Type} (K : String) (consulted : Option α)
    (flag : Bool) (text : String) :
    (capabilityWarning consulted flag text).filter (LogEntry.isErrorFor K) = [] := by
  unfold capabilityWarning
  cases consulted <;> cases flag <;> simp [LogEntry.isErrorFor]

/-- With a valid `nginx.org/hsts`, a rejected sibling key discards the group: the four
HSTS fields keep the values of the baseline. -/
theorem hsts_discarded (P : Parsers) (a : Annotations) (base : ConfigParams)
    (isPlus hasAppProtect hasAppProtectDos enableInternalRoutes : Bool)
    (hbad : hstsSiblingErrors P a ≠ []) :
    (parseAnnotations P a base isPlus hasAppProtect hasAppProtectDos
        enableInternalRoutes).1.HSTS = base.HSTS
      ∧ (parseAnnotations P a base isPlus hasAppProtect hasAppProtectDos
        enableInternalRoutes).1.HSTSMaxAge = base.HSTSMaxAge
      ∧ (parseAnnotations P a base isPlus hasAppProtect hasAppProtectDos
        enableInternalRoutes).1.HSTSIncludeSubdomains = base.HSTSIncludeSubdomains
      ∧ (parseAnnotations P a base isPlus hasAppProtect hasAppProtectDos
        enableInternalRoutes).1.HSTSBehindProxy = base.HSTSBehindProxy := by
  rw [parseAnnotations_eq]
  have hc : hstsCommits P a = false := by
    unfold hstsCommits
    cases hE : hstsSiblingErrors P a with
    | nil => exact absurd hE hbad
    | cons e es => simp
  simp only [resolvedConfig_HSTS, resolvedConfig_HSTSMaxAge,
    resolvedConfig_HSTSIncludeSubdomains, resolvedConfig_HSTSBehindProxy, hc]
  simp

/-- The errors of the log that name `nginx.org/hsts-max-age`, when `nginx.org/hsts` is
valid and `nginx.org/hsts-max-age` is rejected: exactly the one error of that key. -/
theorem hsts_max_age_errors (P : Parsers) (a : Annotations) (base : ConfigParams)
    (isPlus hasAppProtect hasAppProtectDos enableInternalRoutes : Bool)
    (s r cause : String) (hh : Annotations.lookup a "nginx.org/hsts" = some s)
    (hv : (P.ParseBool s).err = none)
    (hr : Annotations.lookup a "nginx.org/hsts-max-age" = some r)
    (he : (P.ParseInt64 r).err = some cause) :
    (parseAnnotations P a base isPlus hasAppProtect hasAppProtectDos
        enableInternalRoutes).2.filter (LogEntry.isErrorFor "nginx.org/hsts-max-age")
      = [LogEntry.error ⟨"nginx.org/hsts-max-age", r, cause⟩] := by
  rw [parseAnnotations_eq]
  simp only [resolvedLog, hstsLog, hstsSiblingErrors, rateLimitErrors, List.map_append,
    List.filter_append, apply_ite (List.filter (LogEntry.isErrorFor "nginx.org/hsts-max-age")),
    filter_isErrorFor_rejection, filter_isErrorFor_capabilityWarning,
    UseClusterIPAnnotation, nginxMeshInternalRouteAnnotation, List.filter_nil]
  simp [accepted, rejection, hh, hv, hr, he, LogEntry.isErrorFor]

/-- C4: for every baseline and flags, when `nginx.org/hsts` is present with a valid
boolean and at least one of `nginx.org/hsts-max-age`, `nginx.org/hsts-include-subdomains`
and `nginx.org/hsts-behind-proxy` is present with a value its parser rejects, the four
fields `HSTS`, `HSTSMaxAge`, `HSTSIncludeSubdomains` and `HSTSBehindProxy` of the result
equal the baseline's values; and when `nginx.org/hsts-max-age` is the rejected key, the
log holds exactly one error for that key (next to it the group logs its message about
the skipped settings). -/
theorem hsts_group_is_discarded (P : Parsers) (a : Annotations) (base : ConfigParams)
    (isPlus hasAppProtect hasAppProtectDos enableInternalRoutes : Bool) (s : String)
    (hh : Annotations.lookup a "nginx.org/hsts" = some s) (hv : (P.ParseBool s).err = none) :
    (((∃ r, Annotations.lookup a "nginx.org/hsts-max-age" = some r
            ∧ (P.ParseInt64 r).err ≠ none)
          ∨ (∃ r, Annotations.lookup a "nginx.org/hsts-include-subdomains" = some r
            ∧ (P.ParseBool r).err ≠ none)
          ∨ (∃ r, Annotations.lookup a "nginx.org/hsts-behind-proxy" = some r
            ∧ (P.ParseBool r).err ≠ none))
        → (parseAnnotations P a base isPlus hasAppProtect hasAppProtectDos
              enableInternalRoutes).1.HSTS = base.HSTS
          ∧ (parseAnnotations P a base isPlus hasAppProtect hasAppProtectDos
              enableInternalRoutes).1.HSTSMaxAge = base.HSTSMaxAge
          ∧ (parseAnnotations P a base isPlus hasAppProtect hasAppProtectDos
              enableInternalRoutes).1.HSTSIncludeSubdomains = base.HSTSIncludeSubdomains
          ∧ (parseAnnotations P a base isPlus hasAppProtect hasAppProtectDos
              enableInternalRoutes).1.HSTSBehindProxy = base.HSTSBehindProxy)
      ∧ (∀ r cause, Annotations.lookup a "nginx.org/hsts-max-age" = some r
          → (P.ParseInt64 r).err = some cause
          → (parseAnnotations P a base isPlus hasAppProtect hasAppProtectDos
                enableInternalRoutes).2.filter (LogEntry.isErrorFor "nginx.org/hsts-max-age")
              = [LogEntry.error ⟨"nginx.org/hsts-max-age", r, cause⟩]) := by
  refine ⟨?_, ?_⟩
  · intro hbad
    apply hsts_discarded
    unfold hstsSiblingErrors rejection
    rcases hbad with ⟨r, hr, he⟩ | ⟨r, hr, he⟩ | ⟨r, hr, he⟩
    all_goals
      obtain ⟨cause, hcause⟩ := Option.ne_none_iff_exists'.mp he
      simp [hr, hcause]
  · intro r cause hr he
    exact hsts_max_age_errors P a base isPlus hasAppProtect hasAppProtectDos
      enableInternalRoutes s r cause hh hv hr he

/-- C4 at a concrete input: HSTS enabled with a max-age that is no number, on a
baseline with a max-age of 2592000. -/
theorem hsts_group_is_discarded_witness :
    ((parseAnnotations sampleParsers
          [("nginx.org/hsts", "true"), ("nginx.org/hsts-max-age", "never")]
          { zeroConfigParams with HSTSMaxAge := 2592000 } false false false false).1.HSTS
        = false
      ∧ (parseAnnotations sampleParsers
          [("nginx.org/hsts", "true"), ("nginx.org/hsts-max-age", "never")]
          { zeroConfigParams with HSTSMaxAge := 2592000 } false false false false).1.HSTSMaxAge
        = 2592000)
      ∧ (parseAnnotations sampleParsers
          [("nginx.org/hsts", "true"), ("nginx.org/hsts-max-age", "never")]
          { zeroConfigParams with HSTSMaxAge := 2592000 } false false false false).2
        = [LogEntry.error ⟨"nginx.org/hsts-max-age", "never", "invalid syntax"⟩,
            LogEntry.groupError
              "There are configuration issues with hsts annotations, skipping annotations for all hsts settings"] :=
  ⟨⟨((hsts_group_is_discarded sampleParsers
        [("nginx.org/hsts", "true"), ("nginx.org/hsts-max-age", "never")]
        { zeroConfigParams with HSTSMaxAge := 2592000 } false false false false "true"
        (by decide) (by decide)).1
        (Or.inl ⟨"never", by decide, by decide⟩)).1,
      ((hsts_group_is_discarded sampleParsers
        [("nginx.org/hsts", "true"), ("nginx.org/hsts-max-age", "never")]
        { zeroConfigParams with HSTSMaxAge := 2592000 } false false false false "true"
        (by decide) (by decide)).1
        (Or.inl ⟨"never", by decide, by decide⟩)).2.1⟩,
    by decide⟩

/-! ## The resolver: isolation of the keys -/

/-- An accepted value of a key of `independentKeys`, with the gate of the key open: the
field of the key holds the parsed value, whatever the other annotations are. -/
theorem independent_accepted (P : Parsers) (a : Annotations) (base : ConfigParams)
    (isPlus hasAppProtect hasAppProtectDos enableInternalRoutes : Bool)
    (key : String) (acc : String → Prop) (holds : String → ConfigParams → Prop) (raw : String)
    (hmem : (key, acc, holds)
      ∈ independentKeys P isPlus hasAppProtect hasAppProtectDos enableInternalRoutes)
    (hraw : Annotations.lookup a key = some raw) (hacc : acc raw) :
    holds raw
      (parseAnnotations P a base isPlus hasAppProtect hasAppProtectDos
        enableInternalRoutes).1 := by
  rw [parseAnnotations_eq]
  simp only [independentKeys, List.mem_cons, Prod.mk.injEq, List.not_mem_nil, or_false]
    at hmem
  rcases hmem with ⟨rfl, rfl, rfl⟩ | ⟨rfl, rfl, rfl⟩ | ⟨rfl, rfl, rfl⟩ | ⟨rfl, rfl, rfl⟩
    | ⟨rfl, rfl, rfl⟩ | ⟨rfl, rfl, rfl⟩ | ⟨rfl, rfl, rfl⟩ | ⟨rfl, rfl, rfl⟩ | ⟨rfl, rfl, rfl⟩
    | ⟨rfl, rfl, rfl⟩ | ⟨rfl, rfl, rfl⟩ | ⟨rfl, rfl, rfl⟩ | ⟨rfl, rfl, rfl⟩ | ⟨rfl, rfl, rfl⟩
    | ⟨rfl, rfl, rfl⟩ | ⟨rfl, rfl, rfl⟩ | ⟨rfl, rfl, rfl⟩ | ⟨rfl, rfl, rfl⟩ | ⟨rfl, rfl, rfl⟩
    | ⟨rfl, rfl, rfl⟩ | ⟨rfl, rfl, rfl⟩ | ⟨rfl, rfl, rfl⟩ | ⟨rfl, rfl, rfl⟩ | ⟨rfl, rfl, rfl⟩
    | ⟨rfl, rfl, rfl⟩ | ⟨rfl, rfl, rfl⟩ | ⟨rfl, rfl, rfl⟩ | ⟨rfl, rfl, rfl⟩ | ⟨rfl, rfl, rfl⟩
    | ⟨rfl, rfl, rfl⟩ | ⟨rfl, rfl, rfl⟩ | ⟨rfl, rfl, rfl⟩ | ⟨rfl, rfl, rfl⟩ | ⟨rfl, rfl, rfl⟩
    | ⟨rfl, rfl, rfl⟩ | ⟨rfl, rfl, rfl⟩ | ⟨rfl, rfl, rfl⟩ | ⟨rfl, rfl, rfl⟩ | ⟨rfl, rfl, rfl⟩
    | ⟨rfl, rfl, rfl⟩ | ⟨rfl, rfl, rfl⟩ | ⟨rfl, rfl, rfl⟩ | ⟨rfl, rfl, rfl⟩ | ⟨rfl, rfl, rfl⟩
    | ⟨rfl, rfl, rfl⟩ | ⟨rfl, rfl, rfl⟩ | ⟨rfl, rfl, rfl⟩
  all_goals
    simp only [
      resolvedConfig_LBMethod, resolvedConfig_HealthCheckEnabled,
      resolvedConfig_HealthCheckMandatory, resolvedConfig_HealthCheckMandatoryQueue,
      resolvedConfig_SlowStart, resolvedConfig_ServerTokens, resolvedConfig_ServerSnippets,
      resolvedConfig_LocationSnippets, resolvedConfig_ProxyConnectTimeout,
      resolvedConfig_ProxyReadTimeout, resolvedConfig_ProxySendTimeout,
      resolvedConfig_ProxyHideHeaders, resolvedConfig_ProxyPassHeaders,
      resolvedConfig_ProxySetHeaders, resolvedConfig_ClientMaxBodySize,
      resolvedConfig_RedirectToHTTPS, resolvedConfig_SSLRedirect,
      resolvedConfig_ProxyBuffering, resolvedConfig_HSTS, resolvedConfig_HSTSMaxAge,
      resolvedConfig_HSTSIncludeSubdomains, resolvedConfig_HSTSBehindProxy,
      resolvedConfig_ProxyBuffers, resolvedConfig_ProxyBufferSize,
      resolvedConfig_UpstreamZoneSize, resolvedConfig_ProxyMaxTempFileSize,
      resolvedConfig_JWTRealm, resolvedConfig_JWTKey, resolvedConfig_JWTToken,
      resolvedConfig_JWTLoginURL, resolvedConfig_BasicAuthSecret,
      resolvedConfig_BasicAuthRealm, resolvedConfig_Ports, resolvedConfig_SSLPorts,
      resolvedConfig_Keepalive, resolvedConfig_MaxFails, resolvedConfig_MaxConns,
      resolvedConfig_FailTimeout, resolvedConfig_AppProtectEnable,
      resolvedConfig_AppProtectLogEnable, resolvedConfig_AppProtectDosResource,
      resolvedConfig_SpiffeServerCerts, resolvedConfig_UseClusterIP,
      resolvedConfig_LimitReqRate, resolvedConfig_LimitReqKey, resolvedConfig_LimitReqZoneSize,
      resolvedConfig_LimitReqDelay, resolvedConfig_LimitReqNoDelay,
      resolvedConfig_LimitReqBurst, resolvedConfig_LimitReqDryRun,
      resolvedConfig_LimitReqLogLevel, resolvedConfig_LimitReqRejectCode,
      resolvedConfig_LimitReqScale]
    simp_all [acceptedOr, assignedOr, resolvedHealthCheckEnabled, serverTokensValue, portsOr,
      parseOnOff, parseLogLevel,
      lbMethodParser, GetMapKeyAsStringSlice, JWTKeyAnnotation, BasicAuthSecretAnnotation,
      UseClusterIPAnnotation, nginxMeshInternalRouteAnnotation]


/-- The field of a key depends on the value of the key and of its linked keys only:
two maps with the same values at these keys give the same value of the field. The keys
and fields are those of `keyFields`. -/
theorem field_isolated (P : Parsers) (a a' : Annotations) (base : ConfigParams)
    (isPlus hasAppProtect hasAppProtectDos enableInternalRoutes : Bool)
    (key : String) (f : Field) (hmem : (key, f) ∈ keyFields)
    (h : ∀ k ∈ key :: linkedKeys key, Annotations.lookup a k = Annotations.lookup a' k) :
    f.agree
      (parseAnnotations P a base isPlus hasAppProtect hasAppProtectDos
        enableInternalRoutes).1
      (parseAnnotations P a' base isPlus hasAppProtect hasAppProtectDos
        enableInternalRoutes).1 := by
  simp only [parseAnnotations_eq]
  simp only [keyFields, List.mem_cons, Prod.mk.injEq, List.not_mem_nil, or_false] at hmem
  rcases hmem with ⟨rfl, rfl⟩ | ⟨rfl, rfl⟩ | ⟨rfl, rfl⟩ | ⟨rfl, rfl⟩ | ⟨rfl, rfl⟩ | ⟨rfl, rfl⟩
    | ⟨rfl, rfl⟩ | ⟨rfl, rfl⟩ | ⟨rfl, rfl⟩ | ⟨rfl, rfl⟩ | ⟨rfl, rfl⟩ | ⟨rfl, rfl⟩ | ⟨rfl, rfl⟩
    | ⟨rfl, rfl⟩ | ⟨rfl, rfl⟩ | ⟨rfl, rfl⟩ | ⟨rfl, rfl⟩ | ⟨rfl, rfl⟩ | ⟨rfl, rfl⟩ | ⟨rfl, rfl⟩
    | ⟨rfl, rfl⟩ | ⟨rfl, rfl⟩ | ⟨rfl, rfl⟩ | ⟨rfl, rfl⟩ | ⟨rfl, rfl⟩ | ⟨rfl, rfl⟩ | ⟨rfl, rfl⟩
    | ⟨rfl, rfl⟩ | ⟨rfl, rfl⟩ | ⟨rfl, rfl⟩ | ⟨rfl, rfl⟩ | ⟨rfl, rfl⟩ | ⟨rfl, rfl⟩ | ⟨rfl, rfl⟩
    | ⟨rfl, rfl⟩ | ⟨rfl, rfl⟩ | ⟨rfl, rfl⟩ | ⟨rfl, rfl⟩ | ⟨rfl, rfl⟩ | ⟨rfl, rfl⟩ | ⟨rfl, rfl⟩
    | ⟨rfl, rfl⟩ | ⟨rfl, rfl⟩ | ⟨rfl, rfl⟩ | ⟨rfl, rfl⟩ | ⟨rfl, rfl⟩ | ⟨rfl, rfl⟩ | ⟨rfl, rfl⟩
    | ⟨rfl, rfl⟩ | ⟨rfl, rfl⟩ | ⟨rfl, rfl⟩ | ⟨rfl, rfl⟩ | ⟨rfl, rfl⟩
  all_goals
    simp [linkedKeys] at h
    simp only [Field.agree,
      resolvedConfig_LBMethod, resolvedConfig_HealthCheckEnabled,
      resolvedConfig_HealthCheckMandatory, resolvedConfig_HealthCheckMandatoryQueue,
      resolvedConfig_SlowStart, resolvedConfig_ServerTokens, resolvedConfig_ServerSnippets,
      resolvedConfig_LocationSnippets, resolvedConfig_ProxyConnectTimeout,
      resolvedConfig_ProxyReadTimeout, resolvedConfig_ProxySendTimeout,
      resolvedConfig_ProxyHideHeaders, resolvedConfig_ProxyPassHeaders,
      resolvedConfig_ProxySetHeaders, resolvedConfig_ClientMaxBodySize,
      resolvedConfig_RedirectToHTTPS, resolvedConfig_SSLRedirect,
      resolvedConfig_ProxyBuffering, resolvedConfig_HSTS, resolvedConfig_HSTSMaxAge,
      resolvedConfig_HSTSIncludeSubdomains, resolvedConfig_HSTSBehindProxy,
      resolvedConfig_ProxyBuffers, resolvedConfig_ProxyBufferSize,
      resolvedConfig_UpstreamZoneSize, resolvedConfig_ProxyMaxTempFileSize,
      resolvedConfig_JWTRealm, resolvedConfig_JWTKey, resolvedConfig_JWTToken,
      resolvedConfig_JWTLoginURL, resolvedConfig_BasicAuthSecret,
      resolvedConfig_BasicAuthRealm, resolvedConfig_Ports, resolvedConfig_SSLPorts,
      resolvedConfig_Keepalive, resolvedConfig_MaxFails, resolvedConfig_MaxConns,
      resolvedConfig_FailTimeout, resolvedConfig_AppProtectEnable,
      resolvedConfig_AppProtectLogEnable, resolvedConfig_AppProtectDosResource,
      resolvedConfig_SpiffeServerCerts, resolvedConfig_UseClusterIP,
      resolvedConfig_LimitReqRate, resolvedConfig_LimitReqKey, resolvedConfig_LimitReqZoneSize,
      resolvedConfig_LimitReqDelay, resolvedConfig_LimitReqNoDelay,
      resolvedConfig_LimitReqBurst, resolvedConfig_LimitReqDryRun,
      resolvedConfig_LimitReqLogLevel, resolvedConfig_LimitReqRejectCode,
      resolvedConfig_LimitReqScale]
    simp only [resolvedHealthCheckMandatory, resolvedHealthCheckEnabled, hstsCommits,
      hstsSiblingErrors, GetMapKeyAsStringSlice, UseClusterIPAnnotation, JWTKeyAnnotation,
      BasicAuthSecretAnnotation, nginxMeshInternalRouteAnnotation, h]

/-- C11, as the code has it: a key `A` of `governedFields` with a rejected raw value
leaves its field at the baseline, but for `nginx.org/server-tokens` under `isPlus`,
whose field takes the raw value. It hinders no other key: an accepted raw value of a
key `B` other than `A` (a key of `independentKeys`, with its gate open) makes the field
of `B` hold the parsed value; and for every key `B` of `keyFields` that is neither `A`
nor linked to `A` (`linkedKeys`: the HSTS group, the prerequisites of the health-check
keys), the field of `B` is the same in every map that differs at `A` only. -/
theorem rejected_key_does_not_hinder_accepted_key (P : Parsers) (a : Annotations)
    (base : ConfigParams) (isPlus hasAppProtect hasAppProtectDos enableInternalRoutes : Bool)
    (A : String) (kp : KeyParser) (f : Field) (rawA : String)
    (hA : (A, kp, f) ∈ governedFields)
    (hrawA : Annotations.lookup a A = some rawA) (hrejA : kp.rejects P isPlus rawA) :
    (if A = "nginx.org/server-tokens" ∧ isPlus = true then
        (parseAnnotations P a base isPlus hasAppProtect hasAppProtectDos
          enableInternalRoutes).1.ServerTokens = rawA
      else
        f.agree
          (parseAnnotations P a base isPlus hasAppProtect hasAppProtectDos
            enableInternalRoutes).1 base)
      ∧ (∀ (B : String) (acc : String → Prop) (holds : String → ConfigParams → Prop)
          (rawB : String),
          (B, acc, holds)
            ∈ independentKeys P isPlus hasAppProtect hasAppProtectDos enableInternalRoutes
          → A ≠ B → Annotations.lookup a B = some rawB → acc rawB
          → holds rawB
              (parseAnnotations P a base isPlus hasAppProtect hasAppProtectDos
                enableInternalRoutes).1)
      ∧ (∀ (B : String) (g : Field) (a' : Annotations),
          (B, g) ∈ keyFields → A ∉ B :: linkedKeys B
          → (∀ k, k ≠ A → Annotations.lookup a' k = Annotations.lookup a k)
          → g.agree
              (parseAnnotations P a' base isPlus hasAppProtect hasAppProtectDos
                enableInternalRoutes).1
              (parseAnnotations P a base isPlus hasAppProtect hasAppProtectDos
                enableInternalRoutes).1) :=
  ⟨governed_rejected P a base isPlus hasAppProtect hasAppProtectDos enableInternalRoutes
      A kp f rawA hA hrawA hrejA,
    fun B acc holds rawB hB _ hrawB haccB =>
      independent_accepted P a base isPlus hasAppProtect hasAppProtectDos
        enableInternalRoutes B acc holds rawB hB hrawB haccB,
    fun B g a' hB hAB h =>
      field_isolated P a' a base isPlus hasAppProtect hasAppProtectDos enableInternalRoutes
        B g hB (fun k hk => h k (fun hkA => hAB (hkA ▸ hk)))⟩

/-- C11 at the scenario of the specification: on a baseline with a connect timeout and a
read timeout of `"60s"`, the read timeout `"30s"` is resolved, the connect timeout
`"notanumber"` leaves the baseline's `"60s"`, and the log is the one error that names
`nginx.org/proxy-connect-timeout`. -/
theorem rejected_key_does_not_hinder_accepted_key_witness :
    ((parseAnnotations sampleParsers
          [("nginx.org/proxy-read-timeout", "30s"),
            ("nginx.org/proxy-connect-timeout", "notanumber")]
          { zeroConfigParams with ProxyConnectTimeout := "60s", ProxyReadTimeout := "60s" }
          false false false false).1.ProxyConnectTimeout = "60s"
        ∧ (parseAnnotations sampleParsers
          [("nginx.org/proxy-read-timeout", "30s"),
            ("nginx.org/proxy-connect-timeout", "notanumber")]
          { zeroConfigParams with ProxyConnectTimeout := "60s", ProxyReadTimeout := "60s" }
          false false false false).1.ProxyReadTimeout = "30s")
      ∧ (parseAnnotations sampleParsers
          [("nginx.org/proxy-read-timeout", "30s"),
            ("nginx.org/proxy-connect-timeout", "notanumber")]
          { zeroConfigParams with ProxyConnectTimeout := "60s", ProxyReadTimeout := "60s" }
          false false false false).2
        = [LogEntry.error
            ⟨"nginx.org/proxy-connect-timeout", "notanumber", "invalid time string"⟩] :=
  have h := rejected_key_does_not_hinder_accepted_key sampleParsers
    [("nginx.org/proxy-read-timeout", "30s"),
      ("nginx.org/proxy-connect-timeout", "notanumber")]
    { zeroConfigParams with ProxyConnectTimeout := "60s", ProxyReadTimeout := "60s" }
    false false false false
    "nginx.org/proxy-connect-timeout" .time .ProxyConnectTimeout "notanumber"
    (by decide) (by decide) (by decide)
  ⟨⟨h.1, h.2.1 "nginx.org/proxy-read-timeout"
      (fun s => (sampleParsers.ParseTime s).err = none)
      (fun s c => c.ProxyReadTimeout = (sampleParsers.ParseTime s).val) "30s"
      (by simp [independentKeys]) (by decide) (by decide) (by decide)⟩,
    by decide⟩

/-- C11 fails as stated, at two keys. Under NGINX Plus a rejected
`nginx.org/server-tokens` next to an accepted `nginx.org/keepalive` does not keep the
baseline: `ServerTokens` becomes the raw value. Without NGINX Plus an accepted
`nginx.com/slow-start` next to a rejected `nginx.org/proxy-connect-timeout` is not
written: `SlowStart` keeps the baseline's value. -/
theorem accepted_key_behind_closed_gate :
    ((sampleParsers.ParseBool "custom").err ≠ none
        ∧ sampleParsers.ParseInt "32" = ⟨32, none⟩
        ∧ (parseAnnotations sampleParsers
            [("nginx.org/server-tokens", "custom"), ("nginx.org/keepalive", "32")]
            { zeroConfigParams with ServerTokens := "on" }
            true false false false).1.ServerTokens = "custom")
      ∧ (sampleParsers.ParseTime "notanumber").err ≠ none
      ∧ sampleParsers.ParseTime "30s" = ⟨"30s", none⟩
      ∧ (parseAnnotations sampleParsers
          [("nginx.org/proxy-connect-timeout", "notanumber"), ("nginx.com/slow-start", "30s")]
          { zeroConfigParams with SlowStart := "10s" }
          false false false false).1.SlowStart = "10s" := by
  decide

/-! ## The resolver: the errors of a key -/

/-- Filtering a list chosen by a condition filters the two candidates. -/
theorem filter_if {α : Type} (p : α → Bool) (c : Prop) [Decidable c] (l₁ l₂ : List α) :
    (if c then l₁ else l₂).filter p = if c then l₁.filter p else l₂.filter p := by
  split <;> rfl

/-- A rejected value of a key of `reportingKeys` that is read: the log holds exactly
one error that names the key, made of the key, the raw value and the cause. -/
theorem reported_once (P : Parsers) (a : Annotations) (base : ConfigParams)
    (isPlus hasAppProtect hasAppProtectDos enableInternalRoutes : Bool)
    (key : String) (rej : String → Prop) (read : Prop) (raw : String)
    (hmem : (key, rej, read)
      ∈ reportingKeys P a base isPlus hasAppProtect enableInternalRoutes)
    (hraw : Annotations.lookup a key = some raw) (hrej : rej raw) (hread : read) :
    ∃ cause,
      (parseAnnotations P a base isPlus hasAppProtect hasAppProtectDos
          enableInternalRoutes).2.filter (LogEntry.isErrorFor key)
        = [LogEntry.error ⟨key, raw, cause⟩] := by
  rw [parseAnnotations_eq]
  simp only [reportingKeys, List.mem_cons, Prod.mk.injEq, List.not_mem_nil, or_false]
    at hmem
  rcases hmem with ⟨rfl, rfl, rfl⟩ | ⟨rfl, rfl, rfl⟩ | ⟨rfl, rfl, rfl⟩ | ⟨rfl, rfl, rfl⟩
    | ⟨rfl, rfl, rfl⟩ | ⟨rfl, rfl, rfl⟩ | ⟨rfl, rfl, rfl⟩ | ⟨rfl, rfl, rfl⟩ | ⟨rfl, rfl, rfl⟩
    | ⟨rfl, rfl, rfl⟩ | ⟨rfl, rfl, rfl⟩ | ⟨rfl, rfl, rfl⟩ | ⟨rfl, rfl, rfl⟩ | ⟨rfl, rfl, rfl⟩
    | ⟨rfl, rfl, rfl⟩ | ⟨rfl, rfl, rfl⟩ | ⟨rfl, rfl, rfl⟩ | ⟨rfl, rfl, rfl⟩ | ⟨rfl, rfl, rfl⟩
    | ⟨rfl, rfl, rfl⟩ | ⟨rfl, rfl, rfl⟩ | ⟨rfl, rfl, rfl⟩ | ⟨rfl, rfl, rfl⟩ | ⟨rfl, rfl, rfl⟩
    | ⟨rfl, rfl, rfl⟩ | ⟨rfl, rfl, rfl⟩ | ⟨rfl, rfl, rfl⟩ | ⟨rfl, rfl, rfl⟩ | ⟨rfl, rfl, rfl⟩
    | ⟨rfl, rfl, rfl⟩ | ⟨rfl, rfl, rfl⟩ | ⟨rfl, rfl, rfl⟩ | ⟨rfl, rfl, rfl⟩ | ⟨rfl, rfl, rfl⟩
    | ⟨rfl, rfl, rfl⟩
  all_goals
    simp only [resolvedLog, hstsLog, hstsSiblingErrors, rateLimitErrors, List.map_append,
      List.filter_append, filter_if, filter_isErrorFor_rejection,
      filter_isErrorFor_capabilityWarning, UseClusterIPAnnotation,
      nginxMeshInternalRouteAnnotation, PathRegexAnnotation, List.filter_nil]
    obtain ⟨cause, hcause⟩ := Option.ne_none_iff_exists'.mp hrej
    exact ⟨cause, by simp [rejection, LogEntry.isErrorFor, hraw, hcause, hread]⟩

/-- C12, as the code has it: for every key of `reportingKeys` (the recognized keys with a
parser, but for `nginx.com/slow-start`), a present raw value that the parser rejects
makes `parseAnnotations` log exactly one error that names the key, provided the key is
read: `nginx.org/server-tokens` without `isPlus`, a flag-gated key with its flag on, a
dependent health-check key with its prerequisite on, a sibling of the HSTS group under
a valid `nginx.org/hsts` (the group then logs its own message next to it). -/
theorem rejected_value_is_reported_once (P : Parsers) (a : Annotations) (base : ConfigParams)
    (isPlus hasAppProtect hasAppProtectDos enableInternalRoutes : Bool)
    (key : String) (rej : String → Prop) (read : Prop) (raw : String)
    (hmem : (key, rej, read)
      ∈ reportingKeys P a base isPlus hasAppProtect enableInternalRoutes)
    (hraw : Annotations.lookup a key = some raw) (hrej : rej raw) (hread : read) :
    ∃ cause,
      (parseAnnotations P a base isPlus hasAppProtect hasAppProtectDos
          enableInternalRoutes).2.filter (LogEntry.isErrorFor key)
        = [LogEntry.error ⟨key, raw, cause⟩] :=
  reported_once P a base isPlus hasAppProtect hasAppProtectDos enableInternalRoutes
    key rej read raw hmem hraw hrej hread

/-- C12 at a concrete input: a keepalive that is no number. -/
theorem rejected_value_is_reported_once_witness :
    ∃ cause,
      (parseAnnotations sampleParsers [("nginx.org/keepalive", "many")] zeroConfigParams
          false false false false).2.filter (LogEntry.isErrorFor "nginx.org/keepalive")
        = [LogEntry.error ⟨"nginx.org/keepalive", "many", cause⟩] :=
  rejected_value_is_reported_once sampleParsers [("nginx.org/keepalive", "many")]
    zeroConfigParams false false false false "nginx.org/keepalive"
    (fun s => (sampleParsers.ParseInt s).err ≠ none) True "many"
    (by simp [reportingKeys]) (by decide) (by decide) trivial

/-- C12 fails as stated, at its two examples: the error of an invalid
`nginx.com/slow-start` names `nginx.org/slow-start`, and an invalid
`nginx.org/hsts-max-age` under a valid `nginx.org/hsts` logs two entries. -/
theorem rejected_value_misreported :
    ((parseAnnotations sampleParsers [("nginx.com/slow-start", "soon")] zeroConfigParams
          true false false false).2
        = [LogEntry.error ⟨"nginx.org/slow-start", "soon", "invalid time string"⟩]
      ∧ (parseAnnotations sampleParsers [("nginx.com/slow-start", "soon")] zeroConfigParams
          true false false false).2.filter (LogEntry.isErrorFor "nginx.com/slow-start") = [])
      ∧ (parseAnnotations sampleParsers
          [("nginx.org/hsts", "true"), ("nginx.org/hsts-max-age", "never")] zeroConfigParams
          false false false false).2.length = 2 := by
  decide

/-! ## The resolver: flag-gated keys -/

/-- C13, as the code has it: with `isPlus` off the fields `HealthCheckEnabled`,
`SlowStart`, `JWTRealm`, `JWTKey`, `JWTToken` and `JWTLoginURL` equal the baseline,
whatever the annotations; `HealthCheckMandatory` and `HealthCheckMandatoryQueue` are
gated by their prerequisite fields and not by `isPlus`: they equal the baseline when the
baseline has `HealthCheckEnabled` off, respectively `HealthCheckEnabled` and
`HealthCheckMandatory` off. With `hasAppProtect` off `AppProtectEnable` and
`AppProtectLogEnable` equal the baseline, with `hasAppProtectDos` off
`AppProtectDosResource`, and with `enableInternalRoutes` off `SpiffeServerCerts`. -/
theorem closed_gate_keeps_baseline (P : Parsers) (a : Annotations) (base : ConfigParams)
    (isPlus hasAppProtect hasAppProtectDos enableInternalRoutes : Bool) :
    (isPlus = false →
        (parseAnnotations P a base isPlus hasAppProtect hasAppProtectDos
            enableInternalRoutes).1.HealthCheckEnabled = base.HealthCheckEnabled
          ∧ (parseAnnotations P a base isPlus hasAppProtect hasAppProtectDos
            enableInternalRoutes).1.SlowStart = base.SlowStart
          ∧ (parseAnnotations P a base isPlus hasAppProtect hasAppProtectDos
            enableInternalRoutes).1.JWTRealm = base.JWTRealm
          ∧ (parseAnnotations P a base isPlus hasAppProtect hasAppProtectDos
            enableInternalRoutes).1.JWTKey = base.JWTKey
          ∧ (parseAnnotations P a base isPlus hasAppProtect hasAppProtectDos
            enableInternalRoutes).1.JWTToken = base.JWTToken
          ∧ (parseAnnotations P a base isPlus hasAppProtect hasAppProtectDos
            enableInternalRoutes).1.JWTLoginURL = base.JWTLoginURL
          ∧ (base.HealthCheckEnabled = false →
              (parseAnnotations P a base isPlus hasAppProtect hasAppProtectDos
                  enableInternalRoutes).1.HealthCheckMandatory = base.HealthCheckMandatory
                ∧ (base.HealthCheckMandatory = false →
                    (parseAnnotations P a base isPlus hasAppProtect hasAppProtectDos
                        enableInternalRoutes).1.HealthCheckMandatoryQueue
                      = base.HealthCheckMandatoryQueue)))
      ∧ (hasAppProtect = false →
          (parseAnnotations P a base isPlus hasAppProtect hasAppProtectDos
              enableInternalRoutes).1.AppProtectEnable = base.AppProtectEnable
            ∧ (parseAnnotations P a base isPlus hasAppProtect hasAppProtectDos
              enableInternalRoutes).1.AppProtectLogEnable = base.AppProtectLogEnable)
      ∧ (hasAppProtectDos = false →
          (parseAnnotations P a base isPlus hasAppProtect hasAppProtectDos
              enableInternalRoutes).1.AppProtectDosResource = base.AppProtectDosResource)
      ∧ (enableInternalRoutes = false →
          (parseAnnotations P a base isPlus hasAppProtect hasAppProtectDos
              enableInternalRoutes).1.SpiffeServerCerts = base.SpiffeServerCerts) := by
  rw [parseAnnotations_eq]
  simp only [resolvedConfig_HealthCheckEnabled, resolvedConfig_SlowStart,
    resolvedConfig_JWTRealm, resolvedConfig_JWTKey, resolvedConfig_JWTToken,
    resolvedConfig_JWTLoginURL, resolvedConfig_HealthCheckMandatory,
    resolvedConfig_HealthCheckMandatoryQueue, resolvedConfig_AppProtectEnable,
    resolvedConfig_AppProtectLogEnable, resolvedConfig_AppProtectDosResource,
    resolvedConfig_SpiffeServerCerts]
  refine ⟨?_, ?_, ?_, ?_⟩
  · intro h
    subst h
    refine ⟨by simp [resolvedHealthCheckEnabled], by simp, by simp, by simp, by simp,
      by simp, ?_⟩
    intro hE
    refine ⟨?_, ?_⟩
    · simp [resolvedHealthCheckMandatory, resolvedHealthCheckEnabled, hE]
    · intro hM
      simp [resolvedHealthCheckMandatory, resolvedHealthCheckEnabled, hE, hM]
  · intro h
    subst h
    simp
  · intro h
    subst h
    simp
  · intro h
    subst h
    simp

/-- C13 at a concrete input: without NGINX Plus a valid `nginx.com/slow-start` and a
`nginx.com/jwt-key` leave the baseline. -/
theorem closed_gate_keeps_baseline_witness :
    (parseAnnotations sampleParsers
        [("nginx.com/slow-start", "30s"), ("nginx.com/jwt-key", "secret")]
        { zeroConfigParams with SlowStart := "10s" } false false false false).1.SlowStart
      = "10s" :=
  ((closed_gate_keeps_baseline sampleParsers
    [("nginx.com/slow-start", "30s"), ("nginx.com/jwt-key", "secret")]
    { zeroConfigParams with SlowStart := "10s" } false false false false).1 rfl).2.1

/-- C13 fails as stated, at `HealthCheckMandatory`: without NGINX Plus, on a baseline
with `HealthCheckEnabled` on, `nginx.com/health-checks-mandatory` is read and written. -/
theorem mandatory_written_without_plus :
    (parseAnnotations sampleParsers [("nginx.com/health-checks-mandatory", "true")]
        { zeroConfigParams with HealthCheckEnabled := true }
        false false false false).1.HealthCheckMandatory = true
      ∧ ({ zeroConfigParams with HealthCheckEnabled := true } : ConfigParams).HealthCheckMandatory
        = false := by
  decide

/-! ## The resolver: keys behind a closed gate -/

/-- A key outside the eight keys of the flag-guarded blocks is not closed. -/
theorem not_mem_closedKeys (isPlus hasAppProtect hasAppProtectDos enableInternalRoutes : Bool)
    (k : String)
    (hk : k ∉ ["nginx.com/jwt-realm", "nginx.com/jwt-key", "nginx.com/jwt-token",
      "nginx.com/jwt-login-url", "appprotect.f5.com/app-protect-enable",
      "appprotect.f5.com/app-protect-security-log-enable",
      "appprotectdos.f5.com/app-protect-dos-resource", "nsm.nginx.com/internal-route"]) :
    k ∉ closedKeys isPlus hasAppProtect hasAppProtectDos enableInternalRoutes := by
  unfold closedKeys
  simp only [List.mem_cons, List.not_mem_nil, or_false, not_or] at hk
  obtain ⟨h1, h2, h3, h4, h5, h6, h7, h8⟩ := hk
  cases isPlus <;> cases hasAppProtect <;> cases hasAppProtectDos
    <;> cases enableInternalRoutes <;> simp [h1, h2, h3, h4, h5, h6, h7, h8]

/-- The resolver does not read the keys of `closedKeys`: two maps with the same value at
every other key give the same configuration and the same log. -/
theorem parseAnnotations_congr_closed (P : Parsers) (a a' : Annotations)
    (base : ConfigParams) (isPlus hasAppProtect hasAppProtectDos enableInternalRoutes : Bool)
    (h : ∀ k, k ∉ closedKeys isPlus hasAppProtect hasAppProtectDos enableInternalRoutes
      → Annotations.lookup a k = Annotations.lookup a' k) :
    parseAnnotations P a base isPlus hasAppProtect hasAppProtectDos enableInternalRoutes
      = parseAnnotations P a' base isPlus hasAppProtect hasAppProtectDos
          enableInternalRoutes := by
  have e0 := h "nginx.org/lb-method" (not_mem_closedKeys _ _ _ _ _ (by decide))
  have e1 := h "nginx.com/health-checks" (not_mem_closedKeys _ _ _ _ _ (by decide))
  have e2 := h "nginx.com/health-checks-mandatory" (not_mem_closedKeys _ _ _ _ _ (by decide))
  have e3 := h "nginx.com/health-checks-mandatory-queue" (not_mem_closedKeys _ _ _ _ _ (by decide))
  have e4 := h "nginx.com/slow-start" (not_mem_closedKeys _ _ _ _ _ (by decide))
  have e5 := h "nginx.org/server-tokens" (not_mem_closedKeys _ _ _ _ _ (by decide))
  have e6 := h "nginx.org/server-snippets" (not_mem_closedKeys _ _ _ _ _ (by decide))
  have e7 := h "nginx.org/location-snippets" (not_mem_closedKeys _ _ _ _ _ (by decide))
  have e8 := h "nginx.org/proxy-connect-timeout" (not_mem_closedKeys _ _ _ _ _ (by decide))
  have e9 := h "nginx.org/proxy-read-timeout" (not_mem_closedKeys _ _ _ _ _ (by decide))
  have e10 := h "nginx.org/proxy-send-timeout" (not_mem_closedKeys _ _ _ _ _ (by decide))
  have e11 := h "nginx.org/proxy-hide-headers" (not_mem_closedKeys _ _ _ _ _ (by decide))
  have e12 := h "nginx.org/proxy-pass-headers" (not_mem_closedKeys _ _ _ _ _ (by decide))
  have e13 := h "nginx.org/proxy-set-headers" (not_mem_closedKeys _ _ _ _ _ (by decide))
  have e14 := h "nginx.org/client-max-body-size" (not_mem_closedKeys _ _ _ _ _ (by decide))
  have e15 := h "nginx.org/redirect-to-https" (not_mem_closedKeys _ _ _ _ _ (by decide))
  have e16 := h "ingress.kubernetes.io/ssl-redirect" (not_mem_closedKeys _ _ _ _ _ (by decide))
  have e17 := h "nginx.org/proxy-buffering" (not_mem_closedKeys _ _ _ _ _ (by decide))
  have e18 := h "nginx.org/hsts" (not_mem_closedKeys _ _ _ _ _ (by decide))
  have e19 := h "nginx.org/hsts-max-age" (not_mem_closedKeys _ _ _ _ _ (by decide))
  have e20 := h "nginx.org/hsts-include-subdomains" (not_mem_closedKeys _ _ _ _ _ (by decide))
  have e21 := h "nginx.org/hsts-behind-proxy" (not_mem_closedKeys _ _ _ _ _ (by decide))
  have e22 := h "nginx.org/proxy-buffers" (not_mem_closedKeys _ _ _ _ _ (by decide))
  have e23 := h "nginx.org/proxy-buffer-size" (not_mem_closedKeys _ _ _ _ _ (by decide))
  have e24 := h "nginx.org/upstream-zone-size" (not_mem_closedKeys _ _ _ _ _ (by decide))
  have e25 := h "nginx.org/proxy-max-temp-file-size" (not_mem_closedKeys _ _ _ _ _ (by decide))
  have j26 : isPlus = true → Annotations.lookup a "nginx.com/jwt-realm"
      = Annotations.lookup a' "nginx.com/jwt-realm" :=
    fun hf => h _ (by simp [closedKeys, hf])
  have j27 : isPlus = true → Annotations.lookup a "nginx.com/jwt-key"
      = Annotations.lookup a' "nginx.com/jwt-key" :=
    fun hf => h _ (by simp [closedKeys, hf])
  have j28 : isPlus = true → Annotations.lookup a "nginx.com/jwt-token"
      = Annotations.lookup a' "nginx.com/jwt-token" :=
    fun hf => h _ (by simp [closedKeys, hf])
  have j29 : isPlus = true → Annotations.lookup a "nginx.com/jwt-login-url"
      = Annotations.lookup a' "nginx.com/jwt-login-url" :=
    fun hf => h _ (by simp [closedKeys, hf])
  have e30 := h "nginx.org/basic-auth-secret" (not_mem_closedKeys _ _ _ _ _ (by decide))
  have e31 := h "nginx.org/basic-auth-realm" (not_mem_closedKeys _ _ _ _ _ (by decide))
  have e32 := h "nginx.org/listen-ports" (not_mem_closedKeys _ _ _ _ _ (by decide))
  have e33 := h "nginx.org/listen-ports-ssl" (not_mem_closedKeys _ _ _ _ _ (by decide))
  have e34 := h "nginx.org/keepalive" (not_mem_closedKeys _ _ _ _ _ (by decide))
  have e35 := h "nginx.org/max-fails" (not_mem_closedKeys _ _ _ _ _ (by decide))
  have e36 := h "nginx.org/max-conns" (not_mem_closedKeys _ _ _ _ _ (by decide))
  have e37 := h "nginx.org/fail-timeout" (not_mem_closedKeys _ _ _ _ _ (by decide))
  have j38 : hasAppProtect = true → Annotations.lookup a "appprotect.f5.com/app-protect-enable"
      = Annotations.lookup a' "appprotect.f5.com/app-protect-enable" :=
    fun hf => h _ (by simp [closedKeys, hf])
  have j39 : hasAppProtect = true → Annotations.lookup a "appprotect.f5.com/app-protect-security-log-enable"
      = Annotations.lookup a' "appprotect.f5.com/app-protect-security-log-enable" :=
    fun hf => h _ (by simp [closedKeys, hf])
  have j40 : hasAppProtectDos = true → Annotations.lookup a "appprotectdos.f5.com/app-protect-dos-resource"
      = Annotations.lookup a' "appprotectdos.f5.com/app-protect-dos-resource" :=
    fun hf => h _ (by simp [closedKeys, hf])
  have j41 : enableInternalRoutes = true → Annotations.lookup a "nsm.nginx.com/internal-route"
      = Annotations.lookup a' "nsm.nginx.com/internal-route" :=
    fun hf => h _ (by simp [closedKeys, hf])
  have e42 := h "nginx.org/use-cluster-ip" (not_mem_closedKeys _ _ _ _ _ (by decide))
  have e43 := h "nginx.org/limit-req-rate" (not_mem_closedKeys _ _ _ _ _ (by decide))
  have e44 := h "nginx.org/limit-req-key" (not_mem_closedKeys _ _ _ _ _ (by decide))
  have e45 := h "nginx.org/limit-req-zone-size" (not_mem_closedKeys _ _ _ _ _ (by decide))
  have e46 := h "nginx.org/limit-req-delay" (not_mem_closedKeys _ _ _ _ _ (by decide))
  have e47 := h "nginx.org/limit-req-no-delay" (not_mem_closedKeys _ _ _ _ _ (by decide))
  have e48 := h "nginx.org/limit-req-burst" (not_mem_closedKeys _ _ _ _ _ (by decide))
  have e49 := h "nginx.org/limit-req-dry-run" (not_mem_closedKeys _ _ _ _ _ (by decide))
  have e50 := h "nginx.org/limit-req-log-level" (not_mem_closedKeys _ _ _ _ _ (by decide))
  have e51 := h "nginx.org/limit-req-reject-code" (not_mem_closedKeys _ _ _ _ _ (by decide))
  have e52 := h "nginx.org/limit-req-scale" (not_mem_closedKeys _ _ _ _ _ (by decide))
  have e53 := h "nginx.org/path-regex" (not_mem_closedKeys _ _ _ _ _ (by decide))
  simp only [parseAnnotations_eq]
  have hc : resolvedConfig P a base isPlus hasAppProtect hasAppProtectDos enableInternalRoutes
      = resolvedConfig P a' base isPlus hasAppProtect hasAppProtectDos
          enableInternalRoutes := by
    simp only [resolvedConfig, resolvedHealthCheckMandatory, resolvedHealthCheckEnabled,
      hstsCommits, hstsSiblingErrors, GetMapKeyAsStringSlice, UseClusterIPAnnotation,
      JWTKeyAnnotation, BasicAuthSecretAnnotation, nginxMeshInternalRouteAnnotation,
      e0, e1, e2, e3, e4, e5, e6, e7, e8, e9, e10, e11, e12, e13, e14, e15, e16, e17, e18, e19,
      e20, e21, e22, e23, e24, e25, j26, j27, j28, j29, e30, e31, e32, e33, e34, e35, e36, e37,
      j38, j39, j40, j41, e42, e43, e44, e45, e46, e47, e48, e49, e50, e51, e52, e53]
    cases isPlus <;> cases hasAppProtect <;> cases hasAppProtectDos
      <;> cases enableInternalRoutes
      <;> simp only [j26, j27, j28, j29, j38, j39, j40, j41, Bool.false_eq_true,
        if_false, if_true]
  have hl : resolvedLog P a base isPlus hasAppProtect hasAppProtectDos enableInternalRoutes
      = resolvedLog P a' base isPlus hasAppProtect hasAppProtectDos enableInternalRoutes := by
    simp only [resolvedLog, resolvedHealthCheckMandatory, resolvedHealthCheckEnabled,
      hstsLog, hstsSiblingErrors, rateLimitErrors, UseClusterIPAnnotation,
      PathRegexAnnotation, nginxMeshInternalRouteAnnotation,
      e0, e1, e2, e3, e4, e5, e6, e7, e8, e9, e10, e11, e12, e13, e14, e15, e16, e17, e18, e19,
      e20, e21, e22, e23, e24, e25, j26, j27, j28, j29, e30, e31, e32, e33, e34, e35, e36, e37,
      j38, j39, j40, j41, e42, e43, e44, e45, e46, e47, e48, e49, e50, e51, e52, e53]
    cases isPlus <;> cases hasAppProtect <;> cases hasAppProtectDos
      <;> cases enableInternalRoutes
      <;> simp only [j26, j27, j28, j29, j38, j39, j40, j41, Bool.false_eq_true,
        if_false, if_true]
  rw [hc, hl]

/-! ## The resolver: capability warnings -/

/-- A warning is in the list of a capability warning when the key was consulted, the
flag is off and the text is the text of the warning. -/
theorem mem_capabilityWarning {α : Type} (t : String) (consulted : Option α) (flag : Bool)
    (text : String) :
    LogEntry.warn t ∈ capabilityWarning consulted flag text
      ↔ consulted.isSome = true ∧ flag = false ∧ t = text := by
  unfold capabilityWarning
  cases consulted <;> cases flag <;> simp

/-- The warnings of the log of `parseAnnotations`: the warning of
`nginx.com/health-checks` when the key is present, and the warning of
`nginx.com/slow-start` when its value is accepted, both without NGINX Plus only. -/
theorem mem_warn_log (P : Parsers) (a : Annotations) (base : ConfigParams)
    (isPlus hasAppProtect hasAppProtectDos enableInternalRoutes : Bool) (text : String) :
    LogEntry.warn text ∈ (parseAnnotations P a base isPlus hasAppProtect hasAppProtectDos
        enableInternalRoutes).2
      ↔ isPlus = false
        ∧ ((text = healthChecksWarning
            ∧ (Annotations.lookup a "nginx.com/health-checks").isSome = true)
          ∨ (text = slowStartWarning
            ∧ (accepted (Annotations.lookup a "nginx.com/slow-start")
                P.ParseTime).isSome = true)) := by
  rw [parseAnnotations_eq]
  simp only [resolvedLog, hstsLog, List.mem_append, mem_capabilityWarning, List.mem_map,
    reduceCtorEq, and_false, exists_false, false_or, or_false, List.mem_ite_nil_left,
    List.mem_ite_nil_right, List.mem_singleton, healthChecksWarning, slowStartWarning]
  constructor
  · rintro (⟨h1, h2, h3⟩ | ⟨h1, h2, h3⟩)
    · exact ⟨h2, Or.inl ⟨h3, h1⟩⟩
    · exact ⟨h2, Or.inr ⟨h3, h1⟩⟩
  · rintro ⟨h2, ⟨h3, h1⟩ | ⟨h3, h1⟩⟩
    · exact Or.inl ⟨h1, h2, h3⟩
    · exact Or.inr ⟨h1, h2, h3⟩

/-- A flag-gated key with a valid value and its flag off has no error in the log. The
keys are those of `gatedKeys`. -/
theorem gated_no_error (P : Parsers) (a : Annotations) (base : ConfigParams)
    (isPlus hasAppProtect hasAppProtectDos enableInternalRoutes : Bool)
    (key : String) (flag : Bool) (valid : String → Prop) (w : Option String) (raw : String)
    (hmem : (key, flag, valid, w)
      ∈ gatedKeys P isPlus hasAppProtect hasAppProtectDos enableInternalRoutes)
    (hoff : flag = false) (hraw : Annotations.lookup a key = some raw) (hvalid : valid raw) :
    (parseAnnotations P a base isPlus hasAppProtect hasAppProtectDos
        enableInternalRoutes).2.filter (LogEntry.isErrorFor key) = [] := by
  rw [parseAnnotations_eq]
  simp only [gatedKeys, List.mem_cons, Prod.mk.injEq, List.not_mem_nil, or_false] at hmem
  rcases hmem with ⟨rfl, rfl, rfl, rfl⟩ | ⟨rfl, rfl, rfl, rfl⟩ | ⟨rfl, rfl, rfl, rfl⟩
    | ⟨rfl, rfl, rfl, rfl⟩ | ⟨rfl, rfl, rfl, rfl⟩ | ⟨rfl, rfl, rfl, rfl⟩ | ⟨rfl, rfl, rfl, rfl⟩
    | ⟨rfl, rfl, rfl, rfl⟩ | ⟨rfl, rfl, rfl, rfl⟩ | ⟨rfl, rfl, rfl, rfl⟩
  all_goals
    simp only [resolvedLog, hstsLog, hstsSiblingErrors, rateLimitErrors, List.map_append,
      List.filter_append, filter_if, filter_isErrorFor_rejection,
      filter_isErrorFor_capabilityWarning, UseClusterIPAnnotation,
      nginxMeshInternalRouteAnnotation, PathRegexAnnotation, List.filter_nil]
    simp [rejection, LogEntry.isErrorFor, hraw, hvalid, hoff]

/-- C14 (amended): a flag-gated key that is present with a valid value while its flag is
off has no error in the log. `nginx.com/health-checks` and `nginx.com/slow-start` are
still consulted and have their capability warning in the log. The other gated keys (the
`nginx.com/jwt-*` keys, the two app-protect keys, the dos-resource key and the
internal-route key) have no warning: they are among the keys that are not read, the
configuration and the log are those of every map with the same values at the keys that
are read, and the only warnings of a log are the two of `nginx.com/health-checks` and
`nginx.com/slow-start`. -/
theorem closed_gate_warns_for_health_checks_and_slow_start_only (P : Parsers)
    (a : Annotations) (base : ConfigParams)
    (isPlus hasAppProtect hasAppProtectDos enableInternalRoutes : Bool)
    (key : String) (flag : Bool) (valid : String → Prop) (w : Option String) (raw : String)
    (hmem : (key, flag, valid, w)
      ∈ gatedKeys P isPlus hasAppProtect hasAppProtectDos enableInternalRoutes)
    (hoff : flag = false) (hraw : Annotations.lookup a key = some raw) (hvalid : valid raw) :
    (parseAnnotations P a base isPlus hasAppProtect hasAppProtectDos
        enableInternalRoutes).2.filter (LogEntry.isErrorFor key) = []
      ∧ (∀ text, w = some text
          → LogEntry.warn text ∈ (parseAnnotations P a base isPlus hasAppProtect
              hasAppProtectDos enableInternalRoutes).2)
      ∧ (w = none
          → key ∈ closedKeys isPlus hasAppProtect hasAppProtectDos enableInternalRoutes)
      ∧ (∀ a' : Annotations,
          (∀ k, k ∉ closedKeys isPlus hasAppProtect hasAppProtectDos enableInternalRoutes
            → Annotations.lookup a' k = Annotations.lookup a k)
          → parseAnnotations P a' base isPlus hasAppProtect hasAppProtectDos
              enableInternalRoutes
            = parseAnnotations P a base isPlus hasAppProtect hasAppProtectDos
              enableInternalRoutes)
      ∧ (∀ text, LogEntry.warn text ∈ (parseAnnotations P a base isPlus hasAppProtect
              hasAppProtectDos enableInternalRoutes).2
          → text = healthChecksWarning ∨ text = slowStartWarning) := by
  refine ⟨gated_no_error P a base isPlus hasAppProtect hasAppProtectDos enableInternalRoutes
    key flag valid w raw hmem hoff hraw hvalid, ?_, ?_,
    fun a' h => parseAnnotations_congr_closed P a' a base isPlus hasAppProtect
      hasAppProtectDos enableInternalRoutes h, ?_⟩
  · intro text hw
    rw [mem_warn_log]
    simp only [gatedKeys, List.mem_cons, Prod.mk.injEq, List.not_mem_nil, or_false] at hmem
    rcases hmem with ⟨rfl, rfl, rfl, rfl⟩ | ⟨rfl, rfl, rfl, rfl⟩ | ⟨rfl, rfl, rfl, rfl⟩
      | ⟨rfl, rfl, rfl, rfl⟩ | ⟨rfl, rfl, rfl, rfl⟩ | ⟨rfl, rfl, rfl, rfl⟩
      | ⟨rfl, rfl, rfl, rfl⟩ | ⟨rfl, rfl, rfl, rfl⟩ | ⟨rfl, rfl, rfl, rfl⟩
      | ⟨rfl, rfl, rfl, rfl⟩
    all_goals cases hw
    all_goals simp [accepted, hraw, hvalid, hoff, healthChecksWarning, slowStartWarning]
  · intro hw
    simp only [gatedKeys, List.mem_cons, Prod.mk.injEq, List.not_mem_nil, or_false] at hmem
    rcases hmem with ⟨rfl, rfl, rfl, rfl⟩ | ⟨rfl, rfl, rfl, rfl⟩ | ⟨rfl, rfl, rfl, rfl⟩
      | ⟨rfl, rfl, rfl, rfl⟩ | ⟨rfl, rfl, rfl, rfl⟩ | ⟨rfl, rfl, rfl, rfl⟩
      | ⟨rfl, rfl, rfl, rfl⟩ | ⟨rfl, rfl, rfl, rfl⟩ | ⟨rfl, rfl, rfl, rfl⟩
      | ⟨rfl, rfl, rfl, rfl⟩
    all_goals cases hw
    all_goals simp [closedKeys, hoff]
  · intro text ht
    rw [mem_warn_log] at ht
    rcases ht with ⟨_, ⟨h, _⟩ | ⟨h, _⟩⟩
    · exact Or.inl h
    · exact Or.inr h

/-- C14, at a concrete input: without NGINX Plus a valid `nginx.com/slow-start` leaves
its warning and no error. -/
theorem closed_gate_warns_for_health_checks_and_slow_start_only_witness :
    (parseAnnotations sampleParsers [("nginx.com/slow-start", "30s")] zeroConfigParams
        false false false false).2.filter (LogEntry.isErrorFor "nginx.com/slow-start") = []
      ∧ LogEntry.warn slowStartWarning
          ∈ (parseAnnotations sampleParsers [("nginx.com/slow-start", "30s")]
              zeroConfigParams false false false false).2 :=
  have h := closed_gate_warns_for_health_checks_and_slow_start_only sampleParsers
    [("nginx.com/slow-start", "30s")] zeroConfigParams false false false false
    "nginx.com/slow-start" false (fun s => (sampleParsers.ParseTime s).err = none)
    (some slowStartWarning) "30s" (by simp [gatedKeys]) rfl (by decide) (by decide)
  ⟨h.1, h.2.1 slowStartWarning rfl⟩

/-- C14, the claim as written fails: without NGINX Plus a present `nginx.com/jwt-key` is
not consulted, and the log holds no warning (it is empty); the same for
`appprotect.f5.com/app-protect-enable` without App Protect and for
`nsm.nginx.com/internal-route` without internal routes. -/
theorem closed_gate_without_warning :
    (parseAnnotations sampleParsers [("nginx.com/jwt-key", "secret")] zeroConfigParams
        false false false false).2 = []
      ∧ (parseAnnotations sampleParsers [("appprotect.f5.com/app-protect-enable", "true")]
          zeroConfigParams true false false false).2 = []
      ∧ (parseAnnotations sampleParsers
          [("appprotectdos.f5.com/app-protect-dos-resource", "default/dos")]
          zeroConfigParams true true false false).2 = []
      ∧ (parseAnnotations sampleParsers [("nsm.nginx.com/internal-route", "true")]
          zeroConfigParams true true true false).2 = [] := by
  decide

/-! ## The resolver: `nginx.org/server-tokens` -/

/-- C15: `nginx.org/server-tokens` with a raw value. A value that parses as a boolean
gives `"on"` for true and `"off"` for false, whatever `isPlus` is, and no error. A
value that does not parse is stored verbatim when `isPlus` is true, with no error, and
leaves the baseline's value when `isPlus` is false, with exactly one error, made of the
key, the raw value and the cause. -/
theorem server_tokens_resolution (P : Parsers) (a : Annotations) (base : ConfigParams)
    (isPlus hasAppProtect hasAppProtectDos enableInternalRoutes : Bool) (raw : String)
    (hraw : Annotations.lookup a "nginx.org/server-tokens" = some raw) :
    ((P.ParseBool raw).err = none
        → (parseAnnotations P a base isPlus hasAppProtect hasAppProtectDos
              enableInternalRoutes).1.ServerTokens
            = (if (P.ParseBool raw).val = true then "on" else "off")
          ∧ (parseAnnotations P a base isPlus hasAppProtect hasAppProtectDos
              enableInternalRoutes).2.filter (LogEntry.isErrorFor "nginx.org/server-tokens")
            = [])
      ∧ ((P.ParseBool raw).err ≠ none → isPlus = true
        → (parseAnnotations P a base isPlus hasAppProtect hasAppProtectDos
              enableInternalRoutes).1.ServerTokens = raw
          ∧ (parseAnnotations P a base isPlus hasAppProtect hasAppProtectDos
              enableInternalRoutes).2.filter (LogEntry.isErrorFor "nginx.org/server-tokens")
            = [])
      ∧ (∀ cause, (P.ParseBool raw).err = some cause → isPlus = false
        → (parseAnnotations P a base isPlus hasAppProtect hasAppProtectDos
              enableInternalRoutes).1.ServerTokens = base.ServerTokens
          ∧ (parseAnnotations P a base isPlus hasAppProtect hasAppProtectDos
              enableInternalRoutes).2.filter (LogEntry.isErrorFor "nginx.org/server-tokens")
            = [LogEntry.error ⟨"nginx.org/server-tokens", raw, cause⟩]) := by
  rw [parseAnnotations_eq]
  simp only [resolvedConfig_ServerTokens]
  simp only [resolvedLog, hstsLog, hstsSiblingErrors, rateLimitErrors, List.map_append,
    List.filter_append, filter_if, filter_isErrorFor_rejection,
    filter_isErrorFor_capabilityWarning, UseClusterIPAnnotation,
    nginxMeshInternalRouteAnnotation, PathRegexAnnotation, List.filter_nil]
  refine ⟨?_, ?_, ?_⟩
  · intro hok
    simp [serverTokensValue, rejection, LogEntry.isErrorFor, hraw, hok]
  · intro hrej hplus
    obtain ⟨cause, hcause⟩ := Option.ne_none_iff_exists'.mp hrej
    simp [serverTokensValue, rejection, LogEntry.isErrorFor, hraw, hcause, hplus]
  · intro cause hcause hplus
    simp [serverTokensValue, rejection, LogEntry.isErrorFor, hraw, hcause, hplus]

/-- C15, at concrete inputs: `"true"` gives `"on"` and `"false"` gives `"off"` with and
without NGINX Plus; `"custom"` is stored verbatim with NGINX Plus, without an error. -/
theorem server_tokens_resolution_witness :
    (parseAnnotations sampleParsers [("nginx.org/server-tokens", "custom")]
        { zeroConfigParams with ServerTokens := "on" } true false false false).1.ServerTokens
        = "custom"
      ∧ (parseAnnotations sampleParsers [("nginx.org/server-tokens", "custom")]
          { zeroConfigParams with ServerTokens := "on" } true false false false).2.filter
            (LogEntry.isErrorFor "nginx.org/server-tokens") = []
      ∧ (parseAnnotations sampleParsers [("nginx.org/server-tokens", "true")]
          zeroConfigParams false false false false).1.ServerTokens = "on"
      ∧ (parseAnnotations sampleParsers [("nginx.org/server-tokens", "false")]
          { zeroConfigParams with ServerTokens := "on" } true false false false).1.ServerTokens
        = "off"
      ∧ (parseAnnotations sampleParsers [("nginx.org/server-tokens", "custom")]
          { zeroConfigParams with ServerTokens := "on" } false false false false)
        = ({ zeroConfigParams with ServerTokens := "on" },
            [LogEntry.error ⟨"nginx.org/server-tokens", "custom", "invalid syntax"⟩]) :=
  ⟨((server_tokens_resolution sampleParsers [("nginx.org/server-tokens", "custom")]
      { zeroConfigParams with ServerTokens := "on" } true false false false "custom"
      (by decide)).2.1 (by decide) rfl).1,
    ((server_tokens_resolution sampleParsers [("nginx.org/server-tokens", "custom")]
      { zeroConfigParams with ServerTokens := "on" } true false false false "custom"
      (by decide)).2.1 (by decide) rfl).2,
    by decide, by decide, by decide⟩

/-! ## The resolver: the errors of the HSTS group -/

/-- C16 (amended): a key of the HSTS group that is present with a value its parser
rejects. `nginx.org/hsts` has exactly one error in the log, whatever the other keys of
the group are. A sibling key (`nginx.org/hsts-max-age`,
`nginx.org/hsts-include-subdomains`, `nginx.org/hsts-behind-proxy`) has exactly one
error when `nginx.org/hsts` is present with a valid boolean, whatever the other sibling
keys are, and no error at all when `nginx.org/hsts` is absent or rejected: the sibling
keys are read inside the block of a valid `nginx.org/hsts` only. -/
theorem hsts_group_errors (P : Parsers) (a : Annotations) (base : ConfigParams)
    (isPlus hasAppProtect hasAppProtectDos enableInternalRoutes : Bool)
    (key : String) (err : String → Option String) (sibling : Bool) (raw cause : String)
    (hmem : (key, err, sibling) ∈ hstsGroupKeys P)
    (hraw : Annotations.lookup a key = some raw) (hrej : err raw = some cause) :
    (parseAnnotations P a base isPlus hasAppProtect hasAppProtectDos
        enableInternalRoutes).2.filter (LogEntry.isErrorFor key)
      = if sibling = false
            ∨ (accepted (Annotations.lookup a "nginx.org/hsts") P.ParseBool).isSome = true
          then [LogEntry.error ⟨key, raw, cause⟩] else [] := by
  rw [parseAnnotations_eq]
  simp only [hstsGroupKeys, List.mem_cons, Prod.mk.injEq, List.not_mem_nil, or_false]
    at hmem
  rcases hmem with ⟨rfl, rfl, rfl⟩ | ⟨rfl, rfl, rfl⟩ | ⟨rfl, rfl, rfl⟩ | ⟨rfl, rfl, rfl⟩
  all_goals
    simp only [resolvedLog, hstsLog, hstsSiblingErrors, rateLimitErrors, List.map_append,
      List.filter_append, filter_if, filter_isErrorFor_rejection,
      filter_isErrorFor_capabilityWarning, UseClusterIPAnnotation,
      nginxMeshInternalRouteAnnotation, PathRegexAnnotation, List.filter_nil]
    cases hA : (accepted (Annotations.lookup a "nginx.org/hsts") P.ParseBool).isSome
    all_goals simp [rejection, LogEntry.isErrorFor, hraw, hrej, hA]

/-- C16, at a concrete input: under a valid `nginx.org/hsts` a rejected
`nginx.org/hsts-max-age` and a rejected `nginx.org/hsts-behind-proxy` each have their
own error. -/
theorem hsts_group_errors_witness :
    (parseAnnotations sampleParsers
        [("nginx.org/hsts", "true"), ("nginx.org/hsts-max-age", "never"),
          ("nginx.org/hsts-behind-proxy", "maybe")]
        zeroConfigParams false false false false).2.filter
          (LogEntry.isErrorFor "nginx.org/hsts-behind-proxy")
      = [LogEntry.error ⟨"nginx.org/hsts-behind-proxy", "maybe", "invalid syntax"⟩] :=
  hsts_group_errors sampleParsers
    [("nginx.org/hsts", "true"), ("nginx.org/hsts-max-age", "never"),
      ("nginx.org/hsts-behind-proxy", "maybe")]
    zeroConfigParams false false false false "nginx.org/hsts-behind-proxy"
    (fun s => (sampleParsers.ParseBool s).err) true "maybe" "invalid syntax"
    (by simp [hstsGroupKeys]) (by decide) (by decide)

/-- C16, the claim as written fails: with `nginx.org/hsts` absent a rejected
`nginx.org/hsts-max-age` is not reported (the log is empty), and with `nginx.org/hsts`
rejected the log holds the error of `nginx.org/hsts` only. -/
theorem hsts_sibling_error_not_reported :
    (parseAnnotations sampleParsers [("nginx.org/hsts-max-age", "never")]
        zeroConfigParams false false false false).2 = []
      ∧ (parseAnnotations sampleParsers
          [("nginx.org/hsts", "maybe"), ("nginx.org/hsts-max-age", "never")]
          zeroConfigParams false false false false).2
        = [LogEntry.error ⟨"nginx.org/hsts", "maybe", "invalid syntax"⟩] := by
  decide

/-! ## The resolver: the health-check keys -/

/-- C17: the coupling of the health-check keys. If `HealthCheckEnabled` is false in the
result, `HealthCheckMandatory` has the baseline's value; if `HealthCheckMandatory` is
false in the result, `HealthCheckMandatoryQueue` has the baseline's value; and if
`HealthCheckMandatory` is true in the result, made so by the baseline or by
`nginx.com/health-checks-mandatory` in the same pass, a present
`nginx.com/health-checks-mandatory-queue` is honored: the queue is the value its parser
hands back. With the three keys set to `"true"`, `"true"` and `"5"` under NGINX Plus the
queue is 5 from a baseline with the three fields off. -/
theorem health_check_coupling (P : Parsers) (a : Annotations) (base : ConfigParams)
    (isPlus hasAppProtect hasAppProtectDos enableInternalRoutes : Bool) :
    ((parseAnnotations P a base isPlus hasAppProtect hasAppProtectDos
          enableInternalRoutes).1.HealthCheckEnabled = false
        → (parseAnnotations P a base isPlus hasAppProtect hasAppProtectDos
            enableInternalRoutes).1.HealthCheckMandatory = base.HealthCheckMandatory)
      ∧ ((parseAnnotations P a base isPlus hasAppProtect hasAppProtectDos
          enableInternalRoutes).1.HealthCheckMandatory = false
        → (parseAnnotations P a base isPlus hasAppProtect hasAppProtectDos
            enableInternalRoutes).1.HealthCheckMandatoryQueue
          = base.HealthCheckMandatoryQueue)
      ∧ (∀ raw, (parseAnnotations P a base isPlus hasAppProtect hasAppProtectDos
          enableInternalRoutes).1.HealthCheckMandatory = true
        → Annotations.lookup a "nginx.com/health-checks-mandatory-queue" = some raw
        → (parseAnnotations P a base isPlus hasAppProtect hasAppProtectDos
            enableInternalRoutes).1.HealthCheckMandatoryQueue = (P.ParseInt64 raw).val)
      ∧ (parseAnnotations sampleParsers
          [("nginx.com/health-checks", "true"), ("nginx.com/health-checks-mandatory", "true"),
            ("nginx.com/health-checks-mandatory-queue", "5")]
          zeroConfigParams true false false false).1.HealthCheckMandatoryQueue = 5
      ∧ (parseAnnotations sampleParsers [("nginx.com/health-checks-mandatory-queue", "5")]
          { zeroConfigParams with HealthCheckMandatory := true }
          false false false false).1.HealthCheckMandatoryQueue = 5 := by
  rw [parseAnnotations_eq]
  simp only [resolvedConfig_HealthCheckEnabled, resolvedConfig_HealthCheckMandatory,
    resolvedConfig_HealthCheckMandatoryQueue]
  refine ⟨?_, ?_, ?_, by decide, by decide⟩
  · intro hE
    simp [resolvedHealthCheckMandatory, hE]
  · intro hM
    simp [hM]
  · intro raw hM hraw
    simp [hM, assignedOr, hraw]

/-! ## The resolver: the keys it reads -/

/-- The configuration depends on the values of the keys of `keyFields` only. -/
theorem resolvedConfig_congr_keys (P : Parsers) (a a' : Annotations) (base : ConfigParams)
    (isPlus hasAppProtect hasAppProtectDos enableInternalRoutes : Bool)
    (h : ∀ k ∈ keyFields.map Prod.fst, Annotations.lookup a k = Annotations.lookup a' k) :
    resolvedConfig P a base isPlus hasAppProtect hasAppProtectDos enableInternalRoutes
      = resolvedConfig P a' base isPlus hasAppProtect hasAppProtectDos
          enableInternalRoutes := by
  simp only [recognizedKeys, keyFields, List.map_cons, List.map_nil, List.cons_append,
    List.nil_append, List.forall_mem_cons, List.not_mem_nil, false_implies, implies_true,
    and_true] at h
  simp only [resolvedConfig, resolvedHealthCheckMandatory, resolvedHealthCheckEnabled,
    hstsCommits, hstsSiblingErrors, GetMapKeyAsStringSlice, UseClusterIPAnnotation,
    JWTKeyAnnotation, BasicAuthSecretAnnotation, nginxMeshInternalRouteAnnotation,
    h]

/-- The log depends on the values of the keys of `recognizedKeys` only. -/
theorem resolvedLog_congr_keys (P : Parsers) (a a' : Annotations) (base : ConfigParams)
    (isPlus hasAppProtect hasAppProtectDos enableInternalRoutes : Bool)
    (h : ∀ k ∈ recognizedKeys, Annotations.lookup a k = Annotations.lookup a' k) :
    resolvedLog P a base isPlus hasAppProtect hasAppProtectDos enableInternalRoutes
      = resolvedLog P a' base isPlus hasAppProtect hasAppProtectDos
          enableInternalRoutes := by
  simp only [recognizedKeys, keyFields, List.map_cons, List.map_nil, List.cons_append,
    List.nil_append, List.forall_mem_cons, List.not_mem_nil, false_implies, implies_true,
    and_true] at h
  simp only [resolvedLog, resolvedHealthCheckMandatory, resolvedHealthCheckEnabled,
    hstsLog, hstsSiblingErrors, rateLimitErrors, UseClusterIPAnnotation,
    PathRegexAnnotation, nginxMeshInternalRouteAnnotation,
    h]

/-- The resolver on the empty map: the baseline and an empty log. -/
theorem parseAnnotations_nil (P : Parsers) (base : ConfigParams)
    (isPlus hasAppProtect hasAppProtectDos enableInternalRoutes : Bool) :
    parseAnnotations P [] base isPlus hasAppProtect hasAppProtectDos enableInternalRoutes
      = (base, []) := by
  rw [parseAnnotations_eq]
  have hc : resolvedConfig P [] base isPlus hasAppProtect hasAppProtectDos
      enableInternalRoutes = base := by
    simp only [resolvedConfig, resolvedHealthCheckMandatory, resolvedHealthCheckEnabled,
      hstsCommits, hstsSiblingErrors, GetMapKeyAsStringSlice, Annotations.lookup,
      acceptedOr, assignedOr, portsOr, serverTokensValue, accepted, rejection,
      Option.map_none', Option.getD_none, Option.isSome_none, Bool.false_and, ite_self,
      Bool.false_eq_true, if_false]
  have hl : resolvedLog P [] base isPlus hasAppProtect hasAppProtectDos
      enableInternalRoutes = [] := by
    simp [resolvedLog, hstsLog, hstsSiblingErrors, rateLimitErrors, Annotations.lookup,
      rejection, capabilityWarning, accepted]
  rw [hc, hl]

/-- A field whose key is absent has the value of the baseline. The keys and fields are
those of `keyFields`. -/
theorem absent_key_keeps_field (P : Parsers) (a : Annotations) (base : ConfigParams)
    (isPlus hasAppProtect hasAppProtectDos enableInternalRoutes : Bool)
    (key : String) (f : Field) (hmem : (key, f) ∈ keyFields)
    (hraw : Annotations.lookup a key = none) :
    f.agree
      (parseAnnotations P a base isPlus hasAppProtect hasAppProtectDos
        enableInternalRoutes).1 base := by
  rw [parseAnnotations_eq]
  simp only [keyFields, List.mem_cons, Prod.mk.injEq, List.not_mem_nil, or_false] at hmem
  rcases hmem with ⟨rfl, rfl⟩ | ⟨rfl, rfl⟩ | ⟨rfl, rfl⟩ | ⟨rfl, rfl⟩ | ⟨rfl, rfl⟩ | ⟨rfl, rfl⟩
    | ⟨rfl, rfl⟩ | ⟨rfl, rfl⟩ | ⟨rfl, rfl⟩ | ⟨rfl, rfl⟩ | ⟨rfl, rfl⟩ | ⟨rfl, rfl⟩ | ⟨rfl, rfl⟩
    | ⟨rfl, rfl⟩ | ⟨rfl, rfl⟩ | ⟨rfl, rfl⟩ | ⟨rfl, rfl⟩ | ⟨rfl, rfl⟩ | ⟨rfl, rfl⟩ | ⟨rfl, rfl⟩
    | ⟨rfl, rfl⟩ | ⟨rfl, rfl⟩ | ⟨rfl, rfl⟩ | ⟨rfl, rfl⟩ | ⟨rfl, rfl⟩ | ⟨rfl, rfl⟩ | ⟨rfl, rfl⟩
    | ⟨rfl, rfl⟩ | ⟨rfl, rfl⟩ | ⟨rfl, rfl⟩ | ⟨rfl, rfl⟩ | ⟨rfl, rfl⟩ | ⟨rfl, rfl⟩ | ⟨rfl, rfl⟩
    | ⟨rfl, rfl⟩ | ⟨rfl, rfl⟩ | ⟨rfl, rfl⟩ | ⟨rfl, rfl⟩ | ⟨rfl, rfl⟩ | ⟨rfl, rfl⟩ | ⟨rfl, rfl⟩
    | ⟨rfl, rfl⟩ | ⟨rfl, rfl⟩ | ⟨rfl, rfl⟩ | ⟨rfl, rfl⟩ | ⟨rfl, rfl⟩ | ⟨rfl, rfl⟩ | ⟨rfl, rfl⟩
    | ⟨rfl, rfl⟩ | ⟨rfl, rfl⟩ | ⟨rfl, rfl⟩ | ⟨rfl, rfl⟩ | ⟨rfl, rfl⟩
  all_goals
    simp only [Field.agree,
      resolvedConfig_LBMethod, resolvedConfig_HealthCheckEnabled,
      resolvedConfig_HealthCheckMandatory, resolvedConfig_HealthCheckMandatoryQueue,
      resolvedConfig_SlowStart, resolvedConfig_ServerTokens, resolvedConfig_ServerSnippets,
      resolvedConfig_LocationSnippets, resolvedConfig_ProxyConnectTimeout,
      resolvedConfig_ProxyReadTimeout, resolvedConfig_ProxySendTimeout,
      resolvedConfig_ProxyHideHeaders, resolvedConfig_ProxyPassHeaders,
      resolvedConfig_ProxySetHeaders, resolvedConfig_ClientMaxBodySize,
      resolvedConfig_RedirectToHTTPS, resolvedConfig_SSLRedirect,
      resolvedConfig_ProxyBuffering, resolvedConfig_HSTS, resolvedConfig_HSTSMaxAge,
      resolvedConfig_HSTSIncludeSubdomains, resolvedConfig_HSTSBehindProxy,
      resolvedConfig_ProxyBuffers, resolvedConfig_ProxyBufferSize,
      resolvedConfig_UpstreamZoneSize, resolvedConfig_ProxyMaxTempFileSize,
      resolvedConfig_JWTRealm, resolvedConfig_JWTKey, resolvedConfig_JWTToken,
      resolvedConfig_JWTLoginURL, resolvedConfig_BasicAuthSecret,
      resolvedConfig_BasicAuthRealm, resolvedConfig_Ports, resolvedConfig_SSLPorts,
      resolvedConfig_Keepalive, resolvedConfig_MaxFails, resolvedConfig_MaxConns,
      resolvedConfig_FailTimeout, resolvedConfig_AppProtectEnable,
      resolvedConfig_AppProtectLogEnable, resolvedConfig_AppProtectDosResource,
      resolvedConfig_SpiffeServerCerts, resolvedConfig_UseClusterIP,
      resolvedConfig_LimitReqRate, resolvedConfig_LimitReqKey, resolvedConfig_LimitReqZoneSize,
      resolvedConfig_LimitReqDelay, resolvedConfig_LimitReqNoDelay,
      resolvedConfig_LimitReqBurst, resolvedConfig_LimitReqDryRun,
      resolvedConfig_LimitReqLogLevel, resolvedConfig_LimitReqRejectCode,
      resolvedConfig_LimitReqScale]
    simp [acceptedOr, assignedOr, portsOr, serverTokensValue, GetMapKeyAsStringSlice,
      resolvedHealthCheckEnabled, resolvedHealthCheckMandatory, UseClusterIPAnnotation,
      JWTKeyAnnotation, BasicAuthSecretAnnotation, nginxMeshInternalRouteAnnotation, hraw]

/-- The errors of a key whose value its parser accepts, or that is absent: none. -/
theorem rejection_eq_nil {α : Type} (key : String) (raw : Option String)
    (parse : String → Parsed α) (h : ∀ s, raw = some s → (parse s).err = none) :
    rejection key raw parse = [] := by
  unfold rejection
  cases raw with
  | none => rfl
  | some s => simp [h s rfl]

/-! ## The resolver: enumerated keys -/

/-- C18: the two enumerated keys. A present `nginx.org/limit-req-log-level` is accepted
exactly when its value is one of info, notice, warn, error: then `LimitReqLogLevel` is
that value and the key has no error; any other value, the empty string included, leaves
`LimitReqLogLevel` at its prior value and has exactly one error, in
`parseRateLimitAnnotations` and in `parseAnnotations`. A present `nginx.org/path-regex`
has no error when its value is one of case_sensitive, case_insensitive, exact, and
exactly one error otherwise; and the configuration does not depend on the value of
`nginx.org/path-regex`: every map with the same values at the other keys gives the same
configuration. -/
theorem enumerated_keys_outside_their_set (P : Parsers) (a : Annotations)
    (base : ConfigParams) (isPlus hasAppProtect hasAppProtectDos enableInternalRoutes : Bool) :
    (∀ raw, Annotations.lookup a "nginx.org/limit-req-log-level" = some raw
        → (raw ∈ ["info", "notice", "warn", "error"]
            → (parseRateLimitAnnotations P a base).1.LimitReqLogLevel = raw
              ∧ (parseRateLimitAnnotations P a base).2.filter
                  (fun e => decide (e.key = "nginx.org/limit-req-log-level")) = []
              ∧ (parseAnnotations P a base isPlus hasAppProtect hasAppProtectDos
                  enableInternalRoutes).1.LimitReqLogLevel = raw
              ∧ (parseAnnotations P a base isPlus hasAppProtect hasAppProtectDos
                  enableInternalRoutes).2.filter
                    (LogEntry.isErrorFor "nginx.org/limit-req-log-level") = [])
          ∧ (raw ∉ ["info", "notice", "warn", "error"]
            → (parseRateLimitAnnotations P a base).1.LimitReqLogLevel
                = base.LimitReqLogLevel
              ∧ (parseRateLimitAnnotations P a base).2.filter
                  (fun e => decide (e.key = "nginx.org/limit-req-log-level"))
                = [⟨"nginx.org/limit-req-log-level", raw, ""⟩]
              ∧ (parseAnnotations P a base isPlus hasAppProtect hasAppProtectDos
                  enableInternalRoutes).1.LimitReqLogLevel = base.LimitReqLogLevel
              ∧ (parseAnnotations P a base isPlus hasAppProtect hasAppProtectDos
                  enableInternalRoutes).2.filter
                    (LogEntry.isErrorFor "nginx.org/limit-req-log-level")
                = [LogEntry.error ⟨"nginx.org/limit-req-log-level", raw, ""⟩]))
      ∧ (∀ raw, Annotations.lookup a "nginx.org/path-regex" = some raw
        → (raw ∈ ["case_sensitive", "case_insensitive", "exact"]
            → (parseAnnotations P a base isPlus hasAppProtect hasAppProtectDos
                enableInternalRoutes).2.filter (LogEntry.isErrorFor "nginx.org/path-regex")
              = [])
          ∧ (raw ∉ ["case_sensitive", "case_insensitive", "exact"]
            → (parseAnnotations P a base isPlus hasAppProtect hasAppProtectDos
                enableInternalRoutes).2.filter (LogEntry.isErrorFor "nginx.org/path-regex")
              = [LogEntry.error ⟨"nginx.org/path-regex", raw,
                  "Allowed values: 'case_sensitive', 'case_insensitive', 'exact'"⟩]))
      ∧ (∀ a' : Annotations,
          (∀ k, k ≠ "nginx.org/path-regex"
            → Annotations.lookup a' k = Annotations.lookup a k)
          → (parseAnnotations P a' base isPlus hasAppProtect hasAppProtectDos
              enableInternalRoutes).1
            = (parseAnnotations P a base isPlus hasAppProtect hasAppProtectDos
              enableInternalRoutes).1) := by
  refine ⟨?_, ?_, ?_⟩
  · intro raw hraw
    rw [parseAnnotations_eq, parseRateLimitAnnotations_eq]
    simp only [resolvedConfig_LimitReqLogLevel]
    simp only [resolvedLog, hstsLog, hstsSiblingErrors, rateLimitErrors, List.map_append,
      List.filter_append, filter_if, filter_isErrorFor_rejection, filter_key_rejection,
      filter_isErrorFor_capabilityWarning, UseClusterIPAnnotation,
      nginxMeshInternalRouteAnnotation, PathRegexAnnotation, List.filter_nil]
    constructor
    · intro hin
      have herr : (parseLogLevel raw).err = none := by simp [parseLogLevel, hin]
      have hval : (parseLogLevel raw).val = raw := by simp [parseLogLevel, hin]
      simp [acceptedOr, rejection, LogEntry.isErrorFor, hraw, herr, hval]
    · intro hout
      have herr : (parseLogLevel raw).err = some "" := by simp [parseLogLevel, hout]
      simp [acceptedOr, rejection, LogEntry.isErrorFor, hraw, herr]
  · intro raw hraw
    rw [parseAnnotations_eq]
    simp only [resolvedLog, hstsLog, hstsSiblingErrors, rateLimitErrors, List.map_append,
      List.filter_append, filter_if, filter_isErrorFor_rejection,
      filter_isErrorFor_capabilityWarning, UseClusterIPAnnotation,
      nginxMeshInternalRouteAnnotation, PathRegexAnnotation, List.filter_nil]
    constructor
    · intro hin
      have herr : (parsePathRegex raw).err = none := by
        simp [parsePathRegex, validPathRegex, hin]
      simp [rejection, LogEntry.isErrorFor, hraw, herr]
    · intro hout
      have herr : (parsePathRegex raw).err
          = some "Allowed values: 'case_sensitive', 'case_insensitive', 'exact'" := by
        simp [parsePathRegex, validPathRegex, hout]
      simp [rejection, LogEntry.isErrorFor, hraw, herr]
  · intro a' h
    simp only [parseAnnotations_eq]
    apply resolvedConfig_congr_keys
    intro k hk
    apply h
    rintro rfl
    simp [keyFields] at hk

/-- C18, at a concrete input: the empty string as the log level and `regex` as the
path regex are reported once each, and no field changes. -/
theorem enumerated_keys_outside_their_set_witness :
    parseAnnotations sampleParsers
        [("nginx.org/limit-req-log-level", ""), ("nginx.org/path-regex", "regex")]
        { zeroConfigParams with LimitReqLogLevel := "notice" } false false false false
      = ({ zeroConfigParams with LimitReqLogLevel := "notice" },
          [LogEntry.error ⟨"nginx.org/path-regex", "regex",
              "Allowed values: 'case_sensitive', 'case_insensitive', 'exact'"⟩,
            LogEntry.error ⟨"nginx.org/limit-req-log-level", "", ""⟩])
      ∧ (parseAnnotations sampleParsers
          [("nginx.org/limit-req-log-level", ""), ("nginx.org/path-regex", "regex")]
          { zeroConfigParams with LimitReqLogLevel := "notice" }
          false false false false).2.filter
            (LogEntry.isErrorFor "nginx.org/limit-req-log-level")
        = [LogEntry.error ⟨"nginx.org/limit-req-log-level", "", ""⟩] :=
  ⟨by decide,
    (((enumerated_keys_outside_their_set sampleParsers
      [("nginx.org/limit-req-log-level", ""), ("nginx.org/path-regex", "regex")]
      { zeroConfigParams with LimitReqLogLevel := "notice" } false false false false).1 ""
      (by decide)).2 (by decide)).2.2.2⟩

/-! ## The resolver: absent keys -/

/-- C19: absent keys keep the baseline. A field whose governing key is absent has the
baseline's value in the result (the keys and fields are those of `keyFields`); if none
of the keys the resolver recognizes is present, the result is the baseline with an empty
log, no error and no warning; in particular on the empty annotation set. -/
theorem absent_keys_keep_baseline (P : Parsers) (a : Annotations) (base : ConfigParams)
    (isPlus hasAppProtect hasAppProtectDos enableInternalRoutes : Bool) :
    (∀ key f, (key, f) ∈ keyFields → Annotations.lookup a key = none
        → f.agree
            (parseAnnotations P a base isPlus hasAppProtect hasAppProtectDos
              enableInternalRoutes).1 base)
      ∧ ((∀ k ∈ recognizedKeys, Annotations.lookup a k = none)
        → parseAnnotations P a base isPlus hasAppProtect hasAppProtectDos
            enableInternalRoutes = (base, []))
      ∧ parseAnnotations P [] base isPlus hasAppProtect hasAppProtectDos
          enableInternalRoutes = (base, []) := by
  refine ⟨fun key f hmem hraw => absent_key_keeps_field P a base isPlus hasAppProtect
      hasAppProtectDos enableInternalRoutes key f hmem hraw, ?_,
    parseAnnotations_nil P base isPlus hasAppProtect hasAppProtectDos enableInternalRoutes⟩
  intro h
  rw [← parseAnnotations_nil P base isPlus hasAppProtect hasAppProtectDos
    enableInternalRoutes]
  simp only [parseAnnotations_eq]
  have hc := resolvedConfig_congr_keys P a [] base isPlus hasAppProtect hasAppProtectDos
    enableInternalRoutes
    (fun k hk => by
      rw [h k (by simp only [recognizedKeys, List.mem_append]; exact Or.inl hk)]
      rfl)
  have hl := resolvedLog_congr_keys P a [] base isPlus hasAppProtect hasAppProtectDos
    enableInternalRoutes (fun k hk => by rw [h k hk]; rfl)
  rw [hc, hl]

/-- C19, at a concrete input: a map with an unrecognized key only gives the baseline
and an empty log, and a map with `nginx.org/keepalive` only leaves `MaxFails` at the
baseline's value. -/
theorem absent_keys_keep_baseline_witness :
    parseAnnotations sampleParsers [("example.com/owner", "team-a")]
        { zeroConfigParams with MaxFails := 3, HSTS := true } true true true true
      = ({ zeroConfigParams with MaxFails := 3, HSTS := true }, [])
      ∧ (parseAnnotations sampleParsers [("nginx.org/keepalive", "32")]
          { zeroConfigParams with MaxFails := 3 } false false false false).1.MaxFails = 3 :=
  ⟨(absent_keys_keep_baseline sampleParsers [("example.com/owner", "team-a")]
      { zeroConfigParams with MaxFails := 3, HSTS := true } true true true true).2.1
      (by decide),
    (absent_keys_keep_baseline sampleParsers [("nginx.org/keepalive", "32")]
      { zeroConfigParams with MaxFails := 3 } false false false false).1
      "nginx.org/max-fails" Field.MaxFails (by simp [keyFields]) (by decide)⟩

/-! ## The resolver: the HSTS group commits -/

/-- C20: the HSTS group commits when every attempted key succeeds. If `nginx.org/hsts`
is present with a valid boolean and each of `nginx.org/hsts-max-age`,
`nginx.org/hsts-include-subdomains`, `nginx.org/hsts-behind-proxy` that is present has a
valid value, then `HSTS` is the parsed boolean, the field of each present sibling key is
its parsed value, and the field of each absent sibling key is the baseline's value. -/
theorem hsts_group_commits (P : Parsers) (a : Annotations) (base : ConfigParams)
    (isPlus hasAppProtect hasAppProtectDos enableInternalRoutes : Bool) (raw : String)
    (hraw : Annotations.lookup a "nginx.org/hsts" = some raw)
    (hok : (P.ParseBool raw).err = none)
    (hMA : ∀ s, Annotations.lookup a "nginx.org/hsts-max-age" = some s
      → (P.ParseInt64 s).err = none)
    (hIS : ∀ s, Annotations.lookup a "nginx.org/hsts-include-subdomains" = some s
      → (P.ParseBool s).err = none)
    (hBP : ∀ s, Annotations.lookup a "nginx.org/hsts-behind-proxy" = some s
      → (P.ParseBool s).err = none) :
    (parseAnnotations P a base isPlus hasAppProtect hasAppProtectDos
        enableInternalRoutes).1.HSTS = (P.ParseBool raw).val
      ∧ (∀ s, Annotations.lookup a "nginx.org/hsts-max-age" = some s
        → (parseAnnotations P a base isPlus hasAppProtect hasAppProtectDos
            enableInternalRoutes).1.HSTSMaxAge = (P.ParseInt64 s).val)
      ∧ (Annotations.lookup a "nginx.org/hsts-max-age" = none
        → (parseAnnotations P a base isPlus hasAppProtect hasAppProtectDos
            enableInternalRoutes).1.HSTSMaxAge = base.HSTSMaxAge)
      ∧ (∀ s, Annotations.lookup a "nginx.org/hsts-include-subdomains" = some s
        → (parseAnnotations P a base isPlus hasAppProtect hasAppProtectDos
            enableInternalRoutes).1.HSTSIncludeSubdomains = (P.ParseBool s).val)
      ∧ (Annotations.lookup a "nginx.org/hsts-include-subdomains" = none
        → (parseAnnotations P a base isPlus hasAppProtect hasAppProtectDos
            enableInternalRoutes).1.HSTSIncludeSubdomains = base.HSTSIncludeSubdomains)
      ∧ (∀ s, Annotations.lookup a "nginx.org/hsts-behind-proxy" = some s
        → (parseAnnotations P a base isPlus hasAppProtect hasAppProtectDos
            enableInternalRoutes).1.HSTSBehindProxy = (P.ParseBool s).val)
      ∧ (Annotations.lookup a "nginx.org/hsts-behind-proxy" = none
        → (parseAnnotations P a base isPlus hasAppProtect hasAppProtectDos
            enableInternalRoutes).1.HSTSBehindProxy = base.HSTSBehindProxy) := by
  have hc : hstsCommits P a = true := by
    simp only [hstsCommits, hstsSiblingErrors, rejection_eq_nil _ _ _ hMA,
      rejection_eq_nil _ _ _ hIS, rejection_eq_nil _ _ _ hBP]
    simp [accepted, hraw, hok]
  rw [parseAnnotations_eq]
  simp only [resolvedConfig_HSTS, resolvedConfig_HSTSMaxAge,
    resolvedConfig_HSTSIncludeSubdomains, resolvedConfig_HSTSBehindProxy, hc, if_true]
  refine ⟨by simp [assignedOr, hraw], ?_, ?_, ?_, ?_, ?_, ?_⟩
  all_goals
    intro s
    first
      | (intro hs; simp [assignedOr, hs])
      | simp [assignedOr, s]

/-- C20, at a concrete input: a valid `nginx.org/hsts` and `nginx.org/hsts-max-age`
are written, and the absent `nginx.org/hsts-include-subdomains` leaves the baseline's
`true`. -/
theorem hsts_group_commits_witness :
    (parseAnnotations sampleParsers
        [("nginx.org/hsts", "true"), ("nginx.org/hsts-max-age", "2592000")]
        { zeroConfigParams with HSTSIncludeSubdomains := true }
        false false false false).1.HSTS = true
      ∧ (parseAnnotations sampleParsers
          [("nginx.org/hsts", "true"), ("nginx.org/hsts-max-age", "2592000")]
          { zeroConfigParams with HSTSIncludeSubdomains := true }
          false false false false).1.HSTSMaxAge = 2592000
      ∧ (parseAnnotations sampleParsers
          [("nginx.org/hsts", "true"), ("nginx.org/hsts-max-age", "2592000")]
          { zeroConfigParams with HSTSIncludeSubdomains := true }
          false false false false).1.HSTSIncludeSubdomains = true :=
  have h := hsts_group_commits sampleParsers
    [("nginx.org/hsts", "true"), ("nginx.org/hsts-max-age", "2592000")]
    { zeroConfigParams with HSTSIncludeSubdomains := true } false false false false "true"
    (by decide) (by decide) (by decide) (by decide) (by decide)
  ⟨h.1, h.2.1 "2592000" (by decide), h.2.2.2.2.1 (by decide)⟩

/-! ## The resolver: determinism -/

/-- On a map with distinct keys a key has the value `v` exactly when the entry
`(k, v)` is in the map. -/
theorem Annotations.lookup_eq_some_iff (a : Annotations) (hwf : Annotations.WF a)
    (k v : String) : Annotations.lookup a k = some v ↔ (k, v) ∈ a := by
  induction a with
  | nil => simp [Annotations.lookup]
  | cons e rest ih =>
    obtain ⟨k1, v1⟩ := e
    have hnd : k1 ∉ Annotations.keys rest ∧ Annotations.WF rest := by
      simpa [Annotations.WF, Annotations.keys] using hwf
    by_cases hk : k1 = k
    · subst hk
      constructor
      · intro h
        simp only [Annotations.lookup, if_true, Option.some.injEq] at h
        simp [h]
      · intro h
        rcases List.mem_cons.mp h with h | h
        · simp [Annotations.lookup, (Prod.mk.inj h).2]
        · exact absurd (List.mem_map_of_mem Prod.fst h) hnd.1
    · simp only [Annotations.lookup, hk, if_false, ih hnd.2, List.mem_cons, Prod.mk.injEq]
      constructor
      · exact fun h => Or.inr h
      · rintro (⟨h, _⟩ | h)
        · exact absurd h.symm hk
        · exact h

/-- Two iteration orders of one map, both with distinct keys, have the same value at
every key. -/
theorem Annotations.lookup_perm (a a' : Annotations) (hwf : Annotations.WF a)
    (hperm : a'.Perm a) (k : String) :
    Annotations.lookup a' k = Annotations.lookup a k := by
  have hwf' : Annotations.WF a' := by
    unfold Annotations.WF Annotations.keys at hwf ⊢
    exact ((hperm.map Prod.fst).nodup_iff).mpr hwf
  apply Option.ext
  intro v
  simp only [Option.mem_def]
  rw [Annotations.lookup_eq_some_iff a' hwf', Annotations.lookup_eq_some_iff a hwf]
  exact hperm.mem_iff

/-- C26: resolution is deterministic. The configuration and the log (errors and
warnings, in their order) are a function of the baseline, the four flags and the
content of the annotation map: two maps with the same value at every key give the same
result, in particular two iteration orders of one Go map (a list of entries with
distinct keys and any rearrangement of it). -/
theorem resolution_is_deterministic (P : Parsers) (a a' : Annotations) (base : ConfigParams)
    (isPlus hasAppProtect hasAppProtectDos enableInternalRoutes : Bool) :
    ((∀ k, Annotations.lookup a' k = Annotations.lookup a k)
        → parseAnnotations P a' base isPlus hasAppProtect hasAppProtectDos
            enableInternalRoutes
          = parseAnnotations P a base isPlus hasAppProtect hasAppProtectDos
            enableInternalRoutes)
      ∧ (Annotations.WF a → a'.Perm a
        → parseAnnotations P a' base isPlus hasAppProtect hasAppProtectDos
            enableInternalRoutes
          = parseAnnotations P a base isPlus hasAppProtect hasAppProtectDos
            enableInternalRoutes) := by
  refine ⟨fun h => parseAnnotations_congr P a' a base isPlus hasAppProtect hasAppProtectDos
    enableInternalRoutes h, fun hwf hperm => ?_⟩
  exact parseAnnotations_congr P a' a base isPlus hasAppProtect hasAppProtectDos
    enableInternalRoutes (Annotations.lookup_perm a a' hwf hperm)

/-- C26, at a concrete input: the two iteration orders of a map with a rejected
keepalive and a rejected connect timeout give the same configuration and the same two
errors in the same order, the order of the source. -/
theorem resolution_is_deterministic_witness :
    parseAnnotations sampleParsers
        [("nginx.org/keepalive", "many"), ("nginx.org/proxy-connect-timeout", "soon")]
        zeroConfigParams false false false false
      = parseAnnotations sampleParsers
        [("nginx.org/proxy-connect-timeout", "soon"), ("nginx.org/keepalive", "many")]
        zeroConfigParams false false false false
      ∧ (parseAnnotations sampleParsers
          [("nginx.org/proxy-connect-timeout", "soon"), ("nginx.org/keepalive", "many")]
          zeroConfigParams false false false false).2
        = [LogEntry.error ⟨"nginx.org/proxy-connect-timeout", "soon", "invalid time string"⟩,
            LogEntry.error ⟨"nginx.org/keepalive", "many", "invalid syntax"⟩] :=
  ⟨(resolution_is_deterministic sampleParsers
      [("nginx.org/proxy-connect-timeout", "soon"), ("nginx.org/keepalive", "many")]
      [("nginx.org/keepalive", "many"), ("nginx.org/proxy-connect-timeout", "soon")]
      zeroConfigParams false false false false).2 (by decide) (List.Perm.swap _ _ _),
    by decide⟩

/-! ## The resolver after the filter of a minion -/

/-- A key of `minionDenylist` is absent from the map `filterMinionAnnotations` leaves. -/
theorem filterMinion_lookup_none (a : Annotations) (k : String) (hk : k ∈ minionDenylist) :
    Annotations.lookup (filterMinionAnnotations a).1 k = none := by
  unfold filterMinionAnnotations
  rw [filterLoop_lookup, if_pos hk]

/-- C27: on a map that went through `filterMinionAnnotations`, `parseAnnotations`
leaves the server-level fields at the baseline, for every baseline and flags:
`ProxyHideHeaders`, `ProxyPassHeaders`, `RedirectToHTTPS`, `SSLRedirect`, `ServerTokens`,
`Ports`, `SSLPorts`, `ServerSnippets`, `AppProtectDosResource` and the four HSTS fields;
`HSTSBehindProxy` too, though `nginx.org/hsts-behind-proxy` is not in `minionDenylist`,
because the key is read under a present `nginx.org/hsts` only. -/
theorem minion_filter_keeps_server_fields (P : Parsers) (a : Annotations)
    (base : ConfigParams) (isPlus hasAppProtect hasAppProtectDos enableInternalRoutes : Bool) :
    (parseAnnotations P (filterMinionAnnotations a).1 base isPlus hasAppProtect
        hasAppProtectDos enableInternalRoutes).1.ProxyHideHeaders = base.ProxyHideHeaders
      ∧ (parseAnnotations P (filterMinionAnnotations a).1 base isPlus hasAppProtect
        hasAppProtectDos enableInternalRoutes).1.ProxyPassHeaders = base.ProxyPassHeaders
      ∧ (parseAnnotations P (filterMinionAnnotations a).1 base isPlus hasAppProtect
        hasAppProtectDos enableInternalRoutes).1.RedirectToHTTPS = base.RedirectToHTTPS
      ∧ (parseAnnotations P (filterMinionAnnotations a).1 base isPlus hasAppProtect
        hasAppProtectDos enableInternalRoutes).1.SSLRedirect = base.SSLRedirect
      ∧ (parseAnnotations P (filterMinionAnnotations a).1 base isPlus hasAppProtect
        hasAppProtectDos enableInternalRoutes).1.ServerTokens = base.ServerTokens
      ∧ (parseAnnotations P (filterMinionAnnotations a).1 base isPlus hasAppProtect
        hasAppProtectDos enableInternalRoutes).1.Ports = base.Ports
      ∧ (parseAnnotations P (filterMinionAnnotations a).1 base isPlus hasAppProtect
        hasAppProtectDos enableInternalRoutes).1.SSLPorts = base.SSLPorts
      ∧ (parseAnnotations P (filterMinionAnnotations a).1 base isPlus hasAppProtect
        hasAppProtectDos enableInternalRoutes).1.ServerSnippets = base.ServerSnippets
      ∧ (parseAnnotations P (filterMinionAnnotations a).1 base isPlus hasAppProtect
        hasAppProtectDos enableInternalRoutes).1.AppProtectDosResource
          = base.AppProtectDosResource
      ∧ (parseAnnotations P (filterMinionAnnotations a).1 base isPlus hasAppProtect
        hasAppProtectDos enableInternalRoutes).1.HSTS = base.HSTS
      ∧ (parseAnnotations P (filterMinionAnnotations a).1 base isPlus hasAppProtect
        hasAppProtectDos enableInternalRoutes).1.HSTSMaxAge = base.HSTSMaxAge
      ∧ (parseAnnotations P (filterMinionAnnotations a).1 base isPlus hasAppProtect
        hasAppProtectDos enableInternalRoutes).1.HSTSIncludeSubdomains
          = base.HSTSIncludeSubdomains
      ∧ (parseAnnotations P (filterMinionAnnotations a).1 base isPlus hasAppProtect
        hasAppProtectDos enableInternalRoutes).1.HSTSBehindProxy = base.HSTSBehindProxy := by
  have h1 := filterMinion_lookup_none a "nginx.org/proxy-hide-headers" (by decide)
  have h2 := filterMinion_lookup_none a "nginx.org/proxy-pass-headers" (by decide)
  have h3 := filterMinion_lookup_none a "nginx.org/redirect-to-https" (by decide)
  have h4 := filterMinion_lookup_none a "ingress.kubernetes.io/ssl-redirect" (by decide)
  have h5 := filterMinion_lookup_none a "nginx.org/hsts" (by decide)
  have h6 := filterMinion_lookup_none a "nginx.org/server-tokens" (by decide)
  have h7 := filterMinion_lookup_none a "nginx.org/listen-ports" (by decide)
  have h8 := filterMinion_lookup_none a "nginx.org/listen-ports-ssl" (by decide)
  have h9 := filterMinion_lookup_none a "nginx.org/server-snippets" (by decide)
  have h10 := filterMinion_lookup_none a "appprotectdos.f5.com/app-protect-dos-resource"
    (by decide)
  rw [parseAnnotations_eq]
  simp only [resolvedConfig_ProxyHideHeaders, resolvedConfig_ProxyPassHeaders,
    resolvedConfig_RedirectToHTTPS, resolvedConfig_SSLRedirect, resolvedConfig_ServerTokens,
    resolvedConfig_Ports, resolvedConfig_SSLPorts, resolvedConfig_ServerSnippets,
    resolvedConfig_AppProtectDosResource, resolvedConfig_HSTS, resolvedConfig_HSTSMaxAge,
    resolvedConfig_HSTSIncludeSubdomains, resolvedConfig_HSTSBehindProxy]
  have hc : hstsCommits P (filterMinionAnnotations a).1 = false := by
    simp [hstsCommits, accepted, h5]
  simp [GetMapKeyAsStringSlice, acceptedOr, serverTokensValue, portsOr, h1, h2, h3, h4, h6,
    h7, h8, h9, h10, hc]

/-- C27, at a concrete input: a minion with `nginx.org/hsts` and
`nginx.org/hsts-behind-proxy` loses the first to the filter, and the second is not
read. -/
theorem minion_filter_keeps_server_fields_witness :
    (filterMinionAnnotations
        [("nginx.org/hsts", "true"), ("nginx.org/hsts-behind-proxy", "true")]).1
        = [("nginx.org/hsts-behind-proxy", "true")]
      ∧ (parseAnnotations sampleParsers
          (filterMinionAnnotations
            [("nginx.org/hsts", "true"), ("nginx.org/hsts-behind-proxy", "true")]).1
          zeroConfigParams true true true true).1.HSTSBehindProxy = false :=
  ⟨by decide,
    (minion_filter_keeps_server_fields sampleParsers
      [("nginx.org/hsts", "true"), ("nginx.org/hsts-behind-proxy", "true")]
      zeroConfigParams true true true true).2.2.2.2.2.2.2.2.2.2.2.2⟩

/-- C28, the code at the failing input: `minionDenylist` names the App Protect keys with
underscores (`appprotect.f5.com/app_protect_enable`), `parseAnnotations` reads them with
hyphens (`appprotect.f5.com/app-protect-enable`). The filter of a minion leaves the two
keys that are read in the map and returns no removed key, and `parseAnnotations` with
`hasAppProtect` writes `AppProtectEnable` and `AppProtectLogEnable`; the keys spelled as
in the denylist are removed, and are not read. -/
theorem minion_sets_app_protect :
    filterMinionAnnotations
        [("appprotect.f5.com/app-protect-enable", "true"),
          ("appprotect.f5.com/app-protect-security-log-enable", "true")]
      = ([("appprotect.f5.com/app-protect-enable", "true"),
          ("appprotect.f5.com/app-protect-security-log-enable", "true")], [])
      ∧ (parseAnnotations sampleParsers
          (filterMinionAnnotations
            [("appprotect.f5.com/app-protect-enable", "true"),
              ("appprotect.f5.com/app-protect-security-log-enable", "true")]).1
          { zeroConfigParams with AppProtectEnable := "off", AppProtectLogEnable := "off" }
          false true false false).1.AppProtectEnable = "on"
      ∧ (parseAnnotations sampleParsers
          (filterMinionAnnotations
            [("appprotect.f5.com/app-protect-enable", "true"),
              ("appprotect.f5.com/app-protect-security-log-enable", "true")]).1
          { zeroConfigParams with AppProtectEnable := "off", AppProtectLogEnable := "off" }
          false true false false).1.AppProtectLogEnable = "on"
      ∧ filterMinionAnnotations [("appprotect.f5.com/app_protect_enable", "true")]
        = ([], ["appprotect.f5.com/app_protect_enable"])
      ∧ (parseAnnotations sampleParsers [("appprotect.f5.com/app_protect_enable", "true")]
          { zeroConfigParams with AppProtectEnable := "off" }
          false true false false).1.AppProtectEnable = "off" := by
  decide

/-! ## The resolver: keys stored verbatim -/

/-- C30: the size and free-text keys are stored verbatim. For every raw string `s`, a
key of `verbatimKeys` that is present with the value `s` sets its field to `s` and has
no error in the log of `parseAnnotations`; `nginx.org/limit-req-key` does the same in
`parseRateLimitAnnotations`, whose returned errors name the key nowhere. -/
theorem verbatim_keys_are_stored (P : Parsers) (a : Annotations) (base : ConfigParams)
    (isPlus hasAppProtect hasAppProtectDos enableInternalRoutes : Bool)
    (key : String) (get : ConfigParams → String) (s : String)
    (hmem : (key, get) ∈ verbatimKeys) (hraw : Annotations.lookup a key = some s) :
    get (parseAnnotations P a base isPlus hasAppProtect hasAppProtectDos
        enableInternalRoutes).1 = s
      ∧ (parseAnnotations P a base isPlus hasAppProtect hasAppProtectDos
          enableInternalRoutes).2.filter (LogEntry.isErrorFor key) = []
      ∧ (key = "nginx.org/limit-req-key"
        → (parseRateLimitAnnotations P a base).1.LimitReqKey = s
          ∧ (parseRateLimitAnnotations P a base).2.filter (fun e => decide (e.key = key))
            = []) := by
  rw [parseAnnotations_eq, parseRateLimitAnnotations_eq]
  simp only [verbatimKeys, List.mem_cons, Prod.mk.injEq, List.not_mem_nil, or_false] at hmem
  rcases hmem with ⟨rfl, rfl⟩ | ⟨rfl, rfl⟩ | ⟨rfl, rfl⟩ | ⟨rfl, rfl⟩ | ⟨rfl, rfl⟩
    | ⟨rfl, rfl⟩ | ⟨rfl, rfl⟩ | ⟨rfl, rfl⟩
  all_goals
    simp only [resolvedConfig_ClientMaxBodySize, resolvedConfig_ProxyBuffers,
      resolvedConfig_ProxyBufferSize, resolvedConfig_UpstreamZoneSize,
      resolvedConfig_ProxyMaxTempFileSize, resolvedConfig_BasicAuthSecret,
      resolvedConfig_BasicAuthRealm, resolvedConfig_LimitReqKey]
    simp only [resolvedLog, hstsLog, hstsSiblingErrors, rateLimitErrors, List.map_append,
      List.filter_append, filter_if, filter_isErrorFor_rejection, filter_key_rejection,
      filter_isErrorFor_capabilityWarning, UseClusterIPAnnotation,
      nginxMeshInternalRouteAnnotation, PathRegexAnnotation, List.filter_nil]
    simp [LogEntry.isErrorFor, BasicAuthSecretAnnotation, hraw]

/-- C30, at concrete inputs: the empty string and a string that is no byte size are
stored as they are, with an empty log. -/
theorem verbatim_keys_are_stored_witness :
    (parseAnnotations sampleParsers [("nginx.org/client-max-body-size", "")]
        { zeroConfigParams with ClientMaxBodySize := "1m" }
        false false false false).1.ClientMaxBodySize = ""
      ∧ parseAnnotations sampleParsers [("nginx.org/proxy-buffer-size", "not a size")]
          zeroConfigParams false false false false
        = ({ zeroConfigParams with ProxyBufferSize := "not a size" }, []) :=
  ⟨(verbatim_keys_are_stored sampleParsers [("nginx.org/client-max-body-size", "")]
      { zeroConfigParams with ClientMaxBodySize := "1m" } false false false false
      "nginx.org/client-max-body-size" (fun c => c.ClientMaxBodySize) ""
      (by simp [verbatimKeys]) (by decide)).1,
    by decide⟩

/-! ## The resolver: a second pass -/

/-- Two configurations that agree in every field are equal. -/
theorem ConfigParams.eq_of_agree (c d : ConfigParams) (h : ∀ f : Field, f.agree c d) :
    c = d := by
  cases c
  cases d
  simp only [ConfigParams.mk.injEq]
  exact ⟨
    h Field.LBMethod, h Field.HealthCheckEnabled, h Field.HealthCheckMandatory,
    h Field.HealthCheckMandatoryQueue, h Field.SlowStart, h Field.ServerTokens,
    h Field.ServerSnippets, h Field.LocationSnippets, h Field.ProxyConnectTimeout,
    h Field.ProxyReadTimeout, h Field.ProxySendTimeout, h Field.ProxyHideHeaders,
    h Field.ProxyPassHeaders, h Field.ProxySetHeaders, h Field.ClientMaxBodySize,
    h Field.RedirectToHTTPS, h Field.SSLRedirect, h Field.ProxyBuffering, h Field.HSTS,
    h Field.HSTSMaxAge, h Field.HSTSIncludeSubdomains, h Field.HSTSBehindProxy,
    h Field.ProxyBuffers, h Field.ProxyBufferSize, h Field.UpstreamZoneSize,
    h Field.ProxyMaxTempFileSize, h Field.JWTRealm, h Field.JWTKey, h Field.JWTToken,
    h Field.JWTLoginURL, h Field.BasicAuthSecret, h Field.BasicAuthRealm, h Field.Ports,
    h Field.SSLPorts, h Field.Keepalive, h Field.MaxFails, h Field.MaxConns,
    h Field.FailTimeout, h Field.AppProtectEnable, h Field.AppProtectLogEnable,
    h Field.AppProtectDosResource, h Field.SpiffeServerCerts, h Field.UseClusterIP,
    h Field.LimitReqRate, h Field.LimitReqKey, h Field.LimitReqZoneSize, h Field.LimitReqDelay,
    h Field.LimitReqNoDelay, h Field.LimitReqBurst, h Field.LimitReqDryRun,
    h Field.LimitReqLogLevel, h Field.LimitReqRejectCode, h Field.LimitReqScale⟩

theorem acceptedOr_idem {α : Type} (old : α) (raw : Option String)
    (parse : String → Parsed α) :
    acceptedOr (acceptedOr old raw parse) raw parse = acceptedOr old raw parse := by
  unfold acceptedOr
  cases raw with
  | none => rfl
  | some s => cases h : (parse s).err <;> simp [h]

theorem assignedOr_idem {α : Type} (old : α) (raw : Option String)
    (parse : String → Parsed α) :
    assignedOr (assignedOr old raw parse) raw parse = assignedOr old raw parse := by
  unfold assignedOr
  cases raw <;> rfl

theorem portsOr_idem (old : List Int) (raw : Option String)
    (parse : String → Parsed (List Int)) :
    portsOr (portsOr old raw parse) raw parse = portsOr old raw parse := by
  unfold portsOr
  cases raw with
  | none => rfl
  | some s => by_cases h : (parse s).val.length > 0 <;> simp [h]

theorem serverTokensValue_idem (P : Parsers) (isPlus : Bool) (old : String)
    (raw : Option String) :
    serverTokensValue P isPlus (serverTokensValue P isPlus old raw) raw
      = serverTokensValue P isPlus old raw := by
  unfold serverTokensValue
  cases raw with
  | none => rfl
  | some s => cases h : (P.ParseBool s).err <;> cases isPlus <;> simp [h]

theorem getD_idem {α : Type} (o : Option α) (old : α) : o.getD (o.getD old) = o.getD old := by
  cases o <;> rfl

/-- The prerequisite of `nginx.com/health-checks-mandatory` is the same on top of the
result of a first pass. -/
theorem resolvedHealthCheckEnabled_idem (P : Parsers) (a : Annotations) (base : ConfigParams)
    (isPlus hasAppProtect hasAppProtectDos enableInternalRoutes : Bool) :
    resolvedHealthCheckEnabled P a
        (resolvedConfig P a base isPlus hasAppProtect hasAppProtectDos enableInternalRoutes)
        isPlus
      = resolvedHealthCheckEnabled P a base isPlus := by
  simp only [resolvedHealthCheckEnabled, resolvedConfig_HealthCheckEnabled]
  cases isPlus <;> simp [assignedOr_idem]

/-- The prerequisite of `nginx.com/health-checks-mandatory-queue` is the same on top of
the result of a first pass. -/
theorem resolvedHealthCheckMandatory_idem (P : Parsers) (a : Annotations)
    (base : ConfigParams)
    (isPlus hasAppProtect hasAppProtectDos enableInternalRoutes : Bool) :
    resolvedHealthCheckMandatory P a
        (resolvedConfig P a base isPlus hasAppProtect hasAppProtectDos enableInternalRoutes)
        isPlus
      = resolvedHealthCheckMandatory P a base isPlus := by
  unfold resolvedHealthCheckMandatory
  rw [resolvedHealthCheckEnabled_idem, resolvedConfig_HealthCheckMandatory]
  unfold resolvedHealthCheckMandatory
  cases resolvedHealthCheckEnabled P a base isPlus <;> simp [assignedOr_idem]

/-- The configuration of a second pass over the same annotations, on top of the
result of the first, is the result of the first. -/
theorem resolvedConfig_idem (P : Parsers) (a : Annotations) (base : ConfigParams)
    (isPlus hasAppProtect hasAppProtectDos enableInternalRoutes : Bool) :
    resolvedConfig P a
        (resolvedConfig P a base isPlus hasAppProtect hasAppProtectDos enableInternalRoutes)
        isPlus hasAppProtect hasAppProtectDos enableInternalRoutes
      = resolvedConfig P a base isPlus hasAppProtect hasAppProtectDos
          enableInternalRoutes := by
  apply ConfigParams.eq_of_agree
  intro f
  have hE := resolvedHealthCheckEnabled_idem P a base isPlus hasAppProtect hasAppProtectDos
    enableInternalRoutes
  have hM := resolvedHealthCheckMandatory_idem P a base isPlus hasAppProtect
    hasAppProtectDos enableInternalRoutes
  cases f
  all_goals
    simp only [Field.agree,
      resolvedConfig_LBMethod, resolvedConfig_HealthCheckEnabled,
      resolvedConfig_HealthCheckMandatory, resolvedConfig_HealthCheckMandatoryQueue,
      resolvedConfig_SlowStart, resolvedConfig_ServerTokens, resolvedConfig_ServerSnippets,
      resolvedConfig_LocationSnippets, resolvedConfig_ProxyConnectTimeout,
      resolvedConfig_ProxyReadTimeout, resolvedConfig_ProxySendTimeout,
      resolvedConfig_ProxyHideHeaders, resolvedConfig_ProxyPassHeaders,
      resolvedConfig_ProxySetHeaders, resolvedConfig_ClientMaxBodySize,
      resolvedConfig_RedirectToHTTPS, resolvedConfig_SSLRedirect,
      resolvedConfig_ProxyBuffering, resolvedConfig_HSTS, resolvedConfig_HSTSMaxAge,
      resolvedConfig_HSTSIncludeSubdomains, resolvedConfig_HSTSBehindProxy,
      resolvedConfig_ProxyBuffers, resolvedConfig_ProxyBufferSize,
      resolvedConfig_UpstreamZoneSize, resolvedConfig_ProxyMaxTempFileSize,
      resolvedConfig_JWTRealm, resolvedConfig_JWTKey, resolvedConfig_JWTToken,
      resolvedConfig_JWTLoginURL, resolvedConfig_BasicAuthSecret,
      resolvedConfig_BasicAuthRealm, resolvedConfig_Ports, resolvedConfig_SSLPorts,
      resolvedConfig_Keepalive, resolvedConfig_MaxFails, resolvedConfig_MaxConns,
      resolvedConfig_FailTimeout, resolvedConfig_AppProtectEnable,
      resolvedConfig_AppProtectLogEnable, resolvedConfig_AppProtectDosResource,
      resolvedConfig_SpiffeServerCerts, resolvedConfig_UseClusterIP,
      resolvedConfig_LimitReqRate, resolvedConfig_LimitReqKey, resolvedConfig_LimitReqZoneSize,
      resolvedConfig_LimitReqDelay, resolvedConfig_LimitReqNoDelay,
      resolvedConfig_LimitReqBurst, resolvedConfig_LimitReqDryRun,
      resolvedConfig_LimitReqLogLevel, resolvedConfig_LimitReqRejectCode,
      resolvedConfig_LimitReqScale]
    first
      | rfl
      | (simp only [hE, hM, acceptedOr_idem, assignedOr_idem, portsOr_idem,
          serverTokensValue_idem, getD_idem, GetMapKeyAsStringSlice]
         done)
      | (try simp only [hE, hM]
         split <;> simp [*, acceptedOr_idem, assignedOr_idem, getD_idem])

/-- The log of a second pass over the same annotations, on top of the result of the
first, is the log of the first. -/
theorem resolvedLog_idem (P : Parsers) (a : Annotations) (base : ConfigParams)
    (isPlus hasAppProtect hasAppProtectDos enableInternalRoutes : Bool) :
    resolvedLog P a
        (resolvedConfig P a base isPlus hasAppProtect hasAppProtectDos enableInternalRoutes)
        isPlus hasAppProtect hasAppProtectDos enableInternalRoutes
      = resolvedLog P a base isPlus hasAppProtect hasAppProtectDos enableInternalRoutes := by
  unfold resolvedLog
  rw [resolvedHealthCheckEnabled_idem, resolvedHealthCheckMandatory_idem]

/-- C29: re-resolution is idempotent. For every baseline, annotation set and flags,
resolving the annotations again on top of the result of a first pass gives the same
configuration and the same log as the first pass; the health-check chain and the HSTS
group are included, the statement is about all 53 fields. -/
theorem resolution_is_idempotent (P : Parsers) (a : Annotations) (base : ConfigParams)
    (isPlus hasAppProtect hasAppProtectDos enableInternalRoutes : Bool) :
    parseAnnotations P a
        (parseAnnotations P a base isPlus hasAppProtect hasAppProtectDos
          enableInternalRoutes).1
        isPlus hasAppProtect hasAppProtectDos enableInternalRoutes
      = parseAnnotations P a base isPlus hasAppProtect hasAppProtectDos
          enableInternalRoutes := by
  simp only [parseAnnotations_eq]
  rw [resolvedConfig_idem, resolvedLog_idem]

/-- C29, at a concrete input: a first pass that turns the health-check chain on and
commits the HSTS group from a baseline with everything off, and the second pass on top
of it. -/
theorem resolution_is_idempotent_witness :
    (parseAnnotations sampleParsers
        [("nginx.com/health-checks", "true"), ("nginx.com/health-checks-mandatory", "true"),
          ("nginx.com/health-checks-mandatory-queue", "5"), ("nginx.org/hsts", "true"),
          ("nginx.org/hsts-max-age", "31536000")]
        zeroConfigParams true false false false).1.HealthCheckMandatoryQueue = 5
      ∧ parseAnnotations sampleParsers
          [("nginx.com/health-checks", "true"), ("nginx.com/health-checks-mandatory", "true"),
            ("nginx.com/health-checks-mandatory-queue", "5"), ("nginx.org/hsts", "true"),
            ("nginx.org/hsts-max-age", "31536000")]
          (parseAnnotations sampleParsers
            [("nginx.com/health-checks", "true"),
              ("nginx.com/health-checks-mandatory", "true"),
              ("nginx.com/health-checks-mandatory-queue", "5"), ("nginx.org/hsts", "true"),
              ("nginx.org/hsts-max-age", "31536000")]
            zeroConfigParams true false false false).1
          true false false false
        = parseAnnotations sampleParsers
          [("nginx.com/health-checks", "true"), ("nginx.com/health-checks-mandatory", "true"),
            ("nginx.com/health-checks-mandatory-queue", "5"), ("nginx.org/hsts", "true"),
            ("nginx.org/hsts-max-age", "31536000")]
          zeroConfigParams true false false false :=
  ⟨by decide,
    resolution_is_idempotent sampleParsers
      [("nginx.com/health-checks", "true"), ("nginx.com/health-checks-mandatory", "true"),
        ("nginx.com/health-checks-mandatory-queue", "5"), ("nginx.org/hsts", "true"),
        ("nginx.org/hsts-max-age", "31536000")]
      zeroConfigParams true false false false⟩

/-! ## Facts about `splitChars` -/

theorem splitChars_ne_nil (d : Char) (cs : List Char) : splitChars d cs ≠ [] := by
  cases cs with
  | nil => simp [splitChars]
  | cons c t =>
    unfold splitChars
    by_cases h : c = d
    · simp [h]
    · simp only [h, if_false]
      cases splitChars d t <;> simp

/-- The pieces are one piece exactly when the delimiter does not occur. -/
theorem splitChars_eq_singleton (d : Char) (cs y : List Char) :
    splitChars d cs = [y] ↔ cs = y ∧ d ∉ y := by
  induction cs generalizing y with
  | nil =>
    simp only [splitChars, List.cons.injEq, and_true]
    constructor
    · intro h
      subst h
      simp
    · intro h
      exact h.1
  | cons c t ih =>
    unfold splitChars
    by_cases h : c = d
    · subst h
      simp only [if_true, List.cons.injEq]
      constructor
      · intro hs
        exact absurd hs.2 (splitChars_ne_nil c t)
      · rintro ⟨rfl, hy⟩
        exact absurd (List.mem_cons_self c t) hy
    · simp only [h, if_false]
      cases hs : splitChars d t with
      | nil => exact absurd hs (splitChars_ne_nil d t)
      | cons p ps =>
        simp only [List.cons.injEq]
        constructor
        · rintro ⟨rfl, rfl⟩
          have ht := (ih p).mp hs
          refine ⟨by rw [ht.1], ?_⟩
          intro hmem
          rcases List.mem_cons.mp hmem with hd | hd
          · exact h hd.symm
          · exact ht.2 hd
        · rintro ⟨rfl, hy⟩
          have hnot : d ∉ t := fun hm => hy (List.mem_cons_of_mem c hm)
          have ht := (ih t).mpr ⟨rfl, hnot⟩
          rw [hs] at ht
          simp only [List.cons.injEq] at ht
          exact ⟨by rw [ht.1], ht.2⟩

/-- The pieces are two pieces exactly when the delimiter occurs once, between them. -/
theorem splitChars_eq_pair (d : Char) (cs x y : List Char) :
    splitChars d cs = [x, y] ↔ cs = x ++ d :: y ∧ d ∉ x ∧ d ∉ y := by
  induction cs generalizing x with
  | nil =>
    simp only [splitChars, List.cons.injEq]
    constructor
    · intro h
      exact absurd h.2 (by simp)
    · rintro ⟨h, -, -⟩
      cases x <;> simp at h
  | cons c t ih =>
    unfold splitChars
    by_cases h : c = d
    · subst h
      simp only [if_true, List.cons.injEq]
      constructor
      · rintro ⟨rfl, hs⟩
        have ht := (splitChars_eq_singleton c t y).mp hs
        exact ⟨by simp [ht.1], by simp, ht.2⟩
      · rintro ⟨hcs, hx, hy⟩
        cases x with
        | nil =>
          simp only [List.nil_append, List.cons.injEq, true_and] at hcs
          exact ⟨rfl, (splitChars_eq_singleton c t y).mpr ⟨hcs, hy⟩⟩
        | cons c' x' =>
          simp only [List.cons_append, List.cons.injEq] at hcs
          exact absurd (hcs.1 ▸ List.mem_cons_self c' x') hx
    · simp only [h, if_false]
      cases hs : splitChars d t with
      | nil => exact absurd hs (splitChars_ne_nil d t)
      | cons p ps =>
        simp only [List.cons.injEq]
        constructor
        · rintro ⟨rfl, rfl⟩
          have ht := (ih p).mp hs
          refine ⟨by simp [ht.1], ?_, ht.2.2⟩
          intro hmem
          rcases List.mem_cons.mp hmem with hd | hd
          · exact h hd.symm
          · exact ht.2.1 hd
        · rintro ⟨hcs, hx, hy⟩
          cases x with
          | nil =>
            simp only [List.nil_append, List.cons.injEq] at hcs
            exact absurd hcs.1 h
          | cons c' x' =>
            simp only [List.cons_append, List.cons.injEq] at hcs
            obtain ⟨rfl, rfl⟩ := hcs
            have hx' : d ∉ x' := fun hm => hx (List.mem_cons_of_mem c hm)
            have ht := (ih x').mpr ⟨rfl, hx', hy⟩
            rw [hs] at ht
            simp only [List.cons.injEq] at ht
            exact ⟨by rw [ht.1], ht.2⟩

/-- The first piece begins with the first character, when that is not the delimiter. -/
theorem splitChars_cons_of_ne (d c : Char) (t : List Char) (h : c ≠ d) :
    ∃ p ps, splitChars d (c :: t) = (c :: p) :: ps := by
  unfold splitChars
  simp only [h, if_false]
  cases splitChars d t with
  | nil => exact ⟨[], [], rfl⟩
  | cons p ps => exact ⟨p, ps, rfl⟩

/-! ## The resolver: the port lists -/

/-- C31: `nginx.org/listen-ports` and `nginx.org/listen-ports-ssl` with a raw value.
The field (`Ports`, respectively `SSLPorts`) is the list `ParsePortList` hands back when
that list is not empty, whether or not an error comes with it, and the baseline's value
when the list is empty, with or without an error. An error of the parser is reported
once, with the key, the raw value and the cause, also when the field is written; without
an error the key has no entry in the log. -/
theorem ports_overwritten_iff_nonempty (P : Parsers) (a : Annotations) (base : ConfigParams)
    (isPlus hasAppProtect hasAppProtectDos enableInternalRoutes : Bool)
    (key : String) (get : ConfigParams → List Int) (s : String)
    (hmem : (key, get) ∈ portKeys) (hraw : Annotations.lookup a key = some s) :
    ((P.ParsePortList s).val ≠ []
        → get (parseAnnotations P a base isPlus hasAppProtect hasAppProtectDos
            enableInternalRoutes).1 = (P.ParsePortList s).val)
      ∧ ((P.ParsePortList s).val = []
        → get (parseAnnotations P a base isPlus hasAppProtect hasAppProtectDos
            enableInternalRoutes).1 = get base)
      ∧ (∀ cause, (P.ParsePortList s).err = some cause
        → (parseAnnotations P a base isPlus hasAppProtect hasAppProtectDos
            enableInternalRoutes).2.filter (LogEntry.isErrorFor key)
          = [LogEntry.error ⟨key, s, cause⟩])
      ∧ ((P.ParsePortList s).err = none
        → (parseAnnotations P a base isPlus hasAppProtect hasAppProtectDos
            enableInternalRoutes).2.filter (LogEntry.isErrorFor key) = []) := by
  rw [parseAnnotations_eq]
  simp only [portKeys, List.mem_cons, Prod.mk.injEq, List.not_mem_nil, or_false] at hmem
  rcases hmem with ⟨rfl, rfl⟩ | ⟨rfl, rfl⟩
  all_goals
    simp only [resolvedConfig_Ports, resolvedConfig_SSLPorts]
    simp only [resolvedLog, hstsLog, hstsSiblingErrors, rateLimitErrors, List.map_append,
      List.filter_append, filter_if, filter_isErrorFor_rejection,
      filter_isErrorFor_capabilityWarning, UseClusterIPAnnotation,
      nginxMeshInternalRouteAnnotation, PathRegexAnnotation, List.filter_nil]
    refine ⟨?_, ?_, ?_, ?_⟩
    · intro hne
      have hpos : (P.ParsePortList s).val.length > 0 := List.length_pos.mpr hne
      simp [portsOr, hraw, hpos]
    · intro hnil
      simp [portsOr, hraw, hnil]
    · intro cause hcause
      simp [rejection, LogEntry.isErrorFor, hraw, hcause]
    · intro hok
      simp [rejection, LogEntry.isErrorFor, hraw, hok]

/-- C31, at concrete inputs. A value with an error and no port leaves `Ports` at the
baseline and logs one error; a parser that hands back the port it read together with
the error has that port written, and the error logged; a parser that hands back no
port and no error leaves `SSLPorts` at the baseline with an empty log. -/
theorem ports_overwritten_iff_nonempty_witness :
    parseAnnotations sampleParsers [("nginx.org/listen-ports", "http")]
        { zeroConfigParams with Ports := [80] } false false false false
      = ({ zeroConfigParams with Ports := [80] },
          [LogEntry.error ⟨"nginx.org/listen-ports", "http", "invalid port"⟩])
      ∧ parseAnnotations { sampleParsers with ParsePortList := lenientParsePortList }
          [("nginx.org/listen-ports", "8080,http")]
          { zeroConfigParams with Ports := [80] } false false false false
        = ({ zeroConfigParams with Ports := [8080] },
            [LogEntry.error ⟨"nginx.org/listen-ports", "8080,http", "invalid port"⟩])
      ∧ parseAnnotations { sampleParsers with ParsePortList := fun _ => ⟨[], none⟩ }
          [("nginx.org/listen-ports-ssl", "443")]
          { zeroConfigParams with SSLPorts := [8443] } false false false false
        = ({ zeroConfigParams with SSLPorts := [8443] }, [])
      ∧ (parseAnnotations sampleParsers [("nginx.org/listen-ports-ssl", "443,8443")]
          { zeroConfigParams with SSLPorts := [9443] }
          false false false false).1.SSLPorts = [443, 8443] :=
  ⟨by decide, by decide, by decide,
    (ports_overwritten_iff_nonempty sampleParsers
      [("nginx.org/listen-ports-ssl", "443,8443")]
      { zeroConfigParams with SSLPorts := [9443] } false false false false
      "nginx.org/listen-ports-ssl" (fun c => c.SSLPorts) "443,8443"
      (by simp [portKeys]) (by decide)).1 (by decide)⟩

end configs

namespace validation

/-! ## The allow list -/

/-- The allow list is rejected exactly when one of its entries is. -/
theorem allowList_isSome_iff (allowList : List AllowListEntry) :
    (ValidateAppProtectDosAllowList allowList).isSome = true
      ↔ ∃ entry ∈ allowList, isValidIPWithMask entry.IPWithMask = false := by
  induction allowList with
  | nil => simp [ValidateAppProtectDosAllowList]
  | cons entry rest ih =>
    unfold ValidateAppProtectDosAllowList
    by_cases h : isValidIPWithMask entry.IPWithMask = true
    · simp [h, ih]
    · simp [h]

/-- The accepted strings of `isValidIPWithMask`: an address, a slash and a decimal mask,
the address a dotted IPv4 address with a mask of at most 32 or an IPv6 address with a
mask of at most 128. -/
theorem isValidIPWithMask_iff (s : String) :
    isValidIPWithMask s = true
      ↔ ∃ addr mask n, s.data = addr ++ '/' :: mask ∧ '/' ∉ addr ∧ '/' ∉ mask
          ∧ configs.digitsValue mask = some n
          ∧ ((isIPv4 addr = true ∧ n ≤ 32)
            ∨ (isIPv4 addr = false ∧ isIPv6 addr = true ∧ n ≤ 128)) := by
  unfold isValidIPWithMask goParseCIDR
  constructor
  · intro h
    split at h
    · rename_i addr mask hsplit
      obtain ⟨hcs, hx, hy⟩ := (configs.splitChars_eq_pair '/' s.data addr mask).mp hsplit
      split at h
      · rename_i n hn
        refine ⟨addr, mask, n, hcs, hx, hy, hn, ?_⟩
        by_cases h4 : isIPv4 addr = true
        · simp only [h4, if_true] at h
          by_cases h32 : n ≤ 32
          · exact Or.inl ⟨h4, h32⟩
          · simp [h32] at h
        · simp only [h4] at h
          by_cases h6 : isIPv6 addr = true
          · by_cases h128 : n ≤ 128
            · exact Or.inr ⟨by simpa using h4, h6, h128⟩
            · simp [h6, h128] at h
          · simp [h6] at h
      · simp at h
    · simp at h
  · rintro ⟨addr, mask, n, hcs, hx, hy, hn, hcase⟩
    have hsplit := (configs.splitChars_eq_pair '/' s.data addr mask).mpr ⟨hcs, hx, hy⟩
    rw [hsplit]
    simp only [hn]
    rcases hcase with ⟨h4, h32⟩ | ⟨h4, h6, h128⟩
    · simp [h4, h32]
    · simp [h4, h6, h128]

/-- A string without a slash has no mask and is rejected. -/
theorem isValidIPWithMask_of_no_mask (s : String) (h : '/' ∉ s.data) :
    isValidIPWithMask s = false := by
  have hsplit := (configs.splitChars_eq_singleton '/' s.data s.data).mpr ⟨rfl, h⟩
  simp [isValidIPWithMask, goParseCIDR, hsplit]

/-- Every character of a list is the delimiter or lies in one of the pieces. -/
theorem mem_splitChars (d : Char) (cs : List Char) (x : Char) (hx : x ∈ cs) :
    x = d ∨ ∃ p ∈ configs.splitChars d cs, x ∈ p := by
  induction cs with
  | nil => simp at hx
  | cons c t ih =>
    unfold configs.splitChars
    by_cases h : c = d
    · subst h
      simp only [if_true]
      rcases List.mem_cons.mp hx with hd | hd
      · exact Or.inl hd
      · rcases ih hd with h1 | ⟨p, hp, hxp⟩
        · exact Or.inl h1
        · exact Or.inr ⟨p, List.mem_cons_of_mem _ hp, hxp⟩
    · simp only [h, if_false]
      cases hs : configs.splitChars d t with
      | nil => exact absurd hs (configs.splitChars_ne_nil d t)
      | cons p ps =>
        simp only
        rcases List.mem_cons.mp hx with hd | hd
        · exact Or.inr ⟨c :: p, List.mem_cons_self _ _, by simp [hd]⟩
        · rcases ih hd with h1 | ⟨q, hq, hxq⟩
          · exact Or.inl h1
          · rw [hs] at hq
            rcases List.mem_cons.mp hq with rfl | hq2
            · exact Or.inr ⟨c :: q, List.mem_cons_self _ _, List.mem_cons_of_mem _ hxq⟩
            · exact Or.inr ⟨q, List.mem_cons_of_mem _ hq2, hxq⟩

/-- The characters of a list with a decimal value are digits. -/
theorem isDigit_of_digitsValue (cs : List Char) (n : Nat)
    (h : configs.digitsValue cs = some n) (x : Char) (hx : x ∈ cs) : x.isDigit = true := by
  unfold configs.digitsValue at h
  split at h
  · rename_i hc
    exact List.all_eq_true.mp hc.2 x hx
  · simp at h

/-- The characters of a field of a dotted IPv4 address are digits. -/
theorem isDigit_of_isIPv4Field (cs : List Char) (h : isIPv4Field cs = true) (x : Char)
    (hx : x ∈ cs) : x.isDigit = true := by
  unfold isIPv4Field at h
  split at h
  · rename_i n hn
    exact isDigit_of_digitsValue cs n hn x hx
  · simp at h

/-- The characters of a dotted IPv4 address are digits and dots. -/
theorem isIPv4_chars (v : List Char) (h : isIPv4 v = true) (x : Char) (hx : x ∈ v) :
    x = '.' ∨ x.isDigit = true := by
  unfold isIPv4 at h
  split at h
  · rename_i a b c d hs
    simp only [Bool.and_eq_true] at h
    rcases mem_splitChars '.' v x hx with h1 | ⟨p, hp, hxp⟩
    · exact Or.inl h1
    · rw [hs] at hp
      simp only [List.mem_cons, List.not_mem_nil, or_false] at hp
      rcases hp with rfl | rfl | rfl | rfl
      · exact Or.inr (isDigit_of_isIPv4Field _ h.1.1.1 x hxp)
      · exact Or.inr (isDigit_of_isIPv4Field _ h.1.1.2 x hxp)
      · exact Or.inr (isDigit_of_isIPv4Field _ h.1.2 x hxp)
      · exact Or.inr (isDigit_of_isIPv4Field _ h.2 x hxp)
  · simp at h

/-- An IPv6 address that ends in a dotted IPv4 address, here after `::ffff:`, is
accepted with every mask of at most 128. -/
theorem isValidIPWithMask_of_mapped (v mask : String) (n : Nat)
    (hv : isIPv4 v.data = true) (hm : configs.digitsValue mask.data = some n)
    (hn : n ≤ 128) :
    isValidIPWithMask ("::ffff:" ++ v ++ "/" ++ mask) = true := by
  have hcolon : ':' ∉ v.data := by
    intro hmem
    rcases isIPv4_chars v.data hv ':' hmem with h1 | h1
    · exact absurd h1 (by decide)
    · exact absurd h1 (by decide)
  have hslash : '/' ∉ v.data := by
    intro hmem
    rcases isIPv4_chars v.data hv '/' hmem with h1 | h1
    · exact absurd h1 (by decide)
    · exact absurd h1 (by decide)
  have hmask : '/' ∉ mask.data := by
    intro hmem
    exact absurd (isDigit_of_digitsValue mask.data n hm '/' hmem) (by decide)
  have hdata : ("::ffff:" ++ v ++ "/" ++ mask).data
      = (':' :: ':' :: 'f' :: 'f' :: 'f' :: 'f' :: ':' :: v.data) ++ '/' :: mask.data := by
    simp [String.data_append]
  rw [isValidIPWithMask_iff]
  refine ⟨':' :: ':' :: 'f' :: 'f' :: 'f' :: 'f' :: ':' :: v.data, mask.data, n, hdata, ?_, hmask,
    hm, Or.inr ⟨?_, ?_, hn⟩⟩
  · simp [hslash]
  · cases h4 : isIPv4 (':' :: ':' :: 'f' :: 'f' :: 'f' :: 'f' :: ':' :: v.data) with
    | false => rfl
    | true =>
      rcases isIPv4_chars _ h4 ':' (List.mem_cons_self _ _) with h1 | h1
      · exact absurd h1 (by decide)
      · exact absurd h1 (by decide)
  · have hsplit : configs.splitChars ':' ('f' :: 'f' :: 'f' :: 'f' :: ':' :: v.data)
        = [['f', 'f', 'f', 'f'], v.data] :=
      (configs.splitChars_eq_pair ':' _ ['f', 'f', 'f', 'f'] v.data).mpr
        ⟨rfl, by decide, hcolon⟩
    have hgroup : isIPv6Group ['f', 'f', 'f', 'f'] = true := by decide
    simp only [isIPv6, splitAtEllipsis, List.head?_cons, List.tail_cons, and_self, if_true,
      ipv6Groups, hsplit]
    simp only [ipv6Fields, hgroup]
    by_cases hg : isIPv6Group v.data = true
    · simp [hg]
    · simp [hg, hv]

/-- C21: `ValidateAppProtectDosAllowList` returns an error exactly when an entry of the
list has an `IPWithMask` that `isValidIPWithMask` rejects, and the empty list is
accepted. `isValidIPWithMask` accepts exactly an address in CIDR form with a mask: an
address, one slash and a decimal mask, for a dotted IPv4 address of at most 32 and for
an IPv6 address, also one that ends in a dotted IPv4 address, of at most 128; a string
without a slash is rejected. The strings of the tests are accepted and rejected as the
tests say. An IPv6 address with a dotted IPv4 address at its end is accepted: every
`::ffff:` followed by a dotted IPv4 address with a mask of at most 128, and the dotted
part in the last place after `::` or after six groups; it is rejected with the dotted
part elsewhere, with too many groups, with a leading zero in the dotted part, with a
mask above 128 or with a zone. -/
theorem allow_list_error_iff_invalid_entry (allowList : List AllowListEntry)
    (s v mask : String) (n : Nat) :
    ((ValidateAppProtectDosAllowList allowList).isSome = true
        ↔ ∃ entry ∈ allowList, isValidIPWithMask entry.IPWithMask = false)
      ∧ ValidateAppProtectDosAllowList [] = none
      ∧ (isValidIPWithMask s = true
        ↔ ∃ addr mask n, s.data = addr ++ '/' :: mask ∧ '/' ∉ addr ∧ '/' ∉ mask
            ∧ configs.digitsValue mask = some n
            ∧ ((isIPv4 addr = true ∧ n ≤ 32)
              ∨ (isIPv4 addr = false ∧ isIPv6 addr = true ∧ n ≤ 128)))
      ∧ ('/' ∉ s.data → isValidIPWithMask s = false)
      ∧ (isIPv4 v.data = true → configs.digitsValue mask.data = some n → n ≤ 128
        → isValidIPWithMask ("::ffff:" ++ v ++ "/" ++ mask) = true)
      ∧ isValidIPWithMask "192.168.1.1/32" = true
      ∧ isValidIPWithMask "2001:0db8:85a3:0000:0000:8a2e:0370:7334/128" = true
      ∧ isValidIPWithMask "192.168.1.1" = false
      ∧ isValidIPWithMask "192.168.1.1/abc" = false
      ∧ isValidIPWithMask "2001:0db8:85a3:0000:0000:8a2e:0370:7334/199" = false
      ∧ isValidIPWithMask "::ffff:192.168.1.1/128" = true
      ∧ isValidIPWithMask "64:ff9b::192.0.2.33/96" = true
      ∧ isValidIPWithMask "0:0:0:0:0:ffff:192.168.1.1/128" = true
      ∧ isValidIPWithMask "1:2:3:4:5::192.168.1.1/64" = true
      ∧ isValidIPWithMask "::/0" = true
      ∧ isValidIPWithMask "1:2:3:4:5:6:7:192.168.1.1/128" = false
      ∧ isValidIPWithMask "1:2:3:4:5:6::192.168.1.1/128" = false
      ∧ isValidIPWithMask "::192.168.1.1:ffff/128" = false
      ∧ isValidIPWithMask "::ffff:192.168.01.1/128" = false
      ∧ isValidIPWithMask "::ffff:192.168.1.1/129" = false
      ∧ isValidIPWithMask "fe80::1%eth0/64" = false :=
  ⟨allowList_isSome_iff allowList, rfl, isValidIPWithMask_iff s,
    isValidIPWithMask_of_no_mask s, isValidIPWithMask_of_mapped v mask n,
    by decide, by decide, by decide, by decide, by decide, by decide⟩

/-- C21, on the lists of `TestValidateAppProtectDosAllowList` and the strings of
`TestIsValidIPWithMask`. -/
theorem allow_list_error_iff_invalid_entry_witness :
    ValidateAppProtectDosAllowList
        [⟨"192.168.1.1/32"⟩, ⟨"2001:0db8:85a3:0000:0000:8a2e:0370:7334/128"⟩] = none
      ∧ (ValidateAppProtectDosAllowList [⟨"192.168.1.1445/32"⟩]).isSome = true
      ∧ (ValidateAppProtectDosAllowList
          [⟨"2001:0db8:85a3:0000:0000:8a2e:0370:7334:3454/128"⟩]).isSome = true
      ∧ (ValidateAppProtectDosAllowList [⟨"192.168.1.1/abc"⟩]).isSome = true
      ∧ (ValidateAppProtectDosAllowList
          [⟨"2001:0db8:85a3:0000:0000:8a2e:0370:7334/199"⟩]).isSome = true
      ∧ (ValidateAppProtectDosAllowList
          [⟨"192.168.1.1/32"⟩, ⟨"192.168.1.1"⟩]).isSome = true
      ∧ isValidIPWithMask "192.168.1.14444/33" = false
      ∧ isValidIPWithMask "2001:0db8:85a3:0000:0000:8a2e:0370:7334:343434/128" = false
      ∧ isValidIPWithMask ("::ffff:" ++ "10.0.0.1" ++ "/" ++ "24") = true :=
  ⟨by decide, by decide, by decide, by decide, by decide,
    ((allow_list_error_iff_invalid_entry [⟨"192.168.1.1/32"⟩, ⟨"192.168.1.1"⟩]
      "192.168.1.1" "10.0.0.1" "24" 24).1).mpr ⟨⟨"192.168.1.1"⟩, by simp, by decide⟩,
    by decide, by decide,
    (allow_list_error_iff_invalid_entry [] "" "10.0.0.1" "24" 24).2.2.2.2.1
      (by decide) (by decide) (by decide)⟩

/-! ## The protected resource -/

/-- With the earlier fields valid the result of `ValidateDosProtectedResource` is the
result of the checks of `DosSecurityLog`. -/
theorem validate_of_earlierFieldsValid (r : DosProtectedResource)
    (h : earlierFieldsValid r) :
    ValidateDosProtectedResource r
      = match r.Spec.DosSecurityLog with
        | none => none
        | some log =>
          match validateAppProtectDosLogDest log.DosLogDest with
          | some err => some (invalidField r.Name "dosSecurityLog/dosLogDest" err)
          | none =>
            match validateResourceReference log.ApDosLogConf with
            | some err => some (invalidField r.Name "dosSecurityLog/apDosLogConf" err)
            | none => none := by
  obtain ⟨hname, hvalid, hmon, hdest, hpol⟩ := h
  have hmon' : r.Spec.ApDosMonitor.bind validateAppProtectDosMonitor = none := by
    cases hm : r.Spec.ApDosMonitor with
    | none => rfl
    | some m => simpa using hmon m hm
  have hdest' : (if r.Spec.DosAccessLogDest = "" then none
      else validateAppProtectDosLogDest r.Spec.DosAccessLogDest) = none := by
    by_cases hd : r.Spec.DosAccessLogDest = ""
    · simp [hd]
    · simp [hd, hdest hd]
  have hpol' : (if r.Spec.ApDosPolicy = "" then none
      else validateResourceReference r.Spec.ApDosPolicy) = none := by
    by_cases hp : r.Spec.ApDosPolicy = ""
    · simp [hp]
    · simp [hp, hpol hp]
  unfold ValidateDosProtectedResource
  rw [if_neg hname]
  simp only [hvalid, hmon', hdest', hpol']

/-- A set `DosSecurityLog` with a rejected `DosLogDest` or a rejected `ApDosLogConf`
makes `ValidateDosProtectedResource` return an error. -/
theorem validate_isSome_of_securityLog (r : DosProtectedResource) (log : DosSecurityLog)
    (hlog : r.Spec.DosSecurityLog = some log)
    (hbad : validateAppProtectDosLogDest log.DosLogDest ≠ none
      ∨ validateResourceReference log.ApDosLogConf ≠ none) :
    (ValidateDosProtectedResource r).isSome = true := by
  unfold ValidateDosProtectedResource
  simp only [hlog]
  repeat' split
  all_goals first | rfl | simp_all

/-- C22: `ValidateDosProtectedResource` rejects every resource whose `Spec.Name` is
empty, whatever its other fields, with the error `error validating
DosProtectedResource: <resource name> missing value for field: name`; and it accepts a
resource with a valid name in which each of `ApDosMonitor`, `DosAccessLogDest`,
`ApDosPolicy` and `DosSecurityLog` that is set is valid (for `DosSecurityLog`: its
`DosLogDest` and its `ApDosLogConf` are). -/
theorem empty_name_rejected_valid_resource_accepted (r : DosProtectedResource) :
    (r.Spec.Name = ""
        → ValidateDosProtectedResource r
          = some ("error validating DosProtectedResource: " ++ r.Name
              ++ " missing value for field: name"))
      ∧ (r.Spec.Name ≠ "" → validateAppProtectDosName r.Spec.Name = none
        → (∀ m, r.Spec.ApDosMonitor = some m → validateAppProtectDosMonitor m = none)
        → (r.Spec.DosAccessLogDest ≠ ""
          → validateAppProtectDosLogDest r.Spec.DosAccessLogDest = none)
        → (r.Spec.ApDosPolicy ≠ "" → validateResourceReference r.Spec.ApDosPolicy = none)
        → (∀ log, r.Spec.DosSecurityLog = some log
          → validateAppProtectDosLogDest log.DosLogDest = none
            ∧ validateResourceReference log.ApDosLogConf = none)
        → ValidateDosProtectedResource r = none) := by
  refine ⟨?_, ?_⟩
  · intro h
    unfold ValidateDosProtectedResource
    rw [if_pos h]
  · intro hname hvalid hmon hdest hpol hlog
    rw [validate_of_earlierFieldsValid r ⟨hname, hvalid, hmon, hdest, hpol⟩]
    cases hl : r.Spec.DosSecurityLog with
    | none => rfl
    | some log =>
      obtain ⟨h1, h2⟩ := hlog log hl
      simp only [h1, h2]

set_option maxRecDepth 8000 in
/-- C22, on the resources of `TestValidateDosProtectedResource`: the empty resource,
a resource with an empty name and every other field set, and the resources the test
expects to be accepted. -/
theorem empty_name_rejected_valid_resource_accepted_witness :
    ValidateDosProtectedResource emptyDosProtectedResource
        = some "error validating DosProtectedResource:  missing value for field: name"
      ∧ ValidateDosProtectedResource
          ⟨"dos-one", ⟨"", some ⟨"example.com", "http1", 5⟩, "example.service.com:123",
            "ns/name", some ⟨"ns/name", "service.org:123"⟩⟩⟩
        = some "error validating DosProtectedResource: dos-one missing value for field: name"
      ∧ ValidateDosProtectedResource
          ⟨"", ⟨"name", some ⟨"example.com", "", 0⟩, "example.service.com:123", "", none⟩⟩
        = none
      ∧ ValidateDosProtectedResource
          ⟨"", ⟨"name", some ⟨"example.com", "", 0⟩, "example.service.com:123", "ns/name",
            none⟩⟩
        = none
      ∧ ValidateDosProtectedResource
          ⟨"", ⟨"name", some ⟨"example.com", "", 0⟩, "example.service.com:123", "",
            some ⟨"ns/name", "service.org:123"⟩⟩⟩
        = none :=
  ⟨(empty_name_rejected_valid_resource_accepted emptyDosProtectedResource).1 rfl,
    (empty_name_rejected_valid_resource_accepted
      ⟨"dos-one", ⟨"", some ⟨"example.com", "http1", 5⟩, "example.service.com:123",
        "ns/name", some ⟨"ns/name", "service.org:123"⟩⟩⟩).1 rfl,
    by decide, by decide,
    (empty_name_rejected_valid_resource_accepted
      ⟨"", ⟨"name", some ⟨"example.com", "", 0⟩, "example.service.com:123", "",
        some ⟨"ns/name", "service.org:123"⟩⟩⟩).2 (by decide) (by decide)
      (fun m hm => by cases hm; decide) (fun _ => by decide) (fun h => absurd rfl h)
      (fun log hl => by cases hl; decide)⟩

/-- C23: a set `DosSecurityLog` must carry a valid `DosLogDest` and a valid
`ApDosLogConf`: with either rejected `ValidateDosProtectedResource` returns an error.
When the fields checked before it are valid, a rejected `DosLogDest` (the empty one
included) gives the error on the field `dosSecurityLog/dosLogDest`, whatever
`ApDosLogConf` is; with a valid `DosLogDest` an `ApDosLogConf` that is no qualified
name (the empty one included) gives `invalid field: dosSecurityLog/apDosLogConf err:
reference name is invalid: <value>`; and with both valid the resource is accepted. A
reference of the form `ns/name` is valid. -/
theorem security_log_needs_destination_and_reference (r : DosProtectedResource)
    (log : DosSecurityLog) (hlog : r.Spec.DosSecurityLog = some log) :
    ((validateAppProtectDosLogDest log.DosLogDest ≠ none
          ∨ validateResourceReference log.ApDosLogConf ≠ none)
        → (ValidateDosProtectedResource r).isSome = true)
      ∧ (earlierFieldsValid r
        → (∀ err, validateAppProtectDosLogDest log.DosLogDest = some err
            → ValidateDosProtectedResource r
              = some ("error validating DosProtectedResource: " ++ r.Name
                  ++ " invalid field: dosSecurityLog/dosLogDest err: " ++ err))
          ∧ (validateAppProtectDosLogDest log.DosLogDest = none
            → IsQualifiedName log.ApDosLogConf = false
            → ValidateDosProtectedResource r
              = some ("error validating DosProtectedResource: " ++ r.Name
                  ++ " invalid field: dosSecurityLog/apDosLogConf err: "
                  ++ "reference name is invalid: " ++ log.ApDosLogConf))
          ∧ (validateAppProtectDosLogDest log.DosLogDest = none
            → IsQualifiedName log.ApDosLogConf = true
            → ValidateDosProtectedResource r = none))
      ∧ validateAppProtectDosLogDest "" = some (invalidDestination "")
      ∧ IsQualifiedName "" = false
      ∧ IsQualifiedName "bad$%^$%name" = false
      ∧ IsQualifiedName "ns/name" = true := by
  refine ⟨validate_isSome_of_securityLog r log hlog, ?_, by decide, by decide, by decide,
    by decide⟩
  intro hpre
  rw [validate_of_earlierFieldsValid r hpre]
  simp only [hlog]
  refine ⟨?_, ?_, ?_⟩
  · intro err herr
    have e : " invalid field: dosSecurityLog/dosLogDest err: "
        = " invalid field: " ++ ("dosSecurityLog/dosLogDest" ++ " err: ") := by decide
    simp only [herr, invalidField, e, String.append_assoc]
  · intro hdest hq
    have e : " invalid field: dosSecurityLog/apDosLogConf err: "
        = " invalid field: " ++ ("dosSecurityLog/apDosLogConf" ++ " err: ") := by decide
    simp only [hdest, validateResourceReference, hq, invalidField, Bool.false_eq_true,
      if_false, e, String.append_assoc]
  · intro hdest hq
    simp only [hdest, validateResourceReference, hq, if_true]

set_option maxRecDepth 8000 in
/-- C23, on the resources of `TestValidateDosProtectedResource` with a
`DosSecurityLog`. -/
theorem security_log_needs_destination_and_reference_witness :
    ValidateDosProtectedResource
        ⟨"", ⟨"name", some ⟨"example.com", "", 0⟩, "example.service.com:123", "",
          some ⟨"", ""⟩⟩⟩
      = some ("error validating DosProtectedResource:  invalid field: "
          ++ "dosSecurityLog/dosLogDest err: invalid log destination: , must follow "
          ++ "format: <ip-address | localhost | dns name>:<port> or stderr")
      ∧ ValidateDosProtectedResource
          ⟨"", ⟨"name", some ⟨"example.com", "", 0⟩, "example.service.com:123", "",
            some ⟨"", "service.org:123"⟩⟩⟩
        = some ("error validating DosProtectedResource:  invalid field: "
            ++ "dosSecurityLog/apDosLogConf err: reference name is invalid: ")
      ∧ ValidateDosProtectedResource
          ⟨"", ⟨"name", some ⟨"example.com", "", 0⟩, "example.service.com:123", "",
            some ⟨"bad$%^$%name", "service.org:123"⟩⟩⟩
        = some ("error validating DosProtectedResource:  invalid field: "
            ++ "dosSecurityLog/apDosLogConf err: reference name is invalid: bad$%^$%name")
      ∧ ValidateDosProtectedResource
          ⟨"", ⟨"name", some ⟨"example.com", "", 0⟩, "example.service.com:123", "",
            some ⟨"ns/name", "service.org:123"⟩⟩⟩
        = none :=
  ⟨by decide,
    ((security_log_needs_destination_and_reference
      ⟨"", ⟨"name", some ⟨"example.com", "", 0⟩, "example.service.com:123", "",
        some ⟨"", "service.org:123"⟩⟩⟩ ⟨"", "service.org:123"⟩ rfl).2.1
      ⟨by decide, by decide, fun m hm => by cases hm; decide, fun _ => by decide,
        fun h => absurd rfl h⟩).2.1 (by decide) (by decide),
    by decide, by decide⟩

set_option maxRecDepth 8000 in
/-- The models of `validateAppProtectDosName` and `validateAppProtectDosMonitor` on the
names of `TestValidateAppProtectDosName` and the monitors of
`TestValidateAppProtectDosMonitor`, and `ValidateDosProtectedResource` on the rejected
resources of `TestValidateDosProtectedResource` without a `DosSecurityLog`. -/
theorem validators_on_the_tests :
    (validateAppProtectDosName "example.com" = none
      ∧ validateAppProtectDosName "\\\"example.com\\\"" = none
      ∧ validateAppProtectDosName "example.com\\" = some (notEscaped "protected-object-one")
      ∧ validateAppProtectDosName "\"example.com\""
        = some (notEscaped "protected-object-one")
      ∧ validateAppProtectDosName
          ("very very very very very very very very very very very very very very very "
            ++ "very very very long Name")
        = some "app Protect Dos Name max length is 63")
      ∧ (validateAppProtectDosMonitor ⟨"example.com", "http1", 5⟩ = none
        ∧ validateAppProtectDosMonitor ⟨"https://example.com/good_path", "http2", 10⟩ = none
        ∧ validateAppProtectDosMonitor ⟨"https://example.com/good_path", "grpc", 10⟩ = none
        ∧ validateAppProtectDosMonitor ⟨"https://example.com/good_path", "websocket", 10⟩
          = none
        ∧ validateAppProtectDosMonitor ⟨"http://example.com/%", "http1", 5⟩
          = some "app Protect Dos Monitor must have valid URL"
        ∧ validateAppProtectDosMonitor ⟨"http://example.com/\\", "http1", 5⟩
          = some (notEscaped "http://www.example.com")
        ∧ validateAppProtectDosMonitor ⟨"example.com", "http3", 5⟩
          = some (unknownProtocol "http3"))
      ∧ (ValidateDosProtectedResource
          ⟨"", ⟨"name", some ⟨"exabad-$%^$-example.com", "", 0⟩, "", "", none⟩⟩
          = some ("error validating DosProtectedResource:  invalid field: apDosMonitor "
              ++ "err: app Protect Dos Monitor must have valid URL")
        ∧ ValidateDosProtectedResource
            ⟨"", ⟨"name", some ⟨"example.com", "", 0⟩, "bad&$%^logdest", "", none⟩⟩
          = some ("error validating DosProtectedResource:  invalid field: "
              ++ "dosAccessLogDest err: invalid log destination: bad&$%^logdest, must "
              ++ "follow format: <ip-address | localhost | dns name>:<port> or stderr")
        ∧ ValidateDosProtectedResource
            ⟨"", ⟨"name", some ⟨"example.com", "", 0⟩, "example.service.com:123",
              "bad$%^name", none⟩⟩
          = some ("error validating DosProtectedResource:  invalid field: apDosPolicy "
              ++ "err: reference name is invalid: bad$%^name")) := by
  decide

/-! ## The log destination -/

/-- The form of a destination: a host, one colon and a port, the host an address, a DNS
name or `localhost`, the port one to five digits. -/
theorem hasDestinationForm_iff (cs : List Char) :
    hasDestinationForm cs = true
      ↔ ∃ host port, cs = host ++ ':' :: port ∧ ':' ∉ host ∧ ':' ∉ port
          ∧ (isAddressHost host = true ∨ isDNSHost host = true ∨ host = "localhost".data)
          ∧ isPortText port = true := by
  unfold hasDestinationForm
  constructor
  · intro h
    split at h
    · rename_i host port hsplit
      obtain ⟨hcs, hx, hy⟩ := (configs.splitChars_eq_pair ':' cs host port).mp hsplit
      simp only [Bool.and_eq_true, Bool.or_eq_true, decide_eq_true_eq] at h
      exact ⟨host, port, hcs, hx, hy, by tauto, h.2⟩
    · simp at h
  · rintro ⟨host, port, hcs, hx, hy, hhost, hport⟩
    rw [(configs.splitChars_eq_pair ':' cs host port).mpr ⟨hcs, hx, hy⟩]
    simp only [Bool.and_eq_true, Bool.or_eq_true, decide_eq_true_eq]
    exact ⟨by tauto, hport⟩

/-- The port of a destination that has the form of one. -/
theorem portOf_eq (host port : List Char) (hx : ':' ∉ host) (hy : ':' ∉ port) :
    portOf (host ++ ':' :: port) = port := by
  unfold portOf
  rw [(configs.splitChars_eq_pair ':' (host ++ ':' :: port) host port).mpr ⟨rfl, hx, hy⟩]

/-- A text of one to five digits is a number. -/
theorem digitsValue_of_isPortText (port : List Char) (h : isPortText port = true) :
    ∃ n, configs.digitsValue port = some n := by
  unfold isPortText at h
  simp only [Bool.and_eq_true, decide_eq_true_eq] at h
  have hne : port ≠ [] := by
    intro hnil
    rw [hnil] at h
    simp at h
  unfold configs.digitsValue
  rw [if_pos ⟨hne, h.2⟩]
  exact ⟨_, rfl⟩

/-- A destination that begins with `-` has not the form of a destination. -/
theorem hasDestinationForm_of_dash (rest : List Char) :
    hasDestinationForm ('-' :: rest) = false := by
  cases hform : hasDestinationForm ('-' :: rest) with
  | false => rfl
  | true =>
    exfalso
    obtain ⟨host, port, hcs, -, -, hhost, -⟩ := (hasDestinationForm_iff _).mp hform
    cases host with
    | nil => simp at hcs
    | cons c h' =>
      simp only [List.cons_append, List.cons.injEq] at hcs
      obtain ⟨rfl, -⟩ := hcs
      obtain ⟨p, ps, hsplit⟩ := configs.splitChars_cons_of_ne '.' '-' h' (by decide)
      rcases hhost with ha | hd | hl
      · unfold isAddressHost at ha
        rw [hsplit] at ha
        split at ha
        · rename_i a b c d heq
          simp only [List.cons.injEq] at heq
          obtain ⟨rfl, -⟩ := heq
          simp [isAddressField] at ha
        · simp at ha
      · unfold isDNSHost at hd
        rw [hsplit] at hd
        split at hd
        · rename_i first second rest' heq
          simp only [List.cons.injEq] at heq
          obtain ⟨rfl, -⟩ := heq
          simp [isFirstLabel] at hd
        · simp at hd
      · simp at hl

/-- C24: `validateAppProtectDosLogDest` accepts exactly `stderr` and the destinations of
the form `<ip-address | localhost | dns name>:<port>` with a port between 1 and 65535.
A destination other than `stderr` without a colon, so with no port, and a destination
whose host begins with `-` are rejected with the message `invalid log destination:
<value>, must follow format: <ip-address | localhost | dns name>:<port> or stderr`; a
destination of the form with a port above 65535 is rejected with a message that
contains `not a valid port number`. -/
theorem log_destination_is_stderr_or_host_and_port (s : String) :
    (validateAppProtectDosLogDest s = none
        ↔ s = "stderr"
          ∨ ∃ host port n, s.data = host ++ ':' :: port ∧ ':' ∉ host ∧ ':' ∉ port
              ∧ (isAddressHost host = true ∨ isDNSHost host = true
                ∨ host = "localhost".data)
              ∧ isPortText port = true ∧ configs.digitsValue port = some n
              ∧ 1 ≤ n ∧ n ≤ 65535)
      ∧ (s ≠ "stderr" → ':' ∉ s.data
        → validateAppProtectDosLogDest s
          = some ("invalid log destination: " ++ s
              ++ ", must follow format: <ip-address | localhost | dns name>:<port> or stderr"))
      ∧ (s.data.head? = some '-'
        → validateAppProtectDosLogDest s
          = some ("invalid log destination: " ++ s
              ++ ", must follow format: <ip-address | localhost | dns name>:<port> or stderr"))
      ∧ (∀ host port n, s.data = host ++ ':' :: port → ':' ∉ host → ':' ∉ port
        → (isAddressHost host = true ∨ isDNSHost host = true ∨ host = "localhost".data)
        → isPortText port = true → configs.digitsValue port = some n → 65535 < n
        → validateAppProtectDosLogDest s
            = some ("invalid log destination: error parsing port: " ++ toString n
                ++ " not a valid port number")
          ∧ containsText
              ("invalid log destination: error parsing port: " ++ toString n
                ++ " not a valid port number")
              "not a valid port number") := by
  refine ⟨?_, ?_, ?_, ?_⟩
  · unfold validateAppProtectDosLogDest
    by_cases hs : s = "stderr"
    · simp [hs]
    · simp only [hs, if_false, false_or]
      by_cases hform : hasDestinationForm s.data = true
      · obtain ⟨host, port, hcs, hx, hy, hhost, hport⟩ := (hasDestinationForm_iff _).mp hform
        obtain ⟨n, hn⟩ := digitsValue_of_isPortText port hport
        have hp : portOf s.data = port := by rw [hcs]; exact portOf_eq host port hx hy
        simp only [hform, if_true, hp, validatePort, hn]
        constructor
        · intro h
          by_cases hbad : n > 65535 ∨ n < 1
          · rw [if_pos hbad] at h
            simp at h
          · exact ⟨host, port, n, hcs, hx, hy, hhost, hport, hn, by omega, by omega⟩
        · rintro ⟨host', port', n', hcs', hx', hy', -, -, hn', h1, h2⟩
          have hpair := (configs.splitChars_eq_pair ':' s.data host port).mpr ⟨hcs, hx, hy⟩
          have hpair' := (configs.splitChars_eq_pair ':' s.data host' port').mpr
            ⟨hcs', hx', hy'⟩
          rw [hpair] at hpair'
          simp only [List.cons.injEq, and_true] at hpair'
          obtain ⟨-, rfl⟩ := hpair'
          rw [hn] at hn'
          cases hn'
          have hok : ¬ (n > 65535 ∨ n < 1) := by omega
          rw [if_neg hok]
      · simp only [hform]
        constructor
        · intro h
          simp at h
        · rintro ⟨host, port, n, hcs, hx, hy, hhost, hport, -⟩
          exact absurd ((hasDestinationForm_iff _).mpr ⟨host, port, hcs, hx, hy, hhost,
            hport⟩) hform
  · intro hs hcolon
    have hform : hasDestinationForm s.data = false := by
      unfold hasDestinationForm
      rw [(configs.splitChars_eq_singleton ':' s.data s.data).mpr ⟨rfl, hcolon⟩]
    simp [validateAppProtectDosLogDest, hs, hform, invalidDestination]
  · intro hdash
    have hs : s ≠ "stderr" := by
      rintro rfl
      exact absurd hdash (by decide)
    have hform : hasDestinationForm s.data = false := by
      cases hd : s.data with
      | nil => rw [hd] at hdash; simp at hdash
      | cons c rest =>
        rw [hd] at hdash
        simp only [List.head?_cons, Option.some.injEq] at hdash
        subst hdash
        exact hasDestinationForm_of_dash rest
    simp [validateAppProtectDosLogDest, hs, hform, invalidDestination]
  · intro host port n hcs hx hy hhost hport hn hbig
    have hform := (hasDestinationForm_iff _).mpr ⟨host, port, hcs, hx, hy, hhost, hport⟩
    have hp : portOf s.data = port := by rw [hcs]; exact portOf_eq host port hx hy
    have hs : s ≠ "stderr" := by
      rintro rfl
      have hpair := (configs.splitChars_eq_pair ':' "stderr".data host port).mpr
        ⟨hcs, hx, hy⟩
      have hone : configs.splitChars ':' "stderr".data = ["stderr".data] := by decide
      rw [hone] at hpair
      simp at hpair
    refine ⟨?_, "invalid log destination: error parsing port: " ++ toString n ++ " ", "",
      ?_⟩
    · have hbad : n > 65535 ∨ n < 1 := Or.inl hbig
      have e : "invalid log destination: error parsing port: "
          = "invalid log destination: " ++ "error parsing port: " := by decide
      unfold validateAppProtectDosLogDest
      rw [if_neg hs, if_pos hform, hp]
      unfold validatePort
      simp only [hn]
      rw [if_pos hbad]
      simp only [e, String.append_assoc]
    · have e : " not a valid port number" = " " ++ "not a valid port number" := by decide
      simp only [e, String.append_assoc, String.append_empty]

set_option maxRecDepth 8000 in
/-- C24, on the destinations of `TestValidateAppProtectDosAccessLogDest` and of
`TestValidateAppProtectDosLogDest_ValidOnDestinationStdErr`. -/
theorem log_destination_is_stderr_or_host_and_port_witness :
    validateAppProtectDosLogDest "stderr" = none
      ∧ validateAppProtectDosLogDest "10.10.1.1:514" = none
      ∧ validateAppProtectDosLogDest "localhost:514" = none
      ∧ validateAppProtectDosLogDest "dns.test.svc.cluster.local:514" = none
      ∧ validateAppProtectDosLogDest "cluster.local:514" = none
      ∧ validateAppProtectDosLogDest "dash-test.cluster.local:514" = none
      ∧ validateAppProtectDosLogDest "NotValid"
        = some ("invalid log destination: NotValid, must follow format: "
            ++ "<ip-address | localhost | dns name>:<port> or stderr")
      ∧ validateAppProtectDosLogDest "cluster.local"
        = some ("invalid log destination: cluster.local, must follow format: "
            ++ "<ip-address | localhost | dns name>:<port> or stderr")
      ∧ validateAppProtectDosLogDest "-cluster.local:514"
        = some ("invalid log destination: -cluster.local:514, must follow format: "
            ++ "<ip-address | localhost | dns name>:<port> or stderr")
      ∧ validateAppProtectDosLogDest "10.10.1.1:99999"
        = some "invalid log destination: error parsing port: 99999 not a valid port number" :=
  ⟨by decide, by decide, by decide, by decide, by decide, by decide,
    (log_destination_is_stderr_or_host_and_port "NotValid").2.1 (by decide) (by decide),
    (log_destination_is_stderr_or_host_and_port "cluster.local").2.1 (by decide)
      (by decide),
    (log_destination_is_stderr_or_host_and_port "-cluster.local:514").2.2.1 (by decide),
    ((log_destination_is_stderr_or_host_and_port "10.10.1.1:99999").2.2.2
      "10.10.1.1".data "99999".data 99999 (by decide) (by decide) (by decide)
      (Or.inl (by decide)) (by decide) (by decide) (by decide)).1⟩

end validation
